import Mathlib

/-!
# The Jit64 dispatcher of `Source/Core/Core/PowerPC/Jit64/JitAsm.cpp`

`Jit64AsmRoutineManager::Generate` emits the x86-64 dispatcher loop.  The
embedding below follows the emitted instruction stream: every label of the
source is a value of `Label`, every straight-line segment between two labels
is one case of `Generate`, and the x86 flags that the conditional jumps read
are computed by the instructions that set them.

Conventions of the emitter that the embedding relies on: `J(force5bytes)` is an
unconditional forward jump and `J_CC(cc, force5bytes)` a conditional one (the
boolean only selects the encoding), `SetJumpTarget` binds the jump to the
current position, `J_CC(cc, addr)` and `JMP(addr, ..)` jump to a known address.

Functions the dispatcher calls but whose bodies live in other translation
units (`CoreTiming::Advance`, `PowerPC::CheckBreakPoints`, `Jit`, ...) and the
constants declared in other headers are fields of `Env`.  A called C function
acts on the emulator globals (`Emu`); the callee-saved host registers `R14` and
`RMEM` survive the call, and the dispatcher reads no caller-saved register
after a call before writing it, except the return value of `CheckCache`.
The host stack (`ResetStack`, the register pushes) is not represented.
-/

namespace Dolphin

/-! ## Machine integers -/

/-- Value of a 32-bit unsigned register or memory operand. -/
def u32 (x : Nat) : Nat := x % 2 ^ 32

/-- Value of a 64-bit unsigned register or memory operand. -/
def u64 (x : Nat) : Nat := x % 2 ^ 64

/-- Signed reading of a 32-bit value (two's complement). -/
def s32 (x : Nat) : Int :=
  if x % 2 ^ 32 < 2 ^ 31 then (x % 2 ^ 32 : Nat) else ((x % 2 ^ 32 : Nat) : Int) - 2 ^ 32

/-- Conversion of a C `int` to `u32`. -/
def u32OfInt (i : Int) : Nat := (i % 2 ^ 32).toNat

/-! ## x86 flags and the instructions that write them -/

/-- The four status flags the dispatcher's conditional jumps read. -/
structure Flags where
  CF : Bool
  ZF : Bool
  SF : Bool
  OF : Bool
deriving DecidableEq, Repr

/-- Flags after a logical instruction (`TEST`, `AND`) whose `w`-bit result is `r`:
carry and overflow are cleared, zero and sign describe the result. -/
def logicFlags (w r : Nat) : Flags :=
  { CF := false
    ZF := decide (r % 2 ^ w = 0)
    SF := decide (2 ^ (w - 1) ≤ r % 2 ^ w)
    OF := false }

/-- Instruction `TEST(w, a, b)`: flags of `a AND b`, no operand is written. -/
def TEST (w a b : Nat) : Flags := logicFlags w (a &&& b)

/-- Instruction `AND(w, a, b)`: the result and its flags. -/
def AND (w a b : Nat) : Nat × Flags := ((a &&& b) % 2 ^ w, logicFlags w (a &&& b))

/-- Instruction `SUB(w, a, b)`: the wrapped difference and its flags; carry is the
unsigned borrow, overflow the signed one. -/
def SUB (w a b : Nat) : Nat × Flags :=
  let x := a % 2 ^ w
  let y := b % 2 ^ w
  let r := (x + 2 ^ w - y) % 2 ^ w
  (r, { CF := decide (x < y)
        ZF := decide (r = 0)
        SF := decide (2 ^ (w - 1) ≤ r)
        OF := (decide (2 ^ (w - 1) ≤ x) != decide (2 ^ (w - 1) ≤ y)) &&
              (decide (2 ^ (w - 1) ≤ r) != decide (2 ^ (w - 1) ≤ x)) })

/-- Condition codes used by `J_CC` in the dispatcher. -/
inductive CCFlags where
  | CC_BE
  | CC_Z
  | CC_NZ
  | CC_L
deriving DecidableEq, Repr

/-- Whether a conditional jump on `cc` is taken under flags `f` (x86 semantics:
BE is carry or zero, L is sign different from overflow). -/
def CCFlags.taken : CCFlags → Flags → Bool
  | .CC_BE, f => f.CF || f.ZF
  | .CC_Z, f => f.ZF
  | .CC_NZ, f => !f.ZF
  | .CC_L, f => f.SF != f.OF

/-! ## Emulator state -/

/-- The fields of `JitBlock` that `CheckCache` reads. -/
structure JitBlock where
  originalAddress : Nat
  originalSize : Nat
  crc : Nat
deriving DecidableEq, Repr

/-- Emulator globals the dispatcher and `CheckCache` touch: the `ppcState` fields
`pc`, `npc`, `msr`, `Exceptions`, `downcount`; the CPU state word behind
`PowerPC::GetStatePtr()`; the block cache (`iCache`, `iCacheVMEM`, `iCacheEx` give the
32-bit word stored at a byte offset, `blockAt` the `JitBlock` record at a host
address, `codePointers` the entry of `GetCodePointers()` at an index); and guest
memory as the byte at an offset from `Memory::physical_base`. -/
structure Emu where
  pc : Nat
  npc : Nat
  msr : Nat
  Exceptions : Nat
  downcount : Nat
  state : Nat
  iCache : Nat → Nat
  iCacheVMEM : Nat → Nat
  iCacheEx : Nat → Nat
  blockAt : Nat → JitBlock
  codePointers : Nat → Nat
  physical : Nat → Nat

/-- Host registers the dispatcher uses, the flags, and the emulator globals. -/
structure Machine where
  emu : Emu
  RSCRATCH : Nat
  RSCRATCH2 : Nat
  R14 : Nat
  ABI_PARAM1 : Nat
  ABI_RETURN : Nat
  RMEM : Nat
  flags : Flags

/-- Modelled from the spec: the native code of translated blocks is not among the
sources.  The spec has a block, on exit, return control to the Dispatcher (4.3); that
is taken to be a jump to one of the code addresses `Generate` publishes in members
of the routine manager, which are these. -/
inductive Entry where
  | dispatcherMispredictedBLR
  | dispatcher
  | dispatcherNoCheck
  | doTiming
deriving DecidableEq, Repr

/-- The three tag tables of the block cache. -/
inductive TagTable where
  | iCache
  | iCacheVMEM
  | iCacheEx
deriving DecidableEq, Repr

/-- Observable actions of the dispatcher, in program order. -/
inductive Event where
  | Advance
  | CheckBreakPoints
  | ReadTag (table : TagTable) (offset : Nat)
  | CheckCache (b : Nat) (ok : Bool)
  | InvalidateICache (address size : Nat) (forced : Bool)
  | Jit (pc : Nat)
  | RunBlock (code : Nat)
  | CheckExternalExceptions
  | FinishStateMove
deriving DecidableEq, Repr

/-- Everything `JitAsm.cpp` takes from elsewhere: the startup parameters
(`m_LocalCoreStartupParameter`), constants of headers outside this file, the
outcome of the `FitsInS32(PPCSTATE_OFS(..))` tests with the table addresses they
guard, the called functions, and the native code of translated blocks. -/
structure Env where
  bEnableDebugging : Bool
  bWii : Bool
  bICache : Bool
  JIT_ICACHE_MASK : Nat
  JIT_ICACHEEX_MASK : Nat
  JIT_ICACHE_EXRAM_BIT : Nat
  JIT_ICACHE_VMEM_BIT : Nat
  EXCEPTION_EXTERNAL_INT : Nat
  EXCEPTION_PERFORMANCE_MONITOR : Nat
  EXCEPTION_DECREMENTER : Nat
  CPU_STEPPING : Nat
  sizeofJitBlock : Nat
  blockPointers : Nat
  physical_base : Nat
  logical_base : Nat
  icache : Nat
  icacheVmem : Nat
  icacheEx : Nat
  codePointers : Nat
  fitsIcache : Bool
  fitsIcacheVmem : Bool
  fitsIcacheEx : Bool
  fitsCodePointers : Bool
  Advance : Emu → Emu
  CheckBreakPoints : Emu → Emu
  CheckExternalExceptions : Emu → Emu
  FinishStateMove : Emu → Emu
  Jit : Nat → Emu → Emu
  InvalidateICache : Nat → Nat → Bool → Emu → Emu
  crccode : List Nat → Nat
  blockCode : Nat → Machine → Entry × Machine

/-! ## CheckCache -/

/-- Little-endian 32-bit word of guest memory at byte offset `a`. -/
def read32 (mem : Nat → Nat) (a : Nat) : Nat :=
  mem a % 256 + 256 * (mem (a + 1) % 256) + 65536 * (mem (a + 2) % 256) +
    16777216 * (mem (a + 3) % 256)

/-- Modelled from the spec: `crccode` is not among the sources. The spec has `Validate`
recompute "a checksum over the block's original guest-memory range", so `crccode(p, size)`
is taken to be a function (the field `crccode` of `Env`) of the `size` 32-bit words
that `p` addresses; this is that list of words. -/
def codeWords (mem : Nat → Nat) (address : Nat) (size : Int) : List Nat :=
  (List.range size.toNat).map fun i => read32 mem (address + 4 * i)

/-- Result of a call of `CheckCache`: the returned bool, the emulator state after
the call and the calls it made. -/
structure CheckResult where
  ok : Bool
  emu : Emu
  calls : List Event

/-- Function `CheckCache(JitBlock* b)` of lines 21-33: `b` is the host address of the
record; `memaddress` is the offset `address` into guest physical memory. -/
def CheckCache (E : Env) (e : Emu) (b : Nat) : CheckResult :=
  let address := u32 (e.blockAt b).originalAddress
  let size : Int := s32 (e.blockAt b).originalSize
  let crc := u64 (E.crccode (codeWords e.physical address size))
  if crc ≠ u64 (e.blockAt b).crc then
    { ok := false
      emu := E.InvalidateICache address (u32OfInt (size * 4)) false e
      calls := [Event.InvalidateICache address (u32OfInt (size * 4)) false] }
  else
    { ok := true, emu := e, calls := [] }

/-! ## The dispatcher -/

/-- Program points of the emitted dispatcher: the labels of `Generate`, the
native code of a block, and the return to the caller of `enterCode`. -/
inductive Label where
  | enterCode
  | outerLoop
  | dispatcherMispredictedBLR
  | dispatcher
  | dispatcherNoCheck
  | notfound
  | doTiming
  | landingPad
  | block (code : Nat)
  | returned
deriving DecidableEq, Repr

/-- Label behind a published entry address. -/
def Entry.toLabel : Entry → Label
  | .dispatcherMispredictedBLR => .dispatcherMispredictedBLR
  | .dispatcher => .dispatcher
  | .dispatcherNoCheck => .dispatcherNoCheck
  | .doTiming => .doTiming

/-- Outcome of one segment: where control goes, the machine there, and what was done. -/
structure Outcome where
  next : Label
  m : Machine
  events : List Event

/-- Lines 102-111: switch to the correct memory base.  The jump named `physmem` is
taken on a set bit and lands on the load of `Memory::logical_base`. -/
def selectMemBase (E : Env) (m : Machine) : Machine :=
  let f := TEST 32 (u32 m.emu.msr) (1 <<< (31 - 27))
  if CCFlags.taken .CC_NZ f then
    { m with flags := f, RMEM := E.logical_base }
  else
    { m with flags := f, RMEM := E.physical_base }

/-- Load of a tag: `MOV(32, R(RSCRATCH), MPIC(table, RSCRATCH))` when the table is
in reach of `RPPCSTATE`, else through `RSCRATCH2`. -/
def loadTag (fits : Bool) (tablePtr : Nat) (t : TagTable) (table : Nat → Nat)
    (m : Machine) : Machine × List Event :=
  if fits then
    ({ m with RSCRATCH := u32 (table m.RSCRATCH) }, [Event.ReadTag t m.RSCRATCH])
  else
    ({ m with RSCRATCH2 := tablePtr, RSCRATCH := u32 (table m.RSCRATCH) },
      [Event.ReadTag t m.RSCRATCH])

/-- Lines 113-182: load `pc` and replace it by the tag found for it. -/
def lookupTag (E : Env) (m : Machine) : Machine × List Event :=
  let m := { m with RSCRATCH := u32 m.emu.pc }
  let mask := (if E.bWii then E.JIT_ICACHE_EXRAM_BIT else 0) ||| E.JIT_ICACHE_VMEM_BIT
  let f := TEST 32 m.RSCRATCH mask
  if CCFlags.taken .CC_NZ f then
    -- no_mem
    let f := TEST 32 m.RSCRATCH E.JIT_ICACHE_VMEM_BIT
    if CCFlags.taken .CC_Z f then
      -- no_vmem
      if E.bWii then
        let f := TEST 32 m.RSCRATCH E.JIT_ICACHE_EXRAM_BIT
        if CCFlags.taken .CC_Z f then
          -- no_exram
          ({ m with flags := f }, [])
        else
          let a := AND 32 m.RSCRATCH E.JIT_ICACHEEX_MASK
          loadTag E.fitsIcacheEx E.icacheEx .iCacheEx m.emu.iCacheEx
            { m with RSCRATCH := a.1, flags := a.2 }
      else
        ({ m with flags := f }, [])
    else
      let a := AND 32 m.RSCRATCH E.JIT_ICACHE_MASK
      loadTag E.fitsIcacheVmem E.icacheVmem .iCacheVMEM m.emu.iCacheVMEM
        { m with RSCRATCH := a.1, flags := a.2 }
  else
    let a := AND 32 m.RSCRATCH E.JIT_ICACHE_MASK
    loadTag E.fitsIcache E.icache .iCache m.emu.iCache
      { m with RSCRATCH := a.1, flags := a.2 }

/-- Host address of the `JitBlock` the dispatcher hands to `CheckCache` for a tag:
`IMUL(32, ..)` by `sizeof(JitBlock)`, then a 64-bit add of `GetBlocks()`. -/
def blockPtr (E : Env) (tag : Nat) : Nat :=
  ((tag * E.sizeofJitBlock) % 2 ^ 32 + E.blockPointers) % 2 ^ 64

/-- Lines 203-213: `JMPptr` through the code pointer table. -/
def jumpToBlock (E : Env) (m : Machine) (events : List Event) : Outcome :=
  if E.fitsCodePointers then
    { next := .block (m.emu.codePointers m.RSCRATCH), m := m, events := events }
  else
    { next := .block (m.emu.codePointers m.RSCRATCH)
      m := { m with RSCRATCH2 := E.codePointers }
      events := events }

/-- Lines 184-217: sign test of the tag, `CheckCache` when `bICache` is set, jump. -/
def validateAndJump (E : Env) (m : Machine) (events : List Event) : Outcome :=
  let f := TEST 32 m.RSCRATCH m.RSCRATCH
  let m := { m with flags := f }
  if CCFlags.taken .CC_L f then
    { next := .notfound, m := m, events := events }
  else if E.bICache then
    let m := { m with R14 := u32 m.RSCRATCH }
    let m := { m with ABI_PARAM1 := (m.RSCRATCH * E.sizeofJitBlock) % 2 ^ 32 }
    let m := { m with RSCRATCH := E.blockPointers }
    let m := { m with ABI_PARAM1 := (m.ABI_PARAM1 + m.RSCRATCH) % 2 ^ 64 }
    let r := CheckCache E m.emu m.ABI_PARAM1
    let m := { m with emu := r.emu, ABI_RETURN := if r.ok then 1 else 0 }
    let f := TEST 8 m.ABI_RETURN m.ABI_RETURN
    let m := { m with flags := f }
    let events := events ++ Event.CheckCache m.ABI_PARAM1 r.ok :: r.calls
    if CCFlags.taken .CC_Z f then
      { next := .notfound, m := m, events := events }
    else
      jumpToBlock E { m with RSCRATCH := u32 m.R14 } events
  else
    jumpToBlock E m events

/-- Lines 79-98: the bail test on the flags of the slice decrement, then the
breakpoint check that is emitted when `bEnableDebugging` is set. -/
def dispatcherEntry (E : Env) (m : Machine) : Outcome :=
  if CCFlags.taken .CC_BE m.flags then
    { next := .doTiming, m := m, events := [] }
  else if E.bEnableDebugging then
    let f := TEST 32 (u32 m.emu.state) E.CPU_STEPPING
    if CCFlags.taken .CC_Z f then
      { next := .dispatcherNoCheck, m := { m with flags := f }, events := [] }
    else
      let e := E.CheckBreakPoints m.emu
      let f := TEST 32 (u32 e.state) 0xFFFFFFFF
      if CCFlags.taken .CC_NZ f then
        { next := .landingPad, m := { m with emu := e, flags := f },
          events := [Event.CheckBreakPoints] }
      else
        { next := .dispatcherNoCheck, m := { m with emu := e, flags := f },
          events := [Event.CheckBreakPoints] }
  else
    { next := .dispatcherNoCheck, m := m, events := [] }

/-- Lines 229-243: external exception test, then the CPU state test. -/
def timing (E : Env) (m : Machine) : Outcome :=
  let f := TEST 32 (u32 m.emu.Exceptions)
    (E.EXCEPTION_EXTERNAL_INT ||| E.EXCEPTION_PERFORMANCE_MONITOR ||| E.EXCEPTION_DECREMENTER)
  let r : Machine × List Event :=
    if CCFlags.taken .CC_Z f then
      ({ m with flags := f }, [])
    else
      let m := { m with flags := f, RSCRATCH := u32 m.emu.pc }
      let m := { m with emu := { m.emu with npc := m.RSCRATCH } }
      ({ m with emu := E.CheckExternalExceptions m.emu }, [Event.CheckExternalExceptions])
  let f := TEST 32 (u32 r.1.emu.state) 0xFFFFFFFF
  if CCFlags.taken .CC_Z f then
    { next := .outerLoop, m := { r.1 with flags := f }, events := r.2 }
  else
    { next := .landingPad, m := { r.1 with flags := f }, events := r.2 }

/-- The code emitted by `Jit64AsmRoutineManager::Generate`, one segment at a time: the
segment that starts at a label, run on a machine state, up to the next label. -/
def Generate (E : Env) : Label → Machine → Outcome
  | .enterCode, m =>
    -- lines 37-58: save registers, pivot the stack, load RPPCSTATE
    { next := .outerLoop, m := m, events := [] }
  | .outerLoop, m =>
    -- lines 60-64: call CoreTiming::Advance, then the unconditional jump
    -- skipToRealDispatch, bound at line 98 just before dispatcherNoCheck
    { next := .dispatcherNoCheck, m := { m with emu := E.Advance m.emu },
      events := [Event.Advance] }
  | .dispatcherMispredictedBLR, m =>
    -- lines 65-77
    let a := AND 32 (u32 m.emu.pc) 0xFFFFFFFC
    let m := { m with emu := { m.emu with pc := a.1 }, flags := a.2 }
    let s := SUB 32 (u32 m.emu.downcount) m.RSCRATCH2
    { next := .dispatcher, m := { m with emu := { m.emu with downcount := s.1 }, flags := s.2 },
      events := [] }
  | .dispatcher, m => dispatcherEntry E m
  | .dispatcherNoCheck, m =>
    -- lines 100-217
    let r := lookupTag E (selectMemBase E m)
    validateAndJump E r.1 r.2
  | .notfound, m =>
    -- lines 219-227: call Jit(pc), then JMP(dispatcherNoCheck)
    { next := .dispatcherNoCheck, m := { m with emu := E.Jit (u32 m.emu.pc) m.emu },
      events := [Event.Jit (u32 m.emu.pc)] }
  | .doTiming, m => timing E m
  | .landingPad, m =>
    -- lines 245-261: call PowerPC::FinishStateMove, restore registers, RET
    { next := .returned, m := { m with emu := E.FinishStateMove m.emu },
      events := [Event.FinishStateMove] }
  | .block code, m =>
    -- native code of a translated block; it ends with a jump to a published entry
    { next := (E.blockCode code m).1.toLabel, m := (E.blockCode code m).2,
      events := [Event.RunBlock code] }
  | .returned, m => { next := .returned, m := m, events := [] }

/-- Run `n` segments, collecting the events. -/
def run (E : Env) : Nat → Label → Machine → Outcome
  | 0, l, m => { next := l, m := m, events := [] }
  | n + 1, l, m =>
    let o := Generate E l m
    let r := run E n o.next o.m
    { next := r.next, m := r.m, events := o.events ++ r.events }


/-! ## Sample environment and states -/

/-- A translated block for the samples: it charges 6 cycles, advances `pc` by two
instructions and returns to `dispatcher` with the flags of its slice decrement. -/
def sampleBlockCode (code : Nat) (m : Machine) : Entry × Machine :=
  let s := SUB 32 (u32 m.emu.downcount) 6
  (Entry.dispatcher,
    { m with emu := { m.emu with pc := u32 (m.emu.pc + 8), downcount := s.1 }, flags := s.2,
             RSCRATCH2 := code })

/-- A GameCube configuration with checksum validation on and debugging off. -/
def sampleEnv : Env :=
  { bEnableDebugging := false, bWii := false, bICache := true
    JIT_ICACHE_MASK := 0x1ffffff, JIT_ICACHEEX_MASK := 0x3ffffff
    JIT_ICACHE_EXRAM_BIT := 0x10000000, JIT_ICACHE_VMEM_BIT := 0x20000000
    EXCEPTION_EXTERNAL_INT := 0x4, EXCEPTION_PERFORMANCE_MONITOR := 0x100
    EXCEPTION_DECREMENTER := 0x1
    CPU_STEPPING := 2, sizeofJitBlock := 96, blockPointers := 0x10000
    physical_base := 0x200000000, logical_base := 0x300000000
    icache := 0x400000000, icacheVmem := 0x410000000, icacheEx := 0x420000000
    codePointers := 0x430000000
    fitsIcache := false, fitsIcacheVmem := false, fitsIcacheEx := false
    fitsCodePointers := false
    Advance := fun e => e
    CheckBreakPoints := fun e => if e.pc = 0x80003100 then { e with state := 2 } else e
    CheckExternalExceptions := fun e => { e with pc := 0x500, npc := 0x500 }
    FinishStateMove := fun e => e
    Jit := fun pc e => { e with iCache := fun a => if a = pc &&& 0x1ffffff then 5 else e.iCache a }
    InvalidateICache := fun a n _ e =>
      { e with iCache := fun x => if a ≤ x ∧ x < a + n then 0xFFFFFFFF else e.iCache x }
    crccode := fun ws => ws.foldl (fun acc w => (acc * 31 + w) % 2 ^ 64) 7
    blockCode := sampleBlockCode }

/-- The same configuration with `bEnableDebugging` set. -/
def debugEnv : Env := { sampleEnv with bEnableDebugging := true }

/-- Emulator state with one compiled block, number 5, for the two instructions at
0x80003100; its recorded crc is the sample checksum of those two words. -/
def sampleEmu : Emu :=
  { pc := 0x80003100, npc := 0x80003100, msr := 0x8030, Exceptions := 0, downcount := 0
    state := 0
    iCache := fun a => if a = 0x3100 then 5 else 0xFFFFFFFF
    iCacheVMEM := fun _ => 0xFFFFFFFF
    iCacheEx := fun _ => 0xFFFFFFFF
    blockAt := fun p =>
      if p = 0x10000 + 5 * 96 then
        { originalAddress := 0x3100, originalSize := 2
          crc := 7 * 31 * 31 + 0x60000000 * 31 + 0x4e800020 }
      else { originalAddress := 0, originalSize := 0, crc := 0 }
    codePointers := fun i => 0x7000 + 16 * i
    physical := fun a =>
      if a = 0x3103 then 0x60 else if a = 0x3104 then 0x20 else if a = 0x3106 then 0x80
      else if a = 0x3107 then 0x4e else 0 }

/-- Host registers cleared, emulator state `e`. -/
def machineOf (e : Emu) : Machine :=
  { emu := e, RSCRATCH := 0, RSCRATCH2 := 0, R14 := 0, ABI_PARAM1 := 0, ABI_RETURN := 0
    RMEM := 0, flags := { CF := false, ZF := false, SF := false, OF := false } }

/-- The sample state with cleared host registers. -/
def sampleMachine : Machine := machineOf sampleEmu

/-- Guest memory whose byte at offset `a` is the `a`-th base-256 digit of `n`. -/
def digitMem (n : Nat) : Nat → Nat := fun a => n / 256 ^ a % 256

/-- Emulator state with guest memory `mem` in which every block pointer addresses `blk`. -/
def emuWith (mem : Nat → Nat) (blk : JitBlock) : Emu :=
  { sampleEmu with physical := mem, blockAt := fun _ => blk }

/-- The sample state after a guest store changed a byte of block 5's second instruction. -/
def staleEmu : Emu :=
  { sampleEmu with physical := fun a => if a = 0x3104 then 0x21 else sampleEmu.physical a }

/-- Byte offsets of the guest-memory range a block was compiled from. -/
def inCodeRange (blk : JitBlock) (a : Nat) : Prop :=
  u32 blk.originalAddress ≤ a ∧ a < u32 blk.originalAddress + 4 * (s32 blk.originalSize).toNat

/-- The sample state at the mispredicted-BLR entry with downcount -1 and a block cost of 1
in RSCRATCH2. -/
def negativeDowncountMachine : Machine :=
  { machineOf { sampleEmu with downcount := 0xFFFFFFFF } with RSCRATCH2 := 1 }

/-- The sample state at the mispredicted-BLR entry with 5 cycles left and a block cost of 7
in RSCRATCH2. -/
def expiredSliceMachine : Machine :=
  { machineOf { sampleEmu with downcount := 5 } with RSCRATCH2 := 7 }

/-- The sample state with the CPU state word at CPU_STEPPING. -/
def steppingMachine : Machine := machineOf { sampleEmu with state := 2 }

/-- The sample state after guest stores turned the two instructions of block 5 into
0x60000001 and 0x4e800001; the sample checksum of the range is the same as before. -/
def collidingEmu : Emu :=
  { sampleEmu with
    physical := fun a =>
      if a = 0x3100 then 0x01 else if a = 0x3104 then 0x01 else sampleEmu.physical a }

/-- The sample state with no tag registered for any address: every lookup misses. -/
def missEmu : Emu := { sampleEmu with iCache := fun _ => 0xFFFFFFFF }

/-! ## HLE: the Gecko code handler's instruction-cache flush -/

/-- What `GeckoCodeHandlerICacheFlush` uses and its file does not define: the two Gecko
constants, the host accessors of guest memory and `iCache.Reset()`, over a state `S`. -/
structure GeckoEnv (S : Type) where
  MAGIC_GAMEID : Nat
  INSTALLER_BASE_ADDRESS : Nat
  HostRead_U32 : S → Nat → Nat
  HostWrite_U32 : Nat → Nat → S → S
  iCacheReset : S → S

/-- Subtraction of two `u32` values. -/
def sub32 (a b : Nat) : Nat := (a % 4294967296 + 4294967296 - b % 4294967296) % 4294967296

/-- `GeckoCodeHandlerICacheFlush` (HLE_Misc.cpp). The result is the state after the call
and whether `iCache.Reset()` was called. -/
def GeckoCodeHandlerICacheFlush {S : Type} (G : GeckoEnv S) (s : S) : S × Bool :=
  let gch_gameid := u32 (G.HostRead_U32 s G.INSTALLER_BASE_ADDRESS)
  if sub32 gch_gameid G.MAGIC_GAMEID = 5 then
    (s, false)
  else
    let gch_gameid := if sub32 gch_gameid G.MAGIC_GAMEID > 5 then u32 G.MAGIC_GAMEID else gch_gameid
    (G.iCacheReset (G.HostWrite_U32 (u32 (gch_gameid + 1)) G.INSTALLER_BASE_ADDRESS s), true)

/-- Successive calls of `GeckoCodeHandlerICacheFlush` with nothing in between: the final
state and, per call, whether it reset the instruction cache. -/
def flushCalls {S : Type} (G : GeckoEnv S) : Nat → S → S × List Bool
  | 0, s => (s, [])
  | n + 1, s =>
    let r := GeckoCodeHandlerICacheFlush G s
    let rest := flushCalls G n r.1
    (rest.1, r.2 :: rest.2)

/-- A state for the Gecko handler: guest memory as words by address, and the number of
valid instruction-cache lines. -/
structure GeckoState where
  mem : Nat → Nat
  iCacheLines : Nat
  deriving Inhabited

/-- A sample environment: word-addressed memory, `Reset` empties the cache. -/
def sampleGecko : GeckoEnv GeckoState where
  MAGIC_GAMEID := 0xD01F1BAD
  INSTALLER_BASE_ADDRESS := 0x80001800
  HostRead_U32 := fun s a => u32 (s.mem a)
  HostWrite_U32 := fun v a s => { s with mem := fun x => if x = a then u32 v else s.mem x }
  iCacheReset := fun s => { s with iCacheLines := 0 }

/-- A sample state whose installer word is far from the magic value. -/
def sampleGeckoState : GeckoState := { mem := fun _ => 0x12345678, iCacheLines := 7 }

/-! ## Texture decoding: memory, pixels and the block loop

Source bytes and TLUT entries are total functions of their offset (the memory behind the
pointer); what a decoder does is the list of its accesses, in program order. -/

/-- One access of a decoder: a 32-bit store `dst[index] = value`, or a read of `size` bytes
of the TLUT starting at byte `offset`. -/
inductive Access where
  | store (index value : Nat)
  | tlutLoad (offset size : Nat)
  deriving DecidableEq, Repr, Inhabited

/-- The byte `src[a]` of a `const u8*`. -/
def u8at (src : Nat → Nat) (a : Nat) : Nat := src a % 256

/-- The value `((u16*)src)[...]` read at byte offset `a` on the little-endian host. -/
def u16at (src : Nat → Nat) (a : Nat) : Nat := u8at src a ||| (u8at src (a + 1) <<< 8)

/-- The entry `tlut[i]` of a `const u16*`. -/
def tlutAt (tlut : Nat → Nat) (i : Nat) : Nat := tlut i % 65536

/-- Modelled from the spec: `Common::swap16` (Common/Swap.h is not among the sources), the
byte swap of a 16-bit value. -/
def swap16 (v : Nat) : Nat := ((v % 256) <<< 8) ||| ((v >>> 8) % 256)

/-- Modelled from the spec: `Convert3To8` of VideoCommon/LookUpTables.h (not among the
sources), the 3-bit value expanded to 8 bits by repeating its bits. -/
def Convert3To8 (v : Nat) : Nat := ((v <<< 5) ||| (v <<< 2) ||| (v >>> 1)) % 256

/-- Modelled from the spec: `Convert4To8` of VideoCommon/LookUpTables.h (not among the
sources), the 4-bit value expanded to 8 bits by repeating its bits. -/
def Convert4To8 (v : Nat) : Nat := ((v <<< 4) ||| v) % 256

/-- Modelled from the spec: `Convert5To8` of VideoCommon/LookUpTables.h (not among the
sources), the 5-bit value expanded to 8 bits by repeating its bits. -/
def Convert5To8 (v : Nat) : Nat := ((v <<< 3) ||| (v >>> 2)) % 256

/-- Modelled from the spec: `Convert6To8` of VideoCommon/LookUpTables.h (not among the
sources), the 6-bit value expanded to 8 bits by repeating its bits. -/
def Convert6To8 (v : Nat) : Nat := ((v <<< 2) ||| (v >>> 4)) % 256

/-- `DecodePixel_IA8` (TextureDecoder_Internal.h). -/
def DecodePixel_IA8 (val : Nat) : Nat :=
  let a := val >>> 8
  let i := val &&& 0xFF
  (a <<< 24) ||| (i <<< 16) ||| (i <<< 8) ||| i

/-- `DecodePixel_RGB565` (TextureDecoder_Internal.h). -/
def DecodePixel_RGB565 (val : Nat) : Nat :=
  let r := Convert5To8 ((val >>> 11) &&& 0x1f)
  let g := Convert6To8 ((val >>> 5) &&& 0x3f)
  let b := Convert5To8 (val &&& 0x1f)
  let a := 0xFF
  (a <<< 24) ||| (b <<< 16) ||| (g <<< 8) ||| r

/-- `DecodePixel_RGB5A3` (TextureDecoder_Internal.h). -/
def DecodePixel_RGB5A3 (val : Nat) : Nat :=
  if val &&& 0x8000 ≠ 0 then
    let r := Convert5To8 ((val >>> 10) &&& 0x1f)
    let g := Convert5To8 ((val >>> 5) &&& 0x1f)
    let b := Convert5To8 (val &&& 0x1f)
    let a := 0xFF
    (a <<< 24) ||| (b <<< 16) ||| (g <<< 8) ||| r
  else
    let a := Convert3To8 ((val >>> 12) &&& 0x7)
    let r := Convert4To8 ((val >>> 8) &&& 0xf)
    let g := Convert4To8 ((val >>> 4) &&& 0xf)
    let b := Convert4To8 (val &&& 0xf)
    (a <<< 24) ||| (b <<< 16) ||| (g <<< 8) ||| r

/-- The TLUT formats `GX_TL_IA8 = 0`, `GX_TL_RGB565 = 1`, `GX_TL_RGB5A3 = 2`. -/
inductive TlutFormat where
  | GX_TL_IA8
  | GX_TL_RGB565
  | GX_TL_RGB5A3
  deriving DecidableEq, Repr, Inhabited

/-- `DecodePixel<format>` (TextureDecoder_Internal.h): swap the bytes, then decode. -/
def DecodePixel (format : TlutFormat) (val : Nat) : Nat :=
  let val := swap16 val
  match format with
  | .GX_TL_IA8 => DecodePixel_IA8 val
  | .GX_TL_RGB565 => DecodePixel_RGB565 val
  | .GX_TL_RGB5A3 => DecodePixel_RGB5A3 val

/-- A block-line decoder `void(u32* dst, const u8* src, const u16* tlut, int width)`: `dst`
is an index into the destination pixels, `src` the source memory with the byte offset the
pointer stands at, `tlut` the palette entries. -/
abbrev BlockLineDecoder := Nat → (Nat → Nat) → Nat → (Nat → Nat) → Nat → List Access

/-- Number of iterations of `for (i = 0; i < stop; i += step)`. -/
def loopCount (stop step : Nat) : Nat := (stop + step - 1) / step

/-- `DecodeTexture<block_width, block_height, bytes_per_block_line, decode_block_line,
block_lines_per_call>` (TextureDecoder_Internal.h). The loops run over the iteration
numbers (`y = i * block_height`, `x = j * block_width`, `iy = k * block_lines_per_call`);
`ofs` is carried through all three loops as in the source. -/
def DecodeTexture (block_width block_height bytes_per_block_line : Nat)
    (decode_block_line : BlockLineDecoder) (block_lines_per_call : Nat)
    (src tlut : Nat → Nat) (width height : Nat) : List Access :=
  ((List.range (loopCount height block_height)).foldl (fun st i =>
    (List.range (loopCount width block_width)).foldl (fun st j =>
      (List.range (loopCount block_height block_lines_per_call)).foldl (fun st k =>
        (st.1 + block_lines_per_call * bytes_per_block_line,
          st.2 ++ decode_block_line
            ((i * block_height + k * block_lines_per_call) * width + j * block_width)
            src st.1 tlut width)) st) st) ((0 : Nat), ([] : List Access))).2

/-- `DecodeBytes_I4_Generic` (TextureDecoder_Generic.cpp). -/
def DecodeBytes_I4_Generic : BlockLineDecoder := fun dst src o _ _ =>
  (List.range 4).flatMap fun i =>
    let c0 := Convert4To8 (u8at src (o + i) >>> 4)
    let c1 := Convert4To8 (u8at src (o + i) &&& 0xF)
    [Access.store (dst + (2 * i + 0)) (c0 <<< 24 ||| c0 <<< 16 ||| c0 <<< 8 ||| c0),
     Access.store (dst + (2 * i + 1)) (c1 <<< 24 ||| c1 <<< 16 ||| c1 <<< 8 ||| c1)]

/-- `DecodeBytes_I8_Generic` (TextureDecoder_Generic.cpp). -/
def DecodeBytes_I8_Generic : BlockLineDecoder := fun dst src o _ _ =>
  (List.range 8).map fun i =>
    let c := u8at src (o + i)
    Access.store (dst + i) (c <<< 24 ||| c <<< 16 ||| c <<< 8 ||| c)

/-- `DecodeBytes_IA4_Generic` (TextureDecoder_Generic.cpp). -/
def DecodeBytes_IA4_Generic : BlockLineDecoder := fun dst src o _ _ =>
  (List.range 8).map fun x =>
    let a := Convert4To8 (u8at src (o + x) >>> 4)
    let i := Convert4To8 (u8at src (o + x) &&& 0xF)
    Access.store (dst + x) (a <<< 24 ||| i <<< 16 ||| i <<< 8 ||| i)

/-- `DecodeBytes_IA8_Generic` (TextureDecoder_Generic.cpp). -/
def DecodeBytes_IA8_Generic : BlockLineDecoder := fun dst src o _ _ =>
  (List.range 4).map fun x =>
    Access.store (dst + x) (DecodePixel .GX_TL_IA8 (u16at src (o + 2 * x)))

/-- `DecodeBytes_RGB565_Generic` (TextureDecoder_Generic.cpp). -/
def DecodeBytes_RGB565_Generic : BlockLineDecoder := fun dst src o _ _ =>
  (List.range 4).map fun i =>
    Access.store (dst + i) (DecodePixel .GX_TL_RGB565 (u16at src (o + 2 * i)))

/-- `DecodeBytes_RGB5A3_Generic` (TextureDecoder_Generic.cpp). -/
def DecodeBytes_RGB5A3_Generic : BlockLineDecoder := fun dst src o _ _ =>
  (List.range 4).map fun i =>
    Access.store (dst + i) (DecodePixel .GX_TL_RGB5A3 (u16at src (o + 2 * i)))

/-- `DecodeBytes_RGBA8_Generic` (TextureDecoder_Generic.cpp): four lines per call, `src`
advancing by 8 per line, `s1` 32 bytes behind `s0`; the stored value is the `u32` of the
`int` expression. -/
def DecodeBytes_RGBA8_Generic : BlockLineDecoder := fun dst src o _ width =>
  (List.range 4).flatMap fun iy =>
    (List.range 4).map fun ix =>
      let s0 := u16at src (o + 8 * iy + 2 * ix)
      let s1 := u16at src (o + 8 * iy + 32 + 2 * ix)
      Access.store (dst + iy * width + ix)
        (u32 (((s0 &&& 0xFF) <<< 24) ||| ((s0 &&& 0xFF00) >>> 8) ||| (s1 <<< 8)))

/-- `DecodeBytes_C4_Generic<format>` (TextureDecoder_Generic.cpp). -/
def DecodeBytes_C4_Generic (format : TlutFormat) : BlockLineDecoder := fun dst src o tlut _ =>
  (List.range 4).flatMap fun x =>
    let val := u8at src (o + x)
    [Access.tlutLoad (2 * (val >>> 4)) 2,
     Access.store (dst + 2 * x) (DecodePixel format (tlutAt tlut (val >>> 4))),
     Access.tlutLoad (2 * (val &&& 0xF)) 2,
     Access.store (dst + 2 * x + 1) (DecodePixel format (tlutAt tlut (val &&& 0xF)))]

/-- `DecodeBytes_C8_Generic<format>` (TextureDecoder_Generic.cpp). -/
def DecodeBytes_C8_Generic (format : TlutFormat) : BlockLineDecoder := fun dst src o tlut _ =>
  (List.range 8).flatMap fun x =>
    [Access.tlutLoad (2 * u8at src (o + x)) 2,
     Access.store (dst + x) (DecodePixel format (tlutAt tlut (u8at src (o + x))))]

/-- `DecodeBytes_C14X2_Generic<format>` (TextureDecoder_Generic.cpp). -/
def DecodeBytes_C14X2_Generic (format : TlutFormat) : BlockLineDecoder :=
  fun dst src o tlut _ =>
  (List.range 4).flatMap fun x =>
    let val := swap16 (u16at src (o + 2 * x))
    [Access.tlutLoad (2 * (val &&& 0x3FFF)) 2,
     Access.store (dst + x) (DecodePixel format (tlutAt tlut (val &&& 0x3FFF)))]

/-- The destination after a list of accesses: each store overwrites its pixel. -/
def applyAccesses (l : List Access) (dst : Nat → Nat) : Nat → Nat :=
  l.foldl (fun d a => match a with
    | .store i v => fun p => if p = i then v else d p
    | .tlutLoad _ _ => d) dst

/-- The plane swizzle of `THPVideoDecode` (HLE_Misc.cpp): the list of byte writes
`(offset from dst, value)`, each `memcpy(dst, src + (y + iy) * plane_width + x, 8)` being
eight of them and `dst` advancing by 8 through all three loops. -/
def THPSwizzle (src : Nat → Nat) (plane_width plane_height : Nat) : List (Nat × Nat) :=
  ((List.range (loopCount plane_height 4)).foldl (fun st i =>
    (List.range (loopCount plane_width 8)).foldl (fun st j =>
      (List.range 4).foldl (fun st iy =>
        (st.1 + 8,
          st.2 ++ (List.range 8).map fun b =>
            (st.1 + b, u8at src ((i * 4 + iy) * plane_width + j * 8 + b)))) st) st)
    ((0 : Nat), ([] : List (Nat × Nat)))).2

/-- Memory after a list of byte writes. -/
def applyWrites (l : List (Nat × Nat)) (mem : Nat → Nat) : Nat → Nat :=
  l.foldl (fun m w => fun a => if a = w.1 then w.2 else m a) mem

/-! ## CMPR (DXT) decoding, generic -/

/-- `MakeRGBA(r, g, b, a)` (TextureDecoder_Internal.h): `a << 24 | b << 16 | g << 8 | r` on
`int`, returned as `u32`; the operations act on the 32-bit patterns of the arguments. -/
def MakeRGBA (r g b a : Int) : Nat :=
  u32 ((u32OfInt a <<< 24) ||| (u32OfInt b <<< 16) ||| (u32OfInt g <<< 8) ||| u32OfInt r)

/-- The `colors[4]` array `DecodeDXTBlock` (TextureDecoder_Generic.cpp) builds from the
DXT block at byte offset `o`: `color1` at `o`, `color2` at `o + 2`. -/
def DXTBlockColors (src : Nat → Nat) (o : Nat) : List Nat :=
  let c1 := swap16 (u16at src o)
  let c2 := swap16 (u16at src (o + 2))
  let red1 : Int := Convert5To8 ((c1 >>> 11) &&& 0x1F)
  let red2 : Int := Convert5To8 ((c2 >>> 11) &&& 0x1F)
  let green1 : Int := Convert6To8 ((c1 >>> 5) &&& 0x3F)
  let green2 : Int := Convert6To8 ((c2 >>> 5) &&& 0x3F)
  let blue1 : Int := Convert5To8 (c1 &&& 0x1F)
  let blue2 : Int := Convert5To8 (c2 &&& 0x1F)
  let colors0 := MakeRGBA red1 green1 blue1 255
  let colors1 := MakeRGBA red2 green2 blue2 255
  if c1 > c2 then
    let blue3 := ((blue2 - blue1) >>> 1) - ((blue2 - blue1) >>> 3)
    let green3 := ((green2 - green1) >>> 1) - ((green2 - green1) >>> 3)
    let red3 := ((red2 - red1) >>> 1) - ((red2 - red1) >>> 3)
    [colors0, colors1,
      MakeRGBA (red1 + red3) (green1 + green3) (blue1 + blue3) 255,
      MakeRGBA (red2 - red3) (green2 - green3) (blue2 - blue3) 255]
  else
    [colors0, colors1,
      MakeRGBA ((red1 + red2 + 1) / 2) ((green1 + green2 + 1) / 2) ((blue1 + blue2 + 1) / 2) 255,
      MakeRGBA ((red1 + red2 + 1) / 2) ((green1 + green2 + 1) / 2) ((blue1 + blue2 + 1) / 2) 0]

/-- `DecodeDXTBlock` (TextureDecoder_Generic.cpp): `lines[y]` is the byte at `o + 4 + y`;
at column `x` the running `val` has been shifted left `x` times by 2. -/
def DecodeDXTBlock (dst : Nat) (src : Nat → Nat) (o : Nat) (pitch : Nat) : List Access :=
  (List.range 4).flatMap fun y =>
    (List.range 4).map fun x =>
      Access.store (dst + y * pitch + x)
        ((DXTBlockColors src o).getD (((u8at src (o + 4 + y) <<< (2 * x)) >>> 6) &&& 3) 0)

/-- `DecodeDXT_Generic` (TextureDecoder_Generic.cpp): four blocks per 8x8 tile, `src`
advancing by `sizeof(DXTBlock) = 8` after each. -/
def DecodeDXT_Generic (src _tlut : Nat → Nat) (width height : Nat) : List Access :=
  ((List.range (loopCount height 8)).foldl (fun st i =>
    (List.range (loopCount width 8)).foldl (fun st j =>
      (st.1 + 32,
        st.2 ++ (DecodeDXTBlock (i * 8 * width + j * 8) src st.1 width ++
          DecodeDXTBlock (i * 8 * width + j * 8 + 4) src (st.1 + 8) width ++
          DecodeDXTBlock ((i * 8 + 4) * width + j * 8) src (st.1 + 16) width ++
          DecodeDXTBlock ((i * 8 + 4) * width + j * 8 + 4) src (st.1 + 24) width))) st)
    ((0 : Nat), ([] : List Access))).2

/-- The colour computation of the `GX_TF_CMPR` case of `DecodeTexel`
(TextureDecoder_Common.cpp), from the swapped colours `c1`, `c2` and the two selector bits
read from `lines[tt]`. -/
def DecodeTexelCMPRColor (c1 c2 sel : Nat) : Nat :=
  let blue1 : Int := Convert5To8 (c1 &&& 0x1F)
  let blue2 : Int := Convert5To8 (c2 &&& 0x1F)
  let green1 : Int := Convert6To8 ((c1 >>> 5) &&& 0x3F)
  let green2 : Int := Convert6To8 ((c2 >>> 5) &&& 0x3F)
  let red1 : Int := Convert5To8 ((c1 >>> 11) &&& 0x1F)
  let red2 : Int := Convert5To8 ((c2 >>> 11) &&& 0x1F)
  let blue3 := ((blue2 - blue1) >>> 1) - ((blue2 - blue1) >>> 3)
  let green3 := ((green2 - green1) >>> 1) - ((green2 - green1) >>> 3)
  let red3 := ((red2 - red1) >>> 1) - ((red2 - red1) >>> 3)
  let colorSel := sel ||| (if c1 > c2 then 0 else 4)
  match colorSel with
  | 0 => MakeRGBA red1 green1 blue1 255
  | 4 => MakeRGBA red1 green1 blue1 255
  | 1 => MakeRGBA red2 green2 blue2 255
  | 5 => MakeRGBA red2 green2 blue2 255
  | 2 => MakeRGBA (red1 + red3) (green1 + green3) (blue1 + blue3) 255
  | 3 => MakeRGBA (red2 - red3) (green2 - green3) (blue2 - blue3) 255
  | 6 => MakeRGBA ((red1 + red2 + 1) / 2) ((green1 + green2 + 1) / 2) ((blue1 + blue2 + 1) / 2) 255
  | 7 => MakeRGBA ((red1 + red2 + 1) / 2) ((green1 + green2 + 1) / 2) ((blue1 + blue2 + 1) / 2) 0
  | _ => 0

/-- The `GX_TF_CMPR` case of `DecodeTexel` (TextureDecoder_Common.cpp): the colour of texel
`(s, t)`; the `u16` and `u32` temporaries wrap as in the source. -/
def DecodeTexel_CMPR (src : Nat → Nat) (s t imageWidth : Nat) : Nat :=
  let sDxt := (s >>> 2) % 65536
  let tDxt := (t >>> 2) % 65536
  let sBlk := sDxt >>> 1
  let tBlk := tDxt >>> 1
  let widthBlks := ((imageWidth >>> 3) + 1) % 65536
  let base := u32 ((tBlk * widthBlks + sBlk) <<< 2)
  let blkS := sDxt &&& 1
  let blkT := tDxt &&& 1
  let blkOff := (blkT <<< 1) + blkS
  let offset := u32 ((base + blkOff) <<< 3)
  let c1 := swap16 (u16at src offset)
  let c2 := swap16 (u16at src (offset + 2))
  let ss := s &&& 3
  let tt := t &&& 3
  let colorSel := u8at src (offset + 4 + tt)
  let rs := 6 - (ss <<< 1)
  DecodeTexelCMPRColor c1 c2 ((colorSel >>> rs) &&& 3)

/-! ## SIMD registers and the intrinsics the x64 decoders use

A register is the natural number of its bits (little-endian: lane 0 is the low bits). -/

/-- Lane `i` of width `w` bits of the register `v`: `(v >>> (w * i)) % 2 ^ w`. -/
def laneOf (w v i : Nat) : Nat := Nat.mod (Nat.shiftRight v (Nat.mul w i)) (Nat.pow 2 w)

/-- The register whose `n` lanes of width `w` are `f 0`, ..., `f (n - 1)` (each truncated
to `w` bits): lane `k` contributes `(f k % 2 ^ w) <<< (w * k)`. -/
def ofLanes (w n : Nat) (f : Nat → Nat) : Nat :=
  Nat.rec 0 (fun k acc => Nat.lor acc (Nat.shiftLeft (Nat.mod (f k) (Nat.pow 2 w)) (Nat.mul w k))) n

/-- Arithmetic shift right of a `w`-bit lane by `n`. -/
def sraLane (w l n : Nat) : Nat :=
  if l < 2 ^ (w - 1) then l >>> n else (l >>> n) ||| ((2 ^ w - 1) - ((2 ^ w - 1) >>> n))

/-- `_mm_load_si128` / `_mm_loadu_si128`: 16 bytes at byte offset `a`. -/
def _mm_load_si128 (src : Nat → Nat) (a : Nat) : Nat := ofLanes 8 16 fun i => src (a + i)

/-- `_mm_loadl_epi64`: 8 bytes at byte offset `a` in the low half, zero above. -/
def _mm_loadl_epi64 (src : Nat → Nat) (a : Nat) : Nat := ofLanes 8 8 fun i => src (a + i)

/-- `_mm256_load_si256`: 32 bytes at byte offset `a`. -/
def _mm256_load_si256 (src : Nat → Nat) (a : Nat) : Nat := ofLanes 8 32 fun i => src (a + i)

/-- `_mm_store_si128` to a `u32*`: four pixel stores at index `p`. -/
def _mm_store_si128 (p v : Nat) : List Access :=
  (List.range 4).map fun k => Access.store (p + k) (laneOf 32 v k)

/-- `_mm256_store_si256` to a `u32*`: eight pixel stores at index `p`. -/
def _mm256_store_si256 (p v : Nat) : List Access :=
  (List.range 8).map fun k => Access.store (p + k) (laneOf 32 v k)

def _mm_setzero_si128 : Nat := 0
def _mm_set1_epi8 (c : Nat) : Nat := ofLanes 8 16 fun _ => c
def _mm_set1_epi16 (c : Nat) : Nat := ofLanes 16 8 fun _ => c
def _mm_set1_epi32 (c : Nat) : Nat := ofLanes 32 4 fun _ => c
def _mm_set_epi64x (e1 e0 : Nat) : Nat := ofLanes 64 2 fun i => if i = 0 then e0 else e1
def _mm256_set1_epi8 (c : Nat) : Nat := ofLanes 8 32 fun _ => c
def _mm256_set1_epi32 (c : Nat) : Nat := ofLanes 32 8 fun _ => c
def _mm256_set1_epi64x (c : Nat) : Nat := ofLanes 64 4 fun _ => c
def _mm256_set_epi64x (e3 e2 e1 e0 : Nat) : Nat :=
  ofLanes 64 4 fun i => if i = 0 then e0 else if i = 1 then e1 else if i = 2 then e2 else e3

def _mm_srli_epi16 (a n : Nat) : Nat := ofLanes 16 8 fun i => laneOf 16 a i >>> n
def _mm_slli_epi16 (a n : Nat) : Nat := ofLanes 16 8 fun i => laneOf 16 a i <<< n
def _mm_srli_epi32 (a n : Nat) : Nat := ofLanes 32 4 fun i => laneOf 32 a i >>> n
def _mm_slli_epi32 (a n : Nat) : Nat := ofLanes 32 4 fun i => laneOf 32 a i <<< n
def _mm_srli_epi64 (a n : Nat) : Nat := ofLanes 64 2 fun i => laneOf 64 a i >>> n
def _mm_slli_epi64 (a n : Nat) : Nat := ofLanes 64 2 fun i => laneOf 64 a i <<< n
def _mm_srai_epi16 (a n : Nat) : Nat := ofLanes 16 8 fun i => sraLane 16 (laneOf 16 a i) n
def _mm_srai_epi32 (a n : Nat) : Nat := ofLanes 32 4 fun i => sraLane 32 (laneOf 32 a i) n
def _mm256_srli_epi16 (a n : Nat) : Nat := ofLanes 16 16 fun i => laneOf 16 a i >>> n
def _mm256_slli_epi16 (a n : Nat) : Nat := ofLanes 16 16 fun i => laneOf 16 a i <<< n
def _mm256_srli_epi32 (a n : Nat) : Nat := ofLanes 32 8 fun i => laneOf 32 a i >>> n
def _mm256_slli_epi32 (a n : Nat) : Nat := ofLanes 32 8 fun i => laneOf 32 a i <<< n
def _mm256_slli_epi64 (a n : Nat) : Nat := ofLanes 64 4 fun i => laneOf 64 a i <<< n
def _mm256_srai_epi16 (a n : Nat) : Nat := ofLanes 16 16 fun i => sraLane 16 (laneOf 16 a i) n
def _mm256_srai_epi32 (a n : Nat) : Nat := ofLanes 32 8 fun i => sraLane 32 (laneOf 32 a i) n

/-- `_mm_slli_si128`: byte shift left of the whole register. -/
def _mm_slli_si128 (a n : Nat) : Nat := (a <<< (8 * n)) % 2 ^ 128

/-- `_mm_srli_si128`: byte shift right of the whole register. -/
def _mm_srli_si128 (a n : Nat) : Nat := (a % 2 ^ 128) >>> (8 * n)

def _mm_unpacklo_epi8 (a b : Nat) : Nat :=
  ofLanes 8 16 fun i => if i % 2 = 0 then laneOf 8 a (i / 2) else laneOf 8 b (i / 2)
def _mm_unpackhi_epi8 (a b : Nat) : Nat :=
  ofLanes 8 16 fun i => if i % 2 = 0 then laneOf 8 a (8 + i / 2) else laneOf 8 b (8 + i / 2)
def _mm_unpacklo_epi16 (a b : Nat) : Nat :=
  ofLanes 16 8 fun i => if i % 2 = 0 then laneOf 16 a (i / 2) else laneOf 16 b (i / 2)
def _mm_unpackhi_epi16 (a b : Nat) : Nat :=
  ofLanes 16 8 fun i => if i % 2 = 0 then laneOf 16 a (4 + i / 2) else laneOf 16 b (4 + i / 2)

/-- `_mm256_unpacklo_epi8`: as `_mm_unpacklo_epi8` within each 128-bit half. -/
def _mm256_unpacklo_epi8 (a b : Nat) : Nat :=
  ofLanes 8 32 fun i =>
    if i % 2 = 0 then laneOf 8 a (i / 16 * 16 + i % 16 / 2)
    else laneOf 8 b (i / 16 * 16 + i % 16 / 2)

/-- `_mm256_unpackhi_epi8`: as `_mm_unpackhi_epi8` within each 128-bit half. -/
def _mm256_unpackhi_epi8 (a b : Nat) : Nat :=
  ofLanes 8 32 fun i =>
    if i % 2 = 0 then laneOf 8 a (i / 16 * 16 + 8 + i % 16 / 2)
    else laneOf 8 b (i / 16 * 16 + 8 + i % 16 / 2)

/-- `_mm_shuffle_epi8` (PSHUFB): byte `i` is zero when bit 7 of the control byte is set,
else the byte of `a` selected by the low four bits of the control byte. -/
def _mm_shuffle_epi8 (a m : Nat) : Nat :=
  ofLanes 8 16 fun i =>
    if laneOf 8 m i &&& 0x80 ≠ 0 then 0 else laneOf 8 a (laneOf 8 m i &&& 0x0F)

/-- `_mm256_shuffle_epi8` (VPSHUFB): as `_mm_shuffle_epi8` within each 128-bit half. -/
def _mm256_shuffle_epi8 (a m : Nat) : Nat :=
  ofLanes 8 32 fun i =>
    if laneOf 8 m i &&& 0x80 ≠ 0 then 0 else laneOf 8 a (i / 16 * 16 + (laneOf 8 m i &&& 0x0F))

/-- `_mm_shuffle_epi32`. -/
def _mm_shuffle_epi32 (a imm : Nat) : Nat :=
  ofLanes 32 4 fun i => laneOf 32 a ((imm >>> (2 * i)) &&& 3)

/-- `_mm_andnot_si128`: `(~a) & b`. -/
def _mm_andnot_si128 (a b : Nat) : Nat := ((a % 2 ^ 128) ^^^ (2 ^ 128 - 1)) &&& b

/-- `_mm256_broadcastsi128_si256`. -/
def _mm256_broadcastsi128_si256 (a : Nat) : Nat := ofLanes 128 2 fun _ => a

/-- `_mm256_extracti128_si256`. -/
def _mm256_extracti128_si256 (a k : Nat) : Nat := laneOf 128 a k

/-- `_MM_SHUFFLE(z, y, x, w)`. -/
def _MM_SHUFFLE (z y x w : Nat) : Nat := (z <<< 6) ||| (y <<< 4) ||| (x <<< 2) ||| w

/-- `_mm256_permute2x128_si256`: each 128-bit half of the result is selected by a nibble of
`imm` (bit 3 of the nibble zeroes it; values 0, 1 take the halves of `a`, 2, 3 of `b`). -/
def _mm256_permute2x128_si256 (a b imm : Nat) : Nat :=
  ofLanes 128 2 fun i =>
    let c := (imm >>> (4 * i)) &&& 0xF
    if c &&& 8 ≠ 0 then 0
    else if c &&& 3 = 0 then laneOf 128 a 0
    else if c &&& 3 = 1 then laneOf 128 a 1
    else if c &&& 3 = 2 then laneOf 128 b 0
    else laneOf 128 b 1

/-- `_mm_blendv_epi8`: byte `i` of `b` where bit 7 of byte `i` of `mask` is set, else of `a`. -/
def _mm_blendv_epi8 (a b mask : Nat) : Nat :=
  ofLanes 8 16 fun i => if laneOf 8 mask i &&& 0x80 ≠ 0 then laneOf 8 b i else laneOf 8 a i

/-- `_mm256_blendv_epi8`. -/
def _mm256_blendv_epi8 (a b mask : Nat) : Nat :=
  ofLanes 8 32 fun i => if laneOf 8 mask i &&& 0x80 ≠ 0 then laneOf 8 b i else laneOf 8 a i

/-! ## The x64 block-line decoders: I4, I8, IA4, IA8

Each decoder is its register computation (`..._regs`, from the loaded registers to the
registers it stores) between its loads and its stores. -/

/-- Registers `o[0..7]` of `DecodeBytes_I4_SSE2` (TextureDecoder_x64.cpp). -/
def DecodeBytes_I4_SSE2_regs (r0 : Nat) : List Nat :=
  let r1 := r0 &&& _mm_set1_epi8 0xF0
  let r2 := r0 &&& _mm_set1_epi8 0x0F
  let r1 := r1 ||| _mm_srli_epi16 r1 4
  let r2 := r2 ||| _mm_slli_epi16 r2 4
  let r3 := _mm_unpacklo_epi8 r1 r2
  let r4 := _mm_unpackhi_epi8 r1 r2
  let w0 := _mm_unpacklo_epi8 r3 r3
  let w1 := _mm_unpackhi_epi8 r3 r3
  let w2 := _mm_unpacklo_epi8 r4 r4
  let w3 := _mm_unpackhi_epi8 r4 r4
  [_mm_unpacklo_epi16 w0 w0, _mm_unpackhi_epi16 w0 w0,
   _mm_unpacklo_epi16 w1 w1, _mm_unpackhi_epi16 w1 w1,
   _mm_unpacklo_epi16 w2 w2, _mm_unpackhi_epi16 w2 w2,
   _mm_unpacklo_epi16 w3 w3, _mm_unpackhi_epi16 w3 w3]

/-- `DecodeBytes_I4_SSE2` (TextureDecoder_x64.cpp): four block lines per call. -/
def DecodeBytes_I4_SSE2 : BlockLineDecoder := fun dst src o _ width =>
  let out := DecodeBytes_I4_SSE2_regs (_mm_load_si128 src o)
  (List.range 4).flatMap fun i =>
    _mm_store_si128 (dst + i * width) (out.getD (2 * i + 0) 0) ++
      _mm_store_si128 (dst + i * width + 4) (out.getD (2 * i + 1) 0)

/-- The value of an access: what a store writes (0 for a TLUT read). -/
def Access.value : Access → Nat
  | .store _ v => v
  | .tlutLoad _ _ => 0

/-- The index of an access: where a store writes (0 for a TLUT read). -/
def Access.index : Access → Nat
  | .store i _ => i
  | .tlutLoad _ _ => 0

/-- The memory whose bytes are the bytes of the number `x`. -/
def memOf (x : Nat) : Nat → Nat := fun a => laneOf 8 x a

/-- The pixels held by a list of registers of `lanes` 32-bit lanes each, in order. -/
def regPixels (lanes : Nat) (regs : List Nat) : List Nat :=
  regs.flatMap fun v => (List.range lanes).map fun k => laneOf 32 v k

/-- The pixel values a block-line decoder stores for `L` successive block lines of
`bpl` bytes each, when the source bytes are the bytes of `x`. -/
def blockValues (gen : BlockLineDecoder) (L bpl : Nat) (x : Nat) : List Nat :=
  ((List.range L).flatMap fun r => gen 0 (memOf x) (r * bpl) (fun _ => 0) 0).map Access.value

/-- A function of a register that commutes with bitwise or. -/
@[fun_prop]
def OrLin (f : Nat → Nat) : Prop := ∀ a b, f (a ||| b) = f a ||| f b

/-- A list-valued function of a register that commutes with bitwise or, entry by entry,
and whose length does not depend on the register. -/
def OrLinL (F : Nat → List Nat) : Prop :=
  (∀ a b, (F a).length = (F b).length) ∧
    ∀ a b, F (a ||| b) = List.zipWith (fun x y => x ||| y) (F a) (F b)

/-- The stores of the pixel values `vals` as `rows` rows of `bw` pixels, row `r` at index
`dst + r * width`. -/
def storeRows (dst width bw rows : Nat) (vals : List Nat) : List Access :=
  (List.range rows).flatMap fun r =>
    (List.range bw).map fun j => Access.store (dst + r * width + j) (vals.getD (r * bw + j) 0)

def _mm_set_epi32 (e3 e2 e1 e0 : Nat) : Nat :=
  ofLanes 32 4 fun i => if i = 0 then e0 else if i = 1 then e1 else if i = 2 then e2 else e3

def _mm256_set_epi32 (e7 e6 e5 e4 e3 e2 e1 e0 : Nat) : Nat :=
  ofLanes 32 8 fun i =>
    if i = 0 then e0 else if i = 1 then e1 else if i = 2 then e2 else if i = 3 then e3
    else if i = 4 then e4 else if i = 5 then e5 else if i = 6 then e6 else e7

/-- Registers `o[0..7]` of `DecodeBytes_I4_SSSE3` (TextureDecoder_x64.cpp). -/
def DecodeBytes_I4_SSSE3_regs (r0 : Nat) : List Nat :=
  let i1 := r0 &&& _mm_set1_epi8 0xF0
  let i2 := r0 &&& _mm_set1_epi8 0x0F
  let i1 := i1 ||| _mm_srli_epi16 i1 4
  let i2 := i2 ||| _mm_slli_epi16 i2 4
  let foo := _mm_unpacklo_epi8 i1 i2
  let bar := _mm_unpackhi_epi8 i1 i2
  let mask3210 := _mm_set_epi64x 0x0303030302020202 0x0101010100000000
  let mask7654 := _mm_set_epi64x 0x0707070706060606 0x0505050504040404
  let maskBA98 := _mm_set_epi64x 0x0B0B0B0B0A0A0A0A 0x0909090908080808
  let maskFEDC := _mm_set_epi64x 0x0F0F0F0F0E0E0E0E 0x0D0D0D0D0C0C0C0C
  [_mm_shuffle_epi8 foo mask3210, _mm_shuffle_epi8 foo mask7654,
   _mm_shuffle_epi8 foo maskBA98, _mm_shuffle_epi8 foo maskFEDC,
   _mm_shuffle_epi8 bar mask3210, _mm_shuffle_epi8 bar mask7654,
   _mm_shuffle_epi8 bar maskBA98, _mm_shuffle_epi8 bar maskFEDC]

/-- `DecodeBytes_I4_SSSE3` (TextureDecoder_x64.cpp): four block lines per call. -/
def DecodeBytes_I4_SSSE3 : BlockLineDecoder := fun dst src o _ width =>
  let out := DecodeBytes_I4_SSSE3_regs (_mm_load_si128 src o)
  (List.range 4).flatMap fun i =>
    _mm_store_si128 (dst + i * width) (out.getD (2 * i + 0) 0) ++
      _mm_store_si128 (dst + i * width + 4) (out.getD (2 * i + 1) 0)

/-- Registers `out[0..7]` of `DecodeBytes_I4_AVX2` (TextureDecoder_x64.cpp). -/
def DecodeBytes_I4_AVX2_regs (r0 : Nat) : List Nat :=
  let n0 := r0 &&& _mm256_set1_epi8 0xF0
  let n1 := r0 &&& _mm256_set1_epi8 0x0F
  let n0 := n0 ||| _mm256_srli_epi16 n0 4
  let n1 := n1 ||| _mm256_slli_epi16 n1 4
  let lo := _mm256_unpacklo_epi8 n0 n1
  let hi := _mm256_unpackhi_epi8 n0 n1
  let x0 := _mm256_permute2x128_si256 lo lo (_MM_SHUFFLE 0 0 0 0)
  let x1 := _mm256_permute2x128_si256 hi hi (_MM_SHUFFLE 0 0 0 0)
  let x2 := _mm256_permute2x128_si256 lo lo (_MM_SHUFFLE 0 1 0 1)
  let x3 := _mm256_permute2x128_si256 hi hi (_MM_SHUFFLE 0 1 0 1)
  let mask0 := _mm256_set_epi64x 0x0707070706060606 0x0505050504040404 0x0303030302020202
    0x0101010100000000
  let mask1 := _mm256_set_epi64x 0x0F0F0F0F0E0E0E0E 0x0D0D0D0D0C0C0C0C 0x0B0B0B0B0A0A0A0A
    0x0909090908080808
  [_mm256_shuffle_epi8 x0 mask0, _mm256_shuffle_epi8 x0 mask1,
   _mm256_shuffle_epi8 x1 mask0, _mm256_shuffle_epi8 x1 mask1,
   _mm256_shuffle_epi8 x2 mask0, _mm256_shuffle_epi8 x2 mask1,
   _mm256_shuffle_epi8 x3 mask0, _mm256_shuffle_epi8 x3 mask1]

/-- `DecodeBytes_I4_AVX2` (TextureDecoder_x64.cpp): eight block lines per call. -/
def DecodeBytes_I4_AVX2 : BlockLineDecoder := fun dst src o _ width =>
  let out := DecodeBytes_I4_AVX2_regs (_mm256_load_si256 src o)
  (List.range 8).flatMap fun i => _mm256_store_si256 (dst + i * width) (out.getD i 0)

/-- Registers `rgba0`, `rgba1` of `DecodeBytes_I8_SSE2` (TextureDecoder_x64.cpp). -/
def DecodeBytes_I8_SSE2_regs (r0 : Nat) : List Nat :=
  let r1 := _mm_unpacklo_epi8 r0 r0
  let rgba0 := _mm_unpacklo_epi16 r1 r1
  let rgba1 := _mm_unpackhi_epi16 r1 r1
  [rgba0, rgba1]

/-- `DecodeBytes_I8_SSE2` (TextureDecoder_x64.cpp). -/
def DecodeBytes_I8_SSE2 : BlockLineDecoder := fun dst src o _ _ =>
  let out := DecodeBytes_I8_SSE2_regs (_mm_loadl_epi64 src o)
  _mm_store_si128 (dst + 0) (out.getD 0 0) ++ _mm_store_si128 (dst + 4) (out.getD 1 0)

/-- Registers `c0`, `c1` of `DecodeBytes_I8_SSSE3` (TextureDecoder_x64.cpp). -/
def DecodeBytes_I8_SSSE3_regs (c : Nat) : List Nat :=
  let c0 := _mm_shuffle_epi8 c (_mm_set_epi64x 0x0303030302020202 0x0101010100000000)
  let c1 := _mm_shuffle_epi8 c (_mm_set_epi64x 0x0707070706060606 0x0505050504040404)
  [c0, c1]

/-- `DecodeBytes_I8_SSSE3` (TextureDecoder_x64.cpp). -/
def DecodeBytes_I8_SSSE3 : BlockLineDecoder := fun dst src o _ _ =>
  let out := DecodeBytes_I8_SSSE3_regs (_mm_loadl_epi64 src o)
  _mm_store_si128 (dst + 0) (out.getD 0 0) ++ _mm_store_si128 (dst + 4) (out.getD 1 0)

/-- Registers `row0`, `row1` of `DecodeBytes_I8_AVX2` (TextureDecoder_x64.cpp). -/
def DecodeBytes_I8_AVX2_regs (r : Nat) : List Nat :=
  let c := _mm256_broadcastsi128_si256 r
  let shuffle0 := _mm256_set_epi64x 0x0707070706060606 0x0505050504040404 0x0303030302020202
    0x0101010100000000
  let shuffle1 := _mm256_set_epi64x 0x0F0F0F0F0E0E0E0E 0x0D0D0D0D0C0C0C0C 0x0B0B0B0B0A0A0A0A
    0x0909090908080808
  let row0 := _mm256_shuffle_epi8 c shuffle0
  let row1 := _mm256_shuffle_epi8 c shuffle1
  [row0, row1]

/-- `DecodeBytes_I8_AVX2` (TextureDecoder_x64.cpp): two block lines per call. -/
def DecodeBytes_I8_AVX2 : BlockLineDecoder := fun dst src o _ width =>
  let out := DecodeBytes_I8_AVX2_regs (_mm_load_si128 src o)
  _mm256_store_si256 (dst + 0 * width) (out.getD 0 0) ++
    _mm256_store_si256 (dst + 1 * width) (out.getD 1 0)

/-- Registers `c0..c3` of `DecodeBytes_IA4_SSE2` (TextureDecoder_x64.cpp). -/
def DecodeBytes_IA4_SSE2_regs (c : Nat) : List Nat :=
  let nibble := _mm_set1_epi8 0x0F
  let by_ := c &&& nibble
  let te := _mm_srli_epi16 c 4 &&& nibble
  let lo := _mm_unpacklo_epi8 by_ te
  let hi := _mm_unpackhi_epi8 by_ te
  let lo := lo ||| _mm_slli_epi16 lo 4
  let hi := hi ||| _mm_slli_epi16 hi 4
  let c0 := _mm_unpacklo_epi8 lo lo
  let c1 := _mm_unpackhi_epi8 lo lo
  let c2 := _mm_unpacklo_epi8 hi hi
  let c3 := _mm_unpackhi_epi8 hi hi
  let m := _mm_set1_epi32 0x000000FF
  let c0 := (c0 &&& m) ||| _mm_slli_epi32 c0 8
  let c1 := (c1 &&& m) ||| _mm_slli_epi32 c1 8
  let c2 := (c2 &&& m) ||| _mm_slli_epi32 c2 8
  let c3 := (c3 &&& m) ||| _mm_slli_epi32 c3 8
  [c0, c1, c2, c3]

/-- `DecodeBytes_IA4_SSE2` (TextureDecoder_x64.cpp): two block lines per call. -/
def DecodeBytes_IA4_SSE2 : BlockLineDecoder := fun dst src o _ width =>
  let out := DecodeBytes_IA4_SSE2_regs (_mm_load_si128 src o)
  _mm_store_si128 (dst + 0 * width + 0) (out.getD 0 0) ++
    _mm_store_si128 (dst + 0 * width + 4) (out.getD 1 0) ++
    _mm_store_si128 (dst + 1 * width + 0) (out.getD 2 0) ++
    _mm_store_si128 (dst + 1 * width + 4) (out.getD 3 0)

/-- Registers `c0`, `c1` of `DecodeBytes_IA4_SSSE3` (TextureDecoder_x64.cpp). -/
def DecodeBytes_IA4_SSSE3_regs (c : Nat) : List Nat :=
  let c := _mm_unpacklo_epi8 c _mm_setzero_si128
  let c := c ||| _mm_slli_epi16 c 4
  let c := c &&& _mm_set1_epi8 0x0F
  let c := c ||| _mm_slli_epi16 c 4
  let c0 := _mm_shuffle_epi8 c (_mm_set_epi64x 0x0706060605040404 0x0302020201000000)
  let c1 := _mm_shuffle_epi8 c (_mm_set_epi64x 0x0F0E0E0E0D0C0C0C 0x0B0A0A0A09080808)
  [c0, c1]

/-- `DecodeBytes_IA4_SSSE3` (TextureDecoder_x64.cpp). -/
def DecodeBytes_IA4_SSSE3 : BlockLineDecoder := fun dst src o _ _ =>
  let out := DecodeBytes_IA4_SSSE3_regs (_mm_loadl_epi64 src o)
  _mm_store_si128 (dst + 0) (out.getD 0 0) ++ _mm_store_si128 (dst + 4) (out.getD 1 0)

/-- Registers `row0`, `row1` of `DecodeBytes_IA4_AVX2` (TextureDecoder_x64.cpp). -/
def DecodeBytes_IA4_AVX2_regs (r : Nat) : List Nat :=
  let c := _mm256_broadcastsi128_si256 r
  let c := _mm256_shuffle_epi8 c (_mm256_set_epi64x 0xFF0FFF0EFF0DFF0C 0xFF07FF06FF05FF04
    0xFF0BFF0AFF09FF08 0xFF03FF02FF01FF00)
  let c := c ||| _mm256_slli_epi16 c 4
  let c := c &&& _mm256_set1_epi8 0x0F
  let c := c ||| _mm256_slli_epi16 c 4
  let mask0 := _mm256_set_epi64x 0x0706060605040404 0x0302020201000000 0x0706060605040404
    0x0302020201000000
  let mask1 := _mm256_set_epi64x 0x0F0E0E0E0D0C0C0C 0x0B0A0A0A09080808 0x0F0E0E0E0D0C0C0C
    0x0B0A0A0A09080808
  let row0 := _mm256_shuffle_epi8 c mask0
  let row1 := _mm256_shuffle_epi8 c mask1
  [row0, row1]

/-- `DecodeBytes_IA4_AVX2` (TextureDecoder_x64.cpp): two block lines per call. -/
def DecodeBytes_IA4_AVX2 : BlockLineDecoder := fun dst src o _ width =>
  let out := DecodeBytes_IA4_AVX2_regs (_mm_load_si128 src o)
  _mm256_store_si256 (dst + 0 * width) (out.getD 0 0) ++
    _mm256_store_si256 (dst + 1 * width) (out.getD 1 0)

/-- Registers `c0`, `c1` of `DecodeBytes_IA8_SSE2` (TextureDecoder_x64.cpp). -/
def DecodeBytes_IA8_SSE2_regs (c : Nat) : List Nat :=
  let i := _mm_srli_epi16 c 8
  let a := _mm_slli_epi16 c 8
  let a := a ||| i
  let i := i ||| _mm_slli_epi64 i 8
  let c0 := _mm_unpacklo_epi16 i a
  let c1 := _mm_unpackhi_epi16 i a
  [c0, c1]

/-- `DecodeBytes_IA8_SSE2` (TextureDecoder_x64.cpp): two block lines per call. -/
def DecodeBytes_IA8_SSE2 : BlockLineDecoder := fun dst src o _ width =>
  let out := DecodeBytes_IA8_SSE2_regs (_mm_load_si128 src o)
  _mm_store_si128 (dst + 0 * width) (out.getD 0 0) ++
    _mm_store_si128 (dst + 1 * width) (out.getD 1 0)

/-- Register `c` of `DecodeBytes_IA8_SSSE3` (TextureDecoder_x64.cpp). -/
def DecodeBytes_IA8_SSSE3_regs (c : Nat) : List Nat :=
  [_mm_shuffle_epi8 c (_mm_set_epi64x 0x0607070704050505 0x0203030300010101)]

/-- `DecodeBytes_IA8_SSSE3` (TextureDecoder_x64.cpp). -/
def DecodeBytes_IA8_SSSE3 : BlockLineDecoder := fun dst src o _ _ =>
  let out := DecodeBytes_IA8_SSSE3_regs (_mm_loadl_epi64 src o)
  _mm_store_si128 dst (out.getD 0 0)

/-! ## The x64 block-line decoders: RGB565, RGBA8 -/

/-- Register `rgba` of `DecodeBytes_RGB565_SSE2` (TextureDecoder_x64.cpp). -/
def DecodeBytes_RGB565_SSE2_regs (rgb565x4 : Nat) : List Nat :=
  let c0 := _mm_unpacklo_epi16 rgb565x4 rgb565x4
  let red := c0 &&& _mm_set1_epi32 0x000000F8
  let green := _mm_srli_epi32 c0 3 &&& _mm_set1_epi32 0x0000FC00
  let blue := _mm_srli_epi32 c0 5 &&& _mm_set1_epi32 0x00F80000
  let red_blue := red ||| blue
  let copy3 := _mm_srli_epi16 red_blue 5
  let copy2 := _mm_srli_epi32 green 6 &&& _mm_set1_epi32 0x00000300
  let alpha := _mm_set1_epi32 0xFF000000
  let rgba := (red_blue ||| copy3) ||| (green ||| copy2) ||| alpha
  [rgba]

/-- `DecodeBytes_RGB565_SSE2` (TextureDecoder_x64.cpp). -/
def DecodeBytes_RGB565_SSE2 : BlockLineDecoder := fun dst src o _ _ =>
  let out := DecodeBytes_RGB565_SSE2_regs (_mm_loadl_epi64 src o)
  _mm_store_si128 dst (out.getD 0 0)

/-- Registers `r0`, `r1` of `DecodeBytes_RGB565_AVX2` (TextureDecoder_x64.cpp). -/
def DecodeBytes_RGB565_AVX2_regs (r : Nat) : List Nat :=
  let c := _mm256_broadcastsi128_si256 r
  let c := _mm256_shuffle_epi8 c (_mm256_set_epi64x 0xFFFF0E0FFFFF0C0D 0xFFFF0A0BFFFF0809
    0xFFFF0607FFFF0405 0xFFFF0203FFFF0001)
  let red := _mm256_srli_epi32 c 8
  let green := _mm256_slli_epi32 c 5 &&& _mm256_set1_epi32 0x0000FC00
  let blue := _mm256_slli_epi32 c 19
  let red_blue := (red ||| blue) &&& _mm256_set1_epi32 0x00F800F8
  let copy3 := _mm256_srli_epi16 red_blue 5
  let copy2 := _mm256_srli_epi32 green 6 &&& _mm256_set1_epi32 0x00000300
  let alpha := _mm256_set1_epi32 0xFF000000
  let rgba := (red_blue ||| copy3) ||| (green ||| copy2) ||| alpha
  let r0 := _mm256_extracti128_si256 rgba 0
  let r1 := _mm256_extracti128_si256 rgba 1
  [r0, r1]

/-- `DecodeBytes_RGB565_AVX2` (TextureDecoder_x64.cpp): two block lines per call. -/
def DecodeBytes_RGB565_AVX2 : BlockLineDecoder := fun dst src o _ width =>
  let out := DecodeBytes_RGB565_AVX2_regs (_mm_load_si128 src o)
  _mm_store_si128 (dst + 0 * width) (out.getD 0 0) ++
    _mm_store_si128 (dst + 1 * width) (out.getD 1 0)

/-- Registers `rgba00`, `rgba01`, `rgba10`, `rgba11` of `DecodeBytes_RGBA8_SSE2`
(TextureDecoder_x64.cpp), from the four loaded registers. -/
def DecodeBytes_RGBA8_SSE2_regs (ar0 ar1 gb0 gb1 : Nat) : List Nat :=
  let aarr00 := _mm_unpacklo_epi8 ar0 ar0
  let aarr01 := _mm_unpackhi_epi8 ar0 ar0
  let aarr10 := _mm_unpacklo_epi8 ar1 ar1
  let aarr11 := _mm_unpackhi_epi8 ar1 ar1
  let kMask_x0ff0 := _mm_set1_epi32 0x00FFFF00
  let ___a00 := _mm_srli_epi32 aarr00 24
  let r___00 := _mm_slli_epi32 aarr00 24
  let r__a00 := r___00 ||| ___a00
  let ___a01 := _mm_srli_epi32 aarr01 24
  let r___01 := _mm_slli_epi32 aarr01 24
  let r__a01 := r___01 ||| ___a01
  let ___a10 := _mm_srli_epi32 aarr10 24
  let r___10 := _mm_slli_epi32 aarr10 24
  let r__a10 := r___10 ||| ___a10
  let ___a11 := _mm_srli_epi32 aarr11 24
  let r___11 := _mm_slli_epi32 aarr11 24
  let r__a11 := r___11 ||| ___a11
  let ggbb00 := _mm_unpacklo_epi8 gb0 gb0
  let ggbb01 := _mm_unpackhi_epi8 gb0 gb0
  let ggbb10 := _mm_unpacklo_epi8 gb1 gb1
  let ggbb11 := _mm_unpackhi_epi8 gb1 gb1
  let _gb_00 := ggbb00 &&& kMask_x0ff0
  let _gb_01 := ggbb01 &&& kMask_x0ff0
  let _gb_10 := ggbb10 &&& kMask_x0ff0
  let _gb_11 := ggbb11 &&& kMask_x0ff0
  let rgba00 := r__a00 ||| _gb_00
  let rgba01 := r__a01 ||| _gb_01
  let rgba10 := r__a10 ||| _gb_10
  let rgba11 := r__a11 ||| _gb_11
  [rgba00, rgba01, rgba10, rgba11]

/-- `DecodeBytes_RGBA8_SSE2` (TextureDecoder_x64.cpp): four lines per call. -/
def DecodeBytes_RGBA8_SSE2 : BlockLineDecoder := fun dst src o _ width =>
  let out := DecodeBytes_RGBA8_SSE2_regs (_mm_load_si128 src (o + 16 * 0))
    (_mm_load_si128 src (o + 16 * 1)) (_mm_load_si128 src (o + 16 * 2))
    (_mm_load_si128 src (o + 16 * 3))
  _mm_store_si128 (dst + 0 * width) (out.getD 0 0) ++
    _mm_store_si128 (dst + 1 * width) (out.getD 1 0) ++
    _mm_store_si128 (dst + 2 * width) (out.getD 2 0) ++
    _mm_store_si128 (dst + 3 * width) (out.getD 3 0)

/-- Registers `rgba[0..3]` of `DecodeBytes_RGBA8_SSSE3` (TextureDecoder_x64.cpp). -/
def DecodeBytes_RGBA8_SSSE3_regs (ar0 ar1 gb0 gb1 : Nat) : List Nat :=
  let mask0312 := _mm_set_epi32 0x0C0F0D0E 0x080B090A 0x04070506 0x00030102
  [_mm_shuffle_epi8 (_mm_unpacklo_epi8 ar0 gb0) mask0312,
   _mm_shuffle_epi8 (_mm_unpackhi_epi8 ar0 gb0) mask0312,
   _mm_shuffle_epi8 (_mm_unpacklo_epi8 ar1 gb1) mask0312,
   _mm_shuffle_epi8 (_mm_unpackhi_epi8 ar1 gb1) mask0312]

/-- `DecodeBytes_RGBA8_SSSE3` (TextureDecoder_x64.cpp): four lines per call. -/
def DecodeBytes_RGBA8_SSSE3 : BlockLineDecoder := fun dst src o _ width =>
  let out := DecodeBytes_RGBA8_SSSE3_regs (_mm_load_si128 src (o + 16 * 0))
    (_mm_load_si128 src (o + 16 * 1)) (_mm_load_si128 src (o + 16 * 2))
    (_mm_load_si128 src (o + 16 * 3))
  (List.range 4).flatMap fun i => _mm_store_si128 (dst + i * width) (out.getD i 0)

/-- Registers `rgba00`, `rgba01`, `rgba10`, `rgba11` of `DecodeBytes_RGBA8_AVX2`
(TextureDecoder_x64.cpp), from the two loaded 256-bit registers. -/
def DecodeBytes_RGBA8_AVX2_regs (ar gb : Nat) : List Nat :=
  let mask0312 := _mm256_set_epi32 0x0C0F0D0E 0x080B090A 0x04070506 0x00030102 0x0C0F0D0E
    0x080B090A 0x04070506 0x00030102
  let rgba0 := _mm256_shuffle_epi8 (_mm256_unpacklo_epi8 ar gb) mask0312
  let rgba1 := _mm256_shuffle_epi8 (_mm256_unpackhi_epi8 ar gb) mask0312
  let rgba00 := _mm256_extracti128_si256 rgba0 0
  let rgba01 := _mm256_extracti128_si256 rgba1 0
  let rgba10 := _mm256_extracti128_si256 rgba0 1
  let rgba11 := _mm256_extracti128_si256 rgba1 1
  [rgba00, rgba01, rgba10, rgba11]

/-- `DecodeBytes_RGBA8_AVX2` (TextureDecoder_x64.cpp): four lines per call. -/
def DecodeBytes_RGBA8_AVX2 : BlockLineDecoder := fun dst src o _ width =>
  let out := DecodeBytes_RGBA8_AVX2_regs (_mm256_load_si256 src (o + 32 * 0))
    (_mm256_load_si256 src (o + 32 * 1))
  _mm_store_si128 (dst + 0 * width) (out.getD 0 0) ++
    _mm_store_si128 (dst + 1 * width) (out.getD 1 0) ++
    _mm_store_si128 (dst + 2 * width) (out.getD 2 0) ++
    _mm_store_si128 (dst + 3 * width) (out.getD 3 0)

/-- The `n` bytes at byte offset `a` as one number (what the loads of a call see). -/
def loadBytes (n : Nat) (src : Nat → Nat) (a : Nat) : Nat := ofLanes 8 n fun i => src (a + i)

/-! ## The x64 block-line decoders: RGB5A3

These decoders compute the RGB555 and the RGBA4443 reading of every
pixel and then select between them by a mask made from bit 15 of the pixel. -/

/-- Registers of a decoder just before the selection: the masks, the registers taken where
the mask is set and the registers taken where it is clear. -/
structure SelectParts where
  mask : List Nat
  whenSet : List Nat
  whenClear : List Nat

/-- `DecodeBytes_RGB5A3_SSE2` (TextureDecoder_x64.cpp) up to the masks: `mask0`, `mask1`,
`rgb555_0`, `rgb555_1`, `rgba4443_0`, `rgba4443_1`. -/
def DecodeBytes_RGB5A3_SSE2_parts (val : Nat) : SelectParts :=
  let msb := _mm_slli_epi16 val 8
  let lsb := _mm_srli_epi16 val 8
  let val := msb ||| lsb
  let r := _mm_srli_epi16 val 7 &&& _mm_set1_epi16 0x00F8
  let g := _mm_slli_epi16 val 6 &&& _mm_set1_epi16 0xF800
  let b := _mm_slli_epi16 val 3 &&& _mm_set1_epi16 0x00F8
  let a := _mm_set1_epi16 0xFF00
  let gr := g ||| r
  let ab := a ||| b
  let gr := gr ||| (_mm_srli_epi16 gr 5 &&& _mm_set1_epi16 0x0707)
  let ab := ab ||| (_mm_srli_epi16 ab 5 &&& _mm_set1_epi16 0x0707)
  let rgb555_0 := _mm_unpacklo_epi16 gr ab
  let rgb555_1 := _mm_unpackhi_epi16 gr ab
  let r := _mm_srli_epi16 val 8 &&& _mm_set1_epi16 0x000F
  let g := _mm_slli_epi16 val 4 &&& _mm_set1_epi16 0x0F00
  let b := val &&& _mm_set1_epi16 0x000F
  let a := _mm_slli_epi16 val 1 &&& _mm_set1_epi16 0xE000
  let b := b ||| _mm_slli_epi16 b 4
  let a := a ||| (_mm_srli_epi16 a 3 ||| (_mm_srli_epi16 val 5 &&& _mm_set1_epi16 0x0300))
  let gr := g ||| r
  let ab := a ||| b
  let gr := gr ||| _mm_slli_epi16 gr 4
  let rgba4443_0 := _mm_unpacklo_epi16 gr ab
  let rgba4443_1 := _mm_unpackhi_epi16 gr ab
  let val := _mm_srai_epi16 val 15
  let mask0 := _mm_unpacklo_epi16 val val
  let mask1 := _mm_unpackhi_epi16 val val
  { mask := [mask0, mask1], whenSet := [rgb555_0, rgb555_1],
    whenClear := [rgba4443_0, rgba4443_1] }

/-- The selection `(x & mask) | _mm_andnot_si128(mask, y)` of the SSE2 and SSSE3 RGB5A3
decoders, register by register. -/
def SelectParts.andnot128 (p : SelectParts) : List Nat :=
  List.zipWith3 (fun m x y => (x &&& m) ||| _mm_andnot_si128 m y) p.mask p.whenSet p.whenClear

/-- Registers `final0`, `final1` of `DecodeBytes_RGB5A3_SSE2` (TextureDecoder_x64.cpp). -/
def DecodeBytes_RGB5A3_SSE2_regs (val : Nat) : List Nat :=
  (DecodeBytes_RGB5A3_SSE2_parts val).andnot128

/-- `DecodeBytes_RGB5A3_SSE2` (TextureDecoder_x64.cpp): two block lines per call. -/
def DecodeBytes_RGB5A3_SSE2 : BlockLineDecoder := fun dst src o _ width =>
  let out := DecodeBytes_RGB5A3_SSE2_regs (_mm_load_si128 src o)
  _mm_store_si128 (dst + 0 * width) (out.getD 0 0) ++
    _mm_store_si128 (dst + 1 * width) (out.getD 1 0)

/-- `DecodeBytes_RGB5A3_SSSE3` (TextureDecoder_x64.cpp) up to `mask`, `rgb555`,
`rgba4443`. -/
def DecodeBytes_RGB5A3_SSSE3_parts (val : Nat) : SelectParts :=
  let val := _mm_shuffle_epi8 val (_mm_set_epi64x 0xFFFF0607FFFF0405 0xFFFF0203FFFF0001)
  let r := _mm_srli_epi32 val 7
  let g := _mm_slli_epi32 val 6 &&& _mm_set1_epi32 0x0000F800
  let b := _mm_slli_epi32 val 19
  let rgb555 := (r ||| b) &&& _mm_set1_epi32 0x00F800F8
  let rgb555 := rgb555 ||| g
  let rgb555 := rgb555 ||| (_mm_srli_epi32 rgb555 5 &&& _mm_set1_epi32 0x00070707)
  let rgb555 := rgb555 ||| _mm_set1_epi32 0xFF000000
  let mrb := _mm_shuffle_epi8 val (_mm_set_epi64x 0x0D0CFF0D0908FF09 0x0504FF050100FF01)
  let g := _mm_slli_epi16 val 4
  let rgba4443 := (mrb ||| g) &&& _mm_set1_epi32 0x000F0F0F
  let rgba4443 := rgba4443 ||| _mm_slli_epi32 rgba4443 4
  let a := _mm_slli_epi32 val 17 &&& _mm_set1_epi32 0xE0000000
  let a := a ||| (_mm_srli_epi32 a 3 ||| _mm_slli_epi32 (val &&& _mm_set1_epi32 0x00006000) 11)
  let rgba4443 := rgba4443 ||| a
  let mask := _mm_srai_epi32 mrb 31
  { mask := [mask], whenSet := [rgb555], whenClear := [rgba4443] }

/-- Register stored by `DecodeBytes_RGB5A3_SSSE3`: `rgb555 &= mask`,
`rgba4443 = _mm_andnot_si128(mask, rgba4443)`, `rgb555 | rgba4443`. -/
def DecodeBytes_RGB5A3_SSSE3_regs (val : Nat) : List Nat :=
  (DecodeBytes_RGB5A3_SSSE3_parts val).andnot128

/-- `DecodeBytes_RGB5A3_SSSE3` (TextureDecoder_x64.cpp). -/
def DecodeBytes_RGB5A3_SSSE3 : BlockLineDecoder := fun dst src o _ _ =>
  let out := DecodeBytes_RGB5A3_SSSE3_regs (_mm_loadl_epi64 src o)
  _mm_store_si128 dst (out.getD 0 0)

/-- `DecodePixels_RGB5A3_SSE41` (TextureDecoder_x64.cpp) up to `blend_mask`, `rgb555`,
`argb3444`. -/
def DecodePixels_RGB5A3_SSE41_parts (input : Nat) : SelectParts :=
  let red := _mm_slli_epi32 input 1 &&& _mm_set1_epi32 0x000000F8
  let blue := _mm_slli_epi32 input 11 &&& _mm_set1_epi32 0x00F80000
  let blue_red := blue ||| red
  let blue_red := blue_red ||| _mm_srli_epi16 blue_red 5
  let green := _mm_srli_epi32 input 2 &&& _mm_set1_epi32 0x0000F800
  let green := green ||| _mm_slli_epi32 (_mm_srli_epi32 green 13) 8
  let alpha := _mm_set1_epi32 0xFF000000
  let rgb555 := alpha ||| blue_red ||| green
  let red := input &&& _mm_set1_epi32 0x0000000F
  let green := _mm_srli_epi32 (input &&& _mm_set1_epi32 0x0000F000) 4
  let blue := _mm_slli_epi32 (input &&& _mm_set1_epi32 0x00000F00) 8
  let alpha := _mm_slli_epi32 (_mm_srli_epi32 input 4) 29
  let blue_green_red := blue ||| green ||| red
  let blue_green_red := blue_green_red ||| _mm_slli_epi32 blue_green_red 4
  let alpha := alpha ||| _mm_srli_epi32 alpha 3
  let alpha := alpha ||| _mm_slli_epi32 (input &&& _mm_set1_epi32 0x00000060) 19
  let argb3444 := alpha ||| blue_green_red
  let blend_mask :=
    _mm_shuffle_epi8 input (_mm_set_epi64x 0x0C0C0C0C08080808 0x0404040400000000)
  { mask := [blend_mask], whenSet := [rgb555], whenClear := [argb3444] }

/-- The selection `_mm_blendv_epi8(y, x, mask)`, register by register. -/
def SelectParts.blendv128 (p : SelectParts) : List Nat :=
  List.zipWith3 (fun m x y => _mm_blendv_epi8 y x m) p.mask p.whenSet p.whenClear

/-- The selection `_mm256_blendv_epi8(y, x, mask)`, register by register. -/
def SelectParts.blendv256 (p : SelectParts) : List Nat :=
  List.zipWith3 (fun m x y => _mm256_blendv_epi8 y x m) p.mask p.whenSet p.whenClear

/-- `DecodePixels_RGB5A3_SSE41` (TextureDecoder_x64.cpp). -/
def DecodePixels_RGB5A3_SSE41 (input : Nat) : Nat :=
  (DecodePixels_RGB5A3_SSE41_parts input).blendv128.getD 0 0

/-- Register stored by `DecodeBytes_RGB5A3_SSE41` (TextureDecoder_x64.cpp). -/
def DecodeBytes_RGB5A3_SSE41_regs (pixels : Nat) : List Nat :=
  let pixels := _mm_unpacklo_epi16 pixels pixels
  [DecodePixels_RGB5A3_SSE41 pixels]

/-- `DecodeBytes_RGB5A3_SSE41` (TextureDecoder_x64.cpp). -/
def DecodeBytes_RGB5A3_SSE41 : BlockLineDecoder := fun dst src o _ _ =>
  let out := DecodeBytes_RGB5A3_SSE41_regs (_mm_loadl_epi64 src o)
  _mm_store_si128 dst (out.getD 0 0)

/-- `DecodePixels_RGB5A3_AVX2` (TextureDecoder_x64.cpp) up to `blend_mask`, `rgb555`,
`argb3444`. -/
def DecodePixels_RGB5A3_AVX2_parts (input : Nat) : SelectParts :=
  let red := _mm256_slli_epi32 input 1 &&& _mm256_set1_epi32 0x000000F8
  let blue := _mm256_slli_epi32 input 11 &&& _mm256_set1_epi32 0x00F80000
  let blue_red := blue ||| red
  let blue_red := blue_red ||| _mm256_srli_epi16 blue_red 5
  let green := _mm256_srli_epi32 input 2 &&& _mm256_set1_epi32 0x0000F800
  let green := green ||| _mm256_slli_epi32 (_mm256_srli_epi32 green 13) 8
  let alpha := _mm256_set1_epi32 0xFF000000
  let rgb555 := alpha ||| blue_red ||| green
  let red := input &&& _mm256_set1_epi32 0x0000000F
  let green := _mm256_srli_epi32 (input &&& _mm256_set1_epi32 0x0000F000) 4
  let blue := _mm256_slli_epi32 (input &&& _mm256_set1_epi32 0x00000F00) 8
  let alpha := _mm256_slli_epi32 (_mm256_srli_epi32 input 4) 29
  let blue_green_red := blue ||| green ||| red
  let blue_green_red := blue_green_red ||| _mm256_slli_epi32 blue_green_red 4
  let alpha := alpha ||| _mm256_srli_epi32 alpha 3
  let alpha := alpha ||| _mm256_slli_epi32 (input &&& _mm256_set1_epi32 0x00000060) 19
  let argb3444 := alpha ||| blue_green_red
  let blend_mask :=
    _mm256_shuffle_epi8 input (_mm256_set_epi64x 0x0C0C0C0C08080808 0x0404040400000000
      0x0C0C0C0C08080808 0x0404040400000000)
  { mask := [blend_mask], whenSet := [rgb555], whenClear := [argb3444] }

/-- `DecodePixels_RGB5A3_AVX2` (TextureDecoder_x64.cpp). -/
def DecodePixels_RGB5A3_AVX2 (input : Nat) : Nat :=
  (DecodePixels_RGB5A3_AVX2_parts input).blendv256.getD 0 0

/-- The 256-bit register `pixels` of `DecodeBytes_RGB5A3_AVX2` after `DecodePixels`. -/
def DecodeBytes_RGB5A3_AVX2_pixels (r : Nat) : Nat :=
  let pixels := _mm256_broadcastsi128_si256 r
  let pixels := _mm256_shuffle_epi8 pixels (_mm256_set_epi64x 0x0F0E0F0E0D0C0D0C
    0x0B0A0B0A09080908 0x0706070605040504 0x0302030201000100)
  DecodePixels_RGB5A3_AVX2 pixels

/-- Registers `row0`, `row1` of `DecodeBytes_RGB5A3_AVX2` (TextureDecoder_x64.cpp). -/
def DecodeBytes_RGB5A3_AVX2_regs (r : Nat) : List Nat :=
  let pixels := DecodeBytes_RGB5A3_AVX2_pixels r
  let row0 := _mm256_extracti128_si256 pixels 0
  let row1 := _mm256_extracti128_si256 pixels 1
  [row0, row1]

/-- `DecodeBytes_RGB5A3_AVX2` (TextureDecoder_x64.cpp): two block lines per call. -/
def DecodeBytes_RGB5A3_AVX2 : BlockLineDecoder := fun dst src o _ width =>
  let out := DecodeBytes_RGB5A3_AVX2_regs (_mm_load_si128 src o)
  _mm_store_si128 (dst + 0 * width) (out.getD 0 0) ++
    _mm_store_si128 (dst + 1 * width) (out.getD 1 0)

/-- The branch of `DecodePixel_RGB5A3` taken when bit 15 is set (RGB555). -/
def RGB5A3_rgb555 (val : Nat) : Nat :=
  let r := Convert5To8 ((val >>> 10) &&& 0x1f)
  let g := Convert5To8 ((val >>> 5) &&& 0x1f)
  let b := Convert5To8 (val &&& 0x1f)
  let a := 0xFF
  (a <<< 24) ||| (b <<< 16) ||| (g <<< 8) ||| r

/-- The branch of `DecodePixel_RGB5A3` taken when bit 15 is clear (RGBA4443). -/
def RGB5A3_rgba4443 (val : Nat) : Nat :=
  let a := Convert3To8 ((val >>> 12) &&& 0x7)
  let r := Convert4To8 ((val >>> 8) &&& 0xf)
  let g := Convert4To8 ((val >>> 4) &&& 0xf)
  let b := Convert4To8 (val &&& 0xf)
  (a <<< 24) ||| (b <<< 16) ||| (g <<< 8) ||| r

/-- The byte-swapped 16-bit words of the first `n` pixels of a 16-bit format, when the
source bytes are the bytes of `x`. -/
def pixelWords16 (n x : Nat) : List Nat :=
  (List.range n).map fun p => swap16 (u16at (memOf x) (2 * p))

/-- The register of `n` bytes that is 0xFF where bit 7 of the byte of `m` is set. -/
def signMask8 (n m : Nat) : Nat :=
  ofLanes 8 n fun i => if laneOf 8 m i &&& 0x80 ≠ 0 then 0xFF else 0

/-- Bitwise selection in a `W`-bit register: `x` where `s` is set, `y` where it is clear. -/
def bitSelect (W s x y : Nat) : Nat := (x &&& s) ||| (((s % 2 ^ W) ^^^ (2 ^ W - 1)) &&& y)
/-! ## The AVX2 decoders of the paletted formats -/

/-- `_mm256_add_epi8`. -/
def _mm256_add_epi8 (a b : Nat) : Nat := ofLanes 8 32 fun i => laneOf 8 a i + laneOf 8 b i

/-- `_mm_load_si128((__m128i*)tlut + k)`: the eight palette entries `tlut[8k]`, ...,
`tlut[8k + 7]`, each a 16-bit lane. -/
def _mm_load_si128_tlut (tlut : Nat → Nat) (k : Nat) : Nat :=
  ofLanes 16 8 fun n => tlutAt tlut (8 * k + n)

/-- `_mm256_i32gather_epi32((int*)tlut, vindex, 2)`: lane `k` is the 32-bit word at byte
offset `2 * vindex[k]` of the palette, that is the entry `tlut[vindex[k]]` in its low half
and the entry after it in its high half. The decoders only pass indices below `2 ^ 14`. -/
def _mm256_i32gather_epi32 (tlut : Nat → Nat) (vindex : Nat) : Nat :=
  ofLanes 32 8 fun k =>
    tlutAt tlut (laneOf 32 vindex k) ||| (tlutAt tlut (laneOf 32 vindex k + 1) <<< 16)

/-- The palette reads of `_mm256_i32gather_epi32((int*)tlut, vindex, 2)`: four bytes at
byte offset `2 * vindex[k]` for each of the eight lanes. -/
def gatherLoads (vindex : Nat) : List Access :=
  (List.range 8).map fun k => Access.tlutLoad (2 * laneOf 32 vindex k) 4

/-- `DecodePixels_AVX2<format, swap>` (TextureDecoder_x64.cpp). -/
def DecodePixels_AVX2 (format : TlutFormat) (swap : Bool) (pixels : Nat) : Nat :=
  match format with
  | .GX_TL_IA8 =>
    let shuffle :=
      if swap then
        _mm256_set_epi64x 0x080909090C0D0D0D 0x0001010104050505 0x080909090C0D0D0D
          0x0001010104050505
      else
        _mm256_set_epi64x 0x0C0D0D0D08090909 0x0405050500010101 0x0C0D0D0D08090909
          0x0405050500010101
    _mm256_shuffle_epi8 pixels shuffle
  | .GX_TL_RGB565 =>
    let shuffle :=
      if swap then
        _mm256_set_epi64x 0xFFFF0809FFFF0C0D 0xFFFF0001FFFF0405 0xFFFF0809FFFF0C0D
          0xFFFF0001FFFF0405
      else
        _mm256_set_epi64x 0xFFFF0C0DFFFF0809 0xFFFF0405FFFF0001 0xFFFF0C0DFFFF0809
          0xFFFF0405FFFF0001
    let c := _mm256_shuffle_epi8 pixels shuffle
    let red := _mm256_srli_epi32 c 8
    let green := _mm256_slli_epi32 c 5 &&& _mm256_set1_epi32 0x0000FC00
    let blue := _mm256_slli_epi32 c 19
    let red_blue := (red ||| blue) &&& _mm256_set1_epi32 0x00F800F8
    let copy3 := _mm256_srli_epi16 red_blue 5
    let copy2 := _mm256_srli_epi32 green 6 &&& _mm256_set1_epi32 0x00000300
    let alpha := _mm256_set1_epi32 0xFF000000
    (red_blue ||| copy3) ||| (green ||| copy2) ||| alpha
  | .GX_TL_RGB5A3 =>
    let pixels :=
      if swap then
        _mm256_shuffle_epi8 pixels (_mm256_set_epi64x 0x090809080D0C0D0C 0x0100010005040504
          0x090809080D0C0D0C 0x0100010005040504)
      else
        let pixels := pixels &&& _mm256_set1_epi32 0x0000FFFF
        pixels ||| _mm256_slli_epi32 pixels 16
    DecodePixels_RGB5A3_AVX2 pixels

/-- The loop body of `DecodeBytes_C4_AVX2` (TextureDecoder_x64.cpp) from `indices_orig`
and the current `shuffle` to `indices` after `indices &= _mm256_set1_epi32(0x00000F0F)`. -/
def DecodeBytes_C4_AVX2_indices (indices_orig shuffle : Nat) : Nat :=
  let indices := _mm256_shuffle_epi8 indices_orig shuffle
  let indices := indices &&& _mm256_set1_epi64x 0x000000F0F0000F0F
  let indices := indices ||| _mm256_slli_epi64 indices 4
  indices &&& _mm256_set1_epi32 0x00000F0F

/-- The loop body of `DecodeBytes_C4_AVX2` (TextureDecoder_x64.cpp) from `indices` (as
left by `DecodeBytes_C4_AVX2_indices`) to `color` before `DecodePixels_AVX2`. -/
def DecodeBytes_C4_AVX2_lookup (palette0 palette1 indices : Nat) : Nat :=
  let mask := indices
  let indices := indices &&& _mm256_set1_epi32 0x00000707
  let indices := _mm256_slli_epi64 indices 1
  let indices := indices ||| _mm256_set1_epi32 0x00000100
  let color0 := _mm256_shuffle_epi8 palette0 indices
  let color1 := _mm256_shuffle_epi8 palette1 indices
  let mask := _mm256_slli_epi32 mask 28
  let mask := _mm256_srai_epi32 mask 31
  _mm256_blendv_epi8 color0 color1 mask

/-- `DecodeBytes_C4_AVX2<tlut_format>` (TextureDecoder_x64.cpp): four block lines per call;
the palette is read once, as two 16-byte loads. The loop state is `shuffle` and the
accesses so far. -/
def DecodeBytes_C4_AVX2 (tlut_format : TlutFormat) : BlockLineDecoder :=
  fun dst src o tlut width =>
  let palette0 := _mm256_broadcastsi128_si256 (_mm_load_si128_tlut tlut 0)
  let palette1 := _mm256_broadcastsi128_si256 (_mm_load_si128_tlut tlut 1)
  let indices_orig := _mm256_broadcastsi128_si256 (_mm_load_si128 src o)
  let shuffle := _mm256_set_epi64x 0xFFFFFF0303FF0303 0xFFFFFF0202FF0202 0xFFFFFF0101FF0101
    0xFFFFFF0000FF0000
  ((List.range 4).foldl (fun (st : Nat × List Access) i =>
    let indices := DecodeBytes_C4_AVX2_indices indices_orig st.1
    let shuffle := _mm256_add_epi8 st.1 (_mm256_set1_epi8 4)
    let color := DecodeBytes_C4_AVX2_lookup palette0 palette1 indices
    let color := DecodePixels_AVX2 tlut_format true color
    (shuffle, st.2 ++ _mm256_store_si256 (dst + i * width) color))
    (shuffle, [Access.tlutLoad 0 16, Access.tlutLoad 16 16])).2

/-- `DecodeBytes_C8_AVX2<tlut_format>` (TextureDecoder_x64.cpp): two block lines per call. -/
def DecodeBytes_C8_AVX2 (tlut_format : TlutFormat) : BlockLineDecoder :=
  fun dst src o tlut width =>
  let indices := _mm256_broadcastsi128_si256 (_mm_load_si128 src o)
  let i0 := _mm256_shuffle_epi8 indices (_mm256_set_epi64x 0xFFFFFF07FFFFFF06
    0xFFFFFF05FFFFFF04 0xFFFFFF03FFFFFF02 0xFFFFFF01FFFFFF00)
  let i1 := _mm256_shuffle_epi8 indices (_mm256_set_epi64x 0xFFFFFF0FFFFFFF0E
    0xFFFFFF0DFFFFFF0C 0xFFFFFF0BFFFFFF0A 0xFFFFFF09FFFFFF08)
  let c0 := _mm256_i32gather_epi32 tlut i0
  let c1 := _mm256_i32gather_epi32 tlut i1
  let c0 := DecodePixels_AVX2 tlut_format false c0
  let c1 := DecodePixels_AVX2 tlut_format false c1
  gatherLoads i0 ++ gatherLoads i1 ++
    _mm256_store_si256 (dst + 0 * width) c0 ++ _mm256_store_si256 (dst + 1 * width) c1

/-- The register `indices` of `DecodeBytes_C14_AVX2` (TextureDecoder_x64.cpp) passed to the
gather. -/
def DecodeBytes_C14_AVX2_indices (r : Nat) : Nat :=
  let indices := _mm256_broadcastsi128_si256 r
  let expand := _mm256_set_epi64x 0xFFFF0E0FFFFF0C0D 0xFFFF0A0BFFFF0809 0xFFFF0607FFFF0405
    0xFFFF0203FFFF0001
  let indices := _mm256_shuffle_epi8 indices expand
  indices &&& _mm256_set1_epi32 0x00003FFF

/-- `DecodeBytes_C14_AVX2<tlut_format>` (TextureDecoder_x64.cpp): two block lines per
call. -/
def DecodeBytes_C14_AVX2 (tlut_format : TlutFormat) : BlockLineDecoder :=
  fun dst src o tlut width =>
  let indices := DecodeBytes_C14_AVX2_indices (_mm_load_si128 src o)
  let c := _mm256_i32gather_epi32 tlut indices
  let c := DecodePixels_AVX2 tlut_format false c
  let row0 := _mm256_extracti128_si256 c 0
  let row1 := _mm256_extracti128_si256 c 1
  gatherLoads indices ++
    _mm_store_si128 (dst + 0 * width) row0 ++ _mm_store_si128 (dst + 1 * width) row1
/-! ## The SSE2 and AVX2 decoders of CMPR -/

/-- The signed value of a `w`-bit lane (two's complement). -/
def toSigned (w v : Nat) : Int :=
  if v % 2 ^ w < 2 ^ (w - 1) then ((v % 2 ^ w : Nat) : Int) else ((v % 2 ^ w : Nat) : Int) - 2 ^ w

/-- The `w`-bit lane holding the integer `i` modulo `2 ^ w`. -/
def ofSigned (w : Nat) (i : Int) : Nat := (i % 2 ^ w).toNat

/-- Unsigned saturation of a signed 16-bit lane to a byte (PACKUSWB). -/
def packusLane (v : Nat) : Nat :=
  if toSigned 16 v < 0 then 0 else if toSigned 16 v > 255 then 255 else v % 2 ^ 16

/-- Signed saturating subtraction of 16-bit lanes (PSUBSW). -/
def subsLane (a b : Nat) : Nat :=
  ofSigned 16 (max (-32768) (min 32767 (toSigned 16 a - toSigned 16 b)))

/-- `_mm_cmpgt_epi32`: signed comparison, all ones where `a > b`. -/
def _mm_cmpgt_epi32 (a b : Nat) : Nat :=
  ofLanes 32 4 fun i =>
    if toSigned 32 (laneOf 32 a i) > toSigned 32 (laneOf 32 b i) then 0xFFFFFFFF else 0

/-- `_mm_extract_epi16`. -/
def _mm_extract_epi16 (a k : Nat) : Nat := laneOf 16 a k

def _mm_subs_epi16 (a b : Nat) : Nat :=
  ofLanes 16 8 fun i => subsLane (laneOf 16 a i) (laneOf 16 b i)
def _mm_sub_epi16 (a b : Nat) : Nat :=
  ofLanes 16 8 fun i => laneOf 16 a i + 2 ^ 16 - laneOf 16 b i
def _mm_add_epi8 (a b : Nat) : Nat := ofLanes 8 16 fun i => laneOf 8 a i + laneOf 8 b i
def _mm_sub_epi8 (a b : Nat) : Nat := ofLanes 8 16 fun i => laneOf 8 a i + 2 ^ 8 - laneOf 8 b i
def _mm_avg_epu16 (a b : Nat) : Nat :=
  ofLanes 16 8 fun i => (laneOf 16 a i + laneOf 16 b i + 1) >>> 1

/-- `_mm_packus_epi16`: the words of `a`, then the words of `b`, saturated to bytes. -/
def _mm_packus_epi16 (a b : Nat) : Nat :=
  ofLanes 8 16 fun i => packusLane (if i < 8 then laneOf 16 a i else laneOf 16 b (i - 8))

/-- Register `argb888x4` of `DecodeDXT_SSE2` (TextureDecoder_x64.cpp): the four colours of
the two blocks in `dxt`, each expanded to 32 bits. The first component is `c0`. -/
def DecodeDXT_SSE2_argb888x4 (dxt : Nat) : Nat × Nat :=
  let c0 := _mm_unpacklo_epi16 dxt dxt
  let c1 := _mm_unpackhi_epi16 dxt dxt
  let c0 := _mm_srli_si128 (_mm_slli_si128 c0 8) 8
  let c1 := _mm_slli_si128 c1 8
  let c0 := c0 ||| c1
  let gtmp := _mm_srli_epi32 c0 3
  let g0 := gtmp &&& _mm_set1_epi32 0x0000FC00
  let g1 := _mm_srli_epi32 gtmp 6 &&& _mm_set1_epi32 0x00000300
  let argb888x4 := g0 ||| g1
  let r0 := c0 &&& _mm_set1_epi32 0x000000F8
  let r1 := _mm_srli_epi32 r0 5
  let argb888x4 := argb888x4 ||| (r0 ||| r1)
  let b0 := _mm_srli_epi32 c0 5 &&& _mm_set1_epi32 0x00F80000
  let b1 := _mm_srli_epi16 b0 5
  let argb888x4 := argb888x4 ||| (_mm_set1_epi32 0xFF000000 ||| b0 ||| b1)
  (c0, argb888x4)

/-- Register `cmprgb0rgb1` of `DecodeDXT_SSE2` (TextureDecoder_x64.cpp), computed from
`c0`. -/
def DecodeDXT_SSE2_cmprgb0rgb1 (c0 : Nat) : Nat :=
  let c0cmp := _mm_srli_epi32 (_mm_slli_epi32 (_mm_srli_epi64 c0 8) 16) 16
  let c0shr := _mm_srli_epi64 c0cmp 32
  _mm_cmpgt_epi32 c0cmp c0shr

/-- Registers `rgb2`, `rgb3` of `DecodeDXT_SSE2` (TextureDecoder_x64.cpp) after both
`if`s. -/
def DecodeDXT_SSE2_rgb23 (argb888x4 cmp0 cmp1 : Nat) : Nat × Nat :=
  let rgb0 := _mm_shuffle_epi32 argb888x4 (_MM_SHUFFLE 2 2 0 0)
  let rgb1 := _mm_shuffle_epi32 argb888x4 (_MM_SHUFFLE 3 3 1 1)
  let mask0f := _mm_set1_epi16 0x00FF
  let rrggbb0 := _mm_unpacklo_epi8 rgb0 rgb0 &&& mask0f
  let rrggbb1 := _mm_unpacklo_epi8 rgb1 rgb1 &&& mask0f
  let rrggbb01 := _mm_unpackhi_epi8 rgb0 rgb0 &&& mask0f
  let rrggbb11 := _mm_unpackhi_epi8 rgb1 rgb1 &&& mask0f
  let rgb23 : Nat × Nat :=
    if cmp0 ≠ 0 then
      let rrggbbsub := _mm_subs_epi16 rrggbb1 rrggbb0
      let rrggbbsubshr1 := _mm_srai_epi16 rrggbbsub 1
      let rrggbbsubshr3 := _mm_srai_epi16 rrggbbsub 3
      let shr1subshr3 := _mm_sub_epi16 rrggbbsubshr1 rrggbbsubshr3
      let rrggbbdelta := shr1subshr3 &&& mask0f
      let rgbdeltadup := _mm_packus_epi16 rrggbbdelta rrggbbdelta
      let rgbdelta := _mm_srli_si128 (_mm_slli_si128 rgbdeltadup 8) 8
      (_mm_add_epi8 rgb0 rgbdelta &&& _mm_set_epi64x 0 0xFFFFFFFFFFFFFFFF,
       _mm_sub_epi8 rgb1 rgbdelta &&& _mm_set_epi64x 0 0xFFFFFFFFFFFFFFFF)
    else
      let rrggbb21 := _mm_avg_epu16 rrggbb0 rrggbb1
      let rgb210 := _mm_srli_si128 (_mm_packus_epi16 rrggbb21 rrggbb21) 8
      (rgb210, rgb210 &&& _mm_set1_epi32 0x00FFFFFF)
  let rgb2 := rgb23.1
  let rgb3 := rgb23.2
  if cmp1 ≠ 0 then
    let rrggbbsub1 := _mm_subs_epi16 rrggbb11 rrggbb01
    let rrggbbsubshr11 := _mm_srai_epi16 rrggbbsub1 1
    let rrggbbsubshr31 := _mm_srai_epi16 rrggbbsub1 3
    let shr1subshr31 := _mm_sub_epi16 rrggbbsubshr11 rrggbbsubshr31
    let rrggbbdelta1 := shr1subshr31 &&& mask0f
    let rgbdelta1 := _mm_packus_epi16 rrggbbdelta1 rrggbbdelta1
    let rgbdelta1 := _mm_slli_si128 rgbdelta1 8
    (rgb2 ||| (_mm_add_epi8 rgb0 rgbdelta1 &&& _mm_set_epi64x 0xFFFFFFFFFFFFFFFF 0),
     rgb3 ||| (_mm_sub_epi8 rgb1 rgbdelta1 &&& _mm_set_epi64x 0xFFFFFFFFFFFFFFFF 0))
  else
    let rrggbb211 := _mm_avg_epu16 rrggbb01 rrggbb11
    let rgb211 := _mm_slli_si128 (_mm_packus_epi16 rrggbb211 rrggbb211) 8
    let rgb2 := rgb2 ||| rgb211
    (rgb2,
     rgb3 ||| (rgb2 &&& _mm_set1_epi32 0x00FFFFFF &&& _mm_set_epi64x 0xFFFFFFFFFFFFFFFF 0))

/-- Registers `mmcolors0`, `mmcolors1` of `DecodeDXT_SSE2` (TextureDecoder_x64.cpp). -/
def DecodeDXT_SSE2_mmcolors (argb888x4 rgb2 rgb3 : Nat) : Nat × Nat :=
  let mmcolors0 :=
    _mm_srli_si128 (_mm_slli_si128 argb888x4 8) 8 |||
      _mm_slli_si128 (_mm_srli_si128 (_mm_slli_si128 rgb2 8) (8 + 4)) 8 |||
      _mm_slli_si128 (_mm_srli_si128 rgb3 4) (8 + 4)
  let mmcolors1 :=
    _mm_srli_si128 argb888x4 8 |||
      _mm_slli_si128 (_mm_srli_si128 rgb2 (8 + 4)) 8 |||
      _mm_slli_si128 (_mm_srli_si128 rgb3 (8 + 4)) (8 + 4)
  (mmcolors0, mmcolors1)

/-- The body of the `iy` loop of `DecodeDXT_SSE2` (TextureDecoder_x64.cpp): two DXT blocks
at byte offset `ofs`, written to the four rows at `dst32`. Row `r` is the eight assignments
`dst32[(width * r) + k] = colors0[(dxt0sel >> ((r * 8) + 6 - 2 * k)) & 3]` for `k < 4`
followed by the four from `colors1` and `dxt1sel` at columns `4 + k`. -/
def DecodeDXT_SSE2_blocks (dst32 : Nat) (src : Nat → Nat) (ofs width : Nat) : List Access :=
  let dxt := _mm_load_si128 src ofs
  let dxt0sel := laneOf 32 dxt 1
  let dxt1sel := laneOf 32 dxt 3
  let c := DecodeDXT_SSE2_argb888x4 dxt
  let argb888x4 := c.2
  let cmprgb0rgb1 := DecodeDXT_SSE2_cmprgb0rgb1 c.1
  let cmp0 := _mm_extract_epi16 cmprgb0rgb1 0
  let cmp1 := _mm_extract_epi16 cmprgb0rgb1 4
  let rgb23 := DecodeDXT_SSE2_rgb23 argb888x4 cmp0 cmp1
  let mm := DecodeDXT_SSE2_mmcolors argb888x4 rgb23.1 rgb23.2
  (List.range 4).flatMap fun r =>
    ((List.range 4).map fun k =>
      Access.store (dst32 + (width * r) + k)
        (laneOf 32 mm.1 ((dxt0sel >>> ((r * 8) + (6 - 2 * k))) &&& 3))) ++
    ((List.range 4).map fun k =>
      Access.store (dst32 + (width * r) + (4 + k))
        (laneOf 32 mm.2 ((dxt1sel >>> ((r * 8) + (6 - 2 * k))) &&& 3)))

/-- `DecodeDXT_SSE2` (TextureDecoder_x64.cpp): the loops over `y`, `x` and `iy`, with `ofs`
advancing by `2 * sizeof(DXTBlock) = 16` after each pair of blocks. -/
def DecodeDXT_SSE2 (src _tlut : Nat → Nat) (width height : Nat) : List Access :=
  ((List.range (loopCount height 8)).foldl (fun st i =>
    (List.range (loopCount width 8)).foldl (fun st j =>
      (List.range (loopCount 8 4)).foldl (fun st k =>
        (st.1 + 2 * 8,
          st.2 ++ DecodeDXT_SSE2_blocks ((i * 8 + k * 4) * width + j * 8) src st.1 width))
        st) st) ((0 : Nat), ([] : List Access))).2

/-- The value `((u32*)src)[...]` read at byte offset `a` on the little-endian host. -/
def u32at (src : Nat → Nat) (a : Nat) : Nat :=
  u16at src a ||| (u16at src (a + 2) <<< 16)

/-- `_mm256_cvtepu8_epi16`: the sixteen bytes of `a`, zero-extended to 16-bit lanes. -/
def _mm256_cvtepu8_epi16 (a : Nat) : Nat := ofLanes 16 16 fun i => laneOf 8 a i

/-- `_mm256_shuffle_epi32`: as `_mm_shuffle_epi32` within each 128-bit half. -/
def _mm256_shuffle_epi32 (a imm : Nat) : Nat :=
  ofLanes 32 8 fun i => laneOf 32 a (i / 4 * 4 + ((imm >>> (2 * (i % 4))) &&& 3))

def _mm256_sub_epi16 (a b : Nat) : Nat :=
  ofLanes 16 16 fun i => laneOf 16 a i + 2 ^ 16 - laneOf 16 b i
def _mm256_add_epi16 (a b : Nat) : Nat :=
  ofLanes 16 16 fun i => laneOf 16 a i + laneOf 16 b i
def _mm256_avg_epu16 (a b : Nat) : Nat :=
  ofLanes 16 16 fun i => (laneOf 16 a i + laneOf 16 b i + 1) >>> 1

/-- `_mm256_blend_epi16`: word `i` of `b` where bit `i % 8` of `imm` is set, else of `a`. -/
def _mm256_blend_epi16 (a b imm : Nat) : Nat :=
  ofLanes 16 16 fun i => if (imm >>> (i % 8)) &&& 1 ≠ 0 then laneOf 16 b i else laneOf 16 a i

/-- `_mm256_cmpgt_epi64`: signed comparison, all ones where `a > b`. -/
def _mm256_cmpgt_epi64 (a b : Nat) : Nat :=
  ofLanes 64 4 fun i =>
    if toSigned 64 (laneOf 64 a i) > toSigned 64 (laneOf 64 b i) then 0xFFFFFFFFFFFFFFFF else 0

/-- `_mm256_packus_epi16`: as `_mm_packus_epi16` within each 128-bit half. -/
def _mm256_packus_epi16 (a b : Nat) : Nat :=
  ofLanes 8 32 fun i =>
    packusLane (if i % 16 < 8 then laneOf 16 a (i / 16 * 8 + i % 16)
      else laneOf 16 b (i / 16 * 8 + (i % 16 - 8)))

/-- `_pdep_u64` (BMI2): the low bits of `a` deposited, in order, at the positions of the
set bits of `mask`. The state is the number of bits consumed and the result so far. -/
def _pdep_u64 (a mask : Nat) : Nat :=
  ((List.range 64).foldl (fun (st : Nat × Nat) m =>
    if mask.testBit m then (st.1 + 1, st.2 ||| (((a >>> st.1) &&& 1) <<< m)) else st)
    ((0 : Nat), (0 : Nat))).2

/-- Register `colors8888` of `DecodeDXT_AVX2` (TextureDecoder_x64.cpp): the four colours of
the two blocks in `colors565`, each expanded to 32 bits. -/
def DecodeDXT_AVX2_colors8888 (colors565 : Nat) : Nat :=
  let colors565 :=
    _mm_shuffle_epi8 colors565 (_mm_set_epi64x 0xFFFF0A0BFFFF0809 0xFFFF0203FFFF0001)
  let red := _mm_srli_epi32 colors565 8
  let green := _mm_slli_epi32 colors565 5 &&& _mm_set1_epi32 0x0000FC00
  let blue := _mm_slli_epi32 colors565 19
  let blue_red := (blue ||| red) &&& _mm_set1_epi32 0x00F800F8
  let copy3 := _mm_srli_epi16 blue_red 5
  let copy2 := _mm_srli_epi32 green 6 &&& _mm_set1_epi32 0x00000300
  let alpha := _mm_set1_epi32 0xFF000000
  (blue_red ||| copy3) ||| (green ||| copy2) ||| alpha

/-- Register `palette` of `DecodeDXT_AVX2` (TextureDecoder_x64.cpp), computed from
`colors8888`. -/
def DecodeDXT_AVX2_palette (colors8888 : Nat) : Nat :=
  let colors16 := _mm256_cvtepu8_epi16 colors8888
  let c0 := _mm256_shuffle_epi32 colors16 (_MM_SHUFFLE 1 0 1 0)
  let c1 := _mm256_shuffle_epi32 colors16 (_MM_SHUFFLE 3 2 3 2)
  let diff := _mm256_sub_epi16 c1 c0
  let diff2 := _mm256_srai_epi16 diff 1
  let diff8 := _mm256_srai_epi16 diff 3
  let delta := _mm256_sub_epi16 diff2 diff8
  let c2_1 := _mm256_add_epi16 colors16 delta
  let c3_1 := _mm256_sub_epi16 colors16 delta
  let c2_0 := _mm256_avg_epu16 c1 c0
  let c3_0 := c2_0 &&& _mm256_set1_epi64x 0x0000FFFFFFFFFFFF
  let c32_0 := _mm256_blend_epi16 c3_0 c2_0 0b00001111
  let c32_1 := _mm256_blend_epi16 c3_1 c2_1 0b00001111
  let rgb_order := _mm256_set_epi64x 0xFFFF09080B0A0D0C 0xFFFF010003020504
    0xFFFF09080B0A0D0C 0xFFFF010003020504
  let c0 := _mm256_shuffle_epi8 c0 rgb_order
  let c1 := _mm256_shuffle_epi8 c1 rgb_order
  let cmp := _mm256_cmpgt_epi64 c0 c1
  let c32 := _mm256_blendv_epi8 c32_0 c32_1 cmp
  _mm256_packus_epi16 colors16 c32

/-- Register `index_bytes` of `DecodeDXT_AVX2` (TextureDecoder_x64.cpp), from the `indices`
fields of the two blocks. -/
def DecodeDXT_AVX2_index_bytes (indices0 indices1 : Nat) : Nat :=
  let pos := u64 (0x0303030303030303 * 4)
  let i0 := _pdep_u64 (u32 (indices0 >>> 0)) pos
  let i1 := _pdep_u64 (u32 (indices0 >>> 16)) pos
  let i2 := _pdep_u64 (u32 (indices1 >>> 0)) pos
  let i3 := _pdep_u64 (u32 (indices1 >>> 16)) pos
  _mm256_set_epi64x i3 i2 i1 i0

/-- The body of the `iy` loop of `DecodeDXT_AVX2` (TextureDecoder_x64.cpp): two DXT blocks
at byte offset `ofs`, written to the four rows at `dst32`. The state of the inner loop is
`index_shuffle` and the accesses so far. -/
def DecodeDXT_AVX2_blocks (dst32 : Nat) (src : Nat → Nat) (ofs width : Nat) : List Access :=
  let colors565 := _mm_load_si128 src ofs
  let palette := DecodeDXT_AVX2_palette (DecodeDXT_AVX2_colors8888 colors565)
  let index_bytes := DecodeDXT_AVX2_index_bytes (u32at src (ofs + 4)) (u32at src (ofs + 12))
  let index_shuffle := _mm256_set_epi32 0x00000000 0x01010101 0x02020202 0x03030303
    0x00000000 0x01010101 0x02020202 0x03030303
  ((List.range 4).foldl (fun (st : Nat × List Access) i =>
    let current_indices := _mm256_shuffle_epi8 index_bytes st.1
    let current_indices := current_indices ||| _mm256_set1_epi32 0x03020100
    let result := _mm256_shuffle_epi8 palette current_indices
    (_mm256_add_epi8 st.1 (_mm256_set1_epi8 4),
      st.2 ++ _mm256_store_si256 (dst32 + i * width) result))
    (index_shuffle, ([] : List Access))).2

/-- `DecodeDXT_AVX2` (TextureDecoder_x64.cpp): the loops over `y`, `x` and `iy`, with `ofs`
advancing by `2 * sizeof(DXTBlock) = 16` after each pair of blocks. -/
def DecodeDXT_AVX2 (src _tlut : Nat → Nat) (width height : Nat) : List Access :=
  ((List.range (loopCount height 8)).foldl (fun st i =>
    (List.range (loopCount width 8)).foldl (fun st j =>
      (List.range (loopCount 8 4)).foldl (fun st k =>
        (st.1 + 2 * 8,
          st.2 ++ DecodeDXT_AVX2_blocks ((i * 8 + k * 4) * width + j * 8) src st.1 width))
        st) st) ((0 : Nat), ([] : List Access))).2
/-! ## The decoder tables: `Init`, `Decode`, `GetPaletteSize` -/

def GX_TF_I4 : Nat := 0x0
def GX_TF_I8 : Nat := 0x1
def GX_TF_IA4 : Nat := 0x2
def GX_TF_IA8 : Nat := 0x3
def GX_TF_RGB565 : Nat := 0x4
def GX_TF_RGB5A3 : Nat := 0x5
def GX_TF_RGBA8 : Nat := 0x6
def GX_TF_C4 : Nat := 0x8
def GX_TF_C8 : Nat := 0x9
def GX_TF_C14X2 : Nat := 0xA
def GX_TF_CMPR : Nat := 0xE

/-- `GetPaletteSize` (TextureDecoder_Common.cpp): the palette size in bytes. -/
def GetPaletteSize (format : Nat) : Nat :=
  if format = GX_TF_C4 then 16 * 2
  else if format = GX_TF_C8 then 256 * 2
  else if format = GX_TF_C14X2 then 16384 * 2
  else 0

/-- `DecodeFunction` (TextureDecoder_Internal.h):
`void(u32* dst, const u8* src, const u16* tlut, int width, int height)`, as the accesses it
makes given `src`, `tlut`, `width` and `height`. -/
abbrev DecodeFunction := (Nat → Nat) → (Nat → Nat) → Nat → Nat → List Access

/-- An entry of `g_decoder_funcs`: a null pointer, a decoder, or one of the three functions
`DecodeC4`, `DecodeC8`, `DecodeC14` (TextureDecoder_Common.cpp) that look the decoder up in
`g_c4_funcs`, `g_c8_funcs`, `g_c14_funcs` when they are called. -/
inductive DecoderEntry where
  | null
  | func (f : DecodeFunction)
  | DecodeC4
  | DecodeC8
  | DecodeC14

/-- The tables `g_decoder_funcs`, `g_c4_funcs`, `g_c8_funcs`, `g_c14_funcs`
(TextureDecoder_Common.cpp). -/
structure DecoderTables where
  g_decoder_funcs : Nat → DecoderEntry
  g_c4_funcs : TlutFormat → Option DecodeFunction
  g_c8_funcs : TlutFormat → Option DecodeFunction
  g_c14_funcs : TlutFormat → Option DecodeFunction

/-- The zero-initialised tables. -/
def DecoderTables.empty : DecoderTables :=
  { g_decoder_funcs := fun _ => .null, g_c4_funcs := fun _ => none,
    g_c8_funcs := fun _ => none, g_c14_funcs := fun _ => none }

/-- The assignment `g_decoder_funcs[format] = e`. -/
def DecoderTables.setEntry (t : DecoderTables) (format : Nat) (e : DecoderEntry) :
    DecoderTables :=
  { t with g_decoder_funcs := fun i => if i = format then e else t.g_decoder_funcs i }

/-- The assignment `g_decoder_funcs[format] = f`. -/
def DecoderTables.setFunc (t : DecoderTables) (format : Nat) (f : DecodeFunction) :
    DecoderTables :=
  t.setEntry format (.func f)

/-- The assignment `g_c4_funcs[format] = f`. -/
def DecoderTables.setC4 (t : DecoderTables) (format : TlutFormat) (f : DecodeFunction) :
    DecoderTables :=
  { t with g_c4_funcs := fun i => if i = format then some f else t.g_c4_funcs i }

/-- The assignment `g_c8_funcs[format] = f`. -/
def DecoderTables.setC8 (t : DecoderTables) (format : TlutFormat) (f : DecodeFunction) :
    DecoderTables :=
  { t with g_c8_funcs := fun i => if i = format then some f else t.g_c8_funcs i }

/-- The assignment `g_c14_funcs[format] = f`. -/
def DecoderTables.setC14 (t : DecoderTables) (format : TlutFormat) (f : DecodeFunction) :
    DecoderTables :=
  { t with g_c14_funcs := fun i => if i = format then some f else t.g_c14_funcs i }

/-- `InitGeneric` (TextureDecoder_Generic.cpp). -/
def InitGeneric (t : DecoderTables) : DecoderTables :=
  let t := t.setFunc GX_TF_I4 (DecodeTexture 8 8 4 DecodeBytes_I4_Generic 1)
  let t := t.setFunc GX_TF_I8 (DecodeTexture 8 4 8 DecodeBytes_I8_Generic 1)
  let t := t.setFunc GX_TF_IA4 (DecodeTexture 8 4 8 DecodeBytes_IA4_Generic 1)
  let t := t.setFunc GX_TF_IA8 (DecodeTexture 4 4 8 DecodeBytes_IA8_Generic 1)
  let t := t.setFunc GX_TF_RGB565 (DecodeTexture 4 4 8 DecodeBytes_RGB565_Generic 1)
  let t := t.setFunc GX_TF_RGB5A3 (DecodeTexture 4 4 8 DecodeBytes_RGB5A3_Generic 1)
  let t := t.setFunc GX_TF_RGBA8 (DecodeTexture 4 4 16 DecodeBytes_RGBA8_Generic 4)
  let t := t.setFunc GX_TF_CMPR DecodeDXT_Generic
  let t := t.setC4 .GX_TL_IA8 (DecodeTexture 8 8 4 (DecodeBytes_C4_Generic .GX_TL_IA8) 1)
  let t := t.setC4 .GX_TL_RGB565 (DecodeTexture 8 8 4 (DecodeBytes_C4_Generic .GX_TL_RGB565) 1)
  let t := t.setC4 .GX_TL_RGB5A3 (DecodeTexture 8 8 4 (DecodeBytes_C4_Generic .GX_TL_RGB5A3) 1)
  let t := t.setC8 .GX_TL_IA8 (DecodeTexture 8 4 8 (DecodeBytes_C8_Generic .GX_TL_IA8) 1)
  let t := t.setC8 .GX_TL_RGB565 (DecodeTexture 8 4 8 (DecodeBytes_C8_Generic .GX_TL_RGB565) 1)
  let t := t.setC8 .GX_TL_RGB5A3 (DecodeTexture 8 4 8 (DecodeBytes_C8_Generic .GX_TL_RGB5A3) 1)
  let t := t.setC14 .GX_TL_IA8 (DecodeTexture 4 4 8 (DecodeBytes_C14X2_Generic .GX_TL_IA8) 1)
  let t :=
    t.setC14 .GX_TL_RGB565 (DecodeTexture 4 4 8 (DecodeBytes_C14X2_Generic .GX_TL_RGB565) 1)
  t.setC14 .GX_TL_RGB5A3 (DecodeTexture 4 4 8 (DecodeBytes_C14X2_Generic .GX_TL_RGB5A3) 1)

/-- `InitSSE2` (TextureDecoder_x64.cpp). -/
def InitSSE2 (t : DecoderTables) : DecoderTables :=
  let t := t.setFunc GX_TF_I4 (DecodeTexture 8 8 4 DecodeBytes_I4_SSE2 4)
  let t := t.setFunc GX_TF_I8 (DecodeTexture 8 4 8 DecodeBytes_I8_SSE2 1)
  let t := t.setFunc GX_TF_IA4 (DecodeTexture 8 4 8 DecodeBytes_IA4_SSE2 2)
  let t := t.setFunc GX_TF_IA8 (DecodeTexture 4 4 8 DecodeBytes_IA8_SSE2 2)
  let t := t.setFunc GX_TF_RGB565 (DecodeTexture 4 4 8 DecodeBytes_RGB565_SSE2 1)
  let t := t.setFunc GX_TF_RGB5A3 (DecodeTexture 4 4 8 DecodeBytes_RGB5A3_SSE2 2)
  let t := t.setFunc GX_TF_RGBA8 (DecodeTexture 4 4 16 DecodeBytes_RGBA8_SSE2 4)
  t.setFunc GX_TF_CMPR DecodeDXT_SSE2

/-- `InitSSSE3` (TextureDecoder_x64.cpp); `DecodeTextureSSSE3` is `DecodeTexture` compiled
for the SSSE3 target. -/
def InitSSSE3 (t : DecoderTables) : DecoderTables :=
  let t := t.setFunc GX_TF_I4 (DecodeTexture 8 8 4 DecodeBytes_I4_SSSE3 4)
  let t := t.setFunc GX_TF_I8 (DecodeTexture 8 4 8 DecodeBytes_I8_SSSE3 1)
  let t := t.setFunc GX_TF_IA4 (DecodeTexture 8 4 8 DecodeBytes_IA4_SSSE3 1)
  let t := t.setFunc GX_TF_IA8 (DecodeTexture 4 4 8 DecodeBytes_IA8_SSSE3 1)
  let t := t.setFunc GX_TF_RGB5A3 (DecodeTexture 4 4 8 DecodeBytes_RGB5A3_SSSE3 1)
  t.setFunc GX_TF_RGBA8 (DecodeTexture 4 4 16 DecodeBytes_RGBA8_SSSE3 4)

/-- `InitSSE41` (TextureDecoder_x64.cpp); `DecodeTextureSSE41` is `DecodeTexture` compiled
for the SSE4.1 target. -/
def InitSSE41 (t : DecoderTables) : DecoderTables :=
  t.setFunc GX_TF_RGB5A3 (DecodeTexture 4 4 8 DecodeBytes_RGB5A3_SSE41 1)

/-- `InitAVX2` (TextureDecoder_x64.cpp); `DecodeTextureAVX2` is `DecodeTexture` compiled for
the AVX2 target, followed by `_mm256_zeroupper()`, which touches no memory. -/
def InitAVX2 (t : DecoderTables) : DecoderTables :=
  let t := t.setFunc GX_TF_I4 (DecodeTexture 8 8 4 DecodeBytes_I4_AVX2 8)
  let t := t.setFunc GX_TF_I8 (DecodeTexture 8 4 8 DecodeBytes_I8_AVX2 2)
  let t := t.setFunc GX_TF_IA4 (DecodeTexture 8 4 8 DecodeBytes_IA4_AVX2 2)
  let t := t.setFunc GX_TF_RGB565 (DecodeTexture 4 4 8 DecodeBytes_RGB565_AVX2 2)
  let t := t.setFunc GX_TF_RGB5A3 (DecodeTexture 4 4 8 DecodeBytes_RGB5A3_AVX2 2)
  let t := t.setFunc GX_TF_RGBA8 (DecodeTexture 4 4 16 DecodeBytes_RGBA8_AVX2 4)
  let t := t.setFunc GX_TF_CMPR DecodeDXT_AVX2
  let t := t.setC4 .GX_TL_IA8 (DecodeTexture 8 8 4 (DecodeBytes_C4_AVX2 .GX_TL_IA8) 4)
  let t := t.setC4 .GX_TL_RGB565 (DecodeTexture 8 8 4 (DecodeBytes_C4_AVX2 .GX_TL_RGB565) 4)
  let t := t.setC4 .GX_TL_RGB5A3 (DecodeTexture 8 8 4 (DecodeBytes_C4_AVX2 .GX_TL_RGB5A3) 4)
  let t := t.setC8 .GX_TL_IA8 (DecodeTexture 8 4 8 (DecodeBytes_C8_AVX2 .GX_TL_IA8) 2)
  let t := t.setC8 .GX_TL_RGB565 (DecodeTexture 8 4 8 (DecodeBytes_C8_AVX2 .GX_TL_RGB565) 2)
  let t := t.setC8 .GX_TL_RGB5A3 (DecodeTexture 8 4 8 (DecodeBytes_C8_AVX2 .GX_TL_RGB5A3) 2)
  let t := t.setC14 .GX_TL_IA8 (DecodeTexture 4 4 8 (DecodeBytes_C14_AVX2 .GX_TL_IA8) 2)
  let t := t.setC14 .GX_TL_RGB565 (DecodeTexture 4 4 8 (DecodeBytes_C14_AVX2 .GX_TL_RGB565) 2)
  t.setC14 .GX_TL_RGB5A3 (DecodeTexture 4 4 8 (DecodeBytes_C14_AVX2 .GX_TL_RGB5A3) 2)

/-- The fields of `cpu_info` (Common/CPUDetect.h, not among the sources) that `InitX64`
reads. -/
structure CPUInfo where
  bSSE2 : Bool
  bSSSE3 : Bool
  bSSE4_1 : Bool
  bAVX2 : Bool
  deriving DecidableEq, Repr

/-- `InitX64` (TextureDecoder_x64.cpp). -/
def InitX64 (cpu_info : CPUInfo) (t : DecoderTables) : DecoderTables :=
  if !cpu_info.bSSE2 then t
  else
    let t := InitSSE2 t
    if !cpu_info.bSSSE3 then t
    else
      let t := InitSSSE3 t
      if !cpu_info.bSSE4_1 then t
      else
        let t := InitSSE41 t
        if !cpu_info.bAVX2 then t
        else InitAVX2 t

/-- `TextureDecoder::Init` (TextureDecoder_Common.cpp) on an x86 build, from the
zero-initialised tables. -/
def Init (cpu_info : CPUInfo) : DecoderTables :=
  let t := DecoderTables.empty.setEntry GX_TF_C4 .DecodeC4
  let t := t.setEntry GX_TF_C8 .DecodeC8
  let t := t.setEntry GX_TF_C14X2 .DecodeC14
  let t := InitGeneric t
  InitX64 cpu_info t

/-- The levels of the enumeration `CPU` of TextureDecoderTest.cpp. -/
inductive CPU where
  | Generic
  | SSE2
  | SSSE3
  | SSE41
  | AVX2
  deriving DecidableEq, Repr

/-- `SetCPU` (TextureDecoderTest.cpp): the `cpu_info` the test sets for a level, on a
machine whose real flags are `real_cpu`. -/
def SetCPU (real_cpu : CPUInfo) : CPU → CPUInfo
  | .Generic => { bSSE2 := false, bSSSE3 := false, bSSE4_1 := false, bAVX2 := false }
  | .SSE2 => { bSSE2 := real_cpu.bSSE2, bSSSE3 := false, bSSE4_1 := false, bAVX2 := false }
  | .SSSE3 =>
    { bSSE2 := real_cpu.bSSE2, bSSSE3 := real_cpu.bSSSE3, bSSE4_1 := false, bAVX2 := false }
  | .SSE41 =>
    { bSSE2 := real_cpu.bSSE2, bSSSE3 := real_cpu.bSSSE3, bSSE4_1 := real_cpu.bSSE4_1,
      bAVX2 := false }
  | .AVX2 =>
    { bSSE2 := real_cpu.bSSE2, bSSSE3 := real_cpu.bSSSE3, bSSE4_1 := real_cpu.bSSE4_1,
      bAVX2 := real_cpu.bAVX2 }

/-- The call `g_decoder_funcs[texformat](dst32, src, tlut, width, height)` of `Decode`
(TextureDecoder_Common.cpp) with `s_tlutfmt = tlutfmt`: the accesses of the decoder, or
`none` when the pointer called is null. -/
def DecoderTables.call (t : DecoderTables) (src : Nat → Nat) (width height texformat : Nat)
    (tlut : Nat → Nat) (tlutfmt : TlutFormat) : Option (List Access) :=
  match t.g_decoder_funcs texformat with
  | .null => none
  | .func f => some (f src tlut width height)
  | .DecodeC4 => (t.g_c4_funcs tlutfmt).map fun f => f src tlut width height
  | .DecodeC8 => (t.g_c8_funcs tlutfmt).map fun f => f src tlut width height
  | .DecodeC14 => (t.g_c14_funcs tlutfmt).map fun f => f src tlut width height

/-- `TextureDecoder::Decode` (TextureDecoder_Common.cpp). `DrawOverlay` uses the font of
VideoCommon/sfont.inc, which is not among the sources: its stores, which depend on `width`,
`height` and `texformat` only, are a parameter. -/
def Decode (t : DecoderTables) (TexFmt_Overlay_Enable : Bool)
    (DrawOverlay : Nat → Nat → Nat → List Access) (src : Nat → Nat)
    (width height texformat : Nat) (tlut : Nat → Nat) (tlutfmt : TlutFormat) :
    Option (List Access) :=
  (t.call src width height texformat tlut tlutfmt).map fun l =>
    if TexFmt_Overlay_Enable then l ++ DrawOverlay width height texformat else l

/-- Whether every palette read of a list of accesses lies within the first `n` bytes of the
palette. -/
def tlutReadsWithin (n : Nat) (l : List Access) : Bool :=
  l.all fun a => match a with
    | .tlutLoad offset size => decide (offset + size ≤ n)
    | .store _ _ => true

/-- Whether an access is a store to the destination. -/
def Access.isStore : Access → Bool
  | .store _ _ => true
  | .tlutLoad _ _ => false

/-! ## Auxiliary definitions for the paletted decoders -/

/-- The 16-bit lanes of its input from which `DecodePixels_AVX2<format, swap>` makes its
eight pixels, in pixel order: the low half of each 32-bit lane, the two lanes of each
64-bit pair exchanged when `swap` is set. -/
def pixelLanes16 (swap : Bool) : List Nat :=
  if swap then [2, 0, 6, 4, 10, 8, 14, 12] else [0, 2, 4, 6, 8, 10, 12, 14]

/-- The byte-swapped 16-bit words of the register `c` at the lanes `pixelLanes16 swap`. -/
def swappedLanes16 (swap : Bool) (c : Nat) : List Nat :=
  (pixelLanes16 swap).map fun j => swap16 (laneOf 16 c j)

/-- The colour index that reaches 32-bit lane `m` of row `i` in `DecodeBytes_C4_AVX2`: the
low nibble of source byte `4 * i + m / 2` for even `m`, the high nibble for odd `m`. -/
def C4nibble (x i m : Nat) : Nat :=
  if m % 2 = 0 then laneOf 8 x (4 * i + m / 2) &&& 0xF else laneOf 8 x (4 * i + m / 2) >>> 4

/-- The byte indices `DecodeBytes_C4_AVX2` makes from the colour index `n` in a 32-bit
lane: `2 * (n & 7)` and `2 * (n & 7) + 1` in the two low bytes. -/
def C4indLane (n : Nat) : Nat := ((n &&& 7) <<< 1) ||| (((n &&& 7) <<< 1) <<< 8) ||| 0x100

/-- The blend mask `DecodeBytes_C4_AVX2` makes from the colour index `n` in a 32-bit lane:
all ones when bit 3 of `n` is set. -/
def C4maskLane (n : Nat) : Nat := if n &&& 8 ≠ 0 then 0xFFFFFFFF else 0

/-! ## Auxiliary definitions for the CMPR decoders -/

/-- The value `((x2 - x1) >> 1) - ((x2 - x1) >> 3)` of `DecodeDXTBlock`, on `int`. -/
def dxtDelta (x1 x2 : Nat) : Int := (((x2 : Int) - x1) >>> 1) - (((x2 : Int) - x1) >>> 3)

/-- A channel of `colors[2]` of `DecodeDXTBlock` when `c1 > c2`: `x1 + x3`. -/
def dxtThird (x1 x2 : Nat) : Nat := ((x1 : Int) + dxtDelta x1 x2).toNat

/-- A channel of `colors[3]` of `DecodeDXTBlock` when `c1 > c2`: `x2 - x3`. -/
def dxtTwoThirds (x1 x2 : Nat) : Nat := ((x2 : Int) - dxtDelta x1 x2).toNat

/-- A channel of `colors[2]` of `DecodeDXTBlock` when `c1 <= c2`: `(x1 + x2 + 1) / 2`. -/
def dxtAvg (x1 x2 : Nat) : Nat := (x1 + x2 + 1) / 2

/-- Byte `b` (of 16) of the four-entry palette of a DXT block whose first two entries are
`a0` and `a1`, `gt` telling whether `c1 > c2`: the bytes of `a0`, of `a1`, of `colors[2]`
and of `colors[3]`, each channel of the last two made from the same channel of `a0` and
`a1`; when `c1 <= c2` the alpha byte of `colors[3]` is 0. -/
def DXTPaletteByte (gt : Bool) (a0 a1 : Nat) (b : Nat) : Nat :=
  if b < 4 then laneOf 8 a0 (b % 4)
  else if b < 8 then laneOf 8 a1 (b % 4)
  else if b < 12 then
    (if gt then dxtThird (laneOf 8 a0 (b % 4)) (laneOf 8 a1 (b % 4))
    else dxtAvg (laneOf 8 a0 (b % 4)) (laneOf 8 a1 (b % 4)))
  else
    (if gt then dxtTwoThirds (laneOf 8 a0 (b % 4)) (laneOf 8 a1 (b % 4))
    else if b % 4 = 3 then 0 else dxtAvg (laneOf 8 a0 (b % 4)) (laneOf 8 a1 (b % 4)))

/-- The four-entry palette with the bytes `DXTPaletteByte`. -/
def DXTPalette (gt : Bool) (a0 a1 : Nat) : List Nat :=
  (List.range 4).map fun j => ofLanes 8 4 fun t => DXTPaletteByte gt a0 a1 (4 * j + t)

/-- Byte of `rgbdelta` in `DecodeDXT_SSE2`, from the channel `u` of the first colour and
the channel `v` of the second: the lane-wise `subs`, `srai`, `sub`, mask and `packus`. -/
def sse2Delta (u v : Nat) : Nat :=
  packusLane (((sraLane 16 (subsLane v u % 2 ^ 16) 1 % 2 ^ 16 + 2 ^ 16 -
    sraLane 16 (subsLane v u % 2 ^ 16) 3 % 2 ^ 16) % 2 ^ 16) &&& (0x00FF % 2 ^ 16)) % 2 ^ 8

/-- Byte of `rgb210` in `DecodeDXT_SSE2`: the lane-wise `avg` and `packus`. -/
def sse2Avg (u v : Nat) : Nat := packusLane (((u + v + 1) >>> 1) % 2 ^ 16) % 2 ^ 8

/-- The sequence of `DecodeDXT_SSE2` from `rrggbb1`, `rrggbb0` to `rgbdeltadup`. -/
def sse2PackedDelta (rrggbb1 rrggbb0 : Nat) : Nat :=
  let rrggbbsub := _mm_subs_epi16 rrggbb1 rrggbb0
  let rrggbbsubshr1 := _mm_srai_epi16 rrggbbsub 1
  let rrggbbsubshr3 := _mm_srai_epi16 rrggbbsub 3
  let shr1subshr3 := _mm_sub_epi16 rrggbbsubshr1 rrggbbsubshr3
  let rrggbbdelta := shr1subshr3 &&& _mm_set1_epi16 0x00FF
  _mm_packus_epi16 rrggbbdelta rrggbbdelta

/-- The sequence of `DecodeDXT_SSE2` from `rrggbb0`, `rrggbb1` to the packed average. -/
def sse2PackedAvg (rrggbb0 rrggbb1 : Nat) : Nat :=
  let rrggbb21 := _mm_avg_epu16 rrggbb0 rrggbb1
  _mm_packus_epi16 rrggbb21 rrggbb21

/-- The two `if`s of `DecodeDXT_SSE2` that make `rgb2` and `rgb3`, from `rgb0`, `rgb1` and
the two comparison results (the body of `DecodeDXT_SSE2_rgb23` after its two shuffles). -/
def sse2Rgb23 (rgb0 rgb1 cmp0 cmp1 : Nat) : Nat × Nat :=
  let mask0f := _mm_set1_epi16 0x00FF
  let rrggbb0 := _mm_unpacklo_epi8 rgb0 rgb0 &&& mask0f
  let rrggbb1 := _mm_unpacklo_epi8 rgb1 rgb1 &&& mask0f
  let rrggbb01 := _mm_unpackhi_epi8 rgb0 rgb0 &&& mask0f
  let rrggbb11 := _mm_unpackhi_epi8 rgb1 rgb1 &&& mask0f
  let rgb23 : Nat × Nat :=
    if cmp0 ≠ 0 then
      let rgbdelta := _mm_srli_si128 (_mm_slli_si128 (sse2PackedDelta rrggbb1 rrggbb0) 8) 8
      (_mm_add_epi8 rgb0 rgbdelta &&& _mm_set_epi64x 0 0xFFFFFFFFFFFFFFFF,
       _mm_sub_epi8 rgb1 rgbdelta &&& _mm_set_epi64x 0 0xFFFFFFFFFFFFFFFF)
    else
      let rgb210 := _mm_srli_si128 (sse2PackedAvg rrggbb0 rrggbb1) 8
      (rgb210, rgb210 &&& _mm_set1_epi32 0x00FFFFFF)
  if cmp1 ≠ 0 then
    let rgbdelta1 := _mm_slli_si128 (sse2PackedDelta rrggbb11 rrggbb01) 8
    (rgb23.1 ||| (_mm_add_epi8 rgb0 rgbdelta1 &&& _mm_set_epi64x 0xFFFFFFFFFFFFFFFF 0),
     rgb23.2 ||| (_mm_sub_epi8 rgb1 rgbdelta1 &&& _mm_set_epi64x 0xFFFFFFFFFFFFFFFF 0))
  else
    let rgb2 := rgb23.1 ||| _mm_slli_si128 (sse2PackedAvg rrggbb01 rrggbb11) 8
    (rgb2,
     rgb23.2 ||| (rgb2 &&& _mm_set1_epi32 0x00FFFFFF &&& _mm_set_epi64x 0xFFFFFFFFFFFFFFFF 0))

/-- The word `delta` of `DecodeDXT_AVX2` from the channel `x0` of the first colour and the
channel `x1` of the second: the lane-wise `sub`, `srai`, `srai` and `sub`. -/
def avx2Delta (x0 x1 : Nat) : Nat :=
  (sraLane 16 ((x1 + 2 ^ 16 - x0) % 2 ^ 16) 1 % 2 ^ 16 + 2 ^ 16 -
    sraLane 16 ((x1 + 2 ^ 16 - x0) % 2 ^ 16) 3 % 2 ^ 16) % 2 ^ 16

/-- The sequence of `DecodeDXT_AVX2` from `colors16`, the two `c0`, `c1` before the
reordering and the two after it to `palette` (the body of `DecodeDXT_AVX2_palette` after
its shuffles). -/
def avx2Palette (colors16 c0 c1 c0s c1s : Nat) : Nat :=
  let diff := _mm256_sub_epi16 c1 c0
  let diff2 := _mm256_srai_epi16 diff 1
  let diff8 := _mm256_srai_epi16 diff 3
  let delta := _mm256_sub_epi16 diff2 diff8
  let c2_1 := _mm256_add_epi16 colors16 delta
  let c3_1 := _mm256_sub_epi16 colors16 delta
  let c2_0 := _mm256_avg_epu16 c1 c0
  let c3_0 := c2_0 &&& _mm256_set1_epi64x 0x0000FFFFFFFFFFFF
  let c32_0 := _mm256_blend_epi16 c3_0 c2_0 0b00001111
  let c32_1 := _mm256_blend_epi16 c3_1 c2_1 0b00001111
  let cmp := _mm256_cmpgt_epi64 c0s c1s
  let c32 := _mm256_blendv_epi8 c32_0 c32_1 cmp
  _mm256_packus_epi16 colors16 c32

/-- The 64-bit key `DecodeDXT_AVX2` compares: blue, green and red of an ABGR8888 colour as
16-bit fields, red highest. -/
def rgbKey (a : Nat) : Nat :=
  laneOf 8 a 2 ||| (laneOf 8 a 1 <<< 16) ||| (laneOf 8 a 0 <<< 32)

/-- The value of `_pdep_u64(a, pos)` in `DecodeDXT_AVX2` by bytes: byte `m` is four times
selector `m` of `a`. -/
def avx2Deposit (a : Nat) : Nat := ofLanes 8 8 fun m => ((a >>> (2 * m)) &&& 3) <<< 2

/-- Register `current_indices` of `DecodeDXT_AVX2` in row `r` of the `iy` loop, the four
`_pdep_u64` results written as `avx2Deposit`. `index_shuffle` has had `_mm256_set1_epi8(4)`
added `r` times. -/
def avx2CurrentIndices (indices0 indices1 r : Nat) : Nat :=
  let index_bytes := _mm256_set_epi64x (avx2Deposit (u32 (indices1 >>> 16)))
    (avx2Deposit (u32 (indices1 >>> 0))) (avx2Deposit (u32 (indices0 >>> 16)))
    (avx2Deposit (u32 (indices0 >>> 0)))
  let index_shuffle := Nat.iterate (fun s => _mm256_add_epi8 s (_mm256_set1_epi8 4)) r
    (_mm256_set_epi32 0x00000000 0x01010101 0x02020202 0x03030303
      0x00000000 0x01010101 0x02020202 0x03030303)
  _mm256_shuffle_epi8 index_bytes index_shuffle ||| _mm256_set1_epi32 0x03020100

/-! ## HLE: the Gecko return trampoline -/

/-- The part of `PowerPCState` that `GeckoReturnTrampoline` (HLE_Misc.cpp) names, together
with guest memory `M`: the general-purpose registers, `npc`, the link register, the
condition register (of representation `C`) and the paired singles `ps[i]` as the pair
`(ps0, ps1)` of their 64-bit patterns. -/
structure PowerPCState (M C : Type) where
  gpr : Nat → Nat
  npc : Nat
  LR : Nat
  cr : C
  ps : Nat → Nat × Nat
  memory : M

/-- What `GeckoReturnTrampoline` uses and its file does not define: the host reads of guest
memory and `ConditionRegister::Set`. -/
structure TrampolineEnv (M C : Type) where
  HostRead_U32 : M → Nat → Nat
  HostRead_U64 : M → Nat → Nat
  crSet : C → Nat → C

/-- `GeckoReturnTrampoline` (HLE_Misc.cpp). Addresses are `u32`; `sizeof(u64)` is 8. -/
def GeckoReturnTrampoline {M C : Type} (G : TrampolineEnv M C) (ppc_state : PowerPCState M C) :
    PowerPCState M C :=
  let SP := u32 (ppc_state.gpr 1)
  let st : PowerPCState M C := { ppc_state with
    gpr := fun r => if r = 1 then u32 (G.HostRead_U32 ppc_state.memory (u32 (SP + 8)))
      else ppc_state.gpr r }
  let st : PowerPCState M C := { st with npc := u32 (G.HostRead_U32 st.memory (u32 (SP + 12))) }
  let st : PowerPCState M C := { st with LR := u32 (G.HostRead_U32 st.memory (u32 (SP + 16))) }
  let st : PowerPCState M C :=
    { st with cr := G.crSet st.cr (u32 (G.HostRead_U32 st.memory (u32 (SP + 20)))) }
  (List.range 14).foldl (fun (st : PowerPCState M C) i =>
    { st with ps := fun k =>
        if k = i then
          (u64 (G.HostRead_U64 st.memory (u32 (SP + 24 + 2 * i * 8))),
            u64 (G.HostRead_U64 st.memory (u32 (SP + 24 + (2 * i + 1) * 8))))
        else st.ps k }) st

/-- A sample environment: memory as a function from address to byte, read big-endian; the
condition register kept as the 32-bit value given to `Set`. -/
def sampleTrampoline : TrampolineEnv (Nat → Nat) Nat where
  HostRead_U32 := fun m a =>
    (List.range 4).foldl (fun acc i => acc * 256 + m (a + i) % 256) 0
  HostRead_U64 := fun m a =>
    (List.range 8).foldl (fun acc i => acc * 256 + m (a + i) % 256) 0
  crSet := fun _ v => v

/-- A sample state: the stack pointer four bytes below the top of the address space, every
memory byte equal to the low byte of its address. -/
def samplePPCState : PowerPCState (Nat → Nat) Nat where
  gpr := fun r => if r = 1 then 0xFFFFFFFC else r
  npc := 0
  LR := 0
  cr := 0
  ps := fun _ => (0, 0)
  memory := fun a => a % 256

/-! ## The emulated heart rate monitor -/

/-- The state of `HeartRateMonitor` (HeartRateMonitor.h) that its transfers use: the `u8`
member `m_state`. -/
structure HeartRateMonitor where
  m_state : Nat
  deriving DecidableEq, Repr

/-- The constructor `HeartRateMonitor::HeartRateMonitor`: `m_state(0)`. -/
def HeartRateMonitor.new : HeartRateMonitor := { m_state := 0 }

/-- What one `SubmitTransfer` does to its message and returns: the bytes handed to
`FillBuffer` (none when it is not called), the arguments of `ScheduleTransferCompletion`
(return value and expected time in microseconds) and the `int` returned. -/
structure TransferResult where
  buffer : List Nat
  completion : Option (Nat × Nat)
  ret : Int
  deriving DecidableEq, Repr

/-- A control message as `SubmitTransfer(CtrlMessage)` reads it; `cmd` are the bytes
`MakeBuffer(length)` returns. -/
structure CtrlMessage where
  request_type : Nat
  request : Nat
  value : Nat
  length : Nat
  cmd : List Nat

/-- `HeartRateMonitor::SubmitTransfer(std::unique_ptr<CtrlMessage>)`. -/
def SubmitTransfer_CtrlMessage (d : HeartRateMonitor) (message : CtrlMessage) :
    HeartRateMonitor × TransferResult :=
  let HID_SET_REPORT := 9
  let REPORT_0_OUTPUT := 0x0200
  let d :=
    if message.request_type = 0x21 ∧ message.request = HID_SET_REPORT ∧
        message.value = REPORT_0_OUTPUT ∧ message.length = 2 then
      let cmd0 := (message.cmd.getD 0 0 % 256) &&& 0x9F
      let cmd1 := message.cmd.getD 1 0 % 256
      if cmd0 = 0x14 ∧ cmd1 = 0x13 then { d with m_state := 0 } else d
    else d
  (d, { buffer := [], completion := some (message.length, 0), ret := 0 })

/-- `HeartRateMonitor::SubmitTransfer(std::unique_ptr<IntrMessage>)`: `response` is the
16-byte array after `std::fill` and the assignments, `FillBuffer(response, n)` takes its
first `n` bytes. -/
def SubmitTransfer_IntrMessage (d : HeartRateMonitor) : HeartRateMonitor × TransferResult :=
  if d.m_state = 0 then
    let response := List.replicate 16 0x80
    ({ d with m_state := 1 },
      { buffer := response.take 16, completion := some (16, 1000), ret := 0 })
  else
    let response := List.replicate 16 0x80
    let response := response.set 0x0B 0x7B
    let response := response.set 0x0C 0x0C
    let response := response.set 0x0D (0x00 ||| 0x20)
    let response := response.set 0x0E (0x00 ||| 0x20)
    ({ d with m_state := 0 },
      { buffer := response.take 15, completion := some (15, 1000), ret := 0 })

/-- The four kinds of message a `SubmitTransfer` overload takes. -/
inductive Message where
  | ctrl (m : CtrlMessage)
  | bulk
  | intr
  | iso

/-- The four `SubmitTransfer` overloads; the bulk and isochronous ones only log and
return 0. -/
def SubmitTransfer (d : HeartRateMonitor) : Message → HeartRateMonitor × TransferResult
  | .ctrl m => SubmitTransfer_CtrlMessage d m
  | .bulk => (d, { buffer := [], completion := none, ret := 0 })
  | .intr => SubmitTransfer_IntrMessage d
  | .iso => (d, { buffer := [], completion := none, ret := 0 })

/-- Successive `SubmitTransfer` calls: the final device and the results in order. -/
def submitAll : HeartRateMonitor → List Message → HeartRateMonitor × List TransferResult
  | d, [] => (d, [])
  | d, m :: ms =>
    let r := SubmitTransfer d m
    let rest := submitAll r.1 ms
    (rest.1, r.2 :: rest.2)

/-- The answer to an interrupt transfer in state 0: sixteen bytes 0x80. -/
def hrmPacket16 : TransferResult :=
  { buffer := [0x80, 0x80, 0x80, 0x80, 0x80, 0x80, 0x80, 0x80,
      0x80, 0x80, 0x80, 0x80, 0x80, 0x80, 0x80, 0x80],
    completion := some (16, 1000), ret := 0 }

/-- The answer to an interrupt transfer in any other state: fifteen bytes, 0x80 except at
0x0B..0x0E. -/
def hrmPacket15 : TransferResult :=
  { buffer := [0x80, 0x80, 0x80, 0x80, 0x80, 0x80, 0x80, 0x80,
      0x80, 0x80, 0x80, 0x7B, 0x0C, 0x20, 0x20],
    completion := some (15, 1000), ret := 0 }

/-! ## Reading from a real Wii Remote on Linux -/

/-- What the system calls of one `WiimoteLinux::IORead` (IONix.cpp) report: the result of
`select`, the two `FD_ISSET` tests, the result of the one-byte `read` from the wakeup pipe,
the result of `read(m_int_sock, buf, MAX_PAYLOAD)` as `none` for -1 and `some n` for `n`
bytes, and whether `errno` is `ENOTCONN` after it. -/
structure IOReadCalls where
  select : Int
  wakeup_pipe_r_set : Bool
  wakeup_read : Int
  int_sock_set : Bool
  read : Option Nat
  errno_ENOTCONN : Bool
  deriving DecidableEq, Repr

/-- The `ERROR_LOG` lines of `IORead`. -/
inductive IOReadError where
  | unableToSelect
  | unableToReadWakeupPipe
  | receivingData
  | bluetoothDisconnected
  deriving DecidableEq, Repr

/-- What one `IORead` did: the `int` returned, the errors logged in order and whether the
interrupt socket was read. -/
structure IOReadResult where
  ret : Int
  errors : List IOReadError
  socketRead : Bool
  deriving DecidableEq, Repr

/-- `WiimoteLinux::IORead` (IONix.cpp). -/
def IORead (c : IOReadCalls) : IOReadResult :=
  if c.select = -1 then
    { ret := -1, errors := [.unableToSelect], socketRead := false }
  else if c.wakeup_pipe_r_set then
    { ret := -1, errors := if c.wakeup_read ≠ 1 then [.unableToReadWakeupPipe] else [],
      socketRead := false }
  else if !c.int_sock_set then
    { ret := -1, errors := [], socketRead := false }
  else
    match c.read with
    | none =>
      { ret := 0,
        errors := if c.errno_ENOTCONN then [.receivingData, .bluetoothDisconnected]
          else [.receivingData],
        socketRead := true }
    | some r => { ret := r, errors := [], socketRead := true }

/-- A call whose `select` fails. -/
def selectFailure : IOReadCalls :=
  { select := -1, wakeup_pipe_r_set := false, wakeup_read := 0, int_sock_set := false,
    read := none, errno_ENOTCONN := false }

/-! ## Block sizes and single-texel decoding -/

/-- The flags `_GX_TF_ZTF` and `_GX_TF_CTF` of `enum TextureFormat` (TextureDecoder.h). -/
def _GX_TF_ZTF : Nat := 0x10
def _GX_TF_CTF : Nat := 0x20

/-- The depth and copy formats of `enum TextureFormat` (TextureDecoder.h). -/
def GX_TF_Z8 : Nat := 0x1 ||| _GX_TF_ZTF
def GX_TF_Z16 : Nat := 0x3 ||| _GX_TF_ZTF
def GX_TF_Z24X8 : Nat := 0x6 ||| _GX_TF_ZTF
def GX_CTF_R4 : Nat := 0x0 ||| _GX_TF_CTF
def GX_CTF_RA4 : Nat := 0x2 ||| _GX_TF_CTF
def GX_CTF_RA8 : Nat := 0x3 ||| _GX_TF_CTF
def GX_CTF_YUVA8 : Nat := 0x6 ||| _GX_TF_CTF
def GX_CTF_A8 : Nat := 0x7 ||| _GX_TF_CTF
def GX_CTF_R8 : Nat := 0x8 ||| _GX_TF_CTF
def GX_CTF_G8 : Nat := 0x9 ||| _GX_TF_CTF
def GX_CTF_B8 : Nat := 0xA ||| _GX_TF_CTF
def GX_CTF_RG8 : Nat := 0xB ||| _GX_TF_CTF
def GX_CTF_GB8 : Nat := 0xC ||| _GX_TF_CTF
def GX_CTF_Z4 : Nat := 0x0 ||| _GX_TF_ZTF ||| _GX_TF_CTF
def GX_CTF_Z8H : Nat := 0x8 ||| _GX_TF_ZTF ||| _GX_TF_CTF
def GX_CTF_Z8M : Nat := 0x9 ||| _GX_TF_ZTF ||| _GX_TF_CTF
def GX_CTF_Z8L : Nat := 0xA ||| _GX_TF_ZTF ||| _GX_TF_CTF
def GX_CTF_Z16R : Nat := 0xB ||| _GX_TF_ZTF ||| _GX_TF_CTF
def GX_CTF_Z16L : Nat := 0xC ||| _GX_TF_ZTF ||| _GX_TF_CTF

/-- `GetBlockWidthInTexels` (TextureDecoder_Common.cpp): the cases of the switch that
return 4; every other case, and the default after its alert, returns 8. -/
def GetBlockWidthInTexels (format : Nat) : Nat :=
  if format ∈ [GX_TF_IA8, GX_TF_RGB565, GX_TF_RGB5A3, GX_TF_RGBA8, GX_TF_C14X2, GX_CTF_RA8,
      GX_CTF_RG8, GX_CTF_GB8, GX_TF_Z16, GX_TF_Z24X8, GX_CTF_Z16R, GX_CTF_Z16L] then 4
  else 8

/-- `GetBlockHeightInTexels` (TextureDecoder_Common.cpp): the cases of the switch that
return 8; every other case, and the default after its alert, returns 4. -/
def GetBlockHeightInTexels (format : Nat) : Nat :=
  if format ∈ [GX_TF_I4, GX_TF_C4, GX_TF_CMPR, GX_CTF_R4, GX_CTF_Z4] then 8
  else 4

/-- The destination indices a list of accesses stores to, in order. -/
def storeIndices (l : List Access) : List Nat :=
  (l.filter Access.isStore).map Access.index

/-- `DecodePixel_Paletted` (TextureDecoder_Common.cpp). -/
def DecodePixel_Paletted (pixel : Nat) (tlutfmt : TlutFormat) : Nat :=
  let pixel := swap16 pixel
  match tlutfmt with
  | .GX_TL_IA8 => DecodePixel_IA8 pixel
  | .GX_TL_RGB565 => DecodePixel_RGB565 pixel
  | .GX_TL_RGB5A3 => DecodePixel_RGB5A3 pixel

/-- The block arithmetic every case of `DecodeTexel` (TextureDecoder_Common.cpp) starts
with, for the shifts `sShift`, `tShift` and `baseShift` of the case:
`sBlk = s >> sShift`, `tBlk = t >> tShift`, `widthBlks = (imageWidth >> sShift) + 1` (all
`u16`), `base = (tBlk * widthBlks + sBlk) << baseShift` (`u32`), `blkS`, `blkT` the low bits
of `s` and `t`, `blkOff = (blkT << sShift) + blkS`. The result is `(base, blkOff)`. -/
def texelBlock (s t imageWidth sShift tShift baseShift : Nat) : Nat × Nat :=
  let sBlk := (s >>> sShift) % 65536
  let tBlk := (t >>> tShift) % 65536
  let widthBlks := ((imageWidth >>> sShift) + 1) % 65536
  let base := u32 ((tBlk * widthBlks + sBlk) <<< baseShift)
  let blkS := s &&& (2 ^ sShift - 1)
  let blkT := t &&& (2 ^ tShift - 1)
  let blkOff := (blkT <<< sShift) + blkS
  (base, blkOff)

/-- The four bytes `dst[0..3]` as the `u32` they form on the little-endian host. -/
def bytesToU32 (b0 b1 b2 b3 : Nat) : Nat :=
  (b0 % 256) ||| ((b1 % 256) <<< 8) ||| ((b2 % 256) <<< 16) ||| ((b3 % 256) <<< 24)

/-- `DecodeTexel` (TextureDecoder_Common.cpp) for `s, t, imageWidth >= 0`: the `u32` left
in the four bytes at `dst`, or `none` when the switch has no case for `texformat` and
nothing is written. -/
def DecodeTexel (src : Nat → Nat) (s t imageWidth texformat : Nat) (tlut : Nat → Nat)
    (tlutfmt : TlutFormat) : Option Nat :=
  if texformat = GX_TF_C4 then
    let b := texelBlock s t imageWidth 3 3 5
    let rs := if b.2 &&& 1 ≠ 0 then 0 else 4
    let offset := u32 (b.1 + (b.2 >>> 1))
    let val := (u8at src offset >>> rs) &&& 0xF
    some (DecodePixel_Paletted (tlutAt tlut val) tlutfmt)
  else if texformat = GX_TF_I4 then
    let b := texelBlock s t imageWidth 3 3 5
    let rs := if b.2 &&& 1 ≠ 0 then 0 else 4
    let offset := u32 (b.1 + (b.2 >>> 1))
    let val := (u8at src offset >>> rs) &&& 0xF
    let val := Convert4To8 val
    some (bytesToU32 val val val val)
  else if texformat = GX_TF_I8 then
    let b := texelBlock s t imageWidth 3 2 5
    let val := u8at src (b.1 + b.2)
    some (bytesToU32 val val val val)
  else if texformat = GX_TF_C8 then
    let b := texelBlock s t imageWidth 3 2 5
    let val := u8at src (b.1 + b.2)
    some (DecodePixel_Paletted (tlutAt tlut val) tlutfmt)
  else if texformat = GX_TF_IA4 then
    let b := texelBlock s t imageWidth 3 2 5
    let val := u8at src (b.1 + b.2)
    let a := Convert4To8 (val >>> 4)
    let l := Convert4To8 (val &&& 0xF)
    some (bytesToU32 l l l a)
  else if texformat = GX_TF_IA8 then
    let b := texelBlock s t imageWidth 2 2 4
    let offset := u32 ((b.1 + b.2) <<< 1)
    some (DecodePixel_IA8 (u16at src offset))
  else if texformat = GX_TF_C14X2 then
    let b := texelBlock s t imageWidth 2 2 4
    let offset := u32 ((b.1 + b.2) <<< 1)
    let val := swap16 (u16at src offset) &&& 0x3FFF
    some (DecodePixel_Paletted (tlutAt tlut val) tlutfmt)
  else if texformat = GX_TF_RGB565 then
    let b := texelBlock s t imageWidth 2 2 4
    let offset := u32 ((b.1 + b.2) <<< 1)
    some (DecodePixel_RGB565 (swap16 (u16at src offset)))
  else if texformat = GX_TF_RGB5A3 then
    let b := texelBlock s t imageWidth 2 2 4
    let offset := u32 ((b.1 + b.2) <<< 1)
    some (DecodePixel_RGB5A3 (swap16 (u16at src offset)))
  else if texformat = GX_TF_RGBA8 then
    let b := texelBlock s t imageWidth 2 2 5
    let offset := u32 ((b.1 + b.2) <<< 1)
    some (bytesToU32 (u8at src (offset + 1)) (u8at src (offset + 32)) (u8at src (offset + 33))
      (u8at src offset))
  else if texformat = GX_TF_CMPR then
    some (DecodeTexel_CMPR src s t imageWidth)
  else none

/-- An IA8 texture whose byte at offset `a` is `a mod 256`. -/
def rampTexture : Nat → Nat := fun a => a % 256

/-! ## Arithmetic of flags and masks -/

theorem u32_lt (x : Nat) : u32 x < 4294967296 := Nat.mod_lt _ (by norm_num)

theorem u32_u32 (x : Nat) : u32 (u32 x) = u32 x := Nat.mod_mod _ _

theorem or_eq_zero_iff (a b : Nat) : a ||| b = 0 ↔ a = 0 ∧ b = 0 := by
  constructor
  · intro h
    have key : ∀ i, a.testBit i = false ∧ b.testBit i = false := by
      intro i
      have hi := congrArg (fun n => Nat.testBit n i) h
      simpa [Nat.testBit_or] using hi
    exact ⟨Nat.eq_of_testBit_eq (by intro i; simp [(key i).1]),
      Nat.eq_of_testBit_eq (by intro i; simp [(key i).2])⟩
  · rintro ⟨rfl, rfl⟩
    simp

theorem and_or_eq_zero_iff (x a b : Nat) :
    x &&& (a ||| b) = 0 ↔ x &&& a = 0 ∧ x &&& b = 0 := by
  rw [Nat.and_or_distrib_left, or_eq_zero_iff]

theorem and_mod_of_lt {a : Nat} (b : Nat) (h : a < 4294967296) :
    (a &&& b) % 4294967296 = a &&& b :=
  Nat.mod_eq_of_lt (Nat.lt_of_le_of_lt Nat.and_le_left h)

theorem TEST_ZF (x b : Nat) : (TEST 32 (u32 x) b).ZF = decide (u32 x &&& b = 0) := by
  simp only [TEST, logicFlags]
  norm_num [and_mod_of_lt b (u32_lt x)]

theorem taken_Z (f : Flags) : CCFlags.taken .CC_Z f = f.ZF := rfl

theorem taken_NZ (f : Flags) : CCFlags.taken .CC_NZ f = !f.ZF := rfl

theorem u32_and_all (x : Nat) : u32 x &&& 4294967295 = u32 x := by
  have h := Nat.and_pow_two_sub_one_eq_mod (u32 x) 32
  norm_num at h
  rw [h]
  exact u32_u32 x

theorem TEST_all_ZF (x : Nat) : (TEST 32 (u32 x) 0xFFFFFFFF).ZF = decide (u32 x = 0) := by
  rw [TEST_ZF, u32_and_all]

theorem TEST_zero_ZF : (TEST 32 0 4294967295).ZF = true := by decide

theorem s32_nonneg_iff (x : Nat) : 0 ≤ s32 x ↔ x % 4294967296 < 2147483648 := by
  unfold s32
  norm_num
  split <;> omega

/-! ## The tag lookup -/

theorem selectMemBase_emu (E : Env) (m : Machine) : (selectMemBase E m).emu = m.emu := by
  simp only [selectMemBase]
  split <;> rfl

theorem selectMemBase_RMEM (E : Env) (m : Machine) :
    (selectMemBase E m).RMEM =
      if u32 m.emu.msr &&& 16 ≠ 0 then E.logical_base else E.physical_base := by
  have h16 : 1 <<< (31 - 27) = 16 := by decide
  simp only [selectMemBase, h16, TEST_ZF, CCFlags.taken]
  by_cases h : u32 m.emu.msr &&& 16 = 0 <;> simp [h]

/-- What the lookup leaves behind, whatever machine it starts from. -/
theorem lookupTag_spec (E : Env) (m : Machine) :
    (lookupTag E m).2 =
      [ if u32 m.emu.pc &&& E.JIT_ICACHE_VMEM_BIT ≠ 0 then
          Event.ReadTag .iCacheVMEM (u32 m.emu.pc &&& E.JIT_ICACHE_MASK)
        else if E.bWii = true ∧ u32 m.emu.pc &&& E.JIT_ICACHE_EXRAM_BIT ≠ 0 then
          Event.ReadTag .iCacheEx (u32 m.emu.pc &&& E.JIT_ICACHEEX_MASK)
        else
          Event.ReadTag .iCache (u32 m.emu.pc &&& E.JIT_ICACHE_MASK) ] ∧
    (lookupTag E m).1.RSCRATCH =
      (if u32 m.emu.pc &&& E.JIT_ICACHE_VMEM_BIT ≠ 0 then
          u32 (m.emu.iCacheVMEM (u32 m.emu.pc &&& E.JIT_ICACHE_MASK))
        else if E.bWii = true ∧ u32 m.emu.pc &&& E.JIT_ICACHE_EXRAM_BIT ≠ 0 then
          u32 (m.emu.iCacheEx (u32 m.emu.pc &&& E.JIT_ICACHEEX_MASK))
        else
          u32 (m.emu.iCache (u32 m.emu.pc &&& E.JIT_ICACHE_MASK))) ∧
    (lookupTag E m).1.emu = m.emu ∧ (lookupTag E m).1.RMEM = m.RMEM := by
  have hm : ∀ b, (u32 m.emu.pc &&& b) % 4294967296 = u32 m.emu.pc &&& b :=
    fun b => and_mod_of_lt b (u32_lt m.emu.pc)
  by_cases hv : u32 m.emu.pc &&& E.JIT_ICACHE_VMEM_BIT = 0 <;>
  by_cases hx : u32 m.emu.pc &&& E.JIT_ICACHE_EXRAM_BIT = 0 <;>
  cases hw : E.bWii <;>
  cases h1 : E.fitsIcache <;> cases h2 : E.fitsIcacheVmem <;> cases h3 : E.fitsIcacheEx <;>
  simp [lookupTag, loadTag, TEST_ZF, AND, CCFlags.taken, hm, hv, hx, hw, h1, h2, h3,
    and_or_eq_zero_iff]

theorem lookupTag_tag_lt (E : Env) (m : Machine) :
    (lookupTag E m).1.RSCRATCH < 4294967296 := by
  rw [(lookupTag_spec E m).2.1]
  split
  · exact u32_lt _
  · split <;> exact u32_lt _

theorem lookupTag_congr (E : Env) (m n : Machine) (h : m.emu = n.emu) :
    (lookupTag E m).1.RSCRATCH = (lookupTag E n).1.RSCRATCH ∧
      (lookupTag E m).2 = (lookupTag E n).2 := by
  rw [(lookupTag_spec E m).2.1, (lookupTag_spec E n).2.1, (lookupTag_spec E m).1,
    (lookupTag_spec E n).1, h]
  exact ⟨rfl, rfl⟩

/-- Claim C2: for every 32-bit PC and both platform settings the lookup reads exactly
one tag table at a masked offset (iCacheVMEM when the VMEM bit is set, else on Wii
iCacheEx when the EXRAM bit is set, else iCache), and the tag it leaves in RSCRATCH
is the word read there, never the unmasked PC. -/
theorem lookupTag_reads_one_masked_tag (E : Env) (m : Machine) :
    (lookupTag E m).2 =
      [ if u32 m.emu.pc &&& E.JIT_ICACHE_VMEM_BIT ≠ 0 then
          Event.ReadTag .iCacheVMEM (u32 m.emu.pc &&& E.JIT_ICACHE_MASK)
        else if E.bWii = true ∧ u32 m.emu.pc &&& E.JIT_ICACHE_EXRAM_BIT ≠ 0 then
          Event.ReadTag .iCacheEx (u32 m.emu.pc &&& E.JIT_ICACHEEX_MASK)
        else
          Event.ReadTag .iCache (u32 m.emu.pc &&& E.JIT_ICACHE_MASK) ] ∧
    (lookupTag E m).1.RSCRATCH =
      (if u32 m.emu.pc &&& E.JIT_ICACHE_VMEM_BIT ≠ 0 then
          u32 (m.emu.iCacheVMEM (u32 m.emu.pc &&& E.JIT_ICACHE_MASK))
        else if E.bWii = true ∧ u32 m.emu.pc &&& E.JIT_ICACHE_EXRAM_BIT ≠ 0 then
          u32 (m.emu.iCacheEx (u32 m.emu.pc &&& E.JIT_ICACHEEX_MASK))
        else
          u32 (m.emu.iCache (u32 m.emu.pc &&& E.JIT_ICACHE_MASK))) :=
  ⟨(lookupTag_spec E m).1, (lookupTag_spec E m).2.1⟩

/-! ## CheckCache -/

theorem CheckCache_ok_iff (E : Env) (e : Emu) (b : Nat) :
    (CheckCache E e b).ok = true ↔
      u64 (E.crccode (codeWords e.physical (u32 (e.blockAt b).originalAddress)
        (s32 (e.blockAt b).originalSize))) = u64 (e.blockAt b).crc := by
  unfold CheckCache
  by_cases h : u64 (E.crccode (codeWords e.physical (u32 (e.blockAt b).originalAddress)
        (s32 (e.blockAt b).originalSize))) = u64 (e.blockAt b).crc <;> simp [h]

theorem CheckCache_ok_emu (E : Env) (e : Emu) (b : Nat) (h : (CheckCache E e b).ok = true) :
    (CheckCache E e b).emu = e ∧ (CheckCache E e b).calls = [] := by
  have hc := (CheckCache_ok_iff E e b).1 h
  unfold CheckCache
  simp [hc]

/-! ## The segment at dispatcherNoCheck -/

/-- For a tag whose byte offset fits 32 bits the record handed to CheckCache is the
one at index tag of the block array (when the array lies below 2^64). -/
theorem blockPtr_eq_index (E : Env) (tag : Nat)
    (h : tag * E.sizeofJitBlock < 4294967296)
    (hb : E.blockPointers + tag * E.sizeofJitBlock < 18446744073709551616) :
    blockPtr E tag = E.blockPointers + tag * E.sizeofJitBlock := by
  unfold blockPtr
  norm_num
  rw [Nat.mod_eq_of_lt h, Nat.mod_eq_of_lt (by omega)]
  omega


theorem validateAndJump_next (E : Env) (m : Machine) (ev : List Event)
    (hlt : m.RSCRATCH < 4294967296) :
    (validateAndJump E m ev).next =
      if 2147483648 ≤ m.RSCRATCH then Label.notfound
      else if E.bICache = true then
        if (CheckCache E m.emu (blockPtr E m.RSCRATCH)).ok = true then
          Label.block (m.emu.codePointers m.RSCRATCH)
        else Label.notfound
      else Label.block (m.emu.codePointers m.RSCRATCH) := by
  have hmod : m.RSCRATCH % 4294967296 = m.RSCRATCH := Nat.mod_eq_of_lt hlt
  have hu : u32 (u32 m.RSCRATCH) = m.RSCRATCH := by simp [u32, hmod]
  have hSF : (TEST 32 m.RSCRATCH m.RSCRATCH).SF = decide (2147483648 ≤ m.RSCRATCH) := by
    simp [TEST, logicFlags, hmod]
  have hOF : (TEST 32 m.RSCRATCH m.RSCRATCH).OF = false := rfl
  have hb : (m.RSCRATCH * E.sizeofJitBlock % 4294967296 + E.blockPointers) %
      18446744073709551616 = blockPtr E m.RSCRATCH := by simp [blockPtr]
  have h80 : (TEST 8 0 0).ZF = true := by decide
  have h81 : (TEST 8 1 1).ZF = false := by decide
  by_cases hs : 2147483648 ≤ m.RSCRATCH
  · simp [validateAndJump, CCFlags.taken, hSF, hOF, hs]
  · cases hI : E.bICache
    · cases hF : E.fitsCodePointers <;>
        simp [validateAndJump, jumpToBlock, CCFlags.taken, hSF, hOF, hs, hI, hF]
    · cases hok : (CheckCache E m.emu (blockPtr E m.RSCRATCH)).ok
      · cases hF : E.fitsCodePointers <;>
          simp [validateAndJump, jumpToBlock, CCFlags.taken, hSF, hOF, hs, hI, hF, hb, hok, h80, h81]
      · have he := (CheckCache_ok_emu E m.emu _ hok).1
        cases hF : E.fitsCodePointers <;>
          simp [validateAndJump, jumpToBlock, CCFlags.taken, hSF, hOF, hs, hI, hF, hb, hok, h80, h81,
            hu, he]

theorem CheckCache_calls_no_block (E : Env) (e : Emu) (b code : Nat) :
    Event.RunBlock code ∉ (CheckCache E e b).calls := by
  unfold CheckCache
  by_cases h : u64 (E.crccode (codeWords e.physical (u32 (e.blockAt b).originalAddress)
        (s32 (e.blockAt b).originalSize))) = u64 (e.blockAt b).crc <;> simp [h]

theorem validateAndJump_events (E : Env) (m : Machine) (ev : List Event) :
    (validateAndJump E m ev).events =
      ev ++ (if CCFlags.taken .CC_L (TEST 32 m.RSCRATCH m.RSCRATCH) = true then []
        else if E.bICache = true then
          Event.CheckCache (blockPtr E m.RSCRATCH) (CheckCache E m.emu (blockPtr E m.RSCRATCH)).ok
            :: (CheckCache E m.emu (blockPtr E m.RSCRATCH)).calls
        else []) := by
  have hb : (m.RSCRATCH * E.sizeofJitBlock % 4294967296 + E.blockPointers) %
      18446744073709551616 = blockPtr E m.RSCRATCH := by simp [blockPtr]
  cases hs : CCFlags.taken .CC_L (TEST 32 m.RSCRATCH m.RSCRATCH) <;>
  cases hI : E.bICache <;>
  cases hF : E.fitsCodePointers <;>
  cases hZ : CCFlags.taken .CC_Z (TEST 8
      (if (CheckCache E m.emu (blockPtr E m.RSCRATCH)).ok = true then 1 else 0)
      (if (CheckCache E m.emu (blockPtr E m.RSCRATCH)).ok = true then 1 else 0)) <;>
  simp [validateAndJump, jumpToBlock, hs, hI, hF, hb, hZ]

theorem validateAndJump_RMEM (E : Env) (m : Machine) (ev : List Event) :
    (validateAndJump E m ev).m.RMEM = m.RMEM := by
  have hb : (m.RSCRATCH * E.sizeofJitBlock % 4294967296 + E.blockPointers) %
      18446744073709551616 = blockPtr E m.RSCRATCH := by simp [blockPtr]
  cases hs : CCFlags.taken .CC_L (TEST 32 m.RSCRATCH m.RSCRATCH) <;>
  cases hI : E.bICache <;>
  cases hF : E.fitsCodePointers <;>
  cases hZ : CCFlags.taken .CC_Z (TEST 8
      (if (CheckCache E m.emu (blockPtr E m.RSCRATCH)).ok = true then 1 else 0)
      (if (CheckCache E m.emu (blockPtr E m.RSCRATCH)).ok = true then 1 else 0)) <;>
  simp [validateAndJump, jumpToBlock, hs, hI, hF, hb, hZ]

theorem validateAndJump_block_emu (E : Env) (m : Machine) (ev : List Event) (code : Nat)
    (h : (validateAndJump E m ev).next = Label.block code) :
    (validateAndJump E m ev).m.emu = m.emu := by
  have hb : (m.RSCRATCH * E.sizeofJitBlock % 4294967296 + E.blockPointers) %
      18446744073709551616 = blockPtr E m.RSCRATCH := by simp [blockPtr]
  have h80 : CCFlags.taken .CC_Z (TEST 8 0 0) = true := by decide
  have h81 : CCFlags.taken .CC_Z (TEST 8 1 1) = false := by decide
  revert h
  cases hok : (CheckCache E m.emu (blockPtr E m.RSCRATCH)).ok
  · cases hs : CCFlags.taken .CC_L (TEST 32 m.RSCRATCH m.RSCRATCH) <;>
    cases hI : E.bICache <;>
    cases hF : E.fitsCodePointers <;>
    simp [validateAndJump, jumpToBlock, hs, hI, hF, hb, hok, h80, h81]
  · have he := (CheckCache_ok_emu E m.emu _ hok).1
    cases hs : CCFlags.taken .CC_L (TEST 32 m.RSCRATCH m.RSCRATCH) <;>
    cases hI : E.bICache <;>
    cases hF : E.fitsCodePointers <;>
    simp [validateAndJump, jumpToBlock, hs, hI, hF, hb, hok, h80, h81, he]

theorem step_dispatcherNoCheck_next (E : Env) (m : Machine) :
    (Generate E .dispatcherNoCheck m).next =
      if 2147483648 ≤ (lookupTag E m).1.RSCRATCH then Label.notfound
      else if E.bICache = true then
        if (CheckCache E m.emu (blockPtr E (lookupTag E m).1.RSCRATCH)).ok = true then
          Label.block (m.emu.codePointers (lookupTag E m).1.RSCRATCH)
        else Label.notfound
      else Label.block (m.emu.codePointers (lookupTag E m).1.RSCRATCH) := by
  have hc := (lookupTag_congr E (selectMemBase E m) m (selectMemBase_emu E m)).1
  have he : (lookupTag E (selectMemBase E m)).1.emu = m.emu := by
    rw [(lookupTag_spec E (selectMemBase E m)).2.2.1, selectMemBase_emu]
  simp only [Generate]
  rw [validateAndJump_next E _ _ (lookupTag_tag_lt E _), hc, he]

theorem step_notfound (E : Env) (m : Machine) :
    (Generate E .notfound m).next = Label.dispatcherNoCheck ∧
      (Generate E .notfound m).events = [Event.Jit (u32 m.emu.pc)] ∧
      (Generate E .notfound m).m.emu = E.Jit (u32 m.emu.pc) m.emu :=
  ⟨rfl, rfl, rfl⟩

theorem step_dispatcherNoCheck_no_block (E : Env) (m : Machine) (code : Nat) :
    Event.RunBlock code ∉ (Generate E .dispatcherNoCheck m).events := by
  show Event.RunBlock code ∉ (validateAndJump E (lookupTag E (selectMemBase E m)).1
      (lookupTag E (selectMemBase E m)).2).events
  rw [validateAndJump_events, (lookupTag_spec E _).1]
  simp only [List.mem_append, not_or]
  constructor
  · split
    · simp
    · split <;> simp
  · cases h1 : CCFlags.taken .CC_L (TEST 32 (lookupTag E (selectMemBase E m)).1.RSCRATCH
        (lookupTag E (selectMemBase E m)).1.RSCRATCH) <;>
    cases hI : E.bICache <;> simp [CheckCache_calls_no_block]

/-- Claim C1: with bICache set, the segment at dispatcherNoCheck jumps into a
block's native code if and only if the tag loaded for PC is non-negative as a signed
32-bit value and CheckCache on the block record addressed for that tag returns true;
the target is then codePointers[tag].  In every other case control reaches the Jit
call first: the next segment is the one that calls Jit(pc), and no block has run. -/
theorem dispatcherNoCheck_runs_block_iff_validated (E : Env) (m : Machine)
    (hI : E.bICache = true) :
    let tag := (lookupTag E m).1.RSCRATCH
    let valid := 0 ≤ s32 tag ∧ (CheckCache E m.emu (blockPtr E tag)).ok = true
    let o := Generate E .dispatcherNoCheck m
    ((∃ code, o.next = Label.block code) ↔ valid) ∧
    (valid → o.next = Label.block (m.emu.codePointers tag)) ∧
    (¬ valid →
      o.next = Label.notfound ∧
      (Generate E .notfound o.m).events = [Event.Jit (u32 o.m.emu.pc)] ∧
      ∀ code, Event.RunBlock code ∉ o.events ++ (Generate E .notfound o.m).events) := by
  intro tag valid o
  have hlt : tag < 4294967296 := lookupTag_tag_lt E m
  have hnext : o.next = _ := step_dispatcherNoCheck_next E m
  simp only [hI, if_true] at hnext
  have hvalid : valid ↔ ¬ 2147483648 ≤ tag ∧ (CheckCache E m.emu (blockPtr E tag)).ok = true := by
    simp only [valid, s32_nonneg_iff, Nat.mod_eq_of_lt hlt, Nat.not_le]
  have hev : ∀ code, Event.RunBlock code ∉ o.events :=
    fun code => step_dispatcherNoCheck_no_block E m code
  by_cases hv : valid
  · have hv2 := hvalid.1 hv
    have hb : o.next = Label.block (m.emu.codePointers tag) := by
      rw [hnext]; simp only [tag] at hv2 ⊢; simp [hv2.1, hv2.2]
    exact ⟨⟨fun _ => hv, fun _ => ⟨_, hb⟩⟩, fun _ => hb, fun h => absurd hv h⟩
  · have hb : o.next = Label.notfound := by
      rw [hnext]
      by_cases hs : 2147483648 ≤ tag
      · simp only [tag] at hs ⊢; simp [hs]
      · have hok : ¬ (CheckCache E m.emu (blockPtr E tag)).ok = true :=
          fun h => hv (hvalid.2 ⟨hs, h⟩)
        simp only [tag] at hs hok ⊢; simp [hs, hok]
    refine ⟨⟨fun ⟨code, hc⟩ => ?_, fun h => absurd h hv⟩, fun h => absurd h hv, fun _ => ⟨hb, rfl, ?_⟩⟩
    · rw [hb] at hc; cases hc
    · intro code
      simp only [List.mem_append, not_or]
      exact ⟨hev code, by simp [Generate]⟩

/-- In the sample state bICache is set, the tag is 5 and the checksum matches: block 5 is entered. -/
theorem dispatcherNoCheck_runs_block_iff_validated_witness :
    sampleEnv.bICache = true ∧
      (Generate sampleEnv .dispatcherNoCheck sampleMachine).next = Label.block 28752 :=
  ⟨rfl, (dispatcherNoCheck_runs_block_iff_validated sampleEnv sampleMachine rfl).2.1
    ⟨by decide, by decide⟩⟩

/-! ## Self-modifying code detection -/

theorem read32_congr (old cur : Nat → Nat) (a : Nat)
    (h : ∀ k, k < 4 → old (a + k) % 256 = cur (a + k) % 256) : read32 old a = read32 cur a := by
  have h0 := h 0 (by norm_num)
  have h1 := h 1 (by norm_num)
  have h2 := h 2 (by norm_num)
  have h3 := h 3 (by norm_num)
  simp only [Nat.add_zero] at h0
  simp only [read32, h0, h1, h2, h3]

theorem codeWords_congr (old cur : Nat → Nat) (blk : JitBlock)
    (h : ∀ a, inCodeRange blk a → old a % 256 = cur a % 256) :
    codeWords old (u32 blk.originalAddress) (s32 blk.originalSize) =
      codeWords cur (u32 blk.originalAddress) (s32 blk.originalSize) := by
  unfold codeWords
  apply List.map_congr_left
  intro i hi
  have hi2 : i < (s32 blk.originalSize).toNat := List.mem_range.1 hi
  apply read32_congr
  intro k hk
  apply h
  unfold inCodeRange
  omega

theorem digitMem_differs (x y : Nat) (hx : x < 18446744073709551617)
    (hy : y < 18446744073709551617) (hxy : x ≠ y) :
    ∃ a, a < 12 ∧ digitMem x a % 256 ≠ digitMem y a % 256 := by
  by_contra hcon
  push_neg at hcon
  have h0 := hcon 0 (by norm_num)
  have h1 := hcon 1 (by norm_num)
  have h2 := hcon 2 (by norm_num)
  have h3 := hcon 3 (by norm_num)
  have h4 := hcon 4 (by norm_num)
  have h5 := hcon 5 (by norm_num)
  have h6 := hcon 6 (by norm_num)
  have h7 := hcon 7 (by norm_num)
  have h8 := hcon 8 (by norm_num)
  simp only [digitMem] at h0 h1 h2 h3 h4 h5 h6 h7 h8
  norm_num at h0 h1 h2 h3 h4 h5 h6 h7 h8
  omega

/-- Claim C3 as stated fails.  In the sample state two guest stores change both
instructions of block 5 and leave the sample checksum as recorded: CheckCache returns
true and the stale block is run.  And this is not peculiar to the sample checksum:
whatever 64-bit function crccode is, there are a block whose recorded crc is the
checksum of its range at compile time and a later memory whose bytes differ inside
that range for which CheckCache still returns true. -/
theorem CheckCache_accepts_some_changed_range :
    (u64 (collidingEmu.blockAt 66016).crc =
        u64 (sampleEnv.crccode (codeWords sampleEmu.physical
          (u32 (collidingEmu.blockAt 66016).originalAddress)
          (s32 (collidingEmu.blockAt 66016).originalSize))) ∧
      inCodeRange (collidingEmu.blockAt 66016) 0x3104 ∧
      sampleEmu.physical 0x3104 % 256 ≠ collidingEmu.physical 0x3104 % 256 ∧
      (CheckCache sampleEnv collidingEmu 66016).ok = true ∧
      (run sampleEnv 2 .dispatcherNoCheck (machineOf collidingEmu)).events =
        [Event.ReadTag .iCache 0x3100, Event.CheckCache 66016 true, Event.RunBlock 28752]) ∧
    ¬ ∃ E : Env, ∀ (old : Nat → Nat) (e : Emu) (b : Nat),
        u64 (e.blockAt b).crc = u64 (E.crccode (codeWords old
          (u32 (e.blockAt b).originalAddress) (s32 (e.blockAt b).originalSize))) →
        (∃ a, inCodeRange (e.blockAt b) a ∧ old a % 256 ≠ e.physical a % 256) →
        (CheckCache E e b).ok = false := by
  refine ⟨⟨by decide, by unfold inCodeRange; decide, by decide, by decide, by decide⟩, ?_⟩
  rintro ⟨E, h⟩
  let f : Fin (2 ^ 64 + 1) → Fin (2 ^ 64) := fun n =>
    ⟨u64 (E.crccode (codeWords (digitMem n.val) (u32 0) (s32 3))), Nat.mod_lt _ (by norm_num)⟩
  obtain ⟨x, y, hxy, hf⟩ := Fintype.exists_ne_map_eq_of_card_lt f
    (by rw [Fintype.card_fin, Fintype.card_fin]; exact Nat.lt_succ_self _)
  have hcrc : u64 (E.crccode (codeWords (digitMem x.val) (u32 0) (s32 3))) =
      u64 (E.crccode (codeWords (digitMem y.val) (u32 0) (s32 3))) := congrArg Fin.val hf
  have hne : x.val ≠ y.val := fun hv => hxy (Fin.ext hv)
  obtain ⟨a, ha, hda⟩ := digitMem_differs x.val y.val (by have := x.isLt; norm_num at this; exact this)
    (by have := y.isLt; norm_num at this; exact this) hne
  have hs3 : (s32 3).toNat = 3 := by decide
  have hu0 : u32 0 = 0 := by decide
  have hfalse := h (digitMem x.val)
    (emuWith (digitMem y.val) ⟨0, 3, E.crccode (codeWords (digitMem x.val) (u32 0) (s32 3))⟩) 0 rfl
    ⟨a, ⟨by simp [emuWith, hu0], by simp only [emuWith, hu0, hs3]; omega⟩, hda⟩
  have htrue := (CheckCache_ok_iff E
    (emuWith (digitMem y.val) ⟨0, 3, E.crccode (codeWords (digitMem x.val) (u32 0) (s32 3))⟩) 0).2
    hcrc.symm
  rw [hfalse] at htrue
  cases htrue

/-- Claim C3, amended: CheckCache recomputes the checksum over the block's range and
returns true exactly when it equals the recorded crc.  For a block whose crc was
recorded from memory old, unchanged bytes in the range give true, and false is only
returned when some byte of the range differs; and with bICache set a false result at
dispatch leads to the Jit call. -/
theorem CheckCache_true_iff_checksum_matches (E : Env) (m : Machine) (b : Nat) :
    ((CheckCache E m.emu b).ok = true ↔
      u64 (E.crccode (codeWords m.emu.physical (u32 (m.emu.blockAt b).originalAddress)
        (s32 (m.emu.blockAt b).originalSize))) = u64 (m.emu.blockAt b).crc) ∧
    (∀ old : Nat → Nat,
      u64 (m.emu.blockAt b).crc = u64 (E.crccode (codeWords old
        (u32 (m.emu.blockAt b).originalAddress) (s32 (m.emu.blockAt b).originalSize))) →
      ((∀ a, inCodeRange (m.emu.blockAt b) a → old a % 256 = m.emu.physical a % 256) →
        (CheckCache E m.emu b).ok = true) ∧
      ((CheckCache E m.emu b).ok = false →
        ∃ a, inCodeRange (m.emu.blockAt b) a ∧ old a % 256 ≠ m.emu.physical a % 256)) ∧
    (E.bICache = true → b = blockPtr E (lookupTag E m).1.RSCRATCH →
      (CheckCache E m.emu b).ok = false →
      (Generate E .dispatcherNoCheck m).next = Label.notfound ∧
      (Generate E .notfound (Generate E .dispatcherNoCheck m).m).events =
        [Event.Jit (u32 (Generate E .dispatcherNoCheck m).m.emu.pc)]) := by
  have hsame : ∀ old : Nat → Nat,
      u64 (m.emu.blockAt b).crc = u64 (E.crccode (codeWords old
        (u32 (m.emu.blockAt b).originalAddress) (s32 (m.emu.blockAt b).originalSize))) →
      (∀ a, inCodeRange (m.emu.blockAt b) a → old a % 256 = m.emu.physical a % 256) →
      (CheckCache E m.emu b).ok = true := by
    intro old hrec hsame
    rw [CheckCache_ok_iff, ← codeWords_congr old m.emu.physical _ hsame, hrec]
  refine ⟨CheckCache_ok_iff E m.emu b, fun old hrec => ⟨hsame old hrec, fun hfail => ?_⟩,
    fun hI hb hfail => ⟨?_, rfl⟩⟩
  · by_contra hcon
    push_neg at hcon
    rw [hsame old hrec hcon] at hfail
    cases hfail
  · rw [step_dispatcherNoCheck_next, ← hb]
    simp [hI, hfail]

/-- After a store into block 5 that changes its checksum the dispatch ends at the Jit call. -/
theorem CheckCache_true_iff_checksum_matches_witness :
    (Generate sampleEnv .dispatcherNoCheck (machineOf staleEmu)).next = Label.notfound :=
  ((CheckCache_true_iff_checksum_matches sampleEnv (machineOf staleEmu) 66016).2.2
    rfl (by decide) (by decide)).1

/-! ## The bail test and the debug check -/

theorem SUB_BE (a b : Nat) :
    CCFlags.taken .CC_BE (SUB 32 a b).2 = decide (a % 4294967296 ≤ b % 4294967296) := by
  simp only [SUB, CCFlags.taken]
  norm_num
  by_cases h : a % 4294967296 ≤ b % 4294967296
  · simp only [h, decide_True, Bool.or_eq_true, decide_eq_true_eq]
    omega
  · simp only [h, decide_False, Bool.or_eq_false_iff, decide_eq_false_iff_not]
    omega

theorem s32_sub_nonpos_iff (d c : Nat) (hd0 : 0 < d) (hd : d < 2147483648)
    (hc : c < 2147483648) :
    s32 ((d + 4294967296 - c) % 4294967296) ≤ 0 ↔ d ≤ c := by
  unfold s32
  norm_num
  split <;> omega

theorem dispatcherEntry_spec (E : Env) (m : Machine) :
    (dispatcherEntry E m).next =
      (if CCFlags.taken .CC_BE m.flags = true then Label.doTiming
        else if E.bEnableDebugging = true then
          if u32 m.emu.state &&& E.CPU_STEPPING = 0 then Label.dispatcherNoCheck
          else if u32 (E.CheckBreakPoints m.emu).state = 0 then Label.dispatcherNoCheck
          else Label.landingPad
        else Label.dispatcherNoCheck) ∧
    (dispatcherEntry E m).events =
      (if CCFlags.taken .CC_BE m.flags = true then []
        else if E.bEnableDebugging = true then
          if u32 m.emu.state &&& E.CPU_STEPPING = 0 then [] else [Event.CheckBreakPoints]
        else []) ∧
    (dispatcherEntry E m).m.emu =
      (if CCFlags.taken .CC_BE m.flags = true then m.emu
        else if E.bEnableDebugging = true then
          if u32 m.emu.state &&& E.CPU_STEPPING = 0 then m.emu else E.CheckBreakPoints m.emu
        else m.emu) := by
  cases hb : CCFlags.taken .CC_BE m.flags <;>
  cases hD : E.bEnableDebugging <;>
  by_cases hs : u32 m.emu.state &&& E.CPU_STEPPING = 0 <;>
  by_cases hz : u32 (E.CheckBreakPoints m.emu).state = 0 <;>
  simp [dispatcherEntry, hb, hD, hs, hz, TEST_ZF, u32_and_all, TEST_zero_ZF, taken_Z, taken_NZ]

theorem timing_spec (E : Env) (m : Machine) :
    (timing E m).events =
      (if u32 m.emu.Exceptions &&& (E.EXCEPTION_EXTERNAL_INT |||
          E.EXCEPTION_PERFORMANCE_MONITOR ||| E.EXCEPTION_DECREMENTER) = 0 then []
        else [Event.CheckExternalExceptions]) ∧
    (timing E m).m.emu =
      (if u32 m.emu.Exceptions &&& (E.EXCEPTION_EXTERNAL_INT |||
          E.EXCEPTION_PERFORMANCE_MONITOR ||| E.EXCEPTION_DECREMENTER) = 0 then m.emu
        else E.CheckExternalExceptions { m.emu with npc := u32 m.emu.pc }) ∧
    (timing E m).next =
      (if u32 (timing E m).m.emu.state = 0 then Label.outerLoop else Label.landingPad) := by
  by_cases hp : u32 m.emu.Exceptions &&& (E.EXCEPTION_EXTERNAL_INT |||
      E.EXCEPTION_PERFORMANCE_MONITOR ||| E.EXCEPTION_DECREMENTER) = 0
  · by_cases hz : u32 m.emu.state = 0 <;>
      simp [timing, hp, hz, TEST_ZF, u32_and_all, TEST_zero_ZF, taken_Z, taken_NZ]
  · by_cases hz : u32 (E.CheckExternalExceptions { m.emu with npc := u32 m.emu.pc }).state = 0 <;>
      simp [timing, hp, hz, TEST_ZF, u32_and_all, TEST_zero_ZF, taken_Z, taken_NZ]

/-- Claim C4 as stated fails: in the sample state CoreTiming::Advance leaves downcount
at 0, yet the dispatcher goes on to read the tag, validate block 5 and run it; no
second Advance comes first. -/
theorem outerLoop_dispatches_with_exhausted_downcount :
    s32 (sampleEnv.Advance sampleMachine.emu).downcount ≤ 0 ∧
    (run sampleEnv 3 .outerLoop sampleMachine).events =
      [Event.Advance, Event.ReadTag .iCache 0x3100, Event.CheckCache 66016 true,
        Event.RunBlock 28752] := by
  decide

/-- Claim C4, amended: after CoreTiming::Advance returns, the outer loop jumps
unconditionally to dispatcherNoCheck, whatever downcount is; nothing but the call of
Advance happens in that segment, and the next segment starts the tag lookup. -/
theorem outerLoop_jumps_to_dispatcherNoCheck (E : Env) (m : Machine) :
    (Generate E .outerLoop m).next = Label.dispatcherNoCheck ∧
    (Generate E .outerLoop m).events = [Event.Advance] ∧
    (Generate E .outerLoop m).m.emu = E.Advance m.emu ∧
    ∃ t off rest,
      (Generate E .dispatcherNoCheck (Generate E .outerLoop m).m).events = Event.ReadTag t off :: rest := by
  refine ⟨rfl, rfl, rfl, ?_⟩
  have hr : (Generate E .dispatcherNoCheck (Generate E .outerLoop m).m).events = _ :=
    validateAndJump_events E _ _
  rw [hr, (lookupTag_spec E _).1]
  split
  · exact ⟨_, _, _, rfl⟩
  · split <;> exact ⟨_, _, _, rfl⟩

/-- Claim C5: entering at dispatcherMispredictedBLR with 0 < downcount < 2^31 and a cost
below 2^31 in RSCRATCH2, downcount becomes d - c mod 2^32; if that is not positive the
dispatcher goes to doTiming without any event (no lookup, no block), and the timing
segment then leads to the outer loop or the exit with at most the external exception
call; if it is positive the dispatcher does not bail and continues towards dispatch
(dispatcherNoCheck, or with debugging enabled possibly the debug exit). -/
theorem mispredictedBLR_bails_iff_downcount_not_positive (E : Env) (m : Machine)
    (hd0 : 0 < m.emu.downcount) (hd : m.emu.downcount < 2 ^ 31) (hc : m.RSCRATCH2 < 2 ^ 31) :
    let o1 := Generate E .dispatcherMispredictedBLR m
    let o2 := Generate E o1.next o1.m
    let o3 := Generate E .doTiming o2.m
    o1.next = Label.dispatcher ∧ o1.events = [] ∧
    o1.m.emu.downcount = (m.emu.downcount + 2 ^ 32 - m.RSCRATCH2) % 2 ^ 32 ∧
    (s32 o1.m.emu.downcount ≤ 0 →
      o2.next = Label.doTiming ∧ o2.events = [] ∧
      (o3.next = Label.outerLoop ∨ o3.next = Label.landingPad) ∧
      ∀ ev ∈ o3.events, ev = Event.CheckExternalExceptions) ∧
    (0 < s32 o1.m.emu.downcount →
      o2.next ≠ Label.doTiming ∧
      (o2.next = Label.dispatcherNoCheck ∨
        (E.bEnableDebugging = true ∧ o2.next = Label.landingPad ∧
          o2.events = [Event.CheckBreakPoints]))) := by
  intro o1 o2 o3
  norm_num at hd hc
  have hud : u32 m.emu.downcount = m.emu.downcount := Nat.mod_eq_of_lt (by omega)
  have hdc : o1.m.emu.downcount = (m.emu.downcount + 4294967296 - m.RSCRATCH2) % 4294967296 := by
    show (SUB 32 (u32 m.emu.downcount) m.RSCRATCH2).1 = _
    simp only [SUB, hud]
    norm_num
    rw [Nat.mod_eq_of_lt (by omega : m.emu.downcount < 4294967296),
      Nat.mod_eq_of_lt (by omega : m.RSCRATCH2 < 4294967296)]
  have hbe : CCFlags.taken .CC_BE o1.m.flags = decide (m.emu.downcount ≤ m.RSCRATCH2) := by
    show CCFlags.taken .CC_BE (SUB 32 (u32 m.emu.downcount) m.RSCRATCH2).2 = _
    rw [SUB_BE, hud, Nat.mod_eq_of_lt (by omega : m.emu.downcount < 4294967296),
      Nat.mod_eq_of_lt (by omega : m.RSCRATCH2 < 4294967296)]
  have hsign := s32_sub_nonpos_iff m.emu.downcount m.RSCRATCH2 hd0 hd hc
  have ho2 : o2 = dispatcherEntry E o1.m := rfl
  obtain ⟨hn, he, _⟩ := dispatcherEntry_spec E o1.m
  refine ⟨rfl, rfl, by norm_num; exact hdc, ?_, ?_⟩
  · intro hle
    rw [hdc] at hle
    have hle2 := hsign.1 hle
    have hb : CCFlags.taken .CC_BE o1.m.flags = true := by rw [hbe]; simpa using hle2
    refine ⟨by rw [ho2, hn]; simp [hb], by rw [ho2, he]; simp [hb], ?_, ?_⟩
    · have h3 : o3.next = _ := (timing_spec E o2.m).2.2
      rw [h3]
      split
      · exact Or.inl rfl
      · exact Or.inr rfl
    · have h3 : o3.events = _ := (timing_spec E o2.m).1
      rw [h3]
      split <;> simp
  · intro hpos
    rw [hdc] at hpos
    have hgt : ¬ m.emu.downcount ≤ m.RSCRATCH2 := fun h => by
      have := hsign.2 h
      omega
    have hb : CCFlags.taken .CC_BE o1.m.flags = false := by rw [hbe]; simpa using hgt
    rw [ho2, hn, he]
    cases hD : E.bEnableDebugging <;>
    by_cases hs : u32 o1.m.emu.state &&& E.CPU_STEPPING = 0 <;>
    by_cases hz : u32 (E.CheckBreakPoints o1.m.emu).state = 0 <;>
    simp [hb, hD, hs, hz]

/-- With 5 cycles left and a cost of 7 the hypotheses hold and the dispatcher goes to doTiming. -/
theorem mispredictedBLR_bails_iff_downcount_not_positive_witness :
    (0 < expiredSliceMachine.emu.downcount ∧ expiredSliceMachine.emu.downcount < 2 ^ 31 ∧
      expiredSliceMachine.RSCRATCH2 < 2 ^ 31) ∧
    (run sampleEnv 2 .dispatcherMispredictedBLR expiredSliceMachine).next = Label.doTiming :=
  ⟨by decide,
    ((mispredictedBLR_bails_iff_downcount_not_positive sampleEnv expiredSliceMachine
      (by decide) (by decide) (by decide)).2.2.2.1 (by decide)).1⟩

/-- Claim C6, the code at the failing input: with downcount -1 and cost 1 the new
downcount is -2, negative as a signed 32-bit value, but CC_BE (carry or zero) is not
taken, so the dispatcher proceeds to dispatcherNoCheck and runs block 5 instead of
going to the timing path. -/
theorem dispatcher_does_not_bail_on_negative_downcount :
    s32 (Generate sampleEnv .dispatcherMispredictedBLR negativeDowncountMachine).m.emu.downcount = -2 ∧
    (run sampleEnv 2 .dispatcherMispredictedBLR negativeDowncountMachine).next =
      Label.dispatcherNoCheck ∧
    (run sampleEnv 4 .dispatcherMispredictedBLR negativeDowncountMachine).events =
      [Event.ReadTag .iCache 0x3100, Event.CheckCache 66016 true, Event.RunBlock 28752] := by
  decide

/-! ## Paths through the dispatcher -/

theorem step_block_next (E : Env) (code : Nat) (m : Machine) :
    (Generate E (.block code) m).next = Label.dispatcherMispredictedBLR ∨
    (Generate E (.block code) m).next = Label.dispatcher ∨
    (Generate E (.block code) m).next = Label.dispatcherNoCheck ∨
    (Generate E (.block code) m).next = Label.doTiming := by
  simp only [Generate]
  cases (E.blockCode code m).1 <;> simp [Entry.toLabel]

theorem step_dispatcherNoCheck_next_cases (E : Env) (m : Machine) :
    (Generate E .dispatcherNoCheck m).next = Label.notfound ∨
    ∃ code, (Generate E .dispatcherNoCheck m).next = Label.block code := by
  rw [step_dispatcherNoCheck_next]
  split
  · exact Or.inl rfl
  · split
    · split
      · exact Or.inr ⟨_, rfl⟩
      · exact Or.inl rfl
    · exact Or.inr ⟨_, rfl⟩

/-- Claim C7 as stated fails: with debugging enabled, the stepping bit set and a
breakpoint at the current PC (CheckBreakPoints would leave the state word non-zero),
the path that starts at CoreTiming::Advance runs block 5 without CheckBreakPoints
being called; and entering at dispatcher with the stepping bit clear runs it
without the check as well. -/
theorem block_runs_without_breakpoint_check :
    debugEnv.bEnableDebugging = true ∧
    u32 steppingMachine.emu.state &&& debugEnv.CPU_STEPPING ≠ 0 ∧
    u32 (debugEnv.CheckBreakPoints (debugEnv.Advance steppingMachine.emu)).state ≠ 0 ∧
    (run debugEnv 3 .outerLoop steppingMachine).events =
      [Event.Advance, Event.ReadTag .iCache 0x3100, Event.CheckCache 66016 true,
        Event.RunBlock 28752] ∧
    u32 sampleMachine.emu.state &&& debugEnv.CPU_STEPPING = 0 ∧
    u32 (debugEnv.CheckBreakPoints sampleMachine.emu).state ≠ 0 ∧
    (run debugEnv 3 .dispatcher sampleMachine).events =
      [Event.ReadTag .iCache 0x3100, Event.CheckCache 66016 true, Event.RunBlock 28752] := by
  decide

/-- Claim C7, amended: with debugging enabled the breakpoint check runs only on the
path that enters at dispatcher without bailing while the CPU_STEPPING bit of the CPU
state word is set: there CheckBreakPoints is called before anything else, and if the
state word is non-zero afterwards the dispatcher leaves through the debug exit
(FinishStateMove, return) with no lookup and no block.  With the stepping bit clear,
right after CoreTiming::Advance and after Jit the control goes to dispatcherNoCheck
without the check. -/
theorem debug_check_runs_at_dispatcher_when_stepping (E : Env) (m : Machine)
    (hD : E.bEnableDebugging = true) (hb : CCFlags.taken .CC_BE m.flags = false) :
    let o := Generate E .dispatcher m
    (u32 m.emu.state &&& E.CPU_STEPPING ≠ 0 →
      o.events = [Event.CheckBreakPoints] ∧ o.m.emu = E.CheckBreakPoints m.emu ∧
      (u32 o.m.emu.state ≠ 0 →
        o.next = Label.landingPad ∧ (Generate E .landingPad o.m).next = Label.returned ∧
        (Generate E .landingPad o.m).events = [Event.FinishStateMove]) ∧
      (u32 o.m.emu.state = 0 → o.next = Label.dispatcherNoCheck)) ∧
    (u32 m.emu.state &&& E.CPU_STEPPING = 0 →
      o.next = Label.dispatcherNoCheck ∧ o.events = []) ∧
    ((Generate E .outerLoop m).next = Label.dispatcherNoCheck ∧
      (Generate E .outerLoop m).events = [Event.Advance]) ∧
    ((Generate E .notfound m).next = Label.dispatcherNoCheck ∧
      (Generate E .notfound m).events = [Event.Jit (u32 m.emu.pc)]) := by
  intro o
  obtain ⟨hn, he, hemu⟩ := dispatcherEntry_spec E m
  have ho : o = dispatcherEntry E m := rfl
  refine ⟨fun hs => ?_, fun hs => ?_, ⟨rfl, rfl⟩, ⟨rfl, rfl⟩⟩
  · have hemu2 : o.m.emu = E.CheckBreakPoints m.emu := by rw [ho, hemu]; simp [hb, hD, hs]
    refine ⟨by rw [ho, he]; simp [hb, hD, hs], hemu2, fun hz => ⟨?_, rfl, rfl⟩, fun hz => ?_⟩
    · rw [hemu2] at hz
      rw [ho, hn]; simp [hb, hD, hs, hz]
    · rw [hemu2] at hz
      rw [ho, hn]; simp [hb, hD, hs, hz]
  · exact ⟨by rw [ho, hn]; simp [hb, hD, hs], by rw [ho, he]; simp [hb, hD, hs]⟩

/-- With debugging on, the stepping bit set and a breakpoint at pc, the dispatcher returns after CheckBreakPoints and FinishStateMove. -/
theorem debug_check_runs_at_dispatcher_when_stepping_witness :
    (debugEnv.bEnableDebugging = true ∧
      CCFlags.taken .CC_BE steppingMachine.flags = false) ∧
    (run debugEnv 2 .dispatcher steppingMachine).events =
      [Event.CheckBreakPoints, Event.FinishStateMove] ∧
    (run debugEnv 2 .dispatcher steppingMachine).next = Label.returned :=
  ⟨⟨rfl, rfl⟩,
    by rw [show (run debugEnv 2 .dispatcher steppingMachine).events =
        (Generate debugEnv .dispatcher steppingMachine).events ++
          ((Generate debugEnv .landingPad (Generate debugEnv .dispatcher steppingMachine).m).events ++ [])
        from by decide,
      ((debug_check_runs_at_dispatcher_when_stepping debugEnv steppingMachine rfl rfl).1
        (by decide)).1,
      (((debug_check_runs_at_dispatcher_when_stepping debugEnv steppingMachine rfl rfl).1
        (by decide)).2.2.1 (by decide)).2.2]
       rfl,
    by decide⟩

/-- Claim C8: on the timing path CheckExternalExceptions is called if and only if
one of the bits EXCEPTION_EXTERNAL_INT, EXCEPTION_PERFORMANCE_MONITOR,
EXCEPTION_DECREMENTER is set in Exceptions; it is called on a state whose npc has
been set to pc; when no bit is set the emulator state, pc and npc included, is left
as it was; the segment makes the test once and ends at the outer loop (the next
CoreTiming::Advance) or at the exit. -/
theorem doTiming_checks_external_exceptions_once (E : Env) (m : Machine) :
    let pending := u32 m.emu.Exceptions &&& E.EXCEPTION_EXTERNAL_INT ≠ 0 ∨
      u32 m.emu.Exceptions &&& E.EXCEPTION_PERFORMANCE_MONITOR ≠ 0 ∨
      u32 m.emu.Exceptions &&& E.EXCEPTION_DECREMENTER ≠ 0
    let o := Generate E .doTiming m
    (Event.CheckExternalExceptions ∈ o.events ↔ pending) ∧
    (pending →
      o.events = [Event.CheckExternalExceptions] ∧
      o.m.emu = E.CheckExternalExceptions { m.emu with npc := u32 m.emu.pc }) ∧
    (¬ pending → o.events = [] ∧ o.m.emu = m.emu) ∧
    (o.next = Label.outerLoop ∨ o.next = Label.landingPad) := by
  intro pending o
  obtain ⟨he, hemu, hn⟩ := timing_spec E m
  have ho : o = timing E m := rfl
  have hp : pending ↔ ¬ u32 m.emu.Exceptions &&& (E.EXCEPTION_EXTERNAL_INT |||
      E.EXCEPTION_PERFORMANCE_MONITOR ||| E.EXCEPTION_DECREMENTER) = 0 := by
    simp only [pending, and_or_eq_zero_iff]
    tauto
  by_cases hpend : pending
  · have hnz := hp.1 hpend
    have hev : o.events = [Event.CheckExternalExceptions] := by rw [ho, he]; simp [hnz]
    refine ⟨⟨fun _ => hpend, fun _ => by rw [hev]; simp⟩,
      fun _ => ⟨hev, by rw [ho, hemu]; simp [hnz]⟩, fun h => absurd hpend h, ?_⟩
    rw [ho, hn]
    split
    · exact Or.inl rfl
    · exact Or.inr rfl
  · have hz : u32 m.emu.Exceptions &&& (E.EXCEPTION_EXTERNAL_INT |||
        E.EXCEPTION_PERFORMANCE_MONITOR ||| E.EXCEPTION_DECREMENTER) = 0 := by
      by_contra hcon
      exact hpend (hp.2 hcon)
    have hev : o.events = [] := by rw [ho, he]; simp [hz]
    refine ⟨⟨fun h => (by rw [hev] at h; cases h), fun h => absurd h hpend⟩,
      fun h => absurd h hpend, fun _ => ⟨hev, by rw [ho, hemu]; simp [hz]⟩, ?_⟩
    rw [ho, hn]
    split
    · exact Or.inl rfl
    · exact Or.inr rfl

/-- Claim C9: the landing pad that leads to FinishStateMove and the return is reached
from exactly two points: the CPU state test that ends the timing path, when the
state word is non-zero (it loops back to the outer loop if and only if the word is
zero), and, with debugging enabled, the test after CheckBreakPoints when the state
word is non-zero.  Lookup, the Jit call and block code have no edge to it, and the
return is reached from the landing pad only. -/
theorem landingPad_reached_only_between_blocks (E : Env) (l : Label) (m : Machine) :
    ((Generate E l m).next = Label.landingPad ↔
      (l = Label.doTiming ∧ u32 (Generate E .doTiming m).m.emu.state ≠ 0) ∨
      (l = Label.dispatcher ∧ E.bEnableDebugging = true ∧
        CCFlags.taken .CC_BE m.flags = false ∧ u32 m.emu.state &&& E.CPU_STEPPING ≠ 0 ∧
        u32 (E.CheckBreakPoints m.emu).state ≠ 0)) ∧
    ((Generate E .doTiming m).next = Label.outerLoop ↔ u32 (Generate E .doTiming m).m.emu.state = 0) ∧
    ((Generate E l m).next = Label.returned ↔ l = Label.landingPad ∨ l = Label.returned) := by
  have hT : (Generate E .doTiming m).next = _ := (timing_spec E m).2.2
  have hTo : (Generate E .doTiming m).next = Label.outerLoop ↔
      u32 (Generate E .doTiming m).m.emu.state = 0 := by
    rw [hT]
    show _ ↔ u32 (timing E m).m.emu.state = 0
    by_cases hz : u32 (timing E m).m.emu.state = 0 <;> simp [hz]
  have hTl : (Generate E .doTiming m).next = Label.landingPad ↔
      u32 (Generate E .doTiming m).m.emu.state ≠ 0 := by
    rw [hT]
    show _ ↔ u32 (timing E m).m.emu.state ≠ 0
    by_cases hz : u32 (timing E m).m.emu.state = 0 <;> simp [hz]
  have hTr : (Generate E .doTiming m).next ≠ Label.returned := by
    rw [hT]
    split <;> simp
  have hD : (Generate E .dispatcher m).next = _ := (dispatcherEntry_spec E m).1
  refine ⟨?_, hTo, ?_⟩
  · cases l with
    | doTiming => simp [hTl]
    | dispatcher =>
      rw [hD]
      cases hb : CCFlags.taken .CC_BE m.flags <;>
      cases hdbg : E.bEnableDebugging <;>
      by_cases hs : u32 m.emu.state &&& E.CPU_STEPPING = 0 <;>
      by_cases hz : u32 (E.CheckBreakPoints m.emu).state = 0 <;>
      simp [hs, hz]
    | dispatcherNoCheck =>
      rcases step_dispatcherNoCheck_next_cases E m with h | ⟨code, h⟩ <;> simp [h]
    | block code =>
      rcases step_block_next E code m with h | h | h | h <;> simp [h]
    | enterCode => simp [Generate]
    | outerLoop => simp [Generate]
    | dispatcherMispredictedBLR => simp [Generate]
    | notfound => simp [Generate]
    | landingPad => simp [Generate]
    | returned => simp [Generate]
  · cases l with
    | doTiming => simp [hTr]
    | dispatcher =>
      rw [hD]
      cases hb : CCFlags.taken .CC_BE m.flags <;>
      cases hdbg : E.bEnableDebugging <;>
      by_cases hs : u32 m.emu.state &&& E.CPU_STEPPING = 0 <;>
      by_cases hz : u32 (E.CheckBreakPoints m.emu).state = 0 <;>
      simp [hs, hz]
    | dispatcherNoCheck =>
      rcases step_dispatcherNoCheck_next_cases E m with h | ⟨code, h⟩ <;> simp [h]
    | block code =>
      rcases step_block_next E code m with h | h | h | h <;> simp [h]
    | enterCode => simp [Generate]
    | outerLoop => simp [Generate]
    | dispatcherMispredictedBLR => simp [Generate]
    | notfound => simp [Generate]
    | landingPad => simp [Generate]
    | returned => simp [Generate]

/-- Claim C10: a segment ends with the jump into a block's native code only if it is
the one at dispatcherNoCheck; that segment leaves the emulator state as it found it
and RMEM holding Memory::logical_base when bit 1 << (31 - 27) of the MSR it read is
set and Memory::physical_base when it is clear, whatever RMEM held before. -/
theorem block_entered_with_memory_base_of_current_MSR (E : Env) (l : Label) (m : Machine)
    (code : Nat) (h : (Generate E l m).next = Label.block code) :
    l = Label.dispatcherNoCheck ∧ (Generate E l m).m.emu = m.emu ∧
    (Generate E l m).m.RMEM =
      if u32 m.emu.msr &&& (1 <<< (31 - 27)) ≠ 0 then E.logical_base else E.physical_base := by
  have hl : l = Label.dispatcherNoCheck := by
    cases l with
    | dispatcherNoCheck => rfl
    | doTiming =>
      have h2 : (timing E m).next = Label.block code := h
      rw [(timing_spec E m).2.2] at h2
      split at h2 <;> cases h2
    | dispatcher =>
      have h : (dispatcherEntry E m).next = Label.block code := h
      rw [(dispatcherEntry_spec E m).1] at h
      split at h
      · cases h
      · split at h
        · split at h
          · cases h
          · split at h <;> cases h
        · cases h
    | block c =>
      rcases step_block_next E c m with h2 | h2 | h2 | h2 <;> rw [h2] at h <;> cases h
    | enterCode => cases h
    | outerLoop => cases h
    | dispatcherMispredictedBLR => cases h
    | notfound => cases h
    | landingPad => cases h
    | returned => cases h
  subst hl
  refine ⟨rfl, ?_, ?_⟩
  · have h1 := validateAndJump_block_emu E (lookupTag E (selectMemBase E m)).1
      (lookupTag E (selectMemBase E m)).2 code h
    rw [(lookupTag_spec E _).2.2.1, selectMemBase_emu] at h1
    exact h1
  · have h1 := validateAndJump_RMEM E (lookupTag E (selectMemBase E m)).1
      (lookupTag E (selectMemBase E m)).2
    rw [(lookupTag_spec E _).2.2.2, selectMemBase_RMEM] at h1
    exact h1

/-- The sample MSR has bit 4 set: block 5 is entered with RMEM at the logical base. -/
theorem block_entered_with_memory_base_of_current_MSR_witness :
    (Generate sampleEnv .dispatcherNoCheck sampleMachine).next = Label.block 28752 ∧
    (Generate sampleEnv .dispatcherNoCheck sampleMachine).m.RMEM = sampleEnv.logical_base :=
  ⟨by decide,
    (block_entered_with_memory_base_of_current_MSR sampleEnv .dispatcherNoCheck sampleMachine
      28752 (by decide)).2.2⟩

/-! ## Compilation on a miss -/

theorem taken_L_TEST (x : Nat) (h : x < 4294967296) :
    CCFlags.taken .CC_L (TEST 32 x x) = decide (2147483648 ≤ x) := by
  simp [CCFlags.taken, TEST, logicFlags, Nat.mod_eq_of_lt h]

theorem step_dispatcherNoCheck_events (E : Env) (m : Machine) :
    (Generate E .dispatcherNoCheck m).events =
      (lookupTag E m).2 ++
        (if 2147483648 ≤ (lookupTag E m).1.RSCRATCH then []
          else if E.bICache = true then
            Event.CheckCache (blockPtr E (lookupTag E m).1.RSCRATCH)
                (CheckCache E m.emu (blockPtr E (lookupTag E m).1.RSCRATCH)).ok
              :: (CheckCache E m.emu (blockPtr E (lookupTag E m).1.RSCRATCH)).calls
          else []) := by
  have hc := lookupTag_congr E (selectMemBase E m) m (selectMemBase_emu E m)
  have he : (lookupTag E (selectMemBase E m)).1.emu = m.emu := by
    rw [(lookupTag_spec E (selectMemBase E m)).2.2.1, selectMemBase_emu]
  show (validateAndJump E (lookupTag E (selectMemBase E m)).1
      (lookupTag E (selectMemBase E m)).2).events = _
  rw [validateAndJump_events, taken_L_TEST _ (lookupTag_tag_lt E _), hc.1, hc.2, he]
  simp

/-- Claim C11: on a miss the segment at notfound calls Jit(pc) once and goes straight to
dispatcherNoCheck, where the tag lookup is repeated on the pc found there (the same
table and offset as before when Jit left pc unchanged); no timing, downcount or debug
step lies between.  If the tag found after Jit is non-negative and, with bICache set,
CheckCache accepts the block, that second lookup jumps into the block: the events from
the miss to the block are one Jit call, the tag read, at most a successful CheckCache,
and then the block. -/
theorem miss_compiles_once_then_executes (E : Env) (m : Machine)
    (htag : 0 ≤ s32 (lookupTag E (Generate E .notfound m).m).1.RSCRATCH)
    (hok : E.bICache = true →
      (CheckCache E (Generate E .notfound m).m.emu
        (blockPtr E (lookupTag E (Generate E .notfound m).m).1.RSCRATCH)).ok = true) :
    let o1 := Generate E .notfound m
    let o2 := Generate E .dispatcherNoCheck o1.m
    let tag := (lookupTag E o1.m).1.RSCRATCH
    o1.next = Label.dispatcherNoCheck ∧ o1.events = [Event.Jit (u32 m.emu.pc)] ∧
    o1.m.emu = E.Jit (u32 m.emu.pc) m.emu ∧
    (o1.m.emu.pc = m.emu.pc → (lookupTag E o1.m).2 = (lookupTag E m).2) ∧
    o2.next = Label.block (o1.m.emu.codePointers tag) ∧
    o2.events = (lookupTag E o1.m).2 ++
      (if E.bICache = true then [Event.CheckCache (blockPtr E tag) true] else []) ∧
    (run E 3 .notfound m).events =
      Event.Jit (u32 m.emu.pc) :: (o2.events ++ [Event.RunBlock (o1.m.emu.codePointers tag)]) ∧
    (∀ ev ∈ o2.events, (∃ t off, ev = Event.ReadTag t off) ∨ ∃ b, ev = Event.CheckCache b true) := by
  intro o1 o2 tag
  have hlt : tag < 4294967296 := lookupTag_tag_lt E o1.m
  have hs : ¬ 2147483648 ≤ tag := by
    have h := (s32_nonneg_iff tag).1 htag
    rw [Nat.mod_eq_of_lt hlt] at h
    omega
  have hnext : o2.next = Label.block (o1.m.emu.codePointers tag) := by
    show (Generate E .dispatcherNoCheck o1.m).next = _
    rw [step_dispatcherNoCheck_next]
    cases hI : E.bICache
    · simp [tag] at hs ⊢
      simp [hs]
    · have h := hok hI
      simp only [tag] at hs
      simp [hs, h, tag]
  have hev : o2.events = (lookupTag E o1.m).2 ++
      (if E.bICache = true then [Event.CheckCache (blockPtr E tag) true] else []) := by
    show (Generate E .dispatcherNoCheck o1.m).events = _
    rw [step_dispatcherNoCheck_events]
    cases hI : E.bICache
    · simp only [tag] at hs
      simp [hs]
    · have h := hok hI
      have hc := (CheckCache_ok_emu E _ _ h).2
      simp only [tag] at hs
      simp [hs, h, hc, tag]
  have hrun : (run E 3 .notfound m).events =
      Event.Jit (u32 m.emu.pc) :: (o2.events ++ [Event.RunBlock (o1.m.emu.codePointers tag)]) := by
    show o1.events ++ (o2.events ++ ((Generate E o2.next o2.m).events ++ [])) = _
    rw [hnext]
    simp [Generate, o1]
  refine ⟨rfl, rfl, rfl, fun hpc => ?_, hnext, hev, hrun, ?_⟩
  · rw [(lookupTag_spec E o1.m).1, (lookupTag_spec E m).1, hpc]
  · intro ev hmem
    rw [hev, (lookupTag_spec E o1.m).1] at hmem
    simp only [List.mem_append, List.mem_singleton] at hmem
    rcases hmem with h | h
    · left
      revert h
      split
      · intro h; exact ⟨_, _, h⟩
      · split <;> intro h <;> exact ⟨_, _, h⟩
    · right
      revert h
      split
      · intro h; exact ⟨_, List.mem_singleton.1 h⟩
      · intro h; cases h

/-- From the sample state without tags: Jit registers block 5, and the repeated lookup
runs it after one Jit call. -/
theorem miss_compiles_once_then_executes_witness :
    (run sampleEnv 3 .notfound (machineOf missEmu)).events =
      [Event.Jit 0x80003100, Event.ReadTag .iCache 0x3100, Event.CheckCache 66016 true,
        Event.RunBlock 28752] :=
  ((miss_compiles_once_then_executes sampleEnv (machineOf missEmu) (by decide)
    (fun _ => by decide)).2.2.2.2.2.2.1).trans (by decide)

/-- Claim C12: CheckCache reports a mismatch through its result and one call of
InvalidateICache(originalAddress, originalSize * 4, false), made exactly when it returns
false; when it returns true it makes no call and leaves the emulator state as it was;
when it returns false the state is the one InvalidateICache returns, so the block record
and guest memory change only if that call changes them; the only other output is the
bool. -/
theorem CheckCache_invalidates_iff_false (E : Env) (e : Emu) (b : Nat) :
    ((CheckCache E e b).ok = false ↔
      (CheckCache E e b).calls =
        [Event.InvalidateICache (u32 (e.blockAt b).originalAddress)
          (u32 (u32 (e.blockAt b).originalSize * 4)) false]) ∧
    ((CheckCache E e b).ok = true ↔ (CheckCache E e b).calls = []) ∧
    ((CheckCache E e b).ok = true → (CheckCache E e b).emu = e) ∧
    ((CheckCache E e b).ok = false →
      (CheckCache E e b).emu =
        E.InvalidateICache (u32 (e.blockAt b).originalAddress)
          (u32 (u32 (e.blockAt b).originalSize * 4)) false e) ∧
    ((E.InvalidateICache (u32 (e.blockAt b).originalAddress)
          (u32 (u32 (e.blockAt b).originalSize * 4)) false e).blockAt = e.blockAt →
      (CheckCache E e b).emu.blockAt = e.blockAt) ∧
    ((E.InvalidateICache (u32 (e.blockAt b).originalAddress)
          (u32 (u32 (e.blockAt b).originalSize * 4)) false e).physical = e.physical →
      (CheckCache E e b).emu.physical = e.physical) := by
  have hsz : u32OfInt (s32 (e.blockAt b).originalSize * 4) =
      u32 (u32 (e.blockAt b).originalSize * 4) := by
    unfold u32OfInt s32 u32
    norm_num
    split <;> omega
  by_cases h : u64 (E.crccode (codeWords e.physical (u32 (e.blockAt b).originalAddress)
        (s32 (e.blockAt b).originalSize))) = u64 (e.blockAt b).crc
  · simp [CheckCache, h]
  · simp [CheckCache, h, hsz]

/-! ## The Gecko code handler's flush counter -/

theorem flush_step {S : Type} (G : GeckoEnv S) (s : S)
    (hrw : ∀ v a s, G.HostRead_U32 (G.HostWrite_U32 v a s) a = u32 v)
    (hreset : ∀ s a, G.HostRead_U32 (G.iCacheReset s) a = G.HostRead_U32 s a)
    (h5 : sub32 (u32 (G.HostRead_U32 s G.INSTALLER_BASE_ADDRESS)) G.MAGIC_GAMEID ≠ 5) :
    (GeckoCodeHandlerICacheFlush G s).2 = true ∧
    sub32 (u32 (G.HostRead_U32 (GeckoCodeHandlerICacheFlush G s).1 G.INSTALLER_BASE_ADDRESS))
        G.MAGIC_GAMEID =
      if sub32 (u32 (G.HostRead_U32 s G.INSTALLER_BASE_ADDRESS)) G.MAGIC_GAMEID > 5 then 1
      else sub32 (u32 (G.HostRead_U32 s G.INSTALLER_BASE_ADDRESS)) G.MAGIC_GAMEID + 1 := by
  simp only [GeckoCodeHandlerICacheFlush, if_neg h5, hreset, hrw, true_and]
  generalize G.HostRead_U32 s G.INSTALLER_BASE_ADDRESS = w at h5 ⊢
  generalize G.MAGIC_GAMEID = M at h5 ⊢
  unfold sub32 u32 at *
  norm_num at *
  split <;> omega

theorem flush_done {S : Type} (G : GeckoEnv S) (s : S)
    (h5 : sub32 (u32 (G.HostRead_U32 s G.INSTALLER_BASE_ADDRESS)) G.MAGIC_GAMEID = 5) :
    GeckoCodeHandlerICacheFlush G s = (s, false) := by
  simp [GeckoCodeHandlerICacheFlush, h5]

theorem flushCalls_done {S : Type} (G : GeckoEnv S) (n : Nat) (s : S)
    (h5 : sub32 (u32 (G.HostRead_U32 s G.INSTALLER_BASE_ADDRESS)) G.MAGIC_GAMEID = 5) :
    flushCalls G n s = (s, List.replicate n false) := by
  induction n with
  | zero => rfl
  | succ n ih => simp [flushCalls, flush_done G s h5, ih, List.replicate_succ]

theorem flushCalls_from {S : Type} (G : GeckoEnv S)
    (hrw : ∀ v a s, G.HostRead_U32 (G.HostWrite_U32 v a s) a = u32 v)
    (hreset : ∀ s a, G.HostRead_U32 (G.iCacheReset s) a = G.HostRead_U32 s a)
    (n : Nat) : ∀ (k : Nat) (s : S), k ≤ 5 →
      sub32 (u32 (G.HostRead_U32 s G.INSTALLER_BASE_ADDRESS)) G.MAGIC_GAMEID = k →
      (flushCalls G n s).2 =
          List.replicate (min n (5 - k)) true ++ List.replicate (n - (5 - k)) false ∧
        (5 - k ≤ n →
          sub32 (u32 (G.HostRead_U32 (flushCalls G n s).1 G.INSTALLER_BASE_ADDRESS))
            G.MAGIC_GAMEID = 5) := by
  induction n with
  | zero =>
    intro k s hk hd
    refine ⟨by simp [flushCalls], fun h => ?_⟩
    have : k = 5 := by omega
    simpa [flushCalls, this] using hd
  | succ n ih =>
    intro k s hk hd
    by_cases h5 : k = 5
    · subst h5
      rw [flushCalls_done G _ s hd]
      simp [hd]
    · have hne : sub32 (u32 (G.HostRead_U32 s G.INSTALLER_BASE_ADDRESS)) G.MAGIC_GAMEID ≠ 5 := by
        rw [hd]; exact h5
      obtain ⟨hr, hnext⟩ := flush_step G s hrw hreset hne
      rw [hd, if_neg (by omega)] at hnext
      obtain ⟨ih1, ih2⟩ := ih (k + 1) (GeckoCodeHandlerICacheFlush G s).1 (by omega) hnext
      refine ⟨?_, fun h => ih2 (by omega)⟩
      show (GeckoCodeHandlerICacheFlush G s).2 :: (flushCalls G n _).2 = _
      rw [hr, ih1]
      have e1 : min (n + 1) (5 - k) = min n (5 - (k + 1)) + 1 := by omega
      have e2 : n + 1 - (5 - k) = n - (5 - (k + 1)) := by omega
      rw [e1, e2, List.replicate_succ, List.cons_append]

/-- Claim C20: when host reads return what host writes stored and `iCache.Reset()` leaves
guest memory alone, and the word at INSTALLER_BASE_ADDRESS starts with
(v - MAGIC_GAMEID) mod 2^32 outside 1..5, then of n successive calls exactly the first
min n 5 reset the instruction cache and no later one does; and whenever the word is
MAGIC_GAMEID + 5 a call returns the state unchanged without a reset. -/
theorem gecko_flush_first_five_calls {S : Type} (G : GeckoEnv S)
    (hrw : ∀ v a s, G.HostRead_U32 (G.HostWrite_U32 v a s) a = u32 v)
    (hreset : ∀ s a, G.HostRead_U32 (G.iCacheReset s) a = G.HostRead_U32 s a)
    (s : S)
    (hv : sub32 (u32 (G.HostRead_U32 s G.INSTALLER_BASE_ADDRESS)) G.MAGIC_GAMEID = 0 ∨
      5 < sub32 (u32 (G.HostRead_U32 s G.INSTALLER_BASE_ADDRESS)) G.MAGIC_GAMEID)
    (n : Nat) :
    (flushCalls G n s).2 = List.replicate (min n 5) true ++ List.replicate (n - 5) false ∧
    (5 ≤ n → u32 (G.HostRead_U32 (flushCalls G n s).1 G.INSTALLER_BASE_ADDRESS) =
      u32 (G.MAGIC_GAMEID + 5)) ∧
    (∀ t : S, u32 (G.HostRead_U32 t G.INSTALLER_BASE_ADDRESS) = u32 (G.MAGIC_GAMEID + 5) →
      GeckoCodeHandlerICacheFlush G t = (t, false)) := by
  have hword : ∀ w M : Nat, sub32 (u32 w) M = 5 ↔ u32 w = u32 (M + 5) := by
    intro w M
    unfold sub32 u32
    norm_num
    omega
  refine ⟨?_, ?_, fun t ht => flush_done G t ((hword _ _).2 ht)⟩
  · rcases hv with h0 | hgt
    · simpa using (flushCalls_from G hrw hreset n 0 s (by omega) h0).1
    · cases n with
      | zero => simp [flushCalls]
      | succ n =>
        obtain ⟨hr, hnext⟩ := flush_step G s hrw hreset (by omega)
        rw [if_pos hgt] at hnext
        have ih := (flushCalls_from G hrw hreset n 1 _ (by omega) hnext).1
        show (GeckoCodeHandlerICacheFlush G s).2 :: (flushCalls G n _).2 = _
        rw [hr, ih]
        have e1 : min (n + 1) 5 = min n (5 - 1) + 1 := by omega
        have e2 : n + 1 - 5 = n - (5 - 1) := by omega
        rw [e1, e2, List.replicate_succ, List.cons_append]
  · intro hn
    rw [← hword]
    rcases hv with h0 | hgt
    · exact (flushCalls_from G hrw hreset n 0 s (by omega) h0).2 (by omega)
    · cases n with
      | zero => omega
      | succ n =>
        obtain ⟨hr, hnext⟩ := flush_step G s hrw hreset (by omega)
        rw [if_pos hgt] at hnext
        exact (flushCalls_from G hrw hreset n 1 _ (by omega) hnext).2 (by omega)

/-- Seven calls from the sample state: five resets, then none, and the word stays at
MAGIC_GAMEID + 5. -/
theorem gecko_flush_first_five_calls_witness :
    (flushCalls sampleGecko 7 sampleGeckoState).2 =
        [true, true, true, true, true, false, false] ∧
      (flushCalls sampleGecko 7 sampleGeckoState).1.mem 0x80001800 = 0xD01F1BB2 :=
  ⟨(gecko_flush_first_five_calls sampleGecko (fun _ _ _ => by simp [sampleGecko, u32])
      (fun _ _ => rfl) sampleGeckoState (Or.inr (by decide)) 7).1.trans (by decide),
    by decide⟩

/-! ## The block loop in closed form -/

theorem foldl_counter {α : Type} (n c : Nat) (f : Nat → Nat → List α) (st : Nat × List α) :
    (List.range n).foldl (fun st k => (st.1 + c, st.2 ++ f k st.1)) st =
      (st.1 + n * c, st.2 ++ (List.range n).flatMap fun k => f k (st.1 + k * c)) := by
  induction n with
  | zero => simp
  | succ n ih =>
    rw [List.range_succ, List.foldl_append, ih]
    simp [List.flatMap_append, Nat.add_mul, Nat.add_assoc]

theorem DecodeTexture_eq (bw bh bpl : Nat) (dec : BlockLineDecoder) (L : Nat)
    (src tlut : Nat → Nat) (width height : Nat) :
    DecodeTexture bw bh bpl dec L src tlut width height =
      (List.range (loopCount height bh)).flatMap fun i =>
        (List.range (loopCount width bw)).flatMap fun j =>
          (List.range (loopCount bh L)).flatMap fun k =>
            dec ((i * bh + k * L) * width + j * bw) src
              (i * (loopCount width bw * (loopCount bh L * (L * bpl))) +
                j * (loopCount bh L * (L * bpl)) + k * (L * bpl)) tlut width := by
  have h1 : ∀ (i j : Nat) (st : Nat × List Access),
      (List.range (loopCount bh L)).foldl (fun st k =>
        (st.1 + L * bpl, st.2 ++ dec ((i * bh + k * L) * width + j * bw) src st.1 tlut width)) st =
      (st.1 + loopCount bh L * (L * bpl), st.2 ++ (List.range (loopCount bh L)).flatMap fun k =>
        dec ((i * bh + k * L) * width + j * bw) src (st.1 + k * (L * bpl)) tlut width) :=
    fun i j st => foldl_counter (loopCount bh L) (L * bpl)
      (fun k o => dec ((i * bh + k * L) * width + j * bw) src o tlut width) st
  have h2 : ∀ (i : Nat) (st : Nat × List Access),
      (List.range (loopCount width bw)).foldl (fun st j =>
        (st.1 + loopCount bh L * (L * bpl), st.2 ++ (List.range (loopCount bh L)).flatMap fun k =>
          dec ((i * bh + k * L) * width + j * bw) src (st.1 + k * (L * bpl)) tlut width)) st =
      (st.1 + loopCount width bw * (loopCount bh L * (L * bpl)),
        st.2 ++ (List.range (loopCount width bw)).flatMap fun j =>
          (List.range (loopCount bh L)).flatMap fun k =>
            dec ((i * bh + k * L) * width + j * bw) src
              (st.1 + j * (loopCount bh L * (L * bpl)) + k * (L * bpl)) tlut width) :=
    fun i st => foldl_counter (loopCount width bw) (loopCount bh L * (L * bpl))
      (fun j o => (List.range (loopCount bh L)).flatMap fun k =>
        dec ((i * bh + k * L) * width + j * bw) src (o + k * (L * bpl)) tlut width) st
  have h3 := foldl_counter (loopCount height bh)
    (loopCount width bw * (loopCount bh L * (L * bpl)))
    (fun i o => (List.range (loopCount width bw)).flatMap fun j =>
      (List.range (loopCount bh L)).flatMap fun k =>
        dec ((i * bh + k * L) * width + j * bw) src
          (o + j * (loopCount bh L * (L * bpl)) + k * (L * bpl)) tlut width)
    ((0 : Nat), ([] : List Access))
  unfold DecodeTexture
  simp only [h1, h2]
  rw [h3]
  simp

theorem THPSwizzle_eq (src : Nat → Nat) (w h : Nat) :
    THPSwizzle src w h =
      (List.range (loopCount h 4)).flatMap fun i =>
        (List.range (loopCount w 8)).flatMap fun j =>
          (List.range 4).flatMap fun iy =>
            (List.range 8).map fun b =>
              (i * (loopCount w 8 * (4 * 8)) + j * (4 * 8) + iy * 8 + b,
                u8at src ((i * 4 + iy) * w + j * 8 + b)) := by
  have h1 : ∀ (i j : Nat) (st : Nat × List (Nat × Nat)),
      (List.range 4).foldl (fun st iy =>
        (st.1 + 8, st.2 ++ (List.range 8).map fun b =>
          (st.1 + b, u8at src ((i * 4 + iy) * w + j * 8 + b)))) st =
      (st.1 + 4 * 8, st.2 ++ (List.range 4).flatMap fun iy =>
        (List.range 8).map fun b =>
          (st.1 + iy * 8 + b, u8at src ((i * 4 + iy) * w + j * 8 + b))) :=
    fun i j st => foldl_counter 4 8
      (fun iy o => (List.range 8).map fun b =>
        (o + b, u8at src ((i * 4 + iy) * w + j * 8 + b))) st
  have h2 : ∀ (i : Nat) (st : Nat × List (Nat × Nat)),
      (List.range (loopCount w 8)).foldl (fun st j =>
        (st.1 + 4 * 8, st.2 ++ (List.range 4).flatMap fun iy =>
          (List.range 8).map fun b =>
            (st.1 + iy * 8 + b, u8at src ((i * 4 + iy) * w + j * 8 + b)))) st =
      (st.1 + loopCount w 8 * (4 * 8), st.2 ++ (List.range (loopCount w 8)).flatMap fun j =>
        (List.range 4).flatMap fun iy =>
          (List.range 8).map fun b =>
            (st.1 + j * (4 * 8) + iy * 8 + b, u8at src ((i * 4 + iy) * w + j * 8 + b))) :=
    fun i st => foldl_counter (loopCount w 8) (4 * 8)
      (fun j o => (List.range 4).flatMap fun iy =>
        (List.range 8).map fun b =>
          (o + iy * 8 + b, u8at src ((i * 4 + iy) * w + j * 8 + b))) st
  have h3 := foldl_counter (loopCount h 4) (loopCount w 8 * (4 * 8))
    (fun i o => (List.range (loopCount w 8)).flatMap fun j =>
      (List.range 4).flatMap fun iy =>
        (List.range 8).map fun b =>
          (o + j * (4 * 8) + iy * 8 + b, u8at src ((i * 4 + iy) * w + j * 8 + b)))
    ((0 : Nat), ([] : List (Nat × Nat)))
  unfold THPSwizzle
  simp only [h1, h2]
  rw [h3]
  simp

/-! ## The THP plane swizzle and the I8 layout -/

theorem loopCount_mul (c n : Nat) (hc : 0 < c) : loopCount (c * n) c = n := by
  unfold loopCount
  rw [Nat.add_sub_assoc hc, Nat.mul_comm, Nat.add_comm, Nat.add_mul_div_right _ _ hc,
    Nat.div_eq_of_lt (by omega), Nat.zero_add]

theorem range_flatMap_affine (n c o : Nat) :
    ((List.range n).flatMap fun k => (List.range c).map fun b => o + k * c + b) =
      (List.range (n * c)).map fun a => o + a := by
  induction n with
  | zero => simp
  | succ n ih =>
    rw [List.range_succ, List.flatMap_append, ih, List.flatMap_singleton, Nat.add_mul,
      Nat.one_mul, List.range_add, List.map_append, List.map_map]
    congr 1
    apply List.map_congr_left
    intro a _
    simp [Nat.add_assoc]

theorem applyWrites_append (l : List (Nat × Nat)) (w : Nat × Nat) (mem : Nat → Nat) (a : Nat) :
    applyWrites (l ++ [w]) mem a = if a = w.1 then w.2 else applyWrites l mem a := by
  simp [applyWrites, List.foldl_append]

theorem applyWrites_of_mem (l : List (Nat × Nat)) (mem : Nat → Nat) (a v : Nat)
    (hnd : (l.map Prod.fst).Nodup) (hmem : (a, v) ∈ l) : applyWrites l mem a = v := by
  induction l using List.reverseRecOn with
  | nil => cases hmem
  | append_singleton l w ih =>
    rw [applyWrites_append]
    rw [List.map_append, List.nodup_append] at hnd
    obtain ⟨hl, _, hdis⟩ := hnd
    rcases List.mem_append.1 hmem with h | h
    · have hne : a ≠ w.1 := by
        intro he
        exact hdis (List.mem_map.2 ⟨(a, v), h, rfl⟩) (by simp [he])
      rw [if_neg hne]
      exact ih hl h
    · have hw : (a, v) = w := List.mem_singleton.1 h
      subst hw
      simp

theorem applyAccesses_append (l : List Access) (x : Access) (d : Nat → Nat) (p : Nat) :
    applyAccesses (l ++ [x]) d p =
      match x with
      | .store i v => if p = i then v else applyAccesses l d p
      | .tlutLoad _ _ => applyAccesses l d p := by
  cases x <;> simp [applyAccesses, List.foldl_append]

theorem applyAccesses_of_mem (l : List Access) (d : Nat → Nat) (p v : Nat)
    (hall : ∀ v', Access.store p v' ∈ l → v' = v) (hmem : Access.store p v ∈ l) :
    applyAccesses l d p = v := by
  induction l using List.reverseRecOn with
  | nil => cases hmem
  | append_singleton l x ih =>
    rw [applyAccesses_append]
    cases x with
    | store i v' =>
      by_cases hp : p = i
      · subst hp
        simp only [if_true]
        exact hall v' (by simp)
      · simp only [if_neg hp]
        apply ih (fun v'' h => hall v'' (List.mem_append.2 (Or.inl h)))
        rcases List.mem_append.1 hmem with h | h
        · exact h
        · simp at h
          exact absurd h.1 hp
    | tlutLoad o s =>
      apply ih (fun v'' h => hall v'' (List.mem_append.2 (Or.inl h)))
      rcases List.mem_append.1 hmem with h | h
      · exact h
      · simp at h

theorem THPSwizzle_offsets (src : Nat → Nat) (nx ny : Nat) :
    (THPSwizzle src (8 * nx) (4 * ny)).map Prod.fst = List.range (8 * nx * (4 * ny)) := by
  rw [THPSwizzle_eq, loopCount_mul 8 nx (by omega), loopCount_mul 4 ny (by omega)]
  simp only [List.map_flatMap, List.map_map]
  have e1 : ∀ i j : Nat, ((List.range 4).flatMap fun iy => (List.range 8).map
      (Prod.fst ∘ fun b => (i * (nx * (4 * 8)) + j * (4 * 8) + iy * 8 + b,
        u8at src ((i * 4 + iy) * (8 * nx) + j * 8 + b)))) =
      (List.range (4 * 8)).map fun a => i * (nx * (4 * 8)) + j * (4 * 8) + a :=
    fun i j => range_flatMap_affine 4 8 (i * (nx * (4 * 8)) + j * (4 * 8))
  simp only [e1]
  have e2 : ∀ i : Nat, ((List.range nx).flatMap fun j => (List.range (4 * 8)).map
      fun a => i * (nx * (4 * 8)) + j * (4 * 8) + a) =
      (List.range (nx * (4 * 8))).map fun a => 0 + i * (nx * (4 * 8)) + a :=
    fun i => by rw [Nat.zero_add]; exact range_flatMap_affine nx (4 * 8) (i * (nx * (4 * 8)))
  simp only [e2]
  rw [range_flatMap_affine ny (nx * (4 * 8)) 0]
  have e3 : ny * (nx * (4 * 8)) = 8 * nx * (4 * ny) := by ring
  rw [e3]
  simp

theorem THPSwizzle_value (src mem : Nat → Nat) (nx ny i j k b : Nat)
    (hi : i < ny) (hj : j < nx) (hk : k < 4) (hb : b < 8) :
    applyWrites (THPSwizzle src (8 * nx) (4 * ny)) mem
        (i * (nx * (4 * 8)) + j * (4 * 8) + k * 8 + b) =
      u8at src ((i * 4 + k) * (8 * nx) + j * 8 + b) := by
  apply applyWrites_of_mem
  · rw [THPSwizzle_offsets]
    exact List.nodup_range _
  · rw [THPSwizzle_eq, loopCount_mul 8 nx (by omega), loopCount_mul 4 ny (by omega)]
    simp only [List.mem_flatMap, List.mem_map, List.mem_range]
    exact ⟨i, hi, j, hj, k, hk, b, hb, rfl⟩

/-- Claim C19: for a plane width that is a multiple of 8 and a plane height that is a
multiple of 4, the swizzle of THPVideoDecode writes the destination offsets
0 .. width*height - 1, each once and in order, and the generic I8 decoder
DecodeTexture<8, 4, 8, DecodeBytes_I8_Generic> run on the swizzled bytes at the same width
and height leaves at every pixel (x, y) the value whose four bytes are src[y*width + x]. -/
theorem THPSwizzle_decodes_as_I8 (src : Nat → Nat) (width height : Nat)
    (hw : 8 ∣ width) (hh : 4 ∣ height) :
    (THPSwizzle src width height).map Prod.fst = List.range (width * height) ∧
    ∀ (mem tlut img : Nat → Nat) (x y : Nat), x < width → y < height →
      applyAccesses
        (DecodeTexture 8 4 8 DecodeBytes_I8_Generic 1
          (applyWrites (THPSwizzle src width height) mem) tlut width height) img
        (y * width + x) =
      (u8at src (y * width + x) <<< 24 ||| u8at src (y * width + x) <<< 16 |||
        u8at src (y * width + x) <<< 8 ||| u8at src (y * width + x)) := by
  obtain ⟨nx, rfl⟩ := hw
  obtain ⟨ny, rfl⟩ := hh
  refine ⟨THPSwizzle_offsets src nx ny, ?_⟩
  intro mem tlut img x y hx hy
  have hl : loopCount 4 1 = 4 := by decide
  have hval : ∀ i j k b : Nat, i < ny → j < nx → k < 4 → b < 8 →
      u8at (applyWrites (THPSwizzle src (8 * nx) (4 * ny)) mem)
        (i * (nx * (4 * (1 * 8))) + j * (4 * (1 * 8)) + k * (1 * 8) + b) =
      u8at src ((i * 4 + k * 1) * (8 * nx) + j * 8 + b) := by
    intro i j k b hi hj hk hb
    have h := THPSwizzle_value src mem nx ny i j k b hi hj hk hb
    simp only [Nat.mul_one, Nat.one_mul] at h ⊢
    unfold u8at at h ⊢
    rw [h, Nat.mod_mod]
  apply applyAccesses_of_mem
  · intro v' hmem
    rw [DecodeTexture_eq, loopCount_mul 8 nx (by omega), loopCount_mul 4 ny (by omega), hl]
      at hmem
    simp only [List.mem_flatMap, List.mem_range, DecodeBytes_I8_Generic, List.mem_map] at hmem
    obtain ⟨i, hi, j, hj, k, hk, b, hb, he⟩ := hmem
    injection he with hp hv
    rw [hval i j k b hi hj hk hb, hp] at hv
    exact hv.symm
  · rw [DecodeTexture_eq, loopCount_mul 8 nx (by omega), loopCount_mul 4 ny (by omega), hl]
    simp only [List.mem_flatMap, List.mem_range, DecodeBytes_I8_Generic, List.mem_map]
    refine ⟨y / 4, by omega, x / 8, by omega, y % 4, by omega, x % 8, by omega, ?_⟩
    have hp : (y / 4 * 4 + y % 4 * 1) * (8 * nx) + x / 8 * 8 + x % 8 = y * (8 * nx) + x := by
      have h1 : y / 4 * 4 + y % 4 * 1 = y := by omega
      rw [h1]
      omega
    rw [hval (y / 4) (x / 8) (y % 4) (x % 8) (by omega) (by omega) (by omega) (by omega), hp]

/-- A 16x8 plane holding src[a] = a: pixel (11, 5) decodes to 0x5B5B5B5B. -/
theorem THPSwizzle_decodes_as_I8_witness :
    8 ∣ 16 ∧ 4 ∣ 8 ∧
    applyAccesses
        (DecodeTexture 8 4 8 DecodeBytes_I8_Generic 1
          (applyWrites (THPSwizzle (fun a => a) 16 8) (fun _ => 0)) (fun _ => 0) 16 8)
        (fun _ => 0) (5 * 16 + 11) = 0x5B5B5B5B :=
  ⟨by decide, by decide,
    ((THPSwizzle_decodes_as_I8 (fun a => a) 16 8 (by decide) (by decide)).2
      (fun _ => 0) (fun _ => 0) (fun _ => 0) 11 5 (by decide) (by decide)).trans (by decide)⟩

/-! ## The CMPR palette -/

theorem MakeRGBA_natCast (r g b a : Nat) (hr : r < 256) (hg : g < 256) (hb : b < 256)
    (ha : a < 256) :
    MakeRGBA r g b a = a * 16777216 + b * 65536 + g * 256 + r := by
  have e : ∀ n : Nat, n < 256 → u32OfInt (n : Int) = n := by
    intro n hn
    unfold u32OfInt
    omega
  unfold MakeRGBA
  rw [e r hr, e g hg, e b hb, e a ha]
  simp only [Nat.shiftLeft_eq]
  have h1 : a * 2 ^ 24 ||| b * 2 ^ 16 = a * 16777216 + b * 65536 := by
    have := Nat.mul_add_lt_is_or (show b * 2 ^ 16 < 2 ^ 24 by omega) a
    rw [Nat.mul_comm (2 ^ 24) a] at this
    omega
  have h2 : (a * 16777216 + b * 65536) ||| g * 2 ^ 8 = a * 16777216 + b * 65536 + g * 256 := by
    have := Nat.mul_add_lt_is_or (show g * 2 ^ 8 < 2 ^ 16 by omega) (a * 256 + b)
    rw [show 2 ^ 16 * (a * 256 + b) = a * 16777216 + b * 65536 by ring] at this
    omega
  have h3 : (a * 16777216 + b * 65536 + g * 256) ||| r =
      a * 16777216 + b * 65536 + g * 256 + r := by
    have := Nat.mul_add_lt_is_or (show r < 2 ^ 8 by omega) (a * 65536 + b * 256 + g)
    rw [show 2 ^ 8 * (a * 65536 + b * 256 + g) = a * 16777216 + b * 65536 + g * 256 by ring]
      at this
    omega
  rw [h1, h2, h3]
  unfold u32
  omega

theorem alpha_of_or (x : Nat) : ((4278190080 ||| x) % 4294967296) >>> 24 = 255 := by
  apply Nat.eq_of_testBit_eq
  intro i
  rw [Nat.testBit_shiftRight, show (4294967296 : Nat) = 2 ^ 32 from rfl,
    Nat.testBit_mod_two_pow, Nat.testBit_or]
  by_cases h : i < 8
  · interval_cases i <;> simp [Nat.testBit]
  · have h1 : Nat.testBit 255 i = false :=
      Nat.testBit_lt_two_pow (lt_of_lt_of_le (by decide : 255 < 2 ^ 8)
        (Nat.pow_le_pow_right (by decide) (by omega)))
    rw [h1]
    simp
    omega

theorem MakeRGBA_alpha (r g b : Int) : MakeRGBA r g b 255 >>> 24 = 255 := by
  unfold MakeRGBA u32
  have e : u32OfInt 255 <<< 24 = 4278190080 := by decide
  rw [e, Nat.or_assoc, Nat.or_assoc]
  exact alpha_of_or _

theorem MakeRGBA_of_range (r g b a : Int) (hr : 0 ≤ r ∧ r < 256) (hg : 0 ≤ g ∧ g < 256)
    (hb : 0 ≤ b ∧ b < 256) (ha : 0 ≤ a ∧ a < 256) :
    MakeRGBA r g b a =
      a.toNat * 16777216 + b.toNat * 65536 + g.toNat * 256 + r.toNat := by
  have h := MakeRGBA_natCast r.toNat g.toNat b.toNat a.toNat (by omega) (by omega) (by omega)
    (by omega)
  rw [Int.toNat_of_nonneg hr.1, Int.toNat_of_nonneg hg.1, Int.toNat_of_nonneg hb.1,
    Int.toNat_of_nonneg ha.1] at h
  exact h

theorem Convert5To8_lt (v : Nat) : Convert5To8 v < 256 := by
  unfold Convert5To8
  omega

theorem Convert6To8_lt (v : Nat) : Convert6To8 v < 256 := by
  unfold Convert6To8
  omega

/-- Claim C18: in DecodeDXTBlock and in the CMPR case of DecodeTexel, with r, g, b the
expanded channels of the two colours: when c1 is not greater than c2, entries 0, 1 and 2
have alpha 255, entry 2 is the rounded-up average (x1 + x2 + 1) / 2 per channel, and entry
3 has the same three channels and alpha 0; when c1 > c2, all four entries have alpha
255. An entry is `alpha * 2^24 + blue * 2^16 + green * 2^8 + red`. -/
theorem CMPR_palette_average_and_alpha :
    (∀ (src : Nat → Nat) (o : Nat),
      let c1 := swap16 (u16at src o)
      let c2 := swap16 (u16at src (o + 2))
      let avg := (Convert5To8 (c1 &&& 0x1F) + Convert5To8 (c2 &&& 0x1F) + 1) / 2 * 65536 +
        (Convert6To8 ((c1 >>> 5) &&& 0x3F) + Convert6To8 ((c2 >>> 5) &&& 0x3F) + 1) / 2 * 256 +
        (Convert5To8 ((c1 >>> 11) &&& 0x1F) + Convert5To8 ((c2 >>> 11) &&& 0x1F) + 1) / 2
      (¬ c1 > c2 →
        DXTBlockColors src o =
          [255 * 16777216 + Convert5To8 (c1 &&& 0x1F) * 65536 +
              Convert6To8 ((c1 >>> 5) &&& 0x3F) * 256 + Convert5To8 ((c1 >>> 11) &&& 0x1F),
            255 * 16777216 + Convert5To8 (c2 &&& 0x1F) * 65536 +
              Convert6To8 ((c2 >>> 5) &&& 0x3F) * 256 + Convert5To8 ((c2 >>> 11) &&& 0x1F),
            255 * 16777216 + avg, avg] ∧ avg < 16777216) ∧
      (c1 > c2 → (DXTBlockColors src o).length = 4 ∧
        ∀ k, k < 4 → (DXTBlockColors src o).getD k 0 >>> 24 = 255)) ∧
    (∀ c1 c2 : Nat,
      let avg := (Convert5To8 (c1 &&& 0x1F) + Convert5To8 (c2 &&& 0x1F) + 1) / 2 * 65536 +
        (Convert6To8 ((c1 >>> 5) &&& 0x3F) + Convert6To8 ((c2 >>> 5) &&& 0x3F) + 1) / 2 * 256 +
        (Convert5To8 ((c1 >>> 11) &&& 0x1F) + Convert5To8 ((c2 >>> 11) &&& 0x1F) + 1) / 2
      (¬ c1 > c2 →
        DecodeTexelCMPRColor c1 c2 0 =
          255 * 16777216 + Convert5To8 (c1 &&& 0x1F) * 65536 +
            Convert6To8 ((c1 >>> 5) &&& 0x3F) * 256 + Convert5To8 ((c1 >>> 11) &&& 0x1F) ∧
        DecodeTexelCMPRColor c1 c2 1 =
          255 * 16777216 + Convert5To8 (c2 &&& 0x1F) * 65536 +
            Convert6To8 ((c2 >>> 5) &&& 0x3F) * 256 + Convert5To8 ((c2 >>> 11) &&& 0x1F) ∧
        DecodeTexelCMPRColor c1 c2 2 = 255 * 16777216 + avg ∧
        DecodeTexelCMPRColor c1 c2 3 = avg ∧ avg < 16777216) ∧
      (c1 > c2 → ∀ sel, sel < 4 → DecodeTexelCMPRColor c1 c2 sel >>> 24 = 255)) := by
  have key : ∀ r1 r2 g1 g2 b1 b2 : Nat, r1 < 256 → r2 < 256 → g1 < 256 → g2 < 256 →
      b1 < 256 → b2 < 256 →
      MakeRGBA r1 g1 b1 255 = 255 * 16777216 + b1 * 65536 + g1 * 256 + r1 ∧
      MakeRGBA (((r1 : Int) + r2 + 1) / 2) (((g1 : Int) + g2 + 1) / 2)
          (((b1 : Int) + b2 + 1) / 2) 255 =
        255 * 16777216 + ((b1 + b2 + 1) / 2 * 65536 + (g1 + g2 + 1) / 2 * 256 +
          (r1 + r2 + 1) / 2) ∧
      MakeRGBA (((r1 : Int) + r2 + 1) / 2) (((g1 : Int) + g2 + 1) / 2)
          (((b1 : Int) + b2 + 1) / 2) 0 =
        (b1 + b2 + 1) / 2 * 65536 + (g1 + g2 + 1) / 2 * 256 + (r1 + r2 + 1) / 2 ∧
      (b1 + b2 + 1) / 2 * 65536 + (g1 + g2 + 1) / 2 * 256 + (r1 + r2 + 1) / 2 < 16777216 := by
    intro r1 r2 g1 g2 b1 b2 h1 h2 h3 h4 h5 h6
    refine ⟨?_, ?_, ?_, by omega⟩
    · rw [MakeRGBA_of_range _ _ _ _ (by omega) (by omega) (by omega) (by omega)]
      omega
    · rw [MakeRGBA_of_range _ _ _ _ (by omega) (by omega) (by omega) (by omega)]
      omega
    · rw [MakeRGBA_of_range _ _ _ _ (by omega) (by omega) (by omega) (by omega)]
      omega
  constructor
  · intro src o c1 c2 avg
    have k1 := key (Convert5To8 ((c1 >>> 11) &&& 0x1F)) (Convert5To8 ((c2 >>> 11) &&& 0x1F))
      (Convert6To8 ((c1 >>> 5) &&& 0x3F)) (Convert6To8 ((c2 >>> 5) &&& 0x3F))
      (Convert5To8 (c1 &&& 0x1F)) (Convert5To8 (c2 &&& 0x1F))
      (Convert5To8_lt _) (Convert5To8_lt _) (Convert6To8_lt _) (Convert6To8_lt _)
      (Convert5To8_lt _) (Convert5To8_lt _)
    have k2 := key (Convert5To8 ((c2 >>> 11) &&& 0x1F)) (Convert5To8 ((c1 >>> 11) &&& 0x1F))
      (Convert6To8 ((c2 >>> 5) &&& 0x3F)) (Convert6To8 ((c1 >>> 5) &&& 0x3F))
      (Convert5To8 (c2 &&& 0x1F)) (Convert5To8 (c1 &&& 0x1F))
      (Convert5To8_lt _) (Convert5To8_lt _) (Convert6To8_lt _) (Convert6To8_lt _)
      (Convert5To8_lt _) (Convert5To8_lt _)
    constructor
    · intro hle
      refine ⟨?_, k1.2.2.2⟩
      simp only [DXTBlockColors]
      rw [if_neg hle, k1.1, k2.1, k1.2.1, k1.2.2.1]
    · intro hgt
      simp only [DXTBlockColors]
      rw [if_pos hgt]
      refine ⟨rfl, ?_⟩
      intro k hk
      interval_cases k <;> exact MakeRGBA_alpha _ _ _
  · intro c1 c2 avg
    have k1 := key (Convert5To8 ((c1 >>> 11) &&& 0x1F)) (Convert5To8 ((c2 >>> 11) &&& 0x1F))
      (Convert6To8 ((c1 >>> 5) &&& 0x3F)) (Convert6To8 ((c2 >>> 5) &&& 0x3F))
      (Convert5To8 (c1 &&& 0x1F)) (Convert5To8 (c2 &&& 0x1F))
      (Convert5To8_lt _) (Convert5To8_lt _) (Convert6To8_lt _) (Convert6To8_lt _)
      (Convert5To8_lt _) (Convert5To8_lt _)
    have k2 := key (Convert5To8 ((c2 >>> 11) &&& 0x1F)) (Convert5To8 ((c1 >>> 11) &&& 0x1F))
      (Convert6To8 ((c2 >>> 5) &&& 0x3F)) (Convert6To8 ((c1 >>> 5) &&& 0x3F))
      (Convert5To8 (c2 &&& 0x1F)) (Convert5To8 (c1 &&& 0x1F))
      (Convert5To8_lt _) (Convert5To8_lt _) (Convert6To8_lt _) (Convert6To8_lt _)
      (Convert5To8_lt _) (Convert5To8_lt _)
    constructor
    · intro hle
      refine ⟨?_, ?_, ?_, ?_, k1.2.2.2⟩
      · simp only [DecodeTexelCMPRColor, if_neg hle]
        exact k1.1
      · simp only [DecodeTexelCMPRColor, if_neg hle]
        exact k2.1
      · simp only [DecodeTexelCMPRColor, if_neg hle]
        exact k1.2.1
      · simp only [DecodeTexelCMPRColor, if_neg hle]
        exact k1.2.2.1
    · intro hgt sel hsel
      interval_cases sel <;> simp only [DecodeTexelCMPRColor, if_pos hgt] <;>
        exact MakeRGBA_alpha _ _ _

/-! ## Registers: lanes and bitwise or -/

theorem or_shiftRight (a b n : Nat) : (a ||| b) >>> n = a >>> n ||| b >>> n := by
  apply Nat.eq_of_testBit_eq; intro i; simp [Nat.testBit_shiftRight, Nat.testBit_or]

theorem or_shiftLeft (a b n : Nat) : (a ||| b) <<< n = a <<< n ||| b <<< n := by
  apply Nat.eq_of_testBit_eq; intro i
  simp only [Nat.testBit_shiftLeft, Nat.testBit_or, Bool.and_or_distrib_left]

theorem or_mod_two_pow (a b n : Nat) : (a ||| b) % 2 ^ n = a % 2 ^ n ||| b % 2 ^ n := by
  apply Nat.eq_of_testBit_eq; intro i
  simp only [Nat.testBit_mod_two_pow, Nat.testBit_or, Bool.and_or_distrib_left]

theorem or_and (a b c : Nat) : (a ||| b) &&& c = (a &&& c) ||| (b &&& c) := by
  apply Nat.eq_of_testBit_eq; intro i
  simp only [Nat.testBit_and, Nat.testBit_or, Bool.and_or_distrib_right]

theorem or_or_or_comm (a b c d : Nat) : (a ||| b) ||| (c ||| d) = (a ||| c) ||| (b ||| d) := by
  apply Nat.eq_of_testBit_eq; intro i
  simp only [Nat.testBit_or]
  cases a.testBit i <;> cases b.testBit i <;> cases c.testBit i <;> cases d.testBit i <;> rfl

theorem laneOf_def (w v i : Nat) : laneOf w v i = (v >>> (w * i)) % 2 ^ w := rfl

theorem ofLanes_zero (w : Nat) (f : Nat → Nat) : ofLanes w 0 f = 0 := rfl

theorem ofLanes_succ (w n : Nat) (f : Nat → Nat) :
    ofLanes w (n + 1) f = ofLanes w n f ||| ((f n % 2 ^ w) <<< (w * n)) := rfl

theorem ofLanes_succ_add (w n : Nat) (f : Nat → Nat) :
    ofLanes w n f < 2 ^ (w * n) ∧
    ofLanes w (n + 1) f = 2 ^ (w * n) * (f n % 2 ^ w) + ofLanes w n f := by
  induction n with
  | zero => simp [ofLanes_zero, ofLanes_succ]
  | succ n ih =>
    have hlt : ofLanes w (n + 1) f < 2 ^ (w * (n + 1)) := by
      rw [ih.2, Nat.mul_succ, Nat.pow_add]
      have h1 : f n % 2 ^ w < 2 ^ w := Nat.mod_lt _ (Nat.two_pow_pos w)
      calc 2 ^ (w * n) * (f n % 2 ^ w) + ofLanes w n f
          < 2 ^ (w * n) * (f n % 2 ^ w) + 2 ^ (w * n) := by omega
        _ = 2 ^ (w * n) * (f n % 2 ^ w + 1) := by ring
        _ ≤ 2 ^ (w * n) * 2 ^ w := Nat.mul_le_mul_left _ h1
    refine ⟨hlt, ?_⟩
    rw [ofLanes_succ w (n + 1),
      Nat.shiftLeft_eq, Nat.mul_comm _ (2 ^ (w * (n + 1))), Nat.or_comm,
      ← Nat.mul_add_lt_is_or hlt]

theorem ofLanes_lt (w n : Nat) (f : Nat → Nat) : ofLanes w n f < 2 ^ (w * n) :=
  (ofLanes_succ_add w n f).1

theorem laneOf_ofLanes (w n : Nat) (f : Nat → Nat) (k : Nat) (hk : k < n) :
    laneOf w (ofLanes w n f) k = f k % 2 ^ w := by
  induction n with
  | zero => omega
  | succ n ih =>
    rw [(ofLanes_succ_add w n f).2]
    rw [laneOf_def] at ih ⊢
    rw [Nat.shiftRight_eq_div_pow]
    by_cases hkn : k = n
    · subst hkn
      rw [Nat.mul_comm (2 ^ (w * k)), Nat.add_comm, Nat.add_mul_div_right _ _ (Nat.two_pow_pos _),
        Nat.div_eq_of_lt (ofLanes_lt w k f), Nat.zero_add, Nat.mod_mod]
    · have hk' : k < n := by omega
      have ih' := ih hk'
      rw [Nat.shiftRight_eq_div_pow] at ih'
      obtain ⟨d, hd⟩ : ∃ d, n = k + (d + 1) := ⟨n - k - 1, by omega⟩
      have e : 2 ^ (w * n) = 2 ^ (w * k) * (2 ^ w * 2 ^ (w * d)) := by
        rw [hd, ← Nat.pow_add, ← Nat.pow_add]
        congr 1
        ring
      rw [e, Nat.mul_assoc, Nat.add_comm, Nat.add_mul_div_left _ _ (Nat.two_pow_pos _),
        Nat.mul_assoc, Nat.add_mul_mod_self_left, ih']

/-! ## Functions that commute with bitwise or -/

@[fun_prop]
theorem OrLin.id : OrLin (fun v => v) := fun _ _ => rfl

@[fun_prop]
theorem OrLin.const (c : Nat) : OrLin (fun _ => c) := fun _ _ => (Nat.or_self c).symm

@[fun_prop]
theorem OrLin.comp {f g : Nat → Nat} (hf : OrLin f) (hg : OrLin g) :
    OrLin (fun v => f (g v)) :=
  fun a b => by simp only [hg a b, hf _ _]

@[fun_prop]
theorem OrLin.or {f g : Nat → Nat} (hf : OrLin f) (hg : OrLin g) :
    OrLin (fun v => f v ||| g v) :=
  fun a b => by simp only [hf a b, hg a b, or_or_or_comm]

@[fun_prop]
theorem OrLin.and_const {f : Nat → Nat} (hf : OrLin f) (c : Nat) :
    OrLin (fun v => f v &&& c) :=
  fun a b => by simp only [hf a b, or_and]

@[fun_prop]
theorem OrLin.shr {f : Nat → Nat} (hf : OrLin f) (n : Nat) : OrLin (fun v => f v >>> n) :=
  fun a b => by simp only [hf a b, or_shiftRight]

@[fun_prop]
theorem OrLin.shl {f : Nat → Nat} (hf : OrLin f) (n : Nat) : OrLin (fun v => f v <<< n) :=
  fun a b => by simp only [hf a b, or_shiftLeft]

@[fun_prop]
theorem OrLin.mod {f : Nat → Nat} (hf : OrLin f) (n : Nat) : OrLin (fun v => f v % 2 ^ n) :=
  fun a b => by simp only [hf a b, or_mod_two_pow]

@[fun_prop]
theorem OrLin.mod256 {f : Nat → Nat} (hf : OrLin f) : OrLin (fun v => f v % 256) :=
  OrLin.mod hf 8

@[fun_prop]
theorem OrLin.mod65536 {f : Nat → Nat} (hf : OrLin f) : OrLin (fun v => f v % 65536) :=
  OrLin.mod hf 16

@[fun_prop]
theorem OrLin.mod32 {f : Nat → Nat} (hf : OrLin f) : OrLin (fun v => f v % 4294967296) :=
  OrLin.mod hf 32

@[fun_prop]
theorem OrLin.ite {f g : Nat → Nat} (c : Prop) [Decidable c] (hf : OrLin f) (hg : OrLin g) :
    OrLin (fun v => if c then f v else g v) := by
  intro a b; by_cases h : c <;> simp [h, hf a b, hg a b]

@[fun_prop]
theorem OrLin.laneOf {f : Nat → Nat} (hf : OrLin f) (w i : Nat) :
    OrLin (fun v => laneOf w (f v) i) :=
  fun a b => by simp only [laneOf_def, hf a b, or_shiftRight, or_mod_two_pow]

theorem OrLin.ofLanes {F : Nat → Nat → Nat} (w n : Nat) (hF : ∀ i, OrLin (fun v => F v i)) :
    OrLin (fun v => ofLanes w n (F v)) := by
  intro a b
  induction n with
  | zero => simp [ofLanes_zero]
  | succ n ih =>
    have h := hF n a b
    simp only [ofLanes_succ] at ih h ⊢
    rw [ih, h, or_mod_two_pow, or_shiftLeft, or_or_or_comm]

theorem OrLin.ext {β : Type} (op : β → β → β) (f g : Nat → β)
    (hf : ∀ a b, f (a ||| b) = op (f a) (f b)) (hg : ∀ a b, g (a ||| b) = op (g a) (g b))
    (n : Nat) (h0 : f 0 = g 0) (hb : ∀ i, i < n → f (2 ^ i) = g (2 ^ i)) :
    ∀ x, x < 2 ^ n → f x = g x := by
  induction n with
  | zero =>
    intro x hx
    have : x = 0 := by simpa using hx
    subst this
    exact h0
  | succ n ih =>
    intro x hx
    have ih' := ih (fun i hi => hb i (by omega))
    by_cases hlt : x < 2 ^ n
    · exact ih' x hlt
    · have hx' : x = 2 ^ n * 1 ||| (x - 2 ^ n) := by
        rw [← Nat.mul_add_lt_is_or (by rw [Nat.pow_succ] at hx; omega)]
        omega
      rw [Nat.mul_one] at hx'
      rw [hx', hf, hg, hb n (by omega), ih' (x - 2 ^ n) (by rw [Nat.pow_succ] at hx; omega)]

/-! ## The intrinsics that commute with bitwise or -/

@[fun_prop]
theorem OrLin.srli_epi16 {f : Nat → Nat} (hf : OrLin f) (n : Nat) :
    OrLin (fun v => _mm_srli_epi16 (f v) n) :=
  OrLin.ofLanes _ _ fun i => by fun_prop

@[fun_prop]
theorem OrLin.slli_epi16 {f : Nat → Nat} (hf : OrLin f) (n : Nat) :
    OrLin (fun v => _mm_slli_epi16 (f v) n) :=
  OrLin.ofLanes _ _ fun i => by fun_prop

@[fun_prop]
theorem OrLin.srli_epi32 {f : Nat → Nat} (hf : OrLin f) (n : Nat) :
    OrLin (fun v => _mm_srli_epi32 (f v) n) :=
  OrLin.ofLanes _ _ fun i => by fun_prop

@[fun_prop]
theorem OrLin.slli_epi32 {f : Nat → Nat} (hf : OrLin f) (n : Nat) :
    OrLin (fun v => _mm_slli_epi32 (f v) n) :=
  OrLin.ofLanes _ _ fun i => by fun_prop

@[fun_prop]
theorem OrLin.srli_epi64 {f : Nat → Nat} (hf : OrLin f) (n : Nat) :
    OrLin (fun v => _mm_srli_epi64 (f v) n) :=
  OrLin.ofLanes _ _ fun i => by fun_prop

@[fun_prop]
theorem OrLin.slli_epi64 {f : Nat → Nat} (hf : OrLin f) (n : Nat) :
    OrLin (fun v => _mm_slli_epi64 (f v) n) :=
  OrLin.ofLanes _ _ fun i => by fun_prop

@[fun_prop]
theorem OrLin.srli_epi16_256 {f : Nat → Nat} (hf : OrLin f) (n : Nat) :
    OrLin (fun v => _mm256_srli_epi16 (f v) n) :=
  OrLin.ofLanes _ _ fun i => by fun_prop

@[fun_prop]
theorem OrLin.slli_epi16_256 {f : Nat → Nat} (hf : OrLin f) (n : Nat) :
    OrLin (fun v => _mm256_slli_epi16 (f v) n) :=
  OrLin.ofLanes _ _ fun i => by fun_prop

@[fun_prop]
theorem OrLin.srli_epi32_256 {f : Nat → Nat} (hf : OrLin f) (n : Nat) :
    OrLin (fun v => _mm256_srli_epi32 (f v) n) :=
  OrLin.ofLanes _ _ fun i => by fun_prop

@[fun_prop]
theorem OrLin.slli_epi32_256 {f : Nat → Nat} (hf : OrLin f) (n : Nat) :
    OrLin (fun v => _mm256_slli_epi32 (f v) n) :=
  OrLin.ofLanes _ _ fun i => by fun_prop

@[fun_prop]
theorem OrLin.slli_epi64_256 {f : Nat → Nat} (hf : OrLin f) (n : Nat) :
    OrLin (fun v => _mm256_slli_epi64 (f v) n) :=
  OrLin.ofLanes _ _ fun i => by fun_prop

@[fun_prop]
theorem OrLin.slli_si128 {f : Nat → Nat} (hf : OrLin f) (n : Nat) :
    OrLin (fun v => _mm_slli_si128 (f v) n) := by
  unfold _mm_slli_si128
  fun_prop

@[fun_prop]
theorem OrLin.srli_si128 {f : Nat → Nat} (hf : OrLin f) (n : Nat) :
    OrLin (fun v => _mm_srli_si128 (f v) n) := by
  unfold _mm_srli_si128
  fun_prop

@[fun_prop]
theorem OrLin.unpacklo_epi8 {f g : Nat → Nat} (hf : OrLin f) (hg : OrLin g) :
    OrLin (fun v => _mm_unpacklo_epi8 (f v) (g v)) :=
  OrLin.ofLanes _ _ fun i => by fun_prop

@[fun_prop]
theorem OrLin.unpackhi_epi8 {f g : Nat → Nat} (hf : OrLin f) (hg : OrLin g) :
    OrLin (fun v => _mm_unpackhi_epi8 (f v) (g v)) :=
  OrLin.ofLanes _ _ fun i => by fun_prop

@[fun_prop]
theorem OrLin.unpacklo_epi16 {f g : Nat → Nat} (hf : OrLin f) (hg : OrLin g) :
    OrLin (fun v => _mm_unpacklo_epi16 (f v) (g v)) :=
  OrLin.ofLanes _ _ fun i => by fun_prop

@[fun_prop]
theorem OrLin.unpackhi_epi16 {f g : Nat → Nat} (hf : OrLin f) (hg : OrLin g) :
    OrLin (fun v => _mm_unpackhi_epi16 (f v) (g v)) :=
  OrLin.ofLanes _ _ fun i => by fun_prop

@[fun_prop]
theorem OrLin.unpacklo_epi8_256 {f g : Nat → Nat} (hf : OrLin f) (hg : OrLin g) :
    OrLin (fun v => _mm256_unpacklo_epi8 (f v) (g v)) :=
  OrLin.ofLanes _ _ fun i => by fun_prop

@[fun_prop]
theorem OrLin.unpackhi_epi8_256 {f g : Nat → Nat} (hf : OrLin f) (hg : OrLin g) :
    OrLin (fun v => _mm256_unpackhi_epi8 (f v) (g v)) :=
  OrLin.ofLanes _ _ fun i => by fun_prop

@[fun_prop]
theorem OrLin.shuffle_epi8 {f : Nat → Nat} (hf : OrLin f) (m : Nat) :
    OrLin (fun v => _mm_shuffle_epi8 (f v) m) :=
  OrLin.ofLanes _ _ fun i => by fun_prop

@[fun_prop]
theorem OrLin.shuffle_epi8_256 {f : Nat → Nat} (hf : OrLin f) (m : Nat) :
    OrLin (fun v => _mm256_shuffle_epi8 (f v) m) :=
  OrLin.ofLanes _ _ fun i => by fun_prop

@[fun_prop]
theorem OrLin.shuffle_epi32 {f : Nat → Nat} (hf : OrLin f) (imm : Nat) :
    OrLin (fun v => _mm_shuffle_epi32 (f v) imm) :=
  OrLin.ofLanes _ _ fun i => by fun_prop

@[fun_prop]
theorem OrLin.broadcastsi128_si256 {f : Nat → Nat} (hf : OrLin f) :
    OrLin (fun v => _mm256_broadcastsi128_si256 (f v)) :=
  OrLin.ofLanes _ _ fun i => by fun_prop

@[fun_prop]
theorem OrLin.extracti128_si256 {f : Nat → Nat} (hf : OrLin f) (k : Nat) :
    OrLin (fun v => _mm256_extracti128_si256 (f v) k) := by
  unfold _mm256_extracti128_si256
  fun_prop

@[fun_prop]
theorem OrLin.permute2x128_si256 {f g : Nat → Nat} (hf : OrLin f) (hg : OrLin g) (imm : Nat) :
    OrLin (fun v => _mm256_permute2x128_si256 (f v) (g v) imm) :=
  OrLin.ofLanes _ _ fun i => by fun_prop

/-! ## List-valued functions that commute with bitwise or -/

theorem OrLinL.nil : OrLinL (fun _ => []) := ⟨fun _ _ => rfl, fun _ _ => rfl⟩

theorem OrLinL.cons {f : Nat → Nat} {F : Nat → List Nat} (hf : OrLin f) (hF : OrLinL F) :
    OrLinL (fun v => f v :: F v) :=
  ⟨fun a b => by simp [hF.1 a b], fun a b => by simp [hf a b, hF.2 a b]⟩

theorem OrLinL.append {F G : Nat → List Nat} (hF : OrLinL F) (hG : OrLinL G) :
    OrLinL (fun v => F v ++ G v) :=
  ⟨fun a b => by simp [hF.1 a b, hG.1 a b],
    fun a b => by
      show F (a ||| b) ++ G (a ||| b) = _
      rw [List.zipWith_append _ _ _ _ _ (hF.1 a b), hF.2 a b, hG.2 a b]⟩

theorem OrLinL.map_range {E : Nat → Nat → Nat} (n : Nat) (hE : ∀ i, OrLin (fun v => E v i)) :
    OrLinL (fun v => (List.range n).map (E v)) :=
  ⟨fun a b => by simp, fun a b => by
    show (List.range n).map (E (a ||| b)) = _
    rw [List.zipWith_map, List.zipWith_same]
    apply List.map_congr_left
    intro i _
    exact hE i a b⟩

theorem OrLinL.flatMap_range {G : Nat → Nat → List Nat} (n : Nat)
    (hG : ∀ r, OrLinL (fun v => G v r)) :
    OrLinL (fun v => (List.range n).flatMap (G v)) := by
  induction n with
  | zero => exact ⟨fun _ _ => rfl, fun _ _ => rfl⟩
  | succ n ih =>
    have h := OrLinL.append ih (hG n)
    simpa only [List.range_succ, List.flatMap_append, List.flatMap_singleton] using h

theorem OrLinL.regPixels_nil (n : Nat) : OrLinL (fun _ => regPixels n []) :=
  ⟨fun _ _ => rfl, fun _ _ => rfl⟩

theorem OrLinL.regPixels_cons {f : Nat → Nat} {F : Nat → List Nat} (n : Nat) (hf : OrLin f)
    (hF : OrLinL (fun v => regPixels n (F v))) :
    OrLinL (fun v => regPixels n (f v :: F v)) := by
  have h := OrLinL.append (OrLinL.map_range n fun i => OrLin.laneOf hf 32 i) hF
  simpa only [regPixels, List.flatMap_cons] using h

theorem OrLinL.eq_of_basis {F G : Nat → List Nat} (hF : OrLinL F) (hG : OrLinL G) (n : Nat)
    (h0 : F 0 = G 0) (hb : ∀ i, i < n → F (2 ^ i) = G (2 ^ i)) :
    ∀ x, x < 2 ^ n → F x = G x :=
  OrLin.ext (List.zipWith fun x y => x ||| y) F G hF.2 hG.2 n h0 hb

/-! ## Loads seen through the bytes of the loaded register -/

theorem load_si128_lt (src : Nat → Nat) (a : Nat) : _mm_load_si128 src a < 2 ^ 128 :=
  ofLanes_lt 8 16 _

theorem u8at_memOf_load_si128 (src : Nat → Nat) (a c : Nat) (hc : c < 16) :
    u8at (memOf (_mm_load_si128 src a)) c = u8at src (a + c) := by
  unfold u8at memOf _mm_load_si128
  rw [laneOf_ofLanes 8 16 _ c hc]
  norm_num

/-! ## I4 -/

theorem I4_SSE2_lin : OrLinL (fun x => regPixels 4 (DecodeBytes_I4_SSE2_regs x)) := by
  simp only [DecodeBytes_I4_SSE2_regs]
  repeat' (first | exact OrLinL.regPixels_nil 4 | apply OrLinL.regPixels_cons)
  all_goals fun_prop

theorem I4_Generic_lin (L : Nat) : OrLinL (blockValues DecodeBytes_I4_Generic L 4) := by
  unfold blockValues
  simp only [DecodeBytes_I4_Generic, List.map_flatMap, List.map_cons, List.map_nil, Access.value,
    u8at, memOf, Convert4To8]
  apply OrLinL.flatMap_range
  intro r
  apply OrLinL.flatMap_range
  intro i
  apply OrLinL.cons _ (OrLinL.cons _ OrLinL.nil)
  all_goals fun_prop

set_option maxRecDepth 100000 in
theorem I4_SSE2_basis : ∀ i, i < 128 →
    regPixels 4 (DecodeBytes_I4_SSE2_regs (2 ^ i)) =
      blockValues DecodeBytes_I4_Generic 4 4 (2 ^ i) := by
  decide!

theorem I4_SSE2_regs_eq (x : Nat) (hx : x < 2 ^ 128) :
    regPixels 4 (DecodeBytes_I4_SSE2_regs x) = blockValues DecodeBytes_I4_Generic 4 4 x :=
  OrLinL.eq_of_basis I4_SSE2_lin (I4_Generic_lin 4) 128 (by decide!) I4_SSE2_basis x hx

theorem I4_SSE2_shell (dst : Nat) (src : Nat → Nat) (o : Nat) (tlut : Nat → Nat) (w : Nat) :
    DecodeBytes_I4_SSE2 dst src o tlut w =
      storeRows dst w 8 4 (regPixels 4 (DecodeBytes_I4_SSE2_regs (_mm_load_si128 src o))) := by
  obtain ⟨o0, o1, o2, o3, o4, o5, o6, o7, h⟩ : ∃ o0 o1 o2 o3 o4 o5 o6 o7,
      DecodeBytes_I4_SSE2_regs (_mm_load_si128 src o) = [o0, o1, o2, o3, o4, o5, o6, o7] :=
    ⟨_, _, _, _, _, _, _, _, rfl⟩
  simp only [DecodeBytes_I4_SSE2]
  rw [h]
  rfl

theorem I4_Generic_shell4 (dst : Nat) (src : Nat → Nat) (o : Nat) (tlut : Nat → Nat) (w : Nat) :
    ((List.range 4).flatMap fun r =>
        DecodeBytes_I4_Generic (dst + r * w) src (o + r * 4) tlut w) =
      storeRows dst w 8 4 (blockValues DecodeBytes_I4_Generic 4 4 (_mm_load_si128 src o)) := by
  simp [storeRows, blockValues, DecodeBytes_I4_Generic, List.range_succ, Access.value,
    u8at_memOf_load_si128, Nat.add_assoc]

theorem DecodeBytes_I4_SSE2_eq (dst : Nat) (src : Nat → Nat) (o : Nat) (tlut : Nat → Nat)
    (w : Nat) :
    DecodeBytes_I4_SSE2 dst src o tlut w =
      (List.range 4).flatMap fun r =>
        DecodeBytes_I4_Generic (dst + r * w) src (o + r * 4) tlut w := by
  rw [I4_SSE2_shell, I4_Generic_shell4, I4_SSE2_regs_eq _ (load_si128_lt src o)]

/-! ## Several block lines per call -/

theorem range_flatMap_chunks {α : Type} (n L : Nat) (g : Nat → List α) :
    (List.range (n * L)).flatMap g =
      (List.range n).flatMap fun k => (List.range L).flatMap fun r => g (k * L + r) := by
  induction n with
  | zero => simp
  | succ n ih =>
    rw [Nat.succ_mul, List.range_add, List.flatMap_append, ih, List.range_succ,
      List.flatMap_append, List.flatMap_singleton, List.flatMap_map]

theorem loopCount_one (n : Nat) : loopCount n 1 = n := by
  simp [loopCount]

theorem DecodeTexture_lines_per_call (bw bpl : Nat) (dec gen : BlockLineDecoder) (L nl : Nat)
    (hL : 0 < L)
    (hdec : ∀ dst src o tlut w, dec dst src o tlut w =
      (List.range L).flatMap fun r => gen (dst + r * w) src (o + r * bpl) tlut w)
    (src tlut : Nat → Nat) (width height : Nat) :
    DecodeTexture bw (L * nl) bpl dec L src tlut width height =
      DecodeTexture bw (L * nl) bpl gen 1 src tlut width height := by
  rw [DecodeTexture_eq, DecodeTexture_eq, loopCount_mul L nl hL, loopCount_one]
  apply List.flatMap_congr
  intro i _
  apply List.flatMap_congr
  intro j _
  rw [Nat.mul_comm L nl, range_flatMap_chunks nl L]
  apply List.flatMap_congr
  intro k _
  rw [hdec]
  apply List.flatMap_congr
  intro r _
  congr 1
  · ring
  · ring

theorem u8at_memOf_ofLanes (n : Nat) (f : Nat → Nat) (c : Nat) (hc : c < n) :
    u8at (memOf (ofLanes 8 n f)) c = f c % 256 := by
  unfold u8at memOf
  rw [laneOf_ofLanes 8 n _ c hc]
  norm_num

theorem u8at_memOf_loadl_epi64 (src : Nat → Nat) (a c : Nat) (hc : c < 8) :
    u8at (memOf (_mm_loadl_epi64 src a)) c = u8at src (a + c) :=
  u8at_memOf_ofLanes 8 _ c hc

theorem u8at_memOf_load_si256 (src : Nat → Nat) (a c : Nat) (hc : c < 32) :
    u8at (memOf (_mm256_load_si256 src a)) c = u8at src (a + c) :=
  u8at_memOf_ofLanes 32 _ c hc

/-! ## I4, other levels -/

theorem I4_SSSE3_lin : OrLinL (fun x => regPixels 4 (DecodeBytes_I4_SSSE3_regs x)) := by
  simp only [DecodeBytes_I4_SSSE3_regs]
  repeat' (first | exact OrLinL.regPixels_nil 4 | apply OrLinL.regPixels_cons)
  all_goals fun_prop

set_option maxRecDepth 100000 in
theorem I4_SSSE3_basis : ∀ i, i < 128 →
    regPixels 4 (DecodeBytes_I4_SSSE3_regs (2 ^ i)) =
      blockValues DecodeBytes_I4_Generic 4 4 (2 ^ i) := by
  decide!

theorem I4_SSSE3_regs_eq (x : Nat) (hx : x < 2 ^ 128) :
    regPixels 4 (DecodeBytes_I4_SSSE3_regs x) =
      blockValues DecodeBytes_I4_Generic 4 4 x :=
  OrLinL.eq_of_basis I4_SSSE3_lin (I4_Generic_lin 4) 128 (by decide!) I4_SSSE3_basis x hx

theorem I4_SSSE3_shell (dst : Nat) (src : Nat → Nat) (o : Nat) (tlut : Nat → Nat) (w : Nat) :
    DecodeBytes_I4_SSSE3 dst src o tlut w =
      storeRows dst w 8 4 (regPixels 4 (DecodeBytes_I4_SSSE3_regs (_mm_load_si128 src o))) := by
  obtain ⟨o0, o1, o2, o3, o4, o5, o6, o7, h⟩ : ∃ o0 o1 o2 o3 o4 o5 o6 o7,
      DecodeBytes_I4_SSSE3_regs (_mm_load_si128 src o) = [o0, o1, o2, o3, o4, o5, o6, o7] :=
    ⟨_, _, _, _, _, _, _, _, rfl⟩
  simp only [DecodeBytes_I4_SSSE3]
  rw [h]
  simp [storeRows, regPixels, _mm_store_si128, _mm256_store_si256, List.range_succ,
    Nat.add_assoc]

theorem DecodeBytes_I4_SSSE3_eq (dst : Nat) (src : Nat → Nat) (o : Nat) (tlut : Nat → Nat)
    (w : Nat) :
    DecodeBytes_I4_SSSE3 dst src o tlut w =
      (List.range 4).flatMap fun r =>
        DecodeBytes_I4_Generic (dst + r * w) src (o + r * 4) tlut w := by
  rw [I4_SSSE3_shell, I4_Generic_shell4,
    I4_SSSE3_regs_eq _ (show _mm_load_si128 src o < 2 ^ 128 from ofLanes_lt 8 16 _)]

theorem I4_Generic_shell_8_32 (dst : Nat) (src : Nat → Nat) (o : Nat)
    (tlut : Nat → Nat) (w : Nat) :
    ((List.range 8).flatMap fun r =>
        DecodeBytes_I4_Generic (dst + r * w) src (o + r * 4) tlut w) =
      storeRows dst w 8 8 (blockValues DecodeBytes_I4_Generic 8 4 (_mm256_load_si256 src o)) := by
  simp [storeRows, blockValues, DecodeBytes_I4_Generic, List.range_succ, Access.value,
    u8at_memOf_load_si128, u8at_memOf_loadl_epi64, u8at_memOf_load_si256, Nat.add_assoc]

theorem I4_AVX2_lin : OrLinL (fun x => regPixels 8 (DecodeBytes_I4_AVX2_regs x)) := by
  simp only [DecodeBytes_I4_AVX2_regs]
  repeat' (first | exact OrLinL.regPixels_nil 8 | apply OrLinL.regPixels_cons)
  all_goals fun_prop

set_option maxRecDepth 100000 in
theorem I4_AVX2_basis : ∀ i, i < 256 →
    regPixels 8 (DecodeBytes_I4_AVX2_regs (2 ^ i)) =
      blockValues DecodeBytes_I4_Generic 8 4 (2 ^ i) := by
  decide!

theorem I4_AVX2_regs_eq (x : Nat) (hx : x < 2 ^ 256) :
    regPixels 8 (DecodeBytes_I4_AVX2_regs x) =
      blockValues DecodeBytes_I4_Generic 8 4 x :=
  OrLinL.eq_of_basis I4_AVX2_lin (I4_Generic_lin 8) 256 (by decide!) I4_AVX2_basis x hx

theorem I4_AVX2_shell (dst : Nat) (src : Nat → Nat) (o : Nat) (tlut : Nat → Nat) (w : Nat) :
    DecodeBytes_I4_AVX2 dst src o tlut w =
      storeRows dst w 8 8 (regPixels 8 (DecodeBytes_I4_AVX2_regs (_mm256_load_si256 src o))) := by
  obtain ⟨o0, o1, o2, o3, o4, o5, o6, o7, h⟩ : ∃ o0 o1 o2 o3 o4 o5 o6 o7,
      DecodeBytes_I4_AVX2_regs (_mm256_load_si256 src o) = [o0, o1, o2, o3, o4, o5, o6, o7] :=
    ⟨_, _, _, _, _, _, _, _, rfl⟩
  simp only [DecodeBytes_I4_AVX2]
  rw [h]
  simp [storeRows, regPixels, _mm_store_si128, _mm256_store_si256, List.range_succ,
    Nat.add_assoc]

theorem DecodeBytes_I4_AVX2_eq (dst : Nat) (src : Nat → Nat) (o : Nat) (tlut : Nat → Nat)
    (w : Nat) :
    DecodeBytes_I4_AVX2 dst src o tlut w =
      (List.range 8).flatMap fun r =>
        DecodeBytes_I4_Generic (dst + r * w) src (o + r * 4) tlut w := by
  rw [I4_AVX2_shell, I4_Generic_shell_8_32,
    I4_AVX2_regs_eq _ (show _mm256_load_si256 src o < 2 ^ 256 from ofLanes_lt 8 32 _)]

/-! ## I8 -/

theorem I8_Generic_lin (L : Nat) : OrLinL (blockValues DecodeBytes_I8_Generic L 8) := by
  unfold blockValues
  simp only [DecodeBytes_I8_Generic, List.map_flatMap, List.map_map, Function.comp_def,
    Access.value, u8at, memOf]
  apply OrLinL.flatMap_range
  intro r
  apply OrLinL.map_range
  intro i
  fun_prop

theorem I8_Generic_shell_1_8 (dst : Nat) (src : Nat → Nat) (o : Nat)
    (tlut : Nat → Nat) (w : Nat) :
    ((List.range 1).flatMap fun r =>
        DecodeBytes_I8_Generic (dst + r * w) src (o + r * 8) tlut w) =
      storeRows dst w 8 1 (blockValues DecodeBytes_I8_Generic 1 8 (_mm_loadl_epi64 src o)) := by
  simp [storeRows, blockValues, DecodeBytes_I8_Generic, List.range_succ, Access.value,
    u8at_memOf_load_si128, u8at_memOf_loadl_epi64, u8at_memOf_load_si256, Nat.add_assoc]

theorem I8_Generic_shell_2_16 (dst : Nat) (src : Nat → Nat) (o : Nat)
    (tlut : Nat → Nat) (w : Nat) :
    ((List.range 2).flatMap fun r =>
        DecodeBytes_I8_Generic (dst + r * w) src (o + r * 8) tlut w) =
      storeRows dst w 8 2 (blockValues DecodeBytes_I8_Generic 2 8 (_mm_load_si128 src o)) := by
  simp [storeRows, blockValues, DecodeBytes_I8_Generic, List.range_succ, Access.value,
    u8at_memOf_load_si128, u8at_memOf_loadl_epi64, u8at_memOf_load_si256, Nat.add_assoc]

theorem I8_SSE2_lin : OrLinL (fun x => regPixels 4 (DecodeBytes_I8_SSE2_regs x)) := by
  simp only [DecodeBytes_I8_SSE2_regs]
  repeat' (first | exact OrLinL.regPixels_nil 4 | apply OrLinL.regPixels_cons)
  all_goals fun_prop

set_option maxRecDepth 100000 in
theorem I8_SSE2_basis : ∀ i, i < 64 →
    regPixels 4 (DecodeBytes_I8_SSE2_regs (2 ^ i)) =
      blockValues DecodeBytes_I8_Generic 1 8 (2 ^ i) := by
  decide!

theorem I8_SSE2_regs_eq (x : Nat) (hx : x < 2 ^ 64) :
    regPixels 4 (DecodeBytes_I8_SSE2_regs x) =
      blockValues DecodeBytes_I8_Generic 1 8 x :=
  OrLinL.eq_of_basis I8_SSE2_lin (I8_Generic_lin 1) 64 (by decide!) I8_SSE2_basis x hx

theorem I8_SSE2_shell (dst : Nat) (src : Nat → Nat) (o : Nat) (tlut : Nat → Nat) (w : Nat) :
    DecodeBytes_I8_SSE2 dst src o tlut w =
      storeRows dst w 8 1 (regPixels 4 (DecodeBytes_I8_SSE2_regs (_mm_loadl_epi64 src o))) := by
  obtain ⟨o0, o1, h⟩ : ∃ o0 o1,
      DecodeBytes_I8_SSE2_regs (_mm_loadl_epi64 src o) = [o0, o1] :=
    ⟨_, _, rfl⟩
  simp only [DecodeBytes_I8_SSE2]
  rw [h]
  simp [storeRows, regPixels, _mm_store_si128, _mm256_store_si256, List.range_succ,
    Nat.add_assoc]

theorem DecodeBytes_I8_SSE2_eq (dst : Nat) (src : Nat → Nat) (o : Nat) (tlut : Nat → Nat)
    (w : Nat) :
    DecodeBytes_I8_SSE2 dst src o tlut w =
      (List.range 1).flatMap fun r =>
        DecodeBytes_I8_Generic (dst + r * w) src (o + r * 8) tlut w := by
  rw [I8_SSE2_shell, I8_Generic_shell_1_8,
    I8_SSE2_regs_eq _ (show _mm_loadl_epi64 src o < 2 ^ 64 from ofLanes_lt 8 8 _)]

theorem I8_SSSE3_lin : OrLinL (fun x => regPixels 4 (DecodeBytes_I8_SSSE3_regs x)) := by
  simp only [DecodeBytes_I8_SSSE3_regs]
  repeat' (first | exact OrLinL.regPixels_nil 4 | apply OrLinL.regPixels_cons)
  all_goals fun_prop

set_option maxRecDepth 100000 in
theorem I8_SSSE3_basis : ∀ i, i < 64 →
    regPixels 4 (DecodeBytes_I8_SSSE3_regs (2 ^ i)) =
      blockValues DecodeBytes_I8_Generic 1 8 (2 ^ i) := by
  decide!

theorem I8_SSSE3_regs_eq (x : Nat) (hx : x < 2 ^ 64) :
    regPixels 4 (DecodeBytes_I8_SSSE3_regs x) =
      blockValues DecodeBytes_I8_Generic 1 8 x :=
  OrLinL.eq_of_basis I8_SSSE3_lin (I8_Generic_lin 1) 64 (by decide!) I8_SSSE3_basis x hx

theorem I8_SSSE3_shell (dst : Nat) (src : Nat → Nat) (o : Nat) (tlut : Nat → Nat) (w : Nat) :
    DecodeBytes_I8_SSSE3 dst src o tlut w =
      storeRows dst w 8 1 (regPixels 4 (DecodeBytes_I8_SSSE3_regs (_mm_loadl_epi64 src o))) := by
  obtain ⟨o0, o1, h⟩ : ∃ o0 o1,
      DecodeBytes_I8_SSSE3_regs (_mm_loadl_epi64 src o) = [o0, o1] :=
    ⟨_, _, rfl⟩
  simp only [DecodeBytes_I8_SSSE3]
  rw [h]
  simp [storeRows, regPixels, _mm_store_si128, _mm256_store_si256, List.range_succ,
    Nat.add_assoc]

theorem DecodeBytes_I8_SSSE3_eq (dst : Nat) (src : Nat → Nat) (o : Nat) (tlut : Nat → Nat)
    (w : Nat) :
    DecodeBytes_I8_SSSE3 dst src o tlut w =
      (List.range 1).flatMap fun r =>
        DecodeBytes_I8_Generic (dst + r * w) src (o + r * 8) tlut w := by
  rw [I8_SSSE3_shell, I8_Generic_shell_1_8,
    I8_SSSE3_regs_eq _ (show _mm_loadl_epi64 src o < 2 ^ 64 from ofLanes_lt 8 8 _)]

theorem I8_AVX2_lin : OrLinL (fun x => regPixels 8 (DecodeBytes_I8_AVX2_regs x)) := by
  simp only [DecodeBytes_I8_AVX2_regs]
  repeat' (first | exact OrLinL.regPixels_nil 8 | apply OrLinL.regPixels_cons)
  all_goals fun_prop

set_option maxRecDepth 100000 in
theorem I8_AVX2_basis : ∀ i, i < 128 →
    regPixels 8 (DecodeBytes_I8_AVX2_regs (2 ^ i)) =
      blockValues DecodeBytes_I8_Generic 2 8 (2 ^ i) := by
  decide!

theorem I8_AVX2_regs_eq (x : Nat) (hx : x < 2 ^ 128) :
    regPixels 8 (DecodeBytes_I8_AVX2_regs x) =
      blockValues DecodeBytes_I8_Generic 2 8 x :=
  OrLinL.eq_of_basis I8_AVX2_lin (I8_Generic_lin 2) 128 (by decide!) I8_AVX2_basis x hx

theorem I8_AVX2_shell (dst : Nat) (src : Nat → Nat) (o : Nat) (tlut : Nat → Nat) (w : Nat) :
    DecodeBytes_I8_AVX2 dst src o tlut w =
      storeRows dst w 8 2 (regPixels 8 (DecodeBytes_I8_AVX2_regs (_mm_load_si128 src o))) := by
  obtain ⟨o0, o1, h⟩ : ∃ o0 o1,
      DecodeBytes_I8_AVX2_regs (_mm_load_si128 src o) = [o0, o1] :=
    ⟨_, _, rfl⟩
  simp only [DecodeBytes_I8_AVX2]
  rw [h]
  simp [storeRows, regPixels, _mm_store_si128, _mm256_store_si256, List.range_succ,
    Nat.add_assoc]

theorem DecodeBytes_I8_AVX2_eq (dst : Nat) (src : Nat → Nat) (o : Nat) (tlut : Nat → Nat)
    (w : Nat) :
    DecodeBytes_I8_AVX2 dst src o tlut w =
      (List.range 2).flatMap fun r =>
        DecodeBytes_I8_Generic (dst + r * w) src (o + r * 8) tlut w := by
  rw [I8_AVX2_shell, I8_Generic_shell_2_16,
    I8_AVX2_regs_eq _ (show _mm_load_si128 src o < 2 ^ 128 from ofLanes_lt 8 16 _)]

/-! ## IA4 -/

theorem IA4_Generic_lin (L : Nat) : OrLinL (blockValues DecodeBytes_IA4_Generic L 8) := by
  unfold blockValues
  simp only [DecodeBytes_IA4_Generic, List.map_flatMap, List.map_map, Function.comp_def,
    Access.value, u8at, memOf, Convert4To8]
  apply OrLinL.flatMap_range
  intro r
  apply OrLinL.map_range
  intro i
  fun_prop

theorem IA4_Generic_shell_1_8 (dst : Nat) (src : Nat → Nat) (o : Nat)
    (tlut : Nat → Nat) (w : Nat) :
    ((List.range 1).flatMap fun r =>
        DecodeBytes_IA4_Generic (dst + r * w) src (o + r * 8) tlut w) =
      storeRows dst w 8 1 (blockValues DecodeBytes_IA4_Generic 1 8 (_mm_loadl_epi64 src o)) := by
  simp [storeRows, blockValues, DecodeBytes_IA4_Generic, List.range_succ, Access.value,
    u8at_memOf_load_si128, u8at_memOf_loadl_epi64, u8at_memOf_load_si256, Nat.add_assoc]

theorem IA4_Generic_shell_2_16 (dst : Nat) (src : Nat → Nat) (o : Nat)
    (tlut : Nat → Nat) (w : Nat) :
    ((List.range 2).flatMap fun r =>
        DecodeBytes_IA4_Generic (dst + r * w) src (o + r * 8) tlut w) =
      storeRows dst w 8 2 (blockValues DecodeBytes_IA4_Generic 2 8 (_mm_load_si128 src o)) := by
  simp [storeRows, blockValues, DecodeBytes_IA4_Generic, List.range_succ, Access.value,
    u8at_memOf_load_si128, u8at_memOf_loadl_epi64, u8at_memOf_load_si256, Nat.add_assoc]

theorem IA4_SSE2_lin : OrLinL (fun x => regPixels 4 (DecodeBytes_IA4_SSE2_regs x)) := by
  simp only [DecodeBytes_IA4_SSE2_regs]
  repeat' (first | exact OrLinL.regPixels_nil 4 | apply OrLinL.regPixels_cons)
  all_goals fun_prop

set_option maxRecDepth 100000 in
theorem IA4_SSE2_basis : ∀ i, i < 128 →
    regPixels 4 (DecodeBytes_IA4_SSE2_regs (2 ^ i)) =
      blockValues DecodeBytes_IA4_Generic 2 8 (2 ^ i) := by
  decide!

theorem IA4_SSE2_regs_eq (x : Nat) (hx : x < 2 ^ 128) :
    regPixels 4 (DecodeBytes_IA4_SSE2_regs x) =
      blockValues DecodeBytes_IA4_Generic 2 8 x :=
  OrLinL.eq_of_basis IA4_SSE2_lin (IA4_Generic_lin 2) 128 (by decide!) IA4_SSE2_basis x hx

theorem IA4_SSE2_shell (dst : Nat) (src : Nat → Nat) (o : Nat) (tlut : Nat → Nat) (w : Nat) :
    DecodeBytes_IA4_SSE2 dst src o tlut w =
      storeRows dst w 8 2 (regPixels 4 (DecodeBytes_IA4_SSE2_regs (_mm_load_si128 src o))) := by
  obtain ⟨o0, o1, o2, o3, h⟩ : ∃ o0 o1 o2 o3,
      DecodeBytes_IA4_SSE2_regs (_mm_load_si128 src o) = [o0, o1, o2, o3] :=
    ⟨_, _, _, _, rfl⟩
  simp only [DecodeBytes_IA4_SSE2]
  rw [h]
  simp [storeRows, regPixels, _mm_store_si128, _mm256_store_si256, List.range_succ,
    Nat.add_assoc]

theorem DecodeBytes_IA4_SSE2_eq (dst : Nat) (src : Nat → Nat) (o : Nat) (tlut : Nat → Nat)
    (w : Nat) :
    DecodeBytes_IA4_SSE2 dst src o tlut w =
      (List.range 2).flatMap fun r =>
        DecodeBytes_IA4_Generic (dst + r * w) src (o + r * 8) tlut w := by
  rw [IA4_SSE2_shell, IA4_Generic_shell_2_16,
    IA4_SSE2_regs_eq _ (show _mm_load_si128 src o < 2 ^ 128 from ofLanes_lt 8 16 _)]

theorem IA4_SSSE3_lin : OrLinL (fun x => regPixels 4 (DecodeBytes_IA4_SSSE3_regs x)) := by
  simp only [DecodeBytes_IA4_SSSE3_regs]
  repeat' (first | exact OrLinL.regPixels_nil 4 | apply OrLinL.regPixels_cons)
  all_goals fun_prop

set_option maxRecDepth 100000 in
theorem IA4_SSSE3_basis : ∀ i, i < 64 →
    regPixels 4 (DecodeBytes_IA4_SSSE3_regs (2 ^ i)) =
      blockValues DecodeBytes_IA4_Generic 1 8 (2 ^ i) := by
  decide!

theorem IA4_SSSE3_regs_eq (x : Nat) (hx : x < 2 ^ 64) :
    regPixels 4 (DecodeBytes_IA4_SSSE3_regs x) =
      blockValues DecodeBytes_IA4_Generic 1 8 x :=
  OrLinL.eq_of_basis IA4_SSSE3_lin (IA4_Generic_lin 1) 64 (by decide!) IA4_SSSE3_basis x hx

theorem IA4_SSSE3_shell (dst : Nat) (src : Nat → Nat) (o : Nat) (tlut : Nat → Nat) (w : Nat) :
    DecodeBytes_IA4_SSSE3 dst src o tlut w =
      storeRows dst w 8 1 (regPixels 4 (DecodeBytes_IA4_SSSE3_regs (_mm_loadl_epi64 src o))) := by
  obtain ⟨o0, o1, h⟩ : ∃ o0 o1,
      DecodeBytes_IA4_SSSE3_regs (_mm_loadl_epi64 src o) = [o0, o1] :=
    ⟨_, _, rfl⟩
  simp only [DecodeBytes_IA4_SSSE3]
  rw [h]
  simp [storeRows, regPixels, _mm_store_si128, _mm256_store_si256, List.range_succ,
    Nat.add_assoc]

theorem DecodeBytes_IA4_SSSE3_eq (dst : Nat) (src : Nat → Nat) (o : Nat) (tlut : Nat → Nat)
    (w : Nat) :
    DecodeBytes_IA4_SSSE3 dst src o tlut w =
      (List.range 1).flatMap fun r =>
        DecodeBytes_IA4_Generic (dst + r * w) src (o + r * 8) tlut w := by
  rw [IA4_SSSE3_shell, IA4_Generic_shell_1_8,
    IA4_SSSE3_regs_eq _ (show _mm_loadl_epi64 src o < 2 ^ 64 from ofLanes_lt 8 8 _)]

theorem IA4_AVX2_lin : OrLinL (fun x => regPixels 8 (DecodeBytes_IA4_AVX2_regs x)) := by
  simp only [DecodeBytes_IA4_AVX2_regs]
  repeat' (first | exact OrLinL.regPixels_nil 8 | apply OrLinL.regPixels_cons)
  all_goals fun_prop

set_option maxRecDepth 100000 in
theorem IA4_AVX2_basis : ∀ i, i < 128 →
    regPixels 8 (DecodeBytes_IA4_AVX2_regs (2 ^ i)) =
      blockValues DecodeBytes_IA4_Generic 2 8 (2 ^ i) := by
  decide!

theorem IA4_AVX2_regs_eq (x : Nat) (hx : x < 2 ^ 128) :
    regPixels 8 (DecodeBytes_IA4_AVX2_regs x) =
      blockValues DecodeBytes_IA4_Generic 2 8 x :=
  OrLinL.eq_of_basis IA4_AVX2_lin (IA4_Generic_lin 2) 128 (by decide!) IA4_AVX2_basis x hx

theorem IA4_AVX2_shell (dst : Nat) (src : Nat → Nat) (o : Nat) (tlut : Nat → Nat) (w : Nat) :
    DecodeBytes_IA4_AVX2 dst src o tlut w =
      storeRows dst w 8 2 (regPixels 8 (DecodeBytes_IA4_AVX2_regs (_mm_load_si128 src o))) := by
  obtain ⟨o0, o1, h⟩ : ∃ o0 o1,
      DecodeBytes_IA4_AVX2_regs (_mm_load_si128 src o) = [o0, o1] :=
    ⟨_, _, rfl⟩
  simp only [DecodeBytes_IA4_AVX2]
  rw [h]
  simp [storeRows, regPixels, _mm_store_si128, _mm256_store_si256, List.range_succ,
    Nat.add_assoc]

theorem DecodeBytes_IA4_AVX2_eq (dst : Nat) (src : Nat → Nat) (o : Nat) (tlut : Nat → Nat)
    (w : Nat) :
    DecodeBytes_IA4_AVX2 dst src o tlut w =
      (List.range 2).flatMap fun r =>
        DecodeBytes_IA4_Generic (dst + r * w) src (o + r * 8) tlut w := by
  rw [IA4_AVX2_shell, IA4_Generic_shell_2_16,
    IA4_AVX2_regs_eq _ (show _mm_load_si128 src o < 2 ^ 128 from ofLanes_lt 8 16 _)]

/-! ## IA8 -/

theorem IA8_Generic_lin (L : Nat) : OrLinL (blockValues DecodeBytes_IA8_Generic L 8) := by
  unfold blockValues
  simp only [DecodeBytes_IA8_Generic, List.map_flatMap, List.map_map, Function.comp_def,
    Access.value, u16at, u8at, memOf, DecodePixel, DecodePixel_IA8, swap16]
  apply OrLinL.flatMap_range
  intro r
  apply OrLinL.map_range
  intro i
  fun_prop

theorem IA8_Generic_shell_1_8 (dst : Nat) (src : Nat → Nat) (o : Nat)
    (tlut : Nat → Nat) (w : Nat) :
    ((List.range 1).flatMap fun r =>
        DecodeBytes_IA8_Generic (dst + r * w) src (o + r * 8) tlut w) =
      storeRows dst w 4 1 (blockValues DecodeBytes_IA8_Generic 1 8 (_mm_loadl_epi64 src o)) := by
  simp [storeRows, blockValues, DecodeBytes_IA8_Generic, List.range_succ, Access.value,
    u8at_memOf_load_si128, u8at_memOf_loadl_epi64, u8at_memOf_load_si256, Nat.add_assoc, u16at, DecodePixel, DecodePixel_IA8, swap16]

theorem IA8_Generic_shell_2_16 (dst : Nat) (src : Nat → Nat) (o : Nat)
    (tlut : Nat → Nat) (w : Nat) :
    ((List.range 2).flatMap fun r =>
        DecodeBytes_IA8_Generic (dst + r * w) src (o + r * 8) tlut w) =
      storeRows dst w 4 2 (blockValues DecodeBytes_IA8_Generic 2 8 (_mm_load_si128 src o)) := by
  simp [storeRows, blockValues, DecodeBytes_IA8_Generic, List.range_succ, Access.value,
    u8at_memOf_load_si128, u8at_memOf_loadl_epi64, u8at_memOf_load_si256, Nat.add_assoc, u16at, DecodePixel, DecodePixel_IA8, swap16]

theorem IA8_SSE2_lin : OrLinL (fun x => regPixels 4 (DecodeBytes_IA8_SSE2_regs x)) := by
  simp only [DecodeBytes_IA8_SSE2_regs]
  repeat' (first | exact OrLinL.regPixels_nil 4 | apply OrLinL.regPixels_cons)
  all_goals fun_prop

set_option maxRecDepth 100000 in
theorem IA8_SSE2_basis : ∀ i, i < 128 →
    regPixels 4 (DecodeBytes_IA8_SSE2_regs (2 ^ i)) =
      blockValues DecodeBytes_IA8_Generic 2 8 (2 ^ i) := by
  decide!

theorem IA8_SSE2_regs_eq (x : Nat) (hx : x < 2 ^ 128) :
    regPixels 4 (DecodeBytes_IA8_SSE2_regs x) =
      blockValues DecodeBytes_IA8_Generic 2 8 x :=
  OrLinL.eq_of_basis IA8_SSE2_lin (IA8_Generic_lin 2) 128 (by decide!) IA8_SSE2_basis x hx

theorem IA8_SSE2_shell (dst : Nat) (src : Nat → Nat) (o : Nat) (tlut : Nat → Nat) (w : Nat) :
    DecodeBytes_IA8_SSE2 dst src o tlut w =
      storeRows dst w 4 2 (regPixels 4 (DecodeBytes_IA8_SSE2_regs (_mm_load_si128 src o))) := by
  obtain ⟨o0, o1, h⟩ : ∃ o0 o1,
      DecodeBytes_IA8_SSE2_regs (_mm_load_si128 src o) = [o0, o1] :=
    ⟨_, _, rfl⟩
  simp only [DecodeBytes_IA8_SSE2]
  rw [h]
  simp [storeRows, regPixels, _mm_store_si128, _mm256_store_si256, List.range_succ,
    Nat.add_assoc]

theorem DecodeBytes_IA8_SSE2_eq (dst : Nat) (src : Nat → Nat) (o : Nat) (tlut : Nat → Nat)
    (w : Nat) :
    DecodeBytes_IA8_SSE2 dst src o tlut w =
      (List.range 2).flatMap fun r =>
        DecodeBytes_IA8_Generic (dst + r * w) src (o + r * 8) tlut w := by
  rw [IA8_SSE2_shell, IA8_Generic_shell_2_16,
    IA8_SSE2_regs_eq _ (show _mm_load_si128 src o < 2 ^ 128 from ofLanes_lt 8 16 _)]

theorem IA8_SSSE3_lin : OrLinL (fun x => regPixels 4 (DecodeBytes_IA8_SSSE3_regs x)) := by
  simp only [DecodeBytes_IA8_SSSE3_regs]
  repeat' (first | exact OrLinL.regPixels_nil 4 | apply OrLinL.regPixels_cons)
  all_goals fun_prop

set_option maxRecDepth 100000 in
theorem IA8_SSSE3_basis : ∀ i, i < 64 →
    regPixels 4 (DecodeBytes_IA8_SSSE3_regs (2 ^ i)) =
      blockValues DecodeBytes_IA8_Generic 1 8 (2 ^ i) := by
  decide!

theorem IA8_SSSE3_regs_eq (x : Nat) (hx : x < 2 ^ 64) :
    regPixels 4 (DecodeBytes_IA8_SSSE3_regs x) =
      blockValues DecodeBytes_IA8_Generic 1 8 x :=
  OrLinL.eq_of_basis IA8_SSSE3_lin (IA8_Generic_lin 1) 64 (by decide!) IA8_SSSE3_basis x hx

theorem IA8_SSSE3_shell (dst : Nat) (src : Nat → Nat) (o : Nat) (tlut : Nat → Nat) (w : Nat) :
    DecodeBytes_IA8_SSSE3 dst src o tlut w =
      storeRows dst w 4 1 (regPixels 4 (DecodeBytes_IA8_SSSE3_regs (_mm_loadl_epi64 src o))) := by
  obtain ⟨o0, h⟩ : ∃ o0,
      DecodeBytes_IA8_SSSE3_regs (_mm_loadl_epi64 src o) = [o0] :=
    ⟨_, rfl⟩
  simp only [DecodeBytes_IA8_SSSE3]
  rw [h]
  simp [storeRows, regPixels, _mm_store_si128, _mm256_store_si256, List.range_succ,
    Nat.add_assoc]

theorem DecodeBytes_IA8_SSSE3_eq (dst : Nat) (src : Nat → Nat) (o : Nat) (tlut : Nat → Nat)
    (w : Nat) :
    DecodeBytes_IA8_SSSE3 dst src o tlut w =
      (List.range 1).flatMap fun r =>
        DecodeBytes_IA8_Generic (dst + r * w) src (o + r * 8) tlut w := by
  rw [IA8_SSSE3_shell, IA8_Generic_shell_1_8,
    IA8_SSSE3_regs_eq _ (show _mm_loadl_epi64 src o < 2 ^ 64 from ofLanes_lt 8 8 _)]

/-! ## RGB565 -/

theorem RGB565_Generic_lin (L : Nat) : OrLinL (blockValues DecodeBytes_RGB565_Generic L 8) := by
  unfold blockValues
  simp only [DecodeBytes_RGB565_Generic, List.map_flatMap, List.map_map, Function.comp_def,
    Access.value, u16at, u8at, memOf, DecodePixel, DecodePixel_RGB565, swap16, Convert5To8,
    Convert6To8]
  apply OrLinL.flatMap_range
  intro r
  apply OrLinL.map_range
  intro i
  fun_prop

theorem RGB565_Generic_shell_1_8 (dst : Nat) (src : Nat → Nat) (o : Nat)
    (tlut : Nat → Nat) (w : Nat) :
    ((List.range 1).flatMap fun r =>
        DecodeBytes_RGB565_Generic (dst + r * w) src (o + r * 8) tlut w) =
      storeRows dst w 4 1 (blockValues DecodeBytes_RGB565_Generic 1 8 (_mm_loadl_epi64 src o)) := by
  simp [storeRows, blockValues, DecodeBytes_RGB565_Generic, List.range_succ, Access.value,
    u8at_memOf_load_si128, u8at_memOf_loadl_epi64, u8at_memOf_load_si256, Nat.add_assoc, u16at, DecodePixel, swap16]

theorem RGB565_Generic_shell_2_16 (dst : Nat) (src : Nat → Nat) (o : Nat)
    (tlut : Nat → Nat) (w : Nat) :
    ((List.range 2).flatMap fun r =>
        DecodeBytes_RGB565_Generic (dst + r * w) src (o + r * 8) tlut w) =
      storeRows dst w 4 2 (blockValues DecodeBytes_RGB565_Generic 2 8 (_mm_load_si128 src o)) := by
  simp [storeRows, blockValues, DecodeBytes_RGB565_Generic, List.range_succ, Access.value,
    u8at_memOf_load_si128, u8at_memOf_loadl_epi64, u8at_memOf_load_si256, Nat.add_assoc, u16at, DecodePixel, swap16]

theorem RGB565_SSE2_lin : OrLinL (fun x => regPixels 4 (DecodeBytes_RGB565_SSE2_regs x)) := by
  simp only [DecodeBytes_RGB565_SSE2_regs]
  repeat' (first | exact OrLinL.regPixels_nil 4 | apply OrLinL.regPixels_cons)
  all_goals fun_prop

set_option maxRecDepth 100000 in
theorem RGB565_SSE2_basis : ∀ i, i < 64 →
    regPixels 4 (DecodeBytes_RGB565_SSE2_regs (2 ^ i)) =
      blockValues DecodeBytes_RGB565_Generic 1 8 (2 ^ i) := by
  decide!

theorem RGB565_SSE2_regs_eq (x : Nat) (hx : x < 2 ^ 64) :
    regPixels 4 (DecodeBytes_RGB565_SSE2_regs x) =
      blockValues DecodeBytes_RGB565_Generic 1 8 x :=
  OrLinL.eq_of_basis RGB565_SSE2_lin (RGB565_Generic_lin 1) 64 (by decide!) RGB565_SSE2_basis x hx

theorem RGB565_SSE2_shell (dst : Nat) (src : Nat → Nat) (o : Nat) (tlut : Nat → Nat) (w : Nat) :
    DecodeBytes_RGB565_SSE2 dst src o tlut w =
      storeRows dst w 4 1 (regPixels 4 (DecodeBytes_RGB565_SSE2_regs (_mm_loadl_epi64 src o))) := by
  obtain ⟨o0, h⟩ : ∃ o0,
      DecodeBytes_RGB565_SSE2_regs (_mm_loadl_epi64 src o) = [o0] :=
    ⟨_, rfl⟩
  simp only [DecodeBytes_RGB565_SSE2]
  rw [h]
  simp [storeRows, regPixels, _mm_store_si128, _mm256_store_si256, List.range_succ,
    Nat.add_assoc]

theorem DecodeBytes_RGB565_SSE2_eq (dst : Nat) (src : Nat → Nat) (o : Nat) (tlut : Nat → Nat)
    (w : Nat) :
    DecodeBytes_RGB565_SSE2 dst src o tlut w =
      (List.range 1).flatMap fun r =>
        DecodeBytes_RGB565_Generic (dst + r * w) src (o + r * 8) tlut w := by
  rw [RGB565_SSE2_shell, RGB565_Generic_shell_1_8,
    RGB565_SSE2_regs_eq _ (show _mm_loadl_epi64 src o < 2 ^ 64 from ofLanes_lt 8 8 _)]

theorem RGB565_AVX2_lin : OrLinL (fun x => regPixels 4 (DecodeBytes_RGB565_AVX2_regs x)) := by
  simp only [DecodeBytes_RGB565_AVX2_regs]
  repeat' (first | exact OrLinL.regPixels_nil 4 | apply OrLinL.regPixels_cons)
  all_goals fun_prop

set_option maxRecDepth 100000 in
theorem RGB565_AVX2_basis : ∀ i, i < 128 →
    regPixels 4 (DecodeBytes_RGB565_AVX2_regs (2 ^ i)) =
      blockValues DecodeBytes_RGB565_Generic 2 8 (2 ^ i) := by
  decide!

theorem RGB565_AVX2_regs_eq (x : Nat) (hx : x < 2 ^ 128) :
    regPixels 4 (DecodeBytes_RGB565_AVX2_regs x) =
      blockValues DecodeBytes_RGB565_Generic 2 8 x :=
  OrLinL.eq_of_basis RGB565_AVX2_lin (RGB565_Generic_lin 2) 128 (by decide!) RGB565_AVX2_basis x hx

theorem RGB565_AVX2_shell (dst : Nat) (src : Nat → Nat) (o : Nat) (tlut : Nat → Nat) (w : Nat) :
    DecodeBytes_RGB565_AVX2 dst src o tlut w =
      storeRows dst w 4 2 (regPixels 4 (DecodeBytes_RGB565_AVX2_regs (_mm_load_si128 src o))) := by
  obtain ⟨o0, o1, h⟩ : ∃ o0 o1,
      DecodeBytes_RGB565_AVX2_regs (_mm_load_si128 src o) = [o0, o1] :=
    ⟨_, _, rfl⟩
  simp only [DecodeBytes_RGB565_AVX2]
  rw [h]
  simp [storeRows, regPixels, _mm_store_si128, _mm256_store_si256, List.range_succ,
    Nat.add_assoc]

theorem DecodeBytes_RGB565_AVX2_eq (dst : Nat) (src : Nat → Nat) (o : Nat) (tlut : Nat → Nat)
    (w : Nat) :
    DecodeBytes_RGB565_AVX2 dst src o tlut w =
      (List.range 2).flatMap fun r =>
        DecodeBytes_RGB565_Generic (dst + r * w) src (o + r * 8) tlut w := by
  rw [RGB565_AVX2_shell, RGB565_Generic_shell_2_16,
    RGB565_AVX2_regs_eq _ (show _mm_load_si128 src o < 2 ^ 128 from ofLanes_lt 8 16 _)]

/-! ## Regrouping lanes -/

theorem ofLanes_congr (w n : Nat) (f g : Nat → Nat)
    (h : ∀ j, j < n → f j % 2 ^ w = g j % 2 ^ w) : ofLanes w n f = ofLanes w n g := by
  induction n with
  | zero => rfl
  | succ n ih =>
    simp only [ofLanes_succ]
    rw [ih (fun j hj => h j (by omega)), h n (by omega)]

theorem ofLanes_laneOf (w m u : Nat) : ofLanes w m (fun j => laneOf w u j) = u % 2 ^ (w * m) := by
  induction m with
  | zero => simp [ofLanes_zero, Nat.mod_one]
  | succ m ih =>
    rw [(ofLanes_succ_add w m _).2, ih, Nat.mul_succ, Nat.pow_add, Nat.mod_mul]
    simp only [laneOf_def]
    rw [Nat.mod_mod, Nat.shiftRight_eq_div_pow, Nat.add_comm]

theorem mod_shiftRight_mod (a N s w : Nat) (h : s + w ≤ N) :
    ((a % 2 ^ N) >>> s) % 2 ^ w = (a >>> s) % 2 ^ w := by
  apply Nat.eq_of_testBit_eq
  intro i
  simp only [Nat.testBit_mod_two_pow, Nat.testBit_shiftRight]
  by_cases hi : i < w
  · have : s + i < N := by omega
    simp [hi, this]
  · simp [hi]

theorem laneOf_laneOf (w m v k j : Nat) (hj : j < m) :
    laneOf w (laneOf (w * m) v k) j = laneOf w v (m * k + j) := by
  simp only [laneOf_def]
  rw [mod_shiftRight_mod _ _ _ _ (by
    calc w * j + w = w * (j + 1) := by ring
      _ ≤ w * m := Nat.mul_le_mul_left _ hj), ← Nat.shiftRight_add]
  congr 2
  ring

theorem laneOf_mod_self (w v k : Nat) : laneOf w v k % 2 ^ w = laneOf w v k := by
  simp only [laneOf_def]
  rw [Nat.mod_mod]

theorem laneOf_lt (w v k : Nat) : laneOf w v k < 2 ^ w :=
  Nat.mod_lt _ (Nat.two_pow_pos w)

theorem laneOf_group (w m n : Nat) (f : Nat → Nat) (k : Nat) (hk : m * k + m ≤ n) :
    laneOf (w * m) (ofLanes w n f) k = ofLanes w m (fun j => f (m * k + j)) := by
  have h1 : laneOf (w * m) (ofLanes w n f) k =
      ofLanes w m (fun j => laneOf w (laneOf (w * m) (ofLanes w n f) k) j) := by
    rw [ofLanes_laneOf, Nat.mod_eq_of_lt (laneOf_lt _ _ _)]
  rw [h1]
  apply ofLanes_congr
  intro j hj
  rw [laneOf_laneOf _ _ _ _ _ hj, laneOf_ofLanes _ _ _ _ (by omega), Nat.mod_mod]

theorem load_si128_eq_lane (n : Nat) (src : Nat → Nat) (o k : Nat) (hk : 16 * k + 16 ≤ n) :
    _mm_load_si128 src (o + 16 * k) = laneOf 128 (loadBytes n src o) k := by
  unfold _mm_load_si128 loadBytes
  rw [show (128 : Nat) = 8 * 16 from rfl, laneOf_group 8 16 n _ k hk]
  apply ofLanes_congr
  intro j _
  rw [Nat.add_assoc]

theorem load_si256_eq_lane (n : Nat) (src : Nat → Nat) (o k : Nat) (hk : 32 * k + 32 ≤ n) :
    _mm256_load_si256 src (o + 32 * k) = laneOf 256 (loadBytes n src o) k := by
  unfold _mm256_load_si256 loadBytes
  rw [show (256 : Nat) = 8 * 32 from rfl, laneOf_group 8 32 n _ k hk]
  apply ofLanes_congr
  intro j _
  rw [Nat.add_assoc]

theorem u8at_memOf_loadBytes (n : Nat) (src : Nat → Nat) (a c : Nat) (hc : c < n) :
    u8at (memOf (loadBytes n src a)) c = u8at src (a + c) :=
  u8at_memOf_ofLanes n _ c hc

theorem loadBytes_lt (n : Nat) (src : Nat → Nat) (a : Nat) : loadBytes n src a < 2 ^ (8 * n) :=
  ofLanes_lt 8 n _

/-! ## RGBA8 -/

theorem RGBA8_Generic_lin (L : Nat) : OrLinL (blockValues DecodeBytes_RGBA8_Generic L 64) := by
  unfold blockValues
  simp only [DecodeBytes_RGBA8_Generic, List.map_flatMap, List.map_map, Function.comp_def,
    Access.value, u16at, u8at, memOf, u32]
  apply OrLinL.flatMap_range
  intro r
  apply OrLinL.flatMap_range
  intro iy
  apply OrLinL.map_range
  intro ix
  fun_prop

theorem RGBA8_Generic_shell (dst : Nat) (src : Nat → Nat) (o : Nat) (tlut : Nat → Nat)
    (w : Nat) :
    ((List.range 1).flatMap fun r =>
        DecodeBytes_RGBA8_Generic (dst + r * w) src (o + r * 64) tlut w) =
      storeRows dst w 4 4 (blockValues DecodeBytes_RGBA8_Generic 1 64 (loadBytes 64 src o)) := by
  simp [storeRows, blockValues, DecodeBytes_RGBA8_Generic, List.range_succ, Access.value,
    u8at_memOf_loadBytes, Nat.add_assoc, u16at]

theorem RGBA8_SSE2_lin : OrLinL (fun x => regPixels 4 (DecodeBytes_RGBA8_SSE2_regs
    (laneOf 128 x 0) (laneOf 128 x 1) (laneOf 128 x 2) (laneOf 128 x 3))) := by
  simp only [DecodeBytes_RGBA8_SSE2_regs]
  repeat' (first | exact OrLinL.regPixels_nil 4 | apply OrLinL.regPixels_cons)
  all_goals fun_prop

set_option maxRecDepth 100000 in
theorem RGBA8_SSE2_basis : ∀ i, i < 512 →
    regPixels 4 (DecodeBytes_RGBA8_SSE2_regs (laneOf 128 (2 ^ i) 0) (laneOf 128 (2 ^ i) 1)
      (laneOf 128 (2 ^ i) 2) (laneOf 128 (2 ^ i) 3)) =
      blockValues DecodeBytes_RGBA8_Generic 1 64 (2 ^ i) := by
  decide!

theorem RGBA8_SSE2_regs_eq (x : Nat) (hx : x < 2 ^ 512) :
    regPixels 4 (DecodeBytes_RGBA8_SSE2_regs (laneOf 128 x 0) (laneOf 128 x 1)
      (laneOf 128 x 2) (laneOf 128 x 3)) = blockValues DecodeBytes_RGBA8_Generic 1 64 x :=
  OrLinL.eq_of_basis RGBA8_SSE2_lin (RGBA8_Generic_lin 1) 512 (by decide!) RGBA8_SSE2_basis x hx

theorem RGBA8_SSE2_shell (dst : Nat) (src : Nat → Nat) (o : Nat) (tlut : Nat → Nat) (w : Nat) :
    DecodeBytes_RGBA8_SSE2 dst src o tlut w =
      storeRows dst w 4 4 (regPixels 4 (DecodeBytes_RGBA8_SSE2_regs
        (laneOf 128 (loadBytes 64 src o) 0) (laneOf 128 (loadBytes 64 src o) 1)
        (laneOf 128 (loadBytes 64 src o) 2) (laneOf 128 (loadBytes 64 src o) 3))) := by
  simp only [DecodeBytes_RGBA8_SSE2]
  rw [load_si128_eq_lane 64 src o 0 (by decide), load_si128_eq_lane 64 src o 1 (by decide),
    load_si128_eq_lane 64 src o 2 (by decide), load_si128_eq_lane 64 src o 3 (by decide)]
  obtain ⟨o0, o1, o2, o3, h⟩ : ∃ o0 o1 o2 o3,
      DecodeBytes_RGBA8_SSE2_regs (laneOf 128 (loadBytes 64 src o) 0)
        (laneOf 128 (loadBytes 64 src o) 1) (laneOf 128 (loadBytes 64 src o) 2)
        (laneOf 128 (loadBytes 64 src o) 3) = [o0, o1, o2, o3] :=
    ⟨_, _, _, _, rfl⟩
  rw [h]
  simp [storeRows, regPixels, _mm_store_si128, List.range_succ, Nat.add_assoc]

theorem DecodeBytes_RGBA8_SSE2_eq (dst : Nat) (src : Nat → Nat) (o : Nat) (tlut : Nat → Nat)
    (w : Nat) :
    DecodeBytes_RGBA8_SSE2 dst src o tlut w =
      (List.range 1).flatMap fun r =>
        DecodeBytes_RGBA8_Generic (dst + r * w) src (o + r * 64) tlut w := by
  rw [RGBA8_SSE2_shell, RGBA8_Generic_shell, RGBA8_SSE2_regs_eq _ (loadBytes_lt 64 src o)]

theorem RGBA8_SSSE3_lin : OrLinL (fun x => regPixels 4 (DecodeBytes_RGBA8_SSSE3_regs
    (laneOf 128 x 0) (laneOf 128 x 1) (laneOf 128 x 2) (laneOf 128 x 3))) := by
  simp only [DecodeBytes_RGBA8_SSSE3_regs]
  repeat' (first | exact OrLinL.regPixels_nil 4 | apply OrLinL.regPixels_cons)
  all_goals fun_prop

set_option maxRecDepth 100000 in
theorem RGBA8_SSSE3_basis : ∀ i, i < 512 →
    regPixels 4 (DecodeBytes_RGBA8_SSSE3_regs (laneOf 128 (2 ^ i) 0) (laneOf 128 (2 ^ i) 1)
      (laneOf 128 (2 ^ i) 2) (laneOf 128 (2 ^ i) 3)) =
      blockValues DecodeBytes_RGBA8_Generic 1 64 (2 ^ i) := by
  decide!

theorem RGBA8_SSSE3_regs_eq (x : Nat) (hx : x < 2 ^ 512) :
    regPixels 4 (DecodeBytes_RGBA8_SSSE3_regs (laneOf 128 x 0) (laneOf 128 x 1)
      (laneOf 128 x 2) (laneOf 128 x 3)) = blockValues DecodeBytes_RGBA8_Generic 1 64 x :=
  OrLinL.eq_of_basis RGBA8_SSSE3_lin (RGBA8_Generic_lin 1) 512 (by decide!) RGBA8_SSSE3_basis x hx

theorem RGBA8_SSSE3_shell (dst : Nat) (src : Nat → Nat) (o : Nat) (tlut : Nat → Nat) (w : Nat) :
    DecodeBytes_RGBA8_SSSE3 dst src o tlut w =
      storeRows dst w 4 4 (regPixels 4 (DecodeBytes_RGBA8_SSSE3_regs
        (laneOf 128 (loadBytes 64 src o) 0) (laneOf 128 (loadBytes 64 src o) 1)
        (laneOf 128 (loadBytes 64 src o) 2) (laneOf 128 (loadBytes 64 src o) 3))) := by
  simp only [DecodeBytes_RGBA8_SSSE3]
  rw [load_si128_eq_lane 64 src o 0 (by decide), load_si128_eq_lane 64 src o 1 (by decide),
    load_si128_eq_lane 64 src o 2 (by decide), load_si128_eq_lane 64 src o 3 (by decide)]
  obtain ⟨o0, o1, o2, o3, h⟩ : ∃ o0 o1 o2 o3,
      DecodeBytes_RGBA8_SSSE3_regs (laneOf 128 (loadBytes 64 src o) 0)
        (laneOf 128 (loadBytes 64 src o) 1) (laneOf 128 (loadBytes 64 src o) 2)
        (laneOf 128 (loadBytes 64 src o) 3) = [o0, o1, o2, o3] :=
    ⟨_, _, _, _, rfl⟩
  rw [h]
  simp [storeRows, regPixels, _mm_store_si128, List.range_succ, Nat.add_assoc]

theorem DecodeBytes_RGBA8_SSSE3_eq (dst : Nat) (src : Nat → Nat) (o : Nat) (tlut : Nat → Nat)
    (w : Nat) :
    DecodeBytes_RGBA8_SSSE3 dst src o tlut w =
      (List.range 1).flatMap fun r =>
        DecodeBytes_RGBA8_Generic (dst + r * w) src (o + r * 64) tlut w := by
  rw [RGBA8_SSSE3_shell, RGBA8_Generic_shell, RGBA8_SSSE3_regs_eq _ (loadBytes_lt 64 src o)]

theorem RGBA8_AVX2_lin : OrLinL (fun x => regPixels 4 (DecodeBytes_RGBA8_AVX2_regs
    (laneOf 256 x 0) (laneOf 256 x 1))) := by
  simp only [DecodeBytes_RGBA8_AVX2_regs]
  repeat' (first | exact OrLinL.regPixels_nil 4 | apply OrLinL.regPixels_cons)
  all_goals fun_prop

set_option maxRecDepth 100000 in
theorem RGBA8_AVX2_basis : ∀ i, i < 512 →
    regPixels 4 (DecodeBytes_RGBA8_AVX2_regs (laneOf 256 (2 ^ i) 0) (laneOf 256 (2 ^ i) 1)) =
      blockValues DecodeBytes_RGBA8_Generic 1 64 (2 ^ i) := by
  decide!

theorem RGBA8_AVX2_regs_eq (x : Nat) (hx : x < 2 ^ 512) :
    regPixels 4 (DecodeBytes_RGBA8_AVX2_regs (laneOf 256 x 0) (laneOf 256 x 1)) =
      blockValues DecodeBytes_RGBA8_Generic 1 64 x :=
  OrLinL.eq_of_basis RGBA8_AVX2_lin (RGBA8_Generic_lin 1) 512 (by decide!) RGBA8_AVX2_basis x hx

theorem RGBA8_AVX2_shell (dst : Nat) (src : Nat → Nat) (o : Nat) (tlut : Nat → Nat) (w : Nat) :
    DecodeBytes_RGBA8_AVX2 dst src o tlut w =
      storeRows dst w 4 4 (regPixels 4 (DecodeBytes_RGBA8_AVX2_regs
        (laneOf 256 (loadBytes 64 src o) 0) (laneOf 256 (loadBytes 64 src o) 1))) := by
  simp only [DecodeBytes_RGBA8_AVX2]
  rw [load_si256_eq_lane 64 src o 0 (by decide), load_si256_eq_lane 64 src o 1 (by decide)]
  obtain ⟨o0, o1, o2, o3, h⟩ : ∃ o0 o1 o2 o3,
      DecodeBytes_RGBA8_AVX2_regs (laneOf 256 (loadBytes 64 src o) 0)
        (laneOf 256 (loadBytes 64 src o) 1) = [o0, o1, o2, o3] :=
    ⟨_, _, _, _, rfl⟩
  rw [h]
  simp [storeRows, regPixels, _mm_store_si128, List.range_succ, Nat.add_assoc]

theorem DecodeBytes_RGBA8_AVX2_eq (dst : Nat) (src : Nat → Nat) (o : Nat) (tlut : Nat → Nat)
    (w : Nat) :
    DecodeBytes_RGBA8_AVX2 dst src o tlut w =
      (List.range 1).flatMap fun r =>
        DecodeBytes_RGBA8_Generic (dst + r * w) src (o + r * 64) tlut w := by
  rw [RGBA8_AVX2_shell, RGBA8_Generic_shell, RGBA8_AVX2_regs_eq _ (loadBytes_lt 64 src o)]

/-! ## Selection by a mask -/

theorem laneOf_or (w a b i : Nat) : laneOf w (a ||| b) i = laneOf w a i ||| laneOf w b i := by
  simp only [laneOf_def, or_shiftRight, or_mod_two_pow]

theorem laneOf_and (w a b i : Nat) : laneOf w (a &&& b) i = laneOf w a i &&& laneOf w b i := by
  apply Nat.eq_of_testBit_eq
  intro j
  simp only [laneOf_def, Nat.testBit_mod_two_pow, Nat.testBit_shiftRight, Nat.testBit_and]
  cases decide (j < w) <;> simp

theorem laneOf_xor_ones (w W s i : Nat) (h : w * i + w ≤ W) :
    laneOf w ((s % 2 ^ W) ^^^ (2 ^ W - 1)) i = laneOf w s i ^^^ (2 ^ w - 1) := by
  apply Nat.eq_of_testBit_eq
  intro j
  simp only [laneOf_def, Nat.testBit_mod_two_pow, Nat.testBit_shiftRight, Nat.testBit_xor,
    Nat.testBit_two_pow_sub_one]
  by_cases hj : j < w
  · have : w * i + j < W := by omega
    simp [hj, this]
  · simp [hj]

theorem and_ones_of_lt (w a : Nat) (h : a < 2 ^ w) : a &&& (2 ^ w - 1) = a := by
  rw [Nat.and_pow_two_sub_one_eq_mod, Nat.mod_eq_of_lt h]

theorem lane_bitSelect (w W s x y p : Nat) (c : Prop) [Decidable c] (hW : w * p + w ≤ W)
    (hs : laneOf w s p = if c then 2 ^ w - 1 else 0) :
    laneOf w (bitSelect W s x y) p = if c then laneOf w x p else laneOf w y p := by
  unfold bitSelect
  rw [laneOf_or, laneOf_and, laneOf_and, laneOf_xor_ones _ _ _ _ hW, hs]
  by_cases hc : c
  · simp only [if_pos hc, Nat.xor_self, Nat.zero_and, Nat.or_zero]
    exact and_ones_of_lt w _ (laneOf_lt _ _ _)
  · simp only [if_neg hc, Nat.and_zero, Nat.zero_xor, Nat.zero_or]
    rw [Nat.and_comm]
    exact and_ones_of_lt w _ (laneOf_lt _ _ _)

theorem eq_of_lanes (w n x y : Nat) (hx : x < 2 ^ (w * n)) (hy : y < 2 ^ (w * n))
    (h : ∀ i, i < n → laneOf w x i = laneOf w y i) : x = y := by
  have e1 := ofLanes_laneOf w n x
  have e2 := ofLanes_laneOf w n y
  rw [Nat.mod_eq_of_lt hx] at e1
  rw [Nat.mod_eq_of_lt hy] at e2
  rw [← e1, ← e2]
  exact ofLanes_congr w n _ _ fun j hj => by rw [h j hj]

theorem bitSelect_lt (W s x y : Nat) : bitSelect W s x y < 2 ^ W ∨ 2 ^ W ≤ s := by
  by_cases hs : s < 2 ^ W
  · left
    unfold bitSelect
    apply Nat.or_lt_two_pow
    · exact Nat.and_lt_two_pow _ hs
    · rw [Nat.and_comm]
      apply Nat.and_lt_two_pow
      apply Nat.xor_lt_two_pow (Nat.mod_lt _ (Nat.two_pow_pos W))
      exact Nat.sub_lt (Nat.two_pow_pos W) Nat.one_pos
  · right
    omega

theorem signMask8_lane (n m i : Nat) (hi : i < n) :
    laneOf 8 (signMask8 n m) i = if laneOf 8 m i &&& 0x80 ≠ 0 then 2 ^ 8 - 1 else 0 := by
  unfold signMask8
  rw [laneOf_ofLanes 8 n _ i hi]
  split <;> rfl

theorem blendv_lanes_eq (n m x y : Nat) :
    ofLanes 8 n (fun i => if laneOf 8 m i &&& 0x80 ≠ 0 then laneOf 8 x i else laneOf 8 y i) =
      bitSelect (8 * n) (signMask8 n m) x y := by
  apply eq_of_lanes 8 n _ _ (ofLanes_lt 8 n _)
  · rcases bitSelect_lt (8 * n) (signMask8 n m) x y with h | h
    · exact h
    · exact absurd (show signMask8 n m < 2 ^ (8 * n) from ofLanes_lt 8 n _) (by omega)
  · intro i hi
    rw [laneOf_ofLanes 8 n _ i hi,
      lane_bitSelect 8 (8 * n) _ x y i (laneOf 8 m i &&& 0x80 ≠ 0) (by omega)
        (signMask8_lane n m i hi)]
    split <;> exact laneOf_mod_self 8 _ _

theorem blendv_epi8_eq (y x m : Nat) :
    _mm_blendv_epi8 y x m = bitSelect 128 (signMask8 16 m) x y :=
  blendv_lanes_eq 16 m x y

theorem blendv_epi8_256_eq (y x m : Nat) :
    _mm256_blendv_epi8 y x m = bitSelect 256 (signMask8 32 m) x y :=
  blendv_lanes_eq 32 m x y

theorem andnot_eq (m x y : Nat) :
    (x &&& m) ||| _mm_andnot_si128 m y = bitSelect 128 m x y := rfl

/-! ### Masks commute with bitwise or -/

theorem or_and_ne_zero_iff (a b c : Nat) :
    (a ||| b) &&& c ≠ 0 ↔ a &&& c ≠ 0 ∨ b &&& c ≠ 0 := by
  rw [or_and, Ne, or_eq_zero_iff]
  tauto

@[fun_prop]
theorem OrLin.ite_and_ne_zero {f : Nat → Nat} (hf : OrLin f) (c M : Nat) :
    OrLin (fun v => if f v &&& c ≠ 0 then M else 0) := by
  intro a b
  simp only [hf a b, or_and_ne_zero_iff]
  by_cases h1 : f a &&& c ≠ 0 <;> by_cases h2 : f b &&& c ≠ 0 <;> simp [h1, h2]

@[fun_prop]
theorem OrLin.signMask8 {f : Nat → Nat} (hf : OrLin f) (n : Nat) :
    OrLin (fun v => signMask8 n (f v)) :=
  OrLin.ofLanes _ _ fun i => by fun_prop

theorem or_lt_two_pow_iff (a b k : Nat) : a ||| b < 2 ^ k ↔ a < 2 ^ k ∧ b < 2 ^ k := by
  constructor
  · intro h
    have hb : ∀ i, i ≥ k → (a ||| b).testBit i = false := fun i hi =>
      Nat.testBit_lt_two_pow (lt_of_lt_of_le h (Nat.pow_le_pow_right (by decide) hi))
    constructor
    · apply Nat.lt_pow_two_of_testBit
      intro i hi
      have := hb i hi
      rw [Nat.testBit_or] at this
      cases h1 : a.testBit i <;> simp_all
    · apply Nat.lt_pow_two_of_testBit
      intro i hi
      have := hb i hi
      rw [Nat.testBit_or] at this
      cases h1 : b.testBit i <;> simp_all
  · intro h
    exact Nat.or_lt_two_pow h.1 h.2

@[fun_prop]
theorem OrLin.sraLane {f : Nat → Nat} (hf : OrLin f) (w n : Nat) :
    OrLin (fun v => sraLane w (f v) n) := by
  intro a b
  simp only [Dolphin.sraLane, hf a b, or_lt_two_pow_iff, or_shiftRight]
  by_cases h1 : f a < 2 ^ (w - 1) <;> by_cases h2 : f b < 2 ^ (w - 1) <;>
    simp only [h1, h2, and_self, and_false, false_and, if_true, if_false]
  · apply Nat.eq_of_testBit_eq
    intro i
    simp only [Nat.testBit_or]
    cases (f a >>> n).testBit i <;> cases (f b >>> n).testBit i <;>
      cases (2 ^ w - 1 - (2 ^ w - 1) >>> n).testBit i <;> rfl
  · apply Nat.eq_of_testBit_eq
    intro i
    simp only [Nat.testBit_or]
    cases (f a >>> n).testBit i <;> cases (f b >>> n).testBit i <;>
      cases (2 ^ w - 1 - (2 ^ w - 1) >>> n).testBit i <;> rfl
  · apply Nat.eq_of_testBit_eq
    intro i
    simp only [Nat.testBit_or]
    cases (f a >>> n).testBit i <;> cases (f b >>> n).testBit i <;>
      cases (2 ^ w - 1 - (2 ^ w - 1) >>> n).testBit i <;> rfl

@[fun_prop]
theorem OrLin.srai_epi16 {f : Nat → Nat} (hf : OrLin f) (n : Nat) :
    OrLin (fun v => _mm_srai_epi16 (f v) n) :=
  OrLin.ofLanes _ _ fun i => by fun_prop

@[fun_prop]
theorem OrLin.srai_epi32 {f : Nat → Nat} (hf : OrLin f) (n : Nat) :
    OrLin (fun v => _mm_srai_epi32 (f v) n) :=
  OrLin.ofLanes _ _ fun i => by fun_prop

@[fun_prop]
theorem OrLin.srai_epi16_256 {f : Nat → Nat} (hf : OrLin f) (n : Nat) :
    OrLin (fun v => _mm256_srai_epi16 (f v) n) :=
  OrLin.ofLanes _ _ fun i => by fun_prop

@[fun_prop]
theorem OrLin.srai_epi32_256 {f : Nat → Nat} (hf : OrLin f) (n : Nat) :
    OrLin (fun v => _mm256_srai_epi32 (f v) n) :=
  OrLin.ofLanes _ _ fun i => by fun_prop

theorem regPixels_cons_eq (n v : Nat) (l : List Nat) :
    regPixels n (v :: l) = ((List.range n).map fun k => laneOf 32 v k) ++ regPixels n l := by
  simp [regPixels]

theorem lanes_select (n W s a b : Nat) (hW : 32 * n ≤ W) (c : Nat → Prop) [DecidablePred c]
    (fA fB : Nat → Nat) (vals : List Nat)
    (hS : ((List.range n).map fun k => laneOf 32 s k) =
      vals.map fun v => if c v then 4294967295 else 0)
    (hA : ((List.range n).map fun k => laneOf 32 a k) = vals.map fA)
    (hB : ((List.range n).map fun k => laneOf 32 b k) = vals.map fB) :
    ((List.range n).map fun k => laneOf 32 (bitSelect W s a b) k) =
      vals.map fun v => if c v then fA v else fB v := by
  have hlen : vals.length = n := by
    have := congrArg List.length hS
    simpa using this.symm
  apply List.ext_getElem
  · simp [hlen]
  · intro k h1 h2
    have hk : k < n := by simpa using h1
    have hkv : k < vals.length := by omega
    have eS := congrArg (fun l => l.getD k 0) hS
    have eA := congrArg (fun l => l.getD k 0) hA
    have eB := congrArg (fun l => l.getD k 0) hB
    simp only [List.getD_eq_getElem?_getD, List.getElem?_map, List.getElem?_range hk,
      List.getElem?_eq_getElem hkv, Option.map_some', Option.getD_some] at eS eA eB
    simp only [List.getElem_map, List.getElem_range]
    rw [lane_bitSelect 32 W s a b k (c vals[k]) (by omega) eS, eA, eB]

theorem select_pixels (n W : Nat) (hW : 32 * n ≤ W) (c : Nat → Prop) [DecidablePred c]
    (fA fB : Nat → Nat) :
    ∀ (S A B vals : List Nat),
      regPixels n S = vals.map (fun v => if c v then 4294967295 else 0) →
      regPixels n A = vals.map fA → regPixels n B = vals.map fB →
      S.length = A.length → A.length = B.length →
      regPixels n (List.zipWith3 (fun s a b => bitSelect W s a b) S A B) =
        vals.map fun v => if c v then fA v else fB v := by
  intro S
  induction S with
  | nil =>
    intro A B vals hS _ _ _ _
    have : vals = [] := by
      have := congrArg List.length hS
      simpa [regPixels] using this.symm
    subst this
    simp [List.zipWith3, regPixels]
  | cons s S ih =>
    intro A B vals hS hA hB h1 h2
    cases A with
    | nil => simp at h1
    | cons a A =>
      cases B with
      | nil => simp at h2
      | cons b B =>
        rw [regPixels_cons_eq] at hS hA hB
        have hl : n ≤ vals.length := by
          have := congrArg List.length hS
          simp at this
          omega
        have hsplit : ∀ g : Nat → Nat,
            vals.map g = (vals.take n).map g ++ (vals.drop n).map g := by
          intro g
          rw [← List.map_append, List.take_append_drop]
        rw [hsplit] at hS hA hB
        have hlen : ∀ (v : Nat) (g : Nat → Nat),
            ((List.range n).map fun k => laneOf 32 v k).length = ((vals.take n).map g).length := by
          intro v g
          simp [hl]
        obtain ⟨hS1, hS2⟩ := List.append_inj hS (hlen s _)
        obtain ⟨hA1, hA2⟩ := List.append_inj hA (hlen a _)
        obtain ⟨hB1, hB2⟩ := List.append_inj hB (hlen b _)
        have hrec := ih A B (vals.drop n) hS2 hA2 hB2 (by simpa using h1) (by simpa using h2)
        have hhead := lanes_select n W s a b hW c fA fB (vals.take n) hS1 hA1 hB1
        show regPixels n (bitSelect W s a b :: _) = _
        rw [regPixels_cons_eq, hhead, hrec, hsplit]

/-! ## RGB5A3 -/

theorem pixelWords16_map_lin (n : Nat) (g : Nat → Nat) (hg : OrLin g) :
    OrLinL (fun x => (pixelWords16 n x).map g) := by
  simp only [pixelWords16, List.map_map, Function.comp_def]
  apply OrLinL.map_range
  intro i
  refine OrLin.comp hg ?_
  simp only [swap16, u16at, u8at, memOf]
  fun_prop

theorem RGB5A3_rgb555_lin : OrLin RGB5A3_rgb555 := by
  unfold RGB5A3_rgb555
  simp only [Convert5To8]
  fun_prop

theorem RGB5A3_rgba4443_lin : OrLin RGB5A3_rgba4443 := by
  unfold RGB5A3_rgba4443
  simp only [Convert3To8, Convert4To8]
  fun_prop

theorem RGB5A3_mask_lin : OrLin (fun v => if v &&& 0x8000 ≠ 0 then 4294967295 else 0) := by
  fun_prop

theorem DecodePixel_RGB5A3_eq (v : Nat) :
    DecodePixel_RGB5A3 v =
      if v &&& 0x8000 ≠ 0 then RGB5A3_rgb555 v else RGB5A3_rgba4443 v := rfl

theorem RGB5A3_Generic_values_1 (x : Nat) :
    blockValues DecodeBytes_RGB5A3_Generic 1 8 x = (pixelWords16 4 x).map fun v =>
      if v &&& 0x8000 ≠ 0 then RGB5A3_rgb555 v else RGB5A3_rgba4443 v := by
  simp [blockValues, DecodeBytes_RGB5A3_Generic, pixelWords16, List.range_succ, Access.value,
    DecodePixel, DecodePixel_RGB5A3_eq]

theorem RGB5A3_Generic_values_2 (x : Nat) :
    blockValues DecodeBytes_RGB5A3_Generic 2 8 x = (pixelWords16 8 x).map fun v =>
      if v &&& 0x8000 ≠ 0 then RGB5A3_rgb555 v else RGB5A3_rgba4443 v := by
  simp [blockValues, DecodeBytes_RGB5A3_Generic, pixelWords16, List.range_succ, Access.value,
    DecodePixel, DecodePixel_RGB5A3_eq]

theorem RGB5A3_Generic_shell_1_8 (dst : Nat) (src : Nat → Nat) (o : Nat)
    (tlut : Nat → Nat) (w : Nat) :
    ((List.range 1).flatMap fun r =>
        DecodeBytes_RGB5A3_Generic (dst + r * w) src (o + r * 8) tlut w) =
      storeRows dst w 4 1 (blockValues DecodeBytes_RGB5A3_Generic 1 8 (_mm_loadl_epi64 src o)) := by
  simp [storeRows, blockValues, DecodeBytes_RGB5A3_Generic, List.range_succ, Access.value,
    u8at_memOf_load_si128, u8at_memOf_loadl_epi64, u8at_memOf_load_si256, Nat.add_assoc, u16at,
    DecodePixel, swap16]

theorem RGB5A3_Generic_shell_2_16 (dst : Nat) (src : Nat → Nat) (o : Nat)
    (tlut : Nat → Nat) (w : Nat) :
    ((List.range 2).flatMap fun r =>
        DecodeBytes_RGB5A3_Generic (dst + r * w) src (o + r * 8) tlut w) =
      storeRows dst w 4 2 (blockValues DecodeBytes_RGB5A3_Generic 2 8 (_mm_load_si128 src o)) := by
  simp [storeRows, blockValues, DecodeBytes_RGB5A3_Generic, List.range_succ, Access.value,
    u8at_memOf_load_si128, u8at_memOf_loadl_epi64, u8at_memOf_load_si256, Nat.add_assoc, u16at,
    DecodePixel, swap16]

theorem andnot128_eq (p : SelectParts) :
    p.andnot128 =
      List.zipWith3 (fun s a b => bitSelect 128 s a b) p.mask p.whenSet p.whenClear := rfl

/-! ### SSE2 -/

theorem RGB5A3_SSE2_mask_lin :
    OrLinL (fun x => regPixels 4 (DecodeBytes_RGB5A3_SSE2_parts x).mask) := by
  simp only [DecodeBytes_RGB5A3_SSE2_parts]
  repeat' (first | exact OrLinL.regPixels_nil 4 | apply OrLinL.regPixels_cons)
  all_goals fun_prop

theorem RGB5A3_SSE2_set_lin :
    OrLinL (fun x => regPixels 4 (DecodeBytes_RGB5A3_SSE2_parts x).whenSet) := by
  simp only [DecodeBytes_RGB5A3_SSE2_parts]
  repeat' (first | exact OrLinL.regPixels_nil 4 | apply OrLinL.regPixels_cons)
  all_goals fun_prop

theorem RGB5A3_SSE2_clear_lin :
    OrLinL (fun x => regPixels 4 (DecodeBytes_RGB5A3_SSE2_parts x).whenClear) := by
  simp only [DecodeBytes_RGB5A3_SSE2_parts]
  repeat' (first | exact OrLinL.regPixels_nil 4 | apply OrLinL.regPixels_cons)
  all_goals fun_prop

set_option maxRecDepth 100000 in
theorem RGB5A3_SSE2_mask_basis : ∀ i, i < 128 →
    regPixels 4 (DecodeBytes_RGB5A3_SSE2_parts (2 ^ i)).mask =
      (pixelWords16 8 (2 ^ i)).map fun v => if v &&& 0x8000 ≠ 0 then 4294967295 else 0 := by
  decide!

set_option maxRecDepth 100000 in
theorem RGB5A3_SSE2_set_basis : ∀ i, i < 128 →
    regPixels 4 (DecodeBytes_RGB5A3_SSE2_parts (2 ^ i)).whenSet =
      (pixelWords16 8 (2 ^ i)).map RGB5A3_rgb555 := by
  decide!

set_option maxRecDepth 100000 in
theorem RGB5A3_SSE2_clear_basis : ∀ i, i < 128 →
    regPixels 4 (DecodeBytes_RGB5A3_SSE2_parts (2 ^ i)).whenClear =
      (pixelWords16 8 (2 ^ i)).map RGB5A3_rgba4443 := by
  decide!

theorem RGB5A3_SSE2_mask_eq (x : Nat) (hx : x < 2 ^ 128) :
    regPixels 4 (DecodeBytes_RGB5A3_SSE2_parts x).mask =
      (pixelWords16 8 x).map fun v => if v &&& 0x8000 ≠ 0 then 4294967295 else 0 :=
  OrLinL.eq_of_basis RGB5A3_SSE2_mask_lin (pixelWords16_map_lin 8 _ RGB5A3_mask_lin) 128
    (by decide!) RGB5A3_SSE2_mask_basis x hx

theorem RGB5A3_SSE2_set_eq (x : Nat) (hx : x < 2 ^ 128) :
    regPixels 4 (DecodeBytes_RGB5A3_SSE2_parts x).whenSet =
      (pixelWords16 8 x).map RGB5A3_rgb555 :=
  OrLinL.eq_of_basis RGB5A3_SSE2_set_lin (pixelWords16_map_lin 8 _ RGB5A3_rgb555_lin) 128
    (by decide!) RGB5A3_SSE2_set_basis x hx

theorem RGB5A3_SSE2_clear_eq (x : Nat) (hx : x < 2 ^ 128) :
    regPixels 4 (DecodeBytes_RGB5A3_SSE2_parts x).whenClear =
      (pixelWords16 8 x).map RGB5A3_rgba4443 :=
  OrLinL.eq_of_basis RGB5A3_SSE2_clear_lin (pixelWords16_map_lin 8 _ RGB5A3_rgba4443_lin) 128
    (by decide!) RGB5A3_SSE2_clear_basis x hx

theorem RGB5A3_SSE2_regs_eq (x : Nat) (hx : x < 2 ^ 128) :
    regPixels 4 (DecodeBytes_RGB5A3_SSE2_regs x) =
      blockValues DecodeBytes_RGB5A3_Generic 2 8 x := by
  rw [RGB5A3_Generic_values_2, DecodeBytes_RGB5A3_SSE2_regs, andnot128_eq]
  exact select_pixels 4 128 (by decide) (fun v => v &&& 0x8000 ≠ 0) RGB5A3_rgb555
    RGB5A3_rgba4443 _ _ _ _ (RGB5A3_SSE2_mask_eq x hx) (RGB5A3_SSE2_set_eq x hx)
    (RGB5A3_SSE2_clear_eq x hx)
    (by simp only [DecodeBytes_RGB5A3_SSE2_parts, List.length_cons, List.length_nil])
    (by simp only [DecodeBytes_RGB5A3_SSE2_parts, List.length_cons, List.length_nil])

theorem RGB5A3_SSE2_shell (dst : Nat) (src : Nat → Nat) (o : Nat) (tlut : Nat → Nat) (w : Nat) :
    DecodeBytes_RGB5A3_SSE2 dst src o tlut w =
      storeRows dst w 4 2
        (regPixels 4 (DecodeBytes_RGB5A3_SSE2_regs (_mm_load_si128 src o))) := by
  obtain ⟨o0, o1, h⟩ : ∃ o0 o1,
      DecodeBytes_RGB5A3_SSE2_regs (_mm_load_si128 src o) = [o0, o1] :=
    ⟨_, _, rfl⟩
  simp only [DecodeBytes_RGB5A3_SSE2]
  rw [h]
  simp [storeRows, regPixels, _mm_store_si128, _mm256_store_si256, List.range_succ,
    Nat.add_assoc]

theorem DecodeBytes_RGB5A3_SSE2_eq (dst : Nat) (src : Nat → Nat) (o : Nat)
    (tlut : Nat → Nat) (w : Nat) :
    DecodeBytes_RGB5A3_SSE2 dst src o tlut w =
      (List.range 2).flatMap fun r =>
        DecodeBytes_RGB5A3_Generic (dst + r * w) src (o + r * 8) tlut w := by
  rw [RGB5A3_SSE2_shell, RGB5A3_Generic_shell_2_16,
    RGB5A3_SSE2_regs_eq _ (show _mm_load_si128 src o < 2 ^ 128 from ofLanes_lt 8 16 _)]

/-! ### SSSE3 -/

theorem RGB5A3_SSSE3_mask_lin :
    OrLinL (fun x => regPixels 4 (DecodeBytes_RGB5A3_SSSE3_parts x).mask) := by
  simp only [DecodeBytes_RGB5A3_SSSE3_parts, List.map_cons, List.map_nil]
  repeat' (first | exact OrLinL.regPixels_nil 4 | apply OrLinL.regPixels_cons)
  all_goals fun_prop

set_option maxRecDepth 100000 in
theorem RGB5A3_SSSE3_mask_basis : ∀ i, i < 64 →
    (fun x => regPixels 4 (DecodeBytes_RGB5A3_SSSE3_parts x).mask) (2 ^ i) =
      (pixelWords16 4 (2 ^ i)).map (fun v => if v &&& 0x8000 ≠ 0 then 4294967295 else 0) := by
  decide!

theorem RGB5A3_SSSE3_mask_eq (x : Nat) (hx : x < 2 ^ 64) :
    regPixels 4 (DecodeBytes_RGB5A3_SSSE3_parts x).mask =
      (pixelWords16 4 x).map (fun v => if v &&& 0x8000 ≠ 0 then 4294967295 else 0) :=
  OrLinL.eq_of_basis RGB5A3_SSSE3_mask_lin (pixelWords16_map_lin 4 _ RGB5A3_mask_lin) 64
    (by decide!) RGB5A3_SSSE3_mask_basis x hx

theorem RGB5A3_SSSE3_set_lin :
    OrLinL (fun x => regPixels 4 (DecodeBytes_RGB5A3_SSSE3_parts x).whenSet) := by
  simp only [DecodeBytes_RGB5A3_SSSE3_parts, List.map_cons, List.map_nil]
  repeat' (first | exact OrLinL.regPixels_nil 4 | apply OrLinL.regPixels_cons)
  all_goals fun_prop

set_option maxRecDepth 100000 in
theorem RGB5A3_SSSE3_set_basis : ∀ i, i < 64 →
    (fun x => regPixels 4 (DecodeBytes_RGB5A3_SSSE3_parts x).whenSet) (2 ^ i) =
      (pixelWords16 4 (2 ^ i)).map RGB5A3_rgb555 := by
  decide!

theorem RGB5A3_SSSE3_set_eq (x : Nat) (hx : x < 2 ^ 64) :
    regPixels 4 (DecodeBytes_RGB5A3_SSSE3_parts x).whenSet =
      (pixelWords16 4 x).map RGB5A3_rgb555 :=
  OrLinL.eq_of_basis RGB5A3_SSSE3_set_lin (pixelWords16_map_lin 4 _ RGB5A3_rgb555_lin) 64
    (by decide!) RGB5A3_SSSE3_set_basis x hx

theorem RGB5A3_SSSE3_clear_lin :
    OrLinL (fun x => regPixels 4 (DecodeBytes_RGB5A3_SSSE3_parts x).whenClear) := by
  simp only [DecodeBytes_RGB5A3_SSSE3_parts, List.map_cons, List.map_nil]
  repeat' (first | exact OrLinL.regPixels_nil 4 | apply OrLinL.regPixels_cons)
  all_goals fun_prop

set_option maxRecDepth 100000 in
theorem RGB5A3_SSSE3_clear_basis : ∀ i, i < 64 →
    (fun x => regPixels 4 (DecodeBytes_RGB5A3_SSSE3_parts x).whenClear) (2 ^ i) =
      (pixelWords16 4 (2 ^ i)).map RGB5A3_rgba4443 := by
  decide!

theorem RGB5A3_SSSE3_clear_eq (x : Nat) (hx : x < 2 ^ 64) :
    regPixels 4 (DecodeBytes_RGB5A3_SSSE3_parts x).whenClear =
      (pixelWords16 4 x).map RGB5A3_rgba4443 :=
  OrLinL.eq_of_basis RGB5A3_SSSE3_clear_lin (pixelWords16_map_lin 4 _ RGB5A3_rgba4443_lin) 64
    (by decide!) RGB5A3_SSSE3_clear_basis x hx

theorem RGB5A3_SSSE3_regs_eq (x : Nat) (hx : x < 2 ^ 64) :
    regPixels 4 (DecodeBytes_RGB5A3_SSSE3_regs x) =
      blockValues DecodeBytes_RGB5A3_Generic 1 8 x := by
  rw [RGB5A3_Generic_values_1, DecodeBytes_RGB5A3_SSSE3_regs, andnot128_eq]
  exact select_pixels 4 128 (by decide) (fun v => v &&& 0x8000 ≠ 0) RGB5A3_rgb555
    RGB5A3_rgba4443 _ _ _ _ (RGB5A3_SSSE3_mask_eq x hx) (RGB5A3_SSSE3_set_eq x hx)
    (RGB5A3_SSSE3_clear_eq x hx)
    (by simp only [DecodeBytes_RGB5A3_SSSE3_parts, List.length_cons, List.length_nil])
    (by simp only [DecodeBytes_RGB5A3_SSSE3_parts, List.length_cons, List.length_nil])

theorem RGB5A3_SSSE3_shell (dst : Nat) (src : Nat → Nat) (o : Nat) (tlut : Nat → Nat) (w : Nat) :
    DecodeBytes_RGB5A3_SSSE3 dst src o tlut w =
      storeRows dst w 4 1
        (regPixels 4 (DecodeBytes_RGB5A3_SSSE3_regs (_mm_loadl_epi64 src o))) := by
  obtain ⟨o0, h⟩ : ∃ o0,
      DecodeBytes_RGB5A3_SSSE3_regs (_mm_loadl_epi64 src o) = [o0] :=
    ⟨_, rfl⟩
  simp only [DecodeBytes_RGB5A3_SSSE3]
  rw [h]
  simp [storeRows, regPixels, _mm_store_si128, _mm256_store_si256, List.range_succ,
    Nat.add_assoc]

theorem DecodeBytes_RGB5A3_SSSE3_eq (dst : Nat) (src : Nat → Nat) (o : Nat)
    (tlut : Nat → Nat) (w : Nat) :
    DecodeBytes_RGB5A3_SSSE3 dst src o tlut w =
      (List.range 1).flatMap fun r =>
        DecodeBytes_RGB5A3_Generic (dst + r * w) src (o + r * 8) tlut w := by
  rw [RGB5A3_SSSE3_shell, RGB5A3_Generic_shell_1_8,
    RGB5A3_SSSE3_regs_eq _ (show _mm_loadl_epi64 src o < 2 ^ 64 from ofLanes_lt 8 8 _)]

/-! ### SSE4.1 -/

theorem RGB5A3_SSE41_mask_lin :
    OrLinL (fun x => regPixels 4 ((DecodePixels_RGB5A3_SSE41_parts (_mm_unpacklo_epi16 x x)).mask.map (signMask8 16))) := by
  simp only [DecodePixels_RGB5A3_SSE41_parts, List.map_cons, List.map_nil]
  repeat' (first | exact OrLinL.regPixels_nil 4 | apply OrLinL.regPixels_cons)
  all_goals fun_prop

set_option maxRecDepth 100000 in
theorem RGB5A3_SSE41_mask_basis : ∀ i, i < 64 →
    (fun x => regPixels 4 ((DecodePixels_RGB5A3_SSE41_parts (_mm_unpacklo_epi16 x x)).mask.map (signMask8 16))) (2 ^ i) =
      (pixelWords16 4 (2 ^ i)).map (fun v => if v &&& 0x8000 ≠ 0 then 4294967295 else 0) := by
  decide!

theorem RGB5A3_SSE41_mask_eq (x : Nat) (hx : x < 2 ^ 64) :
    regPixels 4 ((DecodePixels_RGB5A3_SSE41_parts (_mm_unpacklo_epi16 x x)).mask.map (signMask8 16)) =
      (pixelWords16 4 x).map (fun v => if v &&& 0x8000 ≠ 0 then 4294967295 else 0) :=
  OrLinL.eq_of_basis RGB5A3_SSE41_mask_lin (pixelWords16_map_lin 4 _ RGB5A3_mask_lin) 64
    (by decide!) RGB5A3_SSE41_mask_basis x hx

theorem RGB5A3_SSE41_set_lin :
    OrLinL (fun x => regPixels 4 (DecodePixels_RGB5A3_SSE41_parts (_mm_unpacklo_epi16 x x)).whenSet) := by
  simp only [DecodePixels_RGB5A3_SSE41_parts, List.map_cons, List.map_nil]
  repeat' (first | exact OrLinL.regPixels_nil 4 | apply OrLinL.regPixels_cons)
  all_goals fun_prop

set_option maxRecDepth 100000 in
theorem RGB5A3_SSE41_set_basis : ∀ i, i < 64 →
    (fun x => regPixels 4 (DecodePixels_RGB5A3_SSE41_parts (_mm_unpacklo_epi16 x x)).whenSet) (2 ^ i) =
      (pixelWords16 4 (2 ^ i)).map RGB5A3_rgb555 := by
  decide!

theorem RGB5A3_SSE41_set_eq (x : Nat) (hx : x < 2 ^ 64) :
    regPixels 4 (DecodePixels_RGB5A3_SSE41_parts (_mm_unpacklo_epi16 x x)).whenSet =
      (pixelWords16 4 x).map RGB5A3_rgb555 :=
  OrLinL.eq_of_basis RGB5A3_SSE41_set_lin (pixelWords16_map_lin 4 _ RGB5A3_rgb555_lin) 64
    (by decide!) RGB5A3_SSE41_set_basis x hx

theorem RGB5A3_SSE41_clear_lin :
    OrLinL (fun x => regPixels 4 (DecodePixels_RGB5A3_SSE41_parts (_mm_unpacklo_epi16 x x)).whenClear) := by
  simp only [DecodePixels_RGB5A3_SSE41_parts, List.map_cons, List.map_nil]
  repeat' (first | exact OrLinL.regPixels_nil 4 | apply OrLinL.regPixels_cons)
  all_goals fun_prop

set_option maxRecDepth 100000 in
theorem RGB5A3_SSE41_clear_basis : ∀ i, i < 64 →
    (fun x => regPixels 4 (DecodePixels_RGB5A3_SSE41_parts (_mm_unpacklo_epi16 x x)).whenClear) (2 ^ i) =
      (pixelWords16 4 (2 ^ i)).map RGB5A3_rgba4443 := by
  decide!

theorem RGB5A3_SSE41_clear_eq (x : Nat) (hx : x < 2 ^ 64) :
    regPixels 4 (DecodePixels_RGB5A3_SSE41_parts (_mm_unpacklo_epi16 x x)).whenClear =
      (pixelWords16 4 x).map RGB5A3_rgba4443 :=
  OrLinL.eq_of_basis RGB5A3_SSE41_clear_lin (pixelWords16_map_lin 4 _ RGB5A3_rgba4443_lin) 64
    (by decide!) RGB5A3_SSE41_clear_basis x hx

theorem RGB5A3_SSE41_regs_eq (x : Nat) (hx : x < 2 ^ 64) :
    regPixels 4 (DecodeBytes_RGB5A3_SSE41_regs x) =
      blockValues DecodeBytes_RGB5A3_Generic 1 8 x := by
  have hm := RGB5A3_SSE41_mask_eq x hx
  have hs := RGB5A3_SSE41_set_eq x hx
  have hc := RGB5A3_SSE41_clear_eq x hx
  rw [RGB5A3_Generic_values_1]
  simp only [DecodeBytes_RGB5A3_SSE41_regs, DecodePixels_RGB5A3_SSE41]
  obtain ⟨m, s, c, h⟩ : ∃ m s c,
      DecodePixels_RGB5A3_SSE41_parts (_mm_unpacklo_epi16 x x) = ⟨[m], [s], [c]⟩ := ⟨_, _, _, rfl⟩
  rw [h] at hm hs hc ⊢
  simp only [SelectParts.blendv128, List.zipWith3, List.getD_cons_zero, blendv_epi8_eq,
    List.map_cons, List.map_nil] at hm ⊢
  exact select_pixels 4 128 (by decide) (fun v => v &&& 0x8000 ≠ 0) RGB5A3_rgb555
    RGB5A3_rgba4443 [signMask8 16 m] [s] [c] _ hm hs hc rfl rfl

theorem RGB5A3_SSE41_shell (dst : Nat) (src : Nat → Nat) (o : Nat) (tlut : Nat → Nat) (w : Nat) :
    DecodeBytes_RGB5A3_SSE41 dst src o tlut w =
      storeRows dst w 4 1
        (regPixels 4 (DecodeBytes_RGB5A3_SSE41_regs (_mm_loadl_epi64 src o))) := by
  obtain ⟨o0, h⟩ : ∃ o0,
      DecodeBytes_RGB5A3_SSE41_regs (_mm_loadl_epi64 src o) = [o0] :=
    ⟨_, rfl⟩
  simp only [DecodeBytes_RGB5A3_SSE41]
  rw [h]
  simp [storeRows, regPixels, _mm_store_si128, _mm256_store_si256, List.range_succ,
    Nat.add_assoc]

theorem DecodeBytes_RGB5A3_SSE41_eq (dst : Nat) (src : Nat → Nat) (o : Nat)
    (tlut : Nat → Nat) (w : Nat) :
    DecodeBytes_RGB5A3_SSE41 dst src o tlut w =
      (List.range 1).flatMap fun r =>
        DecodeBytes_RGB5A3_Generic (dst + r * w) src (o + r * 8) tlut w := by
  rw [RGB5A3_SSE41_shell, RGB5A3_Generic_shell_1_8,
    RGB5A3_SSE41_regs_eq _ (show _mm_loadl_epi64 src o < 2 ^ 64 from ofLanes_lt 8 8 _)]

/-! ### AVX2 -/

theorem regPixels_extract (P : Nat) :
    regPixels 4 [_mm256_extracti128_si256 P 0, _mm256_extracti128_si256 P 1] =
      regPixels 8 [P] := by
  have e : ∀ k j, j < 4 → laneOf 32 (laneOf 128 P k) j = laneOf 32 P (4 * k + j) :=
    fun k j hj => laneOf_laneOf 32 4 P k j hj
  simp [regPixels, _mm256_extracti128_si256, List.range_succ, e]

theorem RGB5A3_AVX2_mask_lin :
    OrLinL (fun x => regPixels 8 ((DecodePixels_RGB5A3_AVX2_parts (_mm256_shuffle_epi8 (_mm256_broadcastsi128_si256 x) (_mm256_set_epi64x 0x0F0E0F0E0D0C0D0C
      0x0B0A0B0A09080908 0x0706070605040504 0x0302030201000100))).mask.map (signMask8 32))) := by
  simp only [DecodePixels_RGB5A3_AVX2_parts, List.map_cons, List.map_nil]
  repeat' (first | exact OrLinL.regPixels_nil 8 | apply OrLinL.regPixels_cons)
  all_goals fun_prop

set_option maxRecDepth 100000 in
theorem RGB5A3_AVX2_mask_basis : ∀ i, i < 128 →
    (fun x => regPixels 8 ((DecodePixels_RGB5A3_AVX2_parts (_mm256_shuffle_epi8 (_mm256_broadcastsi128_si256 x) (_mm256_set_epi64x 0x0F0E0F0E0D0C0D0C
      0x0B0A0B0A09080908 0x0706070605040504 0x0302030201000100))).mask.map (signMask8 32))) (2 ^ i) =
      (pixelWords16 8 (2 ^ i)).map (fun v => if v &&& 0x8000 ≠ 0 then 4294967295 else 0) := by
  decide!

theorem RGB5A3_AVX2_mask_eq (x : Nat) (hx : x < 2 ^ 128) :
    regPixels 8 ((DecodePixels_RGB5A3_AVX2_parts (_mm256_shuffle_epi8 (_mm256_broadcastsi128_si256 x) (_mm256_set_epi64x 0x0F0E0F0E0D0C0D0C
      0x0B0A0B0A09080908 0x0706070605040504 0x0302030201000100))).mask.map (signMask8 32)) =
      (pixelWords16 8 x).map (fun v => if v &&& 0x8000 ≠ 0 then 4294967295 else 0) :=
  OrLinL.eq_of_basis RGB5A3_AVX2_mask_lin (pixelWords16_map_lin 8 _ RGB5A3_mask_lin) 128
    (by decide!) RGB5A3_AVX2_mask_basis x hx

theorem RGB5A3_AVX2_set_lin :
    OrLinL (fun x => regPixels 8 (DecodePixels_RGB5A3_AVX2_parts (_mm256_shuffle_epi8 (_mm256_broadcastsi128_si256 x) (_mm256_set_epi64x 0x0F0E0F0E0D0C0D0C
      0x0B0A0B0A09080908 0x0706070605040504 0x0302030201000100))).whenSet) := by
  simp only [DecodePixels_RGB5A3_AVX2_parts, List.map_cons, List.map_nil]
  repeat' (first | exact OrLinL.regPixels_nil 8 | apply OrLinL.regPixels_cons)
  all_goals fun_prop

set_option maxRecDepth 100000 in
theorem RGB5A3_AVX2_set_basis : ∀ i, i < 128 →
    (fun x => regPixels 8 (DecodePixels_RGB5A3_AVX2_parts (_mm256_shuffle_epi8 (_mm256_broadcastsi128_si256 x) (_mm256_set_epi64x 0x0F0E0F0E0D0C0D0C
      0x0B0A0B0A09080908 0x0706070605040504 0x0302030201000100))).whenSet) (2 ^ i) =
      (pixelWords16 8 (2 ^ i)).map RGB5A3_rgb555 := by
  decide!

theorem RGB5A3_AVX2_set_eq (x : Nat) (hx : x < 2 ^ 128) :
    regPixels 8 (DecodePixels_RGB5A3_AVX2_parts (_mm256_shuffle_epi8 (_mm256_broadcastsi128_si256 x) (_mm256_set_epi64x 0x0F0E0F0E0D0C0D0C
      0x0B0A0B0A09080908 0x0706070605040504 0x0302030201000100))).whenSet =
      (pixelWords16 8 x).map RGB5A3_rgb555 :=
  OrLinL.eq_of_basis RGB5A3_AVX2_set_lin (pixelWords16_map_lin 8 _ RGB5A3_rgb555_lin) 128
    (by decide!) RGB5A3_AVX2_set_basis x hx

theorem RGB5A3_AVX2_clear_lin :
    OrLinL (fun x => regPixels 8 (DecodePixels_RGB5A3_AVX2_parts (_mm256_shuffle_epi8 (_mm256_broadcastsi128_si256 x) (_mm256_set_epi64x 0x0F0E0F0E0D0C0D0C
      0x0B0A0B0A09080908 0x0706070605040504 0x0302030201000100))).whenClear) := by
  simp only [DecodePixels_RGB5A3_AVX2_parts, List.map_cons, List.map_nil]
  repeat' (first | exact OrLinL.regPixels_nil 8 | apply OrLinL.regPixels_cons)
  all_goals fun_prop

set_option maxRecDepth 100000 in
theorem RGB5A3_AVX2_clear_basis : ∀ i, i < 128 →
    (fun x => regPixels 8 (DecodePixels_RGB5A3_AVX2_parts (_mm256_shuffle_epi8 (_mm256_broadcastsi128_si256 x) (_mm256_set_epi64x 0x0F0E0F0E0D0C0D0C
      0x0B0A0B0A09080908 0x0706070605040504 0x0302030201000100))).whenClear) (2 ^ i) =
      (pixelWords16 8 (2 ^ i)).map RGB5A3_rgba4443 := by
  decide!

theorem RGB5A3_AVX2_clear_eq (x : Nat) (hx : x < 2 ^ 128) :
    regPixels 8 (DecodePixels_RGB5A3_AVX2_parts (_mm256_shuffle_epi8 (_mm256_broadcastsi128_si256 x) (_mm256_set_epi64x 0x0F0E0F0E0D0C0D0C
      0x0B0A0B0A09080908 0x0706070605040504 0x0302030201000100))).whenClear =
      (pixelWords16 8 x).map RGB5A3_rgba4443 :=
  OrLinL.eq_of_basis RGB5A3_AVX2_clear_lin (pixelWords16_map_lin 8 _ RGB5A3_rgba4443_lin) 128
    (by decide!) RGB5A3_AVX2_clear_basis x hx

theorem RGB5A3_AVX2_regs_eq (x : Nat) (hx : x < 2 ^ 128) :
    regPixels 4 (DecodeBytes_RGB5A3_AVX2_regs x) =
      blockValues DecodeBytes_RGB5A3_Generic 2 8 x := by
  have hm := RGB5A3_AVX2_mask_eq x hx
  have hs := RGB5A3_AVX2_set_eq x hx
  have hc := RGB5A3_AVX2_clear_eq x hx
  rw [RGB5A3_Generic_values_2]
  simp only [DecodeBytes_RGB5A3_AVX2_regs, DecodeBytes_RGB5A3_AVX2_pixels,
    DecodePixels_RGB5A3_AVX2]
  rw [regPixels_extract]
  obtain ⟨m, s, c, h⟩ : ∃ m s c,
      DecodePixels_RGB5A3_AVX2_parts (_mm256_shuffle_epi8 (_mm256_broadcastsi128_si256 x) (_mm256_set_epi64x 0x0F0E0F0E0D0C0D0C
      0x0B0A0B0A09080908 0x0706070605040504 0x0302030201000100)) = ⟨[m], [s], [c]⟩ := ⟨_, _, _, rfl⟩
  rw [h] at hm hs hc ⊢
  simp only [SelectParts.blendv256, List.zipWith3, List.getD_cons_zero, blendv_epi8_256_eq,
    List.map_cons, List.map_nil] at hm ⊢
  exact select_pixels 8 256 (by decide) (fun v => v &&& 0x8000 ≠ 0) RGB5A3_rgb555
    RGB5A3_rgba4443 [signMask8 32 m] [s] [c] _ hm hs hc rfl rfl

theorem RGB5A3_AVX2_shell (dst : Nat) (src : Nat → Nat) (o : Nat) (tlut : Nat → Nat) (w : Nat) :
    DecodeBytes_RGB5A3_AVX2 dst src o tlut w =
      storeRows dst w 4 2
        (regPixels 4 (DecodeBytes_RGB5A3_AVX2_regs (_mm_load_si128 src o))) := by
  obtain ⟨o0, o1, h⟩ : ∃ o0 o1,
      DecodeBytes_RGB5A3_AVX2_regs (_mm_load_si128 src o) = [o0, o1] :=
    ⟨_, _, rfl⟩
  simp only [DecodeBytes_RGB5A3_AVX2]
  rw [h]
  simp [storeRows, regPixels, _mm_store_si128, _mm256_store_si256, List.range_succ,
    Nat.add_assoc]

theorem DecodeBytes_RGB5A3_AVX2_eq (dst : Nat) (src : Nat → Nat) (o : Nat)
    (tlut : Nat → Nat) (w : Nat) :
    DecodeBytes_RGB5A3_AVX2 dst src o tlut w =
      (List.range 2).flatMap fun r =>
        DecodeBytes_RGB5A3_Generic (dst + r * w) src (o + r * 8) tlut w := by
  rw [RGB5A3_AVX2_shell, RGB5A3_Generic_shell_2_16,
    RGB5A3_AVX2_regs_eq _ (show _mm_load_si128 src o < 2 ^ 128 from ofLanes_lt 8 16 _)]

/-! ## The registered decoders -/

theorem DecodeTexture_congr (bw bh bpl : Nat) (dec gen : BlockLineDecoder) (L : Nat)
    (h : ∀ dst src o tlut w, dec dst src o tlut w = gen dst src o tlut w) :
    DecodeTexture bw bh bpl dec L = DecodeTexture bw bh bpl gen L := by
  have : dec = gen := by
    funext dst src o tlut w
    exact h dst src o tlut w
  rw [this]

theorem DecoderTables.call_eq_of_entries (t1 t2 : DecoderTables) (texformat : Nat)
    (f g : DecodeFunction) (h1 : t1.g_decoder_funcs texformat = .func f)
    (h2 : t2.g_decoder_funcs texformat = .func g) (hfg : f = g)
    (src : Nat → Nat) (width height : Nat) (tlut : Nat → Nat) (tlutfmt : TlutFormat) :
    t1.call src width height texformat tlut tlutfmt =
        t2.call src width height texformat tlut tlutfmt ∧
      (t2.call src width height texformat tlut tlutfmt).isSome = true := by
  unfold DecoderTables.call
  rw [h1, h2, hfg]
  exact ⟨rfl, rfl⟩

theorem DecodeTexture_I4_SSE2 :
    DecodeTexture 8 8 4 DecodeBytes_I4_SSE2 4 =
      DecodeTexture 8 8 4 DecodeBytes_I4_Generic 1 := by
  funext src tlut width height
  exact DecodeTexture_lines_per_call 8 4 _ _ 4 2 (by decide) DecodeBytes_I4_SSE2_eq
    src tlut width height

theorem DecodeTexture_I4_SSSE3 :
    DecodeTexture 8 8 4 DecodeBytes_I4_SSSE3 4 =
      DecodeTexture 8 8 4 DecodeBytes_I4_Generic 1 := by
  funext src tlut width height
  exact DecodeTexture_lines_per_call 8 4 _ _ 4 2 (by decide) DecodeBytes_I4_SSSE3_eq
    src tlut width height

theorem DecodeTexture_I4_AVX2 :
    DecodeTexture 8 8 4 DecodeBytes_I4_AVX2 8 =
      DecodeTexture 8 8 4 DecodeBytes_I4_Generic 1 := by
  funext src tlut width height
  exact DecodeTexture_lines_per_call 8 4 _ _ 8 1 (by decide) DecodeBytes_I4_AVX2_eq
    src tlut width height

theorem DecodeTexture_I8_SSE2 :
    DecodeTexture 8 4 8 DecodeBytes_I8_SSE2 1 =
      DecodeTexture 8 4 8 DecodeBytes_I8_Generic 1 := by
  funext src tlut width height
  exact DecodeTexture_lines_per_call 8 8 _ _ 1 4 (by decide) DecodeBytes_I8_SSE2_eq
    src tlut width height

theorem DecodeTexture_I8_SSSE3 :
    DecodeTexture 8 4 8 DecodeBytes_I8_SSSE3 1 =
      DecodeTexture 8 4 8 DecodeBytes_I8_Generic 1 := by
  funext src tlut width height
  exact DecodeTexture_lines_per_call 8 8 _ _ 1 4 (by decide) DecodeBytes_I8_SSSE3_eq
    src tlut width height

theorem DecodeTexture_I8_AVX2 :
    DecodeTexture 8 4 8 DecodeBytes_I8_AVX2 2 =
      DecodeTexture 8 4 8 DecodeBytes_I8_Generic 1 := by
  funext src tlut width height
  exact DecodeTexture_lines_per_call 8 8 _ _ 2 2 (by decide) DecodeBytes_I8_AVX2_eq
    src tlut width height

theorem DecodeTexture_IA4_SSE2 :
    DecodeTexture 8 4 8 DecodeBytes_IA4_SSE2 2 =
      DecodeTexture 8 4 8 DecodeBytes_IA4_Generic 1 := by
  funext src tlut width height
  exact DecodeTexture_lines_per_call 8 8 _ _ 2 2 (by decide) DecodeBytes_IA4_SSE2_eq
    src tlut width height

theorem DecodeTexture_IA4_SSSE3 :
    DecodeTexture 8 4 8 DecodeBytes_IA4_SSSE3 1 =
      DecodeTexture 8 4 8 DecodeBytes_IA4_Generic 1 := by
  funext src tlut width height
  exact DecodeTexture_lines_per_call 8 8 _ _ 1 4 (by decide) DecodeBytes_IA4_SSSE3_eq
    src tlut width height

theorem DecodeTexture_IA4_AVX2 :
    DecodeTexture 8 4 8 DecodeBytes_IA4_AVX2 2 =
      DecodeTexture 8 4 8 DecodeBytes_IA4_Generic 1 := by
  funext src tlut width height
  exact DecodeTexture_lines_per_call 8 8 _ _ 2 2 (by decide) DecodeBytes_IA4_AVX2_eq
    src tlut width height

theorem DecodeTexture_IA8_SSE2 :
    DecodeTexture 4 4 8 DecodeBytes_IA8_SSE2 2 =
      DecodeTexture 4 4 8 DecodeBytes_IA8_Generic 1 := by
  funext src tlut width height
  exact DecodeTexture_lines_per_call 4 8 _ _ 2 2 (by decide) DecodeBytes_IA8_SSE2_eq
    src tlut width height

theorem DecodeTexture_IA8_SSSE3 :
    DecodeTexture 4 4 8 DecodeBytes_IA8_SSSE3 1 =
      DecodeTexture 4 4 8 DecodeBytes_IA8_Generic 1 := by
  funext src tlut width height
  exact DecodeTexture_lines_per_call 4 8 _ _ 1 4 (by decide) DecodeBytes_IA8_SSSE3_eq
    src tlut width height

theorem DecodeTexture_RGB565_SSE2 :
    DecodeTexture 4 4 8 DecodeBytes_RGB565_SSE2 1 =
      DecodeTexture 4 4 8 DecodeBytes_RGB565_Generic 1 := by
  funext src tlut width height
  exact DecodeTexture_lines_per_call 4 8 _ _ 1 4 (by decide) DecodeBytes_RGB565_SSE2_eq
    src tlut width height

theorem DecodeTexture_RGB565_AVX2 :
    DecodeTexture 4 4 8 DecodeBytes_RGB565_AVX2 2 =
      DecodeTexture 4 4 8 DecodeBytes_RGB565_Generic 1 := by
  funext src tlut width height
  exact DecodeTexture_lines_per_call 4 8 _ _ 2 2 (by decide) DecodeBytes_RGB565_AVX2_eq
    src tlut width height

theorem DecodeTexture_RGB5A3_SSE2 :
    DecodeTexture 4 4 8 DecodeBytes_RGB5A3_SSE2 2 =
      DecodeTexture 4 4 8 DecodeBytes_RGB5A3_Generic 1 := by
  funext src tlut width height
  exact DecodeTexture_lines_per_call 4 8 _ _ 2 2 (by decide) DecodeBytes_RGB5A3_SSE2_eq
    src tlut width height

theorem DecodeTexture_RGB5A3_SSSE3 :
    DecodeTexture 4 4 8 DecodeBytes_RGB5A3_SSSE3 1 =
      DecodeTexture 4 4 8 DecodeBytes_RGB5A3_Generic 1 := by
  funext src tlut width height
  exact DecodeTexture_lines_per_call 4 8 _ _ 1 4 (by decide) DecodeBytes_RGB5A3_SSSE3_eq
    src tlut width height

theorem DecodeTexture_RGB5A3_SSE41 :
    DecodeTexture 4 4 8 DecodeBytes_RGB5A3_SSE41 1 =
      DecodeTexture 4 4 8 DecodeBytes_RGB5A3_Generic 1 := by
  funext src tlut width height
  exact DecodeTexture_lines_per_call 4 8 _ _ 1 4 (by decide) DecodeBytes_RGB5A3_SSE41_eq
    src tlut width height

theorem DecodeTexture_RGB5A3_AVX2 :
    DecodeTexture 4 4 8 DecodeBytes_RGB5A3_AVX2 2 =
      DecodeTexture 4 4 8 DecodeBytes_RGB5A3_Generic 1 := by
  funext src tlut width height
  exact DecodeTexture_lines_per_call 4 8 _ _ 2 2 (by decide) DecodeBytes_RGB5A3_AVX2_eq
    src tlut width height

theorem DecodeTexture_RGBA8_SSE2 :
    DecodeTexture 4 4 16 DecodeBytes_RGBA8_SSE2 4 =
      DecodeTexture 4 4 16 DecodeBytes_RGBA8_Generic 4 := by
  apply DecodeTexture_congr
  intro dst src o tlut w
  rw [DecodeBytes_RGBA8_SSE2_eq]
  simp [List.range_succ]

theorem DecodeTexture_RGBA8_SSSE3 :
    DecodeTexture 4 4 16 DecodeBytes_RGBA8_SSSE3 4 =
      DecodeTexture 4 4 16 DecodeBytes_RGBA8_Generic 4 := by
  apply DecodeTexture_congr
  intro dst src o tlut w
  rw [DecodeBytes_RGBA8_SSSE3_eq]
  simp [List.range_succ]

theorem DecodeTexture_RGBA8_AVX2 :
    DecodeTexture 4 4 16 DecodeBytes_RGBA8_AVX2 4 =
      DecodeTexture 4 4 16 DecodeBytes_RGBA8_Generic 4 := by
  apply DecodeTexture_congr
  intro dst src o tlut w
  rw [DecodeBytes_RGBA8_AVX2_eq]
  simp [List.range_succ]

theorem Init_entry_I4 (cpu_info : CPUInfo) :
    ∃ f, (Init cpu_info).g_decoder_funcs GX_TF_I4 = .func f ∧
      f = DecodeTexture 8 8 4 DecodeBytes_I4_Generic 1 := by
  obtain ⟨b1, b2, b3, b4⟩ := cpu_info
  cases b1 <;> cases b2 <;> cases b3 <;> cases b4 <;>
    (refine ⟨_, rfl, ?_⟩
     simp only [DecodeTexture_I4_SSE2, DecodeTexture_I4_SSSE3, DecodeTexture_I4_AVX2, DecodeTexture_I8_SSE2, DecodeTexture_I8_SSSE3, DecodeTexture_I8_AVX2, DecodeTexture_IA4_SSE2, DecodeTexture_IA4_SSSE3, DecodeTexture_IA4_AVX2, DecodeTexture_IA8_SSE2, DecodeTexture_IA8_SSSE3, DecodeTexture_RGB565_SSE2, DecodeTexture_RGB565_AVX2, DecodeTexture_RGB5A3_SSE2, DecodeTexture_RGB5A3_SSSE3, DecodeTexture_RGB5A3_SSE41, DecodeTexture_RGB5A3_AVX2, DecodeTexture_RGBA8_SSE2, DecodeTexture_RGBA8_SSSE3, DecodeTexture_RGBA8_AVX2])

theorem Init_entry_I8 (cpu_info : CPUInfo) :
    ∃ f, (Init cpu_info).g_decoder_funcs GX_TF_I8 = .func f ∧
      f = DecodeTexture 8 4 8 DecodeBytes_I8_Generic 1 := by
  obtain ⟨b1, b2, b3, b4⟩ := cpu_info
  cases b1 <;> cases b2 <;> cases b3 <;> cases b4 <;>
    (refine ⟨_, rfl, ?_⟩
     simp only [DecodeTexture_I4_SSE2, DecodeTexture_I4_SSSE3, DecodeTexture_I4_AVX2, DecodeTexture_I8_SSE2, DecodeTexture_I8_SSSE3, DecodeTexture_I8_AVX2, DecodeTexture_IA4_SSE2, DecodeTexture_IA4_SSSE3, DecodeTexture_IA4_AVX2, DecodeTexture_IA8_SSE2, DecodeTexture_IA8_SSSE3, DecodeTexture_RGB565_SSE2, DecodeTexture_RGB565_AVX2, DecodeTexture_RGB5A3_SSE2, DecodeTexture_RGB5A3_SSSE3, DecodeTexture_RGB5A3_SSE41, DecodeTexture_RGB5A3_AVX2, DecodeTexture_RGBA8_SSE2, DecodeTexture_RGBA8_SSSE3, DecodeTexture_RGBA8_AVX2])

theorem Init_entry_IA4 (cpu_info : CPUInfo) :
    ∃ f, (Init cpu_info).g_decoder_funcs GX_TF_IA4 = .func f ∧
      f = DecodeTexture 8 4 8 DecodeBytes_IA4_Generic 1 := by
  obtain ⟨b1, b2, b3, b4⟩ := cpu_info
  cases b1 <;> cases b2 <;> cases b3 <;> cases b4 <;>
    (refine ⟨_, rfl, ?_⟩
     simp only [DecodeTexture_I4_SSE2, DecodeTexture_I4_SSSE3, DecodeTexture_I4_AVX2, DecodeTexture_I8_SSE2, DecodeTexture_I8_SSSE3, DecodeTexture_I8_AVX2, DecodeTexture_IA4_SSE2, DecodeTexture_IA4_SSSE3, DecodeTexture_IA4_AVX2, DecodeTexture_IA8_SSE2, DecodeTexture_IA8_SSSE3, DecodeTexture_RGB565_SSE2, DecodeTexture_RGB565_AVX2, DecodeTexture_RGB5A3_SSE2, DecodeTexture_RGB5A3_SSSE3, DecodeTexture_RGB5A3_SSE41, DecodeTexture_RGB5A3_AVX2, DecodeTexture_RGBA8_SSE2, DecodeTexture_RGBA8_SSSE3, DecodeTexture_RGBA8_AVX2])

theorem Init_entry_IA8 (cpu_info : CPUInfo) :
    ∃ f, (Init cpu_info).g_decoder_funcs GX_TF_IA8 = .func f ∧
      f = DecodeTexture 4 4 8 DecodeBytes_IA8_Generic 1 := by
  obtain ⟨b1, b2, b3, b4⟩ := cpu_info
  cases b1 <;> cases b2 <;> cases b3 <;> cases b4 <;>
    (refine ⟨_, rfl, ?_⟩
     simp only [DecodeTexture_I4_SSE2, DecodeTexture_I4_SSSE3, DecodeTexture_I4_AVX2, DecodeTexture_I8_SSE2, DecodeTexture_I8_SSSE3, DecodeTexture_I8_AVX2, DecodeTexture_IA4_SSE2, DecodeTexture_IA4_SSSE3, DecodeTexture_IA4_AVX2, DecodeTexture_IA8_SSE2, DecodeTexture_IA8_SSSE3, DecodeTexture_RGB565_SSE2, DecodeTexture_RGB565_AVX2, DecodeTexture_RGB5A3_SSE2, DecodeTexture_RGB5A3_SSSE3, DecodeTexture_RGB5A3_SSE41, DecodeTexture_RGB5A3_AVX2, DecodeTexture_RGBA8_SSE2, DecodeTexture_RGBA8_SSSE3, DecodeTexture_RGBA8_AVX2])

theorem Init_entry_RGB565 (cpu_info : CPUInfo) :
    ∃ f, (Init cpu_info).g_decoder_funcs GX_TF_RGB565 = .func f ∧
      f = DecodeTexture 4 4 8 DecodeBytes_RGB565_Generic 1 := by
  obtain ⟨b1, b2, b3, b4⟩ := cpu_info
  cases b1 <;> cases b2 <;> cases b3 <;> cases b4 <;>
    (refine ⟨_, rfl, ?_⟩
     simp only [DecodeTexture_I4_SSE2, DecodeTexture_I4_SSSE3, DecodeTexture_I4_AVX2, DecodeTexture_I8_SSE2, DecodeTexture_I8_SSSE3, DecodeTexture_I8_AVX2, DecodeTexture_IA4_SSE2, DecodeTexture_IA4_SSSE3, DecodeTexture_IA4_AVX2, DecodeTexture_IA8_SSE2, DecodeTexture_IA8_SSSE3, DecodeTexture_RGB565_SSE2, DecodeTexture_RGB565_AVX2, DecodeTexture_RGB5A3_SSE2, DecodeTexture_RGB5A3_SSSE3, DecodeTexture_RGB5A3_SSE41, DecodeTexture_RGB5A3_AVX2, DecodeTexture_RGBA8_SSE2, DecodeTexture_RGBA8_SSSE3, DecodeTexture_RGBA8_AVX2])

theorem Init_entry_RGB5A3 (cpu_info : CPUInfo) :
    ∃ f, (Init cpu_info).g_decoder_funcs GX_TF_RGB5A3 = .func f ∧
      f = DecodeTexture 4 4 8 DecodeBytes_RGB5A3_Generic 1 := by
  obtain ⟨b1, b2, b3, b4⟩ := cpu_info
  cases b1 <;> cases b2 <;> cases b3 <;> cases b4 <;>
    (refine ⟨_, rfl, ?_⟩
     simp only [DecodeTexture_I4_SSE2, DecodeTexture_I4_SSSE3, DecodeTexture_I4_AVX2, DecodeTexture_I8_SSE2, DecodeTexture_I8_SSSE3, DecodeTexture_I8_AVX2, DecodeTexture_IA4_SSE2, DecodeTexture_IA4_SSSE3, DecodeTexture_IA4_AVX2, DecodeTexture_IA8_SSE2, DecodeTexture_IA8_SSSE3, DecodeTexture_RGB565_SSE2, DecodeTexture_RGB565_AVX2, DecodeTexture_RGB5A3_SSE2, DecodeTexture_RGB5A3_SSSE3, DecodeTexture_RGB5A3_SSE41, DecodeTexture_RGB5A3_AVX2, DecodeTexture_RGBA8_SSE2, DecodeTexture_RGBA8_SSSE3, DecodeTexture_RGBA8_AVX2])

theorem Init_entry_RGBA8 (cpu_info : CPUInfo) :
    ∃ f, (Init cpu_info).g_decoder_funcs GX_TF_RGBA8 = .func f ∧
      f = DecodeTexture 4 4 16 DecodeBytes_RGBA8_Generic 4 := by
  obtain ⟨b1, b2, b3, b4⟩ := cpu_info
  cases b1 <;> cases b2 <;> cases b3 <;> cases b4 <;>
    (refine ⟨_, rfl, ?_⟩
     simp only [DecodeTexture_I4_SSE2, DecodeTexture_I4_SSSE3, DecodeTexture_I4_AVX2, DecodeTexture_I8_SSE2, DecodeTexture_I8_SSSE3, DecodeTexture_I8_AVX2, DecodeTexture_IA4_SSE2, DecodeTexture_IA4_SSSE3, DecodeTexture_IA4_AVX2, DecodeTexture_IA8_SSE2, DecodeTexture_IA8_SSSE3, DecodeTexture_RGB565_SSE2, DecodeTexture_RGB565_AVX2, DecodeTexture_RGB5A3_SSE2, DecodeTexture_RGB5A3_SSSE3, DecodeTexture_RGB5A3_SSE41, DecodeTexture_RGB5A3_AVX2, DecodeTexture_RGBA8_SSE2, DecodeTexture_RGBA8_SSSE3, DecodeTexture_RGBA8_AVX2])

/-- C13: for every setting of the CPU feature flags (so at each of the levels SSE2, SSSE3,
SSE4.1 and AVX2 of the test), every format among I4, I8, IA4, IA8, RGB565, RGB5A3 and RGBA8,
every source, width and height, the decoder `Init` registers makes exactly the stores, in
the same order, of the decoder `InitGeneric` registers, and that one is registered. -/
theorem Init_x64_decoders_eq_generic (cpu_info : CPUInfo) (texformat : Nat)
    (hf : texformat ∈ [GX_TF_I4, GX_TF_I8, GX_TF_IA4, GX_TF_IA8, GX_TF_RGB565, GX_TF_RGB5A3,
      GX_TF_RGBA8])
    (src tlut : Nat → Nat) (width height : Nat) (tlutfmt : TlutFormat) :
    (Init cpu_info).call src width height texformat tlut tlutfmt =
        (InitGeneric DecoderTables.empty).call src width height texformat tlut tlutfmt ∧
      ((InitGeneric DecoderTables.empty).call src width height texformat tlut
        tlutfmt).isSome = true := by
  simp only [List.mem_cons, List.mem_singleton, List.not_mem_nil, or_false] at hf
  rcases hf with rfl | rfl | rfl | rfl | rfl | rfl | rfl
  · obtain ⟨f, h1, h2⟩ := Init_entry_I4 cpu_info
    exact DecoderTables.call_eq_of_entries _ _ _ f _ h1 rfl h2 _ _ _ _ _
  · obtain ⟨f, h1, h2⟩ := Init_entry_I8 cpu_info
    exact DecoderTables.call_eq_of_entries _ _ _ f _ h1 rfl h2 _ _ _ _ _
  · obtain ⟨f, h1, h2⟩ := Init_entry_IA4 cpu_info
    exact DecoderTables.call_eq_of_entries _ _ _ f _ h1 rfl h2 _ _ _ _ _
  · obtain ⟨f, h1, h2⟩ := Init_entry_IA8 cpu_info
    exact DecoderTables.call_eq_of_entries _ _ _ f _ h1 rfl h2 _ _ _ _ _
  · obtain ⟨f, h1, h2⟩ := Init_entry_RGB565 cpu_info
    exact DecoderTables.call_eq_of_entries _ _ _ f _ h1 rfl h2 _ _ _ _ _
  · obtain ⟨f, h1, h2⟩ := Init_entry_RGB5A3 cpu_info
    exact DecoderTables.call_eq_of_entries _ _ _ f _ h1 rfl h2 _ _ _ _ _
  · obtain ⟨f, h1, h2⟩ := Init_entry_RGBA8 cpu_info
    exact DecoderTables.call_eq_of_entries _ _ _ f _ h1 rfl h2 _ _ _ _ _

theorem Init_x64_decoders_eq_generic_witness :
    GX_TF_RGB5A3 ∈ [GX_TF_I4, GX_TF_I8, GX_TF_IA4, GX_TF_IA8, GX_TF_RGB565, GX_TF_RGB5A3,
      GX_TF_RGBA8] ∧
    (Init (SetCPU ⟨true, true, true, true⟩ CPU.AVX2)).call (fun a => a) 8 8 GX_TF_RGB5A3
        (fun _ => 0) TlutFormat.GX_TL_IA8 =
      (InitGeneric DecoderTables.empty).call (fun a => a) 8 8 GX_TF_RGB5A3 (fun _ => 0)
        TlutFormat.GX_TL_IA8 ∧
    ((InitGeneric DecoderTables.empty).call (fun a => a) 8 8 GX_TF_RGB5A3 (fun _ => 0)
      TlutFormat.GX_TL_IA8).isSome = true :=
  ⟨by decide, Init_x64_decoders_eq_generic _ GX_TF_RGB5A3 (by decide) _ _ 8 8 _⟩

/-! ## Palette reads -/

theorem tlutReadsWithin_append (n : Nat) (a b : List Access) :
    tlutReadsWithin n (a ++ b) = (tlutReadsWithin n a && tlutReadsWithin n b) := by
  simp [tlutReadsWithin, List.all_append]

theorem tlutReadsWithin_store256 (n p v : Nat) :
    tlutReadsWithin n (_mm256_store_si256 p v) = true := by
  simp [tlutReadsWithin, _mm256_store_si256]

theorem u8at_lt (src : Nat → Nat) (a : Nat) : u8at src a < 256 :=
  Nat.mod_lt _ (by decide)

theorem C4_Generic_reads (format : TlutFormat) (dst : Nat) (src : Nat → Nat) (o : Nat)
    (tlut : Nat → Nat) (w : Nat) :
    tlutReadsWithin (GetPaletteSize GX_TF_C4)
      (DecodeBytes_C4_Generic format dst src o tlut w) = true := by
  simp only [tlutReadsWithin, DecodeBytes_C4_Generic, List.all_flatMap, List.all_eq_true]
  intro x _
  have h := u8at_lt src (o + x)
  have h1 : u8at src (o + x) >>> 4 < 16 := by
    rw [Nat.shiftRight_eq_div_pow]
    omega
  have h2 : u8at src (o + x) &&& 0xF ≤ 0xF := Nat.and_le_right
  simp [GetPaletteSize, GX_TF_C4]
  omega

theorem C8_Generic_reads (format : TlutFormat) (dst : Nat) (src : Nat → Nat) (o : Nat)
    (tlut : Nat → Nat) (w : Nat) :
    tlutReadsWithin (GetPaletteSize GX_TF_C8)
      (DecodeBytes_C8_Generic format dst src o tlut w) = true := by
  simp only [tlutReadsWithin, DecodeBytes_C8_Generic, List.all_flatMap, List.all_eq_true]
  intro x _
  have h := u8at_lt src (o + x)
  simp [GetPaletteSize, GX_TF_C8, GX_TF_C4]
  omega

theorem C14X2_Generic_reads (format : TlutFormat) (dst : Nat) (src : Nat → Nat) (o : Nat)
    (tlut : Nat → Nat) (w : Nat) :
    tlutReadsWithin (GetPaletteSize GX_TF_C14X2)
      (DecodeBytes_C14X2_Generic format dst src o tlut w) = true := by
  simp only [tlutReadsWithin, DecodeBytes_C14X2_Generic, List.all_flatMap, List.all_eq_true]
  intro x _
  have h2 : swap16 (u16at src (o + 2 * x)) &&& 0x3FFF ≤ 0x3FFF := Nat.and_le_right
  simp [GetPaletteSize, GX_TF_C14X2, GX_TF_C8, GX_TF_C4]
  omega

theorem C4_AVX2_reads (format : TlutFormat) (dst : Nat) (src : Nat → Nat) (o : Nat)
    (tlut : Nat → Nat) (w : Nat) :
    tlutReadsWithin (GetPaletteSize GX_TF_C4)
      (DecodeBytes_C4_AVX2 format dst src o tlut w) = true := by
  simp [DecodeBytes_C4_AVX2, List.range_succ, tlutReadsWithin, List.all_append,
    _mm256_store_si256, GetPaletteSize, GX_TF_C4]

/-- C17: `GetPaletteSize` is 32, 512 and 32768 for C4, C8 and C14X2 and 0 for every other
format; the palette reads of the three generic paletted block-line decoders and of
`DecodeBytes_C4_AVX2` lie within that many bytes for every source; those of
`DecodeBytes_C8_AVX2` and `DecodeBytes_C14_AVX2` do not: for a source byte 0xFF the gather
of `DecodeBytes_C8_AVX2` reads the four bytes at offset 510 of the 512-byte palette, and
for source bytes 0xFF that of `DecodeBytes_C14_AVX2` reads the four bytes at offset 32766
of the 32768-byte palette. -/
theorem palette_reads_within_GetPaletteSize :
    (GetPaletteSize GX_TF_C4 = 32 ∧ GetPaletteSize GX_TF_C8 = 512 ∧
      GetPaletteSize GX_TF_C14X2 = 32768 ∧
      ∀ format, format = GX_TF_C4 ∨ format = GX_TF_C8 ∨ format = GX_TF_C14X2 ∨
        GetPaletteSize format = 0) ∧
    (∀ format dst src o tlut w,
      tlutReadsWithin (GetPaletteSize GX_TF_C4)
          (DecodeBytes_C4_Generic format dst src o tlut w) = true ∧
        tlutReadsWithin (GetPaletteSize GX_TF_C8)
          (DecodeBytes_C8_Generic format dst src o tlut w) = true ∧
        tlutReadsWithin (GetPaletteSize GX_TF_C14X2)
          (DecodeBytes_C14X2_Generic format dst src o tlut w) = true ∧
        tlutReadsWithin (GetPaletteSize GX_TF_C4)
          (DecodeBytes_C4_AVX2 format dst src o tlut w) = true) ∧
    (∀ format dst tlut w,
      Access.tlutLoad 510 4 ∈ DecodeBytes_C8_AVX2 format dst (fun _ => 0xFF) 0 tlut w ∧
        tlutReadsWithin (GetPaletteSize GX_TF_C8)
          (DecodeBytes_C8_AVX2 format dst (fun _ => 0xFF) 0 tlut w) = false ∧
        Access.tlutLoad 32766 4 ∈ DecodeBytes_C14_AVX2 format dst (fun _ => 0xFF) 0 tlut w ∧
        tlutReadsWithin (GetPaletteSize GX_TF_C14X2)
          (DecodeBytes_C14_AVX2 format dst (fun _ => 0xFF) 0 tlut w) = false) := by
  refine ⟨⟨rfl, rfl, rfl, ?_⟩, ?_, ?_⟩
  · intro format
    unfold GetPaletteSize
    by_cases h1 : format = GX_TF_C4
    · exact Or.inl h1
    · by_cases h2 : format = GX_TF_C8
      · exact Or.inr (Or.inl h2)
      · by_cases h3 : format = GX_TF_C14X2
        · exact Or.inr (Or.inr (Or.inl h3))
        · simp [h1, h2, h3]
  · intro format dst src o tlut w
    exact ⟨C4_Generic_reads _ _ _ _ _ _, C8_Generic_reads _ _ _ _ _ _,
      C14X2_Generic_reads _ _ _ _ _ _, C4_AVX2_reads _ _ _ _ _ _⟩
  · intro format dst tlut w
    have h8 : gatherLoads (_mm256_shuffle_epi8
        (_mm256_broadcastsi128_si256 (_mm_load_si128 (fun _ => 0xFF) 0))
        (_mm256_set_epi64x 0xFFFFFF07FFFFFF06 0xFFFFFF05FFFFFF04 0xFFFFFF03FFFFFF02
          0xFFFFFF01FFFFFF00)) = List.replicate 8 (Access.tlutLoad 510 4) := by decide!
    have h14 : gatherLoads (DecodeBytes_C14_AVX2_indices (_mm_load_si128 (fun _ => 0xFF) 0)) =
        List.replicate 8 (Access.tlutLoad 32766 4) := by decide!
    refine ⟨?_, ?_, ?_, ?_⟩
    · simp only [DecodeBytes_C8_AVX2, h8]
      simp [List.replicate]
    · simp only [DecodeBytes_C8_AVX2, h8, tlutReadsWithin_append]
      simp [List.replicate, tlutReadsWithin, GetPaletteSize, GX_TF_C8, GX_TF_C4]
    · simp only [DecodeBytes_C14_AVX2, h14]
      simp [List.replicate]
    · simp only [DecodeBytes_C14_AVX2, h14, tlutReadsWithin_append]
      simp [List.replicate, tlutReadsWithin, GetPaletteSize, GX_TF_C14X2, GX_TF_C8, GX_TF_C4]

/-! ## `DecodePixels_AVX2` -/

theorem OrLinL.map_list {α : Type} (l : List α) {E : Nat → α → Nat}
    (hE : ∀ i, OrLin (fun v => E v i)) : OrLinL (fun v => l.map (E v)) :=
  ⟨fun a b => by simp, fun a b => by
    show l.map (E (a ||| b)) = _
    rw [List.zipWith_map, List.zipWith_same]
    apply List.map_congr_left
    intro i _
    exact hE i a b⟩

theorem DecodePixel_IA8_lin : OrLin (DecodePixel .GX_TL_IA8) := by
  unfold DecodePixel
  simp only [DecodePixel_IA8, swap16]
  fun_prop

theorem DecodePixel_RGB565_lin : OrLin (DecodePixel .GX_TL_RGB565) := by
  unfold DecodePixel
  simp only [DecodePixel_RGB565, swap16, Convert5To8, Convert6To8]
  fun_prop

theorem pixelLanes16_map_lin (s : Bool) (g : Nat → Nat) (hg : OrLin g) :
    OrLinL (fun c => (pixelLanes16 s).map fun j => g (laneOf 16 c j)) :=
  OrLinL.map_list _ fun j => OrLin.comp hg (by fun_prop)

theorem swappedLanes16_map_lin (s : Bool) (g : Nat → Nat) (hg : OrLin g) :
    OrLinL (fun c => (swappedLanes16 s c).map g) := by
  simp only [swappedLanes16, List.map_map, Function.comp_def]
  apply OrLinL.map_list
  intro j
  refine OrLin.comp hg ?_
  simp only [swap16]
  fun_prop

theorem DecodePixels_AVX2_IA8_false_lin :
    OrLinL (fun c => regPixels 8 [DecodePixels_AVX2 .GX_TL_IA8 false c]) := by
  simp only [DecodePixels_AVX2, Bool.false_eq_true, if_false, if_true]
  repeat' (first | exact OrLinL.regPixels_nil 8 | apply OrLinL.regPixels_cons)
  all_goals fun_prop

set_option maxRecDepth 100000 in
theorem DecodePixels_AVX2_IA8_false_basis : ∀ i, i < 256 →
    regPixels 8 [DecodePixels_AVX2 .GX_TL_IA8 false (2 ^ i)] =
      (pixelLanes16 false).map fun j => DecodePixel .GX_TL_IA8 (laneOf 16 (2 ^ i) j) := by
  decide!

theorem DecodePixels_AVX2_IA8_false (c : Nat) (hc : c < 2 ^ 256) :
    regPixels 8 [DecodePixels_AVX2 .GX_TL_IA8 false c] =
      (pixelLanes16 false).map fun j => DecodePixel .GX_TL_IA8 (laneOf 16 c j) :=
  OrLinL.eq_of_basis DecodePixels_AVX2_IA8_false_lin (pixelLanes16_map_lin false _ DecodePixel_IA8_lin) 256
    (by decide!) DecodePixels_AVX2_IA8_false_basis c hc

theorem DecodePixels_AVX2_IA8_true_lin :
    OrLinL (fun c => regPixels 8 [DecodePixels_AVX2 .GX_TL_IA8 true c]) := by
  simp only [DecodePixels_AVX2, Bool.false_eq_true, if_false, if_true]
  repeat' (first | exact OrLinL.regPixels_nil 8 | apply OrLinL.regPixels_cons)
  all_goals fun_prop

set_option maxRecDepth 100000 in
theorem DecodePixels_AVX2_IA8_true_basis : ∀ i, i < 256 →
    regPixels 8 [DecodePixels_AVX2 .GX_TL_IA8 true (2 ^ i)] =
      (pixelLanes16 true).map fun j => DecodePixel .GX_TL_IA8 (laneOf 16 (2 ^ i) j) := by
  decide!

theorem DecodePixels_AVX2_IA8_true (c : Nat) (hc : c < 2 ^ 256) :
    regPixels 8 [DecodePixels_AVX2 .GX_TL_IA8 true c] =
      (pixelLanes16 true).map fun j => DecodePixel .GX_TL_IA8 (laneOf 16 c j) :=
  OrLinL.eq_of_basis DecodePixels_AVX2_IA8_true_lin (pixelLanes16_map_lin true _ DecodePixel_IA8_lin) 256
    (by decide!) DecodePixels_AVX2_IA8_true_basis c hc

theorem DecodePixels_AVX2_RGB565_false_lin :
    OrLinL (fun c => regPixels 8 [DecodePixels_AVX2 .GX_TL_RGB565 false c]) := by
  simp only [DecodePixels_AVX2, Bool.false_eq_true, if_false, if_true]
  repeat' (first | exact OrLinL.regPixels_nil 8 | apply OrLinL.regPixels_cons)
  all_goals fun_prop

set_option maxRecDepth 100000 in
theorem DecodePixels_AVX2_RGB565_false_basis : ∀ i, i < 256 →
    regPixels 8 [DecodePixels_AVX2 .GX_TL_RGB565 false (2 ^ i)] =
      (pixelLanes16 false).map fun j => DecodePixel .GX_TL_RGB565 (laneOf 16 (2 ^ i) j) := by
  decide!

theorem DecodePixels_AVX2_RGB565_false (c : Nat) (hc : c < 2 ^ 256) :
    regPixels 8 [DecodePixels_AVX2 .GX_TL_RGB565 false c] =
      (pixelLanes16 false).map fun j => DecodePixel .GX_TL_RGB565 (laneOf 16 c j) :=
  OrLinL.eq_of_basis DecodePixels_AVX2_RGB565_false_lin (pixelLanes16_map_lin false _ DecodePixel_RGB565_lin) 256
    (by decide!) DecodePixels_AVX2_RGB565_false_basis c hc

theorem DecodePixels_AVX2_RGB565_true_lin :
    OrLinL (fun c => regPixels 8 [DecodePixels_AVX2 .GX_TL_RGB565 true c]) := by
  simp only [DecodePixels_AVX2, Bool.false_eq_true, if_false, if_true]
  repeat' (first | exact OrLinL.regPixels_nil 8 | apply OrLinL.regPixels_cons)
  all_goals fun_prop

set_option maxRecDepth 100000 in
theorem DecodePixels_AVX2_RGB565_true_basis : ∀ i, i < 256 →
    regPixels 8 [DecodePixels_AVX2 .GX_TL_RGB565 true (2 ^ i)] =
      (pixelLanes16 true).map fun j => DecodePixel .GX_TL_RGB565 (laneOf 16 (2 ^ i) j) := by
  decide!

theorem DecodePixels_AVX2_RGB565_true (c : Nat) (hc : c < 2 ^ 256) :
    regPixels 8 [DecodePixels_AVX2 .GX_TL_RGB565 true c] =
      (pixelLanes16 true).map fun j => DecodePixel .GX_TL_RGB565 (laneOf 16 c j) :=
  OrLinL.eq_of_basis DecodePixels_AVX2_RGB565_true_lin (pixelLanes16_map_lin true _ DecodePixel_RGB565_lin) 256
    (by decide!) DecodePixels_AVX2_RGB565_true_basis c hc

theorem DecodePixels_AVX2_RGB5A3_false_mask_lin :
    OrLinL (fun x => regPixels 8 ((DecodePixels_RGB5A3_AVX2_parts
        ((x &&& _mm256_set1_epi32 0x0000FFFF) |||
          _mm256_slli_epi32 (x &&& _mm256_set1_epi32 0x0000FFFF) 16)).mask.map (signMask8 32))) := by
  simp only [DecodePixels_RGB5A3_AVX2_parts, List.map_cons, List.map_nil]
  repeat' (first | exact OrLinL.regPixels_nil 8 | apply OrLinL.regPixels_cons)
  all_goals fun_prop

set_option maxRecDepth 100000 in
theorem DecodePixels_AVX2_RGB5A3_false_mask_basis : ∀ i, i < 256 →
    (fun x => regPixels 8 ((DecodePixels_RGB5A3_AVX2_parts
        ((x &&& _mm256_set1_epi32 0x0000FFFF) |||
          _mm256_slli_epi32 (x &&& _mm256_set1_epi32 0x0000FFFF) 16)).mask.map (signMask8 32))) (2 ^ i) =
      (swappedLanes16 false (2 ^ i)).map (fun v => if v &&& 0x8000 ≠ 0 then 4294967295 else 0) := by
  decide!

theorem DecodePixels_AVX2_RGB5A3_false_mask_eq (x : Nat) (hx : x < 2 ^ 256) :
    regPixels 8 ((DecodePixels_RGB5A3_AVX2_parts
        ((x &&& _mm256_set1_epi32 0x0000FFFF) |||
          _mm256_slli_epi32 (x &&& _mm256_set1_epi32 0x0000FFFF) 16)).mask.map (signMask8 32)) =
      (swappedLanes16 false x).map (fun v => if v &&& 0x8000 ≠ 0 then 4294967295 else 0) :=
  OrLinL.eq_of_basis DecodePixels_AVX2_RGB5A3_false_mask_lin (swappedLanes16_map_lin false _ RGB5A3_mask_lin) 256
    (by decide!) DecodePixels_AVX2_RGB5A3_false_mask_basis x hx

theorem DecodePixels_AVX2_RGB5A3_false_set_lin :
    OrLinL (fun x => regPixels 8 (DecodePixels_RGB5A3_AVX2_parts
        ((x &&& _mm256_set1_epi32 0x0000FFFF) |||
          _mm256_slli_epi32 (x &&& _mm256_set1_epi32 0x0000FFFF) 16)).whenSet) := by
  simp only [DecodePixels_RGB5A3_AVX2_parts, List.map_cons, List.map_nil]
  repeat' (first | exact OrLinL.regPixels_nil 8 | apply OrLinL.regPixels_cons)
  all_goals fun_prop

set_option maxRecDepth 100000 in
theorem DecodePixels_AVX2_RGB5A3_false_set_basis : ∀ i, i < 256 →
    (fun x => regPixels 8 (DecodePixels_RGB5A3_AVX2_parts
        ((x &&& _mm256_set1_epi32 0x0000FFFF) |||
          _mm256_slli_epi32 (x &&& _mm256_set1_epi32 0x0000FFFF) 16)).whenSet) (2 ^ i) =
      (swappedLanes16 false (2 ^ i)).map RGB5A3_rgb555 := by
  decide!

theorem DecodePixels_AVX2_RGB5A3_false_set_eq (x : Nat) (hx : x < 2 ^ 256) :
    regPixels 8 (DecodePixels_RGB5A3_AVX2_parts
        ((x &&& _mm256_set1_epi32 0x0000FFFF) |||
          _mm256_slli_epi32 (x &&& _mm256_set1_epi32 0x0000FFFF) 16)).whenSet =
      (swappedLanes16 false x).map RGB5A3_rgb555 :=
  OrLinL.eq_of_basis DecodePixels_AVX2_RGB5A3_false_set_lin (swappedLanes16_map_lin false _ RGB5A3_rgb555_lin) 256
    (by decide!) DecodePixels_AVX2_RGB5A3_false_set_basis x hx

theorem DecodePixels_AVX2_RGB5A3_false_clear_lin :
    OrLinL (fun x => regPixels 8 (DecodePixels_RGB5A3_AVX2_parts
        ((x &&& _mm256_set1_epi32 0x0000FFFF) |||
          _mm256_slli_epi32 (x &&& _mm256_set1_epi32 0x0000FFFF) 16)).whenClear) := by
  simp only [DecodePixels_RGB5A3_AVX2_parts, List.map_cons, List.map_nil]
  repeat' (first | exact OrLinL.regPixels_nil 8 | apply OrLinL.regPixels_cons)
  all_goals fun_prop

set_option maxRecDepth 100000 in
theorem DecodePixels_AVX2_RGB5A3_false_clear_basis : ∀ i, i < 256 →
    (fun x => regPixels 8 (DecodePixels_RGB5A3_AVX2_parts
        ((x &&& _mm256_set1_epi32 0x0000FFFF) |||
          _mm256_slli_epi32 (x &&& _mm256_set1_epi32 0x0000FFFF) 16)).whenClear) (2 ^ i) =
      (swappedLanes16 false (2 ^ i)).map RGB5A3_rgba4443 := by
  decide!

theorem DecodePixels_AVX2_RGB5A3_false_clear_eq (x : Nat) (hx : x < 2 ^ 256) :
    regPixels 8 (DecodePixels_RGB5A3_AVX2_parts
        ((x &&& _mm256_set1_epi32 0x0000FFFF) |||
          _mm256_slli_epi32 (x &&& _mm256_set1_epi32 0x0000FFFF) 16)).whenClear =
      (swappedLanes16 false x).map RGB5A3_rgba4443 :=
  OrLinL.eq_of_basis DecodePixels_AVX2_RGB5A3_false_clear_lin (swappedLanes16_map_lin false _ RGB5A3_rgba4443_lin) 256
    (by decide!) DecodePixels_AVX2_RGB5A3_false_clear_basis x hx

theorem DecodePixels_AVX2_RGB5A3_false (x : Nat) (hx : x < 2 ^ 256) :
    regPixels 8 [DecodePixels_AVX2 .GX_TL_RGB5A3 false x] =
      (pixelLanes16 false).map fun j => DecodePixel .GX_TL_RGB5A3 (laneOf 16 x j) := by
  have hm := DecodePixels_AVX2_RGB5A3_false_mask_eq x hx
  have hs := DecodePixels_AVX2_RGB5A3_false_set_eq x hx
  have hc := DecodePixels_AVX2_RGB5A3_false_clear_eq x hx
  have hg : ((pixelLanes16 false).map fun j => DecodePixel .GX_TL_RGB5A3 (laneOf 16 x j)) =
      (swappedLanes16 false x).map fun v =>
        if v &&& 0x8000 ≠ 0 then RGB5A3_rgb555 v else RGB5A3_rgba4443 v := by
    simp only [swappedLanes16, List.map_map, Function.comp_def, DecodePixel,
      DecodePixel_RGB5A3_eq]
  rw [hg]
  simp only [DecodePixels_AVX2, Bool.false_eq_true, if_false, if_true,
    DecodePixels_RGB5A3_AVX2]
  obtain ⟨m, s, c, h⟩ : ∃ m s c,
      DecodePixels_RGB5A3_AVX2_parts
        ((x &&& _mm256_set1_epi32 0x0000FFFF) |||
          _mm256_slli_epi32 (x &&& _mm256_set1_epi32 0x0000FFFF) 16) = ⟨[m], [s], [c]⟩ := ⟨_, _, _, rfl⟩
  rw [h] at hm hs hc ⊢
  simp only [SelectParts.blendv256, List.zipWith3, List.getD_cons_zero, blendv_epi8_256_eq,
    List.map_cons, List.map_nil] at hm ⊢
  exact select_pixels 8 256 (by decide) (fun v => v &&& 0x8000 ≠ 0) RGB5A3_rgb555
    RGB5A3_rgba4443 [signMask8 32 m] [s] [c] _ hm hs hc rfl rfl

theorem DecodePixels_AVX2_RGB5A3_true_mask_lin :
    OrLinL (fun x => regPixels 8 ((DecodePixels_RGB5A3_AVX2_parts
        (_mm256_shuffle_epi8 x (_mm256_set_epi64x 0x090809080D0C0D0C 0x0100010005040504
          0x090809080D0C0D0C 0x0100010005040504))).mask.map (signMask8 32))) := by
  simp only [DecodePixels_RGB5A3_AVX2_parts, List.map_cons, List.map_nil]
  repeat' (first | exact OrLinL.regPixels_nil 8 | apply OrLinL.regPixels_cons)
  all_goals fun_prop

set_option maxRecDepth 100000 in
theorem DecodePixels_AVX2_RGB5A3_true_mask_basis : ∀ i, i < 256 →
    (fun x => regPixels 8 ((DecodePixels_RGB5A3_AVX2_parts
        (_mm256_shuffle_epi8 x (_mm256_set_epi64x 0x090809080D0C0D0C 0x0100010005040504
          0x090809080D0C0D0C 0x0100010005040504))).mask.map (signMask8 32))) (2 ^ i) =
      (swappedLanes16 true (2 ^ i)).map (fun v => if v &&& 0x8000 ≠ 0 then 4294967295 else 0) := by
  decide!

theorem DecodePixels_AVX2_RGB5A3_true_mask_eq (x : Nat) (hx : x < 2 ^ 256) :
    regPixels 8 ((DecodePixels_RGB5A3_AVX2_parts
        (_mm256_shuffle_epi8 x (_mm256_set_epi64x 0x090809080D0C0D0C 0x0100010005040504
          0x090809080D0C0D0C 0x0100010005040504))).mask.map (signMask8 32)) =
      (swappedLanes16 true x).map (fun v => if v &&& 0x8000 ≠ 0 then 4294967295 else 0) :=
  OrLinL.eq_of_basis DecodePixels_AVX2_RGB5A3_true_mask_lin (swappedLanes16_map_lin true _ RGB5A3_mask_lin) 256
    (by decide!) DecodePixels_AVX2_RGB5A3_true_mask_basis x hx

theorem DecodePixels_AVX2_RGB5A3_true_set_lin :
    OrLinL (fun x => regPixels 8 (DecodePixels_RGB5A3_AVX2_parts
        (_mm256_shuffle_epi8 x (_mm256_set_epi64x 0x090809080D0C0D0C 0x0100010005040504
          0x090809080D0C0D0C 0x0100010005040504))).whenSet) := by
  simp only [DecodePixels_RGB5A3_AVX2_parts, List.map_cons, List.map_nil]
  repeat' (first | exact OrLinL.regPixels_nil 8 | apply OrLinL.regPixels_cons)
  all_goals fun_prop

set_option maxRecDepth 100000 in
theorem DecodePixels_AVX2_RGB5A3_true_set_basis : ∀ i, i < 256 →
    (fun x => regPixels 8 (DecodePixels_RGB5A3_AVX2_parts
        (_mm256_shuffle_epi8 x (_mm256_set_epi64x 0x090809080D0C0D0C 0x0100010005040504
          0x090809080D0C0D0C 0x0100010005040504))).whenSet) (2 ^ i) =
      (swappedLanes16 true (2 ^ i)).map RGB5A3_rgb555 := by
  decide!

theorem DecodePixels_AVX2_RGB5A3_true_set_eq (x : Nat) (hx : x < 2 ^ 256) :
    regPixels 8 (DecodePixels_RGB5A3_AVX2_parts
        (_mm256_shuffle_epi8 x (_mm256_set_epi64x 0x090809080D0C0D0C 0x0100010005040504
          0x090809080D0C0D0C 0x0100010005040504))).whenSet =
      (swappedLanes16 true x).map RGB5A3_rgb555 :=
  OrLinL.eq_of_basis DecodePixels_AVX2_RGB5A3_true_set_lin (swappedLanes16_map_lin true _ RGB5A3_rgb555_lin) 256
    (by decide!) DecodePixels_AVX2_RGB5A3_true_set_basis x hx

theorem DecodePixels_AVX2_RGB5A3_true_clear_lin :
    OrLinL (fun x => regPixels 8 (DecodePixels_RGB5A3_AVX2_parts
        (_mm256_shuffle_epi8 x (_mm256_set_epi64x 0x090809080D0C0D0C 0x0100010005040504
          0x090809080D0C0D0C 0x0100010005040504))).whenClear) := by
  simp only [DecodePixels_RGB5A3_AVX2_parts, List.map_cons, List.map_nil]
  repeat' (first | exact OrLinL.regPixels_nil 8 | apply OrLinL.regPixels_cons)
  all_goals fun_prop

set_option maxRecDepth 100000 in
theorem DecodePixels_AVX2_RGB5A3_true_clear_basis : ∀ i, i < 256 →
    (fun x => regPixels 8 (DecodePixels_RGB5A3_AVX2_parts
        (_mm256_shuffle_epi8 x (_mm256_set_epi64x 0x090809080D0C0D0C 0x0100010005040504
          0x090809080D0C0D0C 0x0100010005040504))).whenClear) (2 ^ i) =
      (swappedLanes16 true (2 ^ i)).map RGB5A3_rgba4443 := by
  decide!

theorem DecodePixels_AVX2_RGB5A3_true_clear_eq (x : Nat) (hx : x < 2 ^ 256) :
    regPixels 8 (DecodePixels_RGB5A3_AVX2_parts
        (_mm256_shuffle_epi8 x (_mm256_set_epi64x 0x090809080D0C0D0C 0x0100010005040504
          0x090809080D0C0D0C 0x0100010005040504))).whenClear =
      (swappedLanes16 true x).map RGB5A3_rgba4443 :=
  OrLinL.eq_of_basis DecodePixels_AVX2_RGB5A3_true_clear_lin (swappedLanes16_map_lin true _ RGB5A3_rgba4443_lin) 256
    (by decide!) DecodePixels_AVX2_RGB5A3_true_clear_basis x hx

theorem DecodePixels_AVX2_RGB5A3_true (x : Nat) (hx : x < 2 ^ 256) :
    regPixels 8 [DecodePixels_AVX2 .GX_TL_RGB5A3 true x] =
      (pixelLanes16 true).map fun j => DecodePixel .GX_TL_RGB5A3 (laneOf 16 x j) := by
  have hm := DecodePixels_AVX2_RGB5A3_true_mask_eq x hx
  have hs := DecodePixels_AVX2_RGB5A3_true_set_eq x hx
  have hc := DecodePixels_AVX2_RGB5A3_true_clear_eq x hx
  have hg : ((pixelLanes16 true).map fun j => DecodePixel .GX_TL_RGB5A3 (laneOf 16 x j)) =
      (swappedLanes16 true x).map fun v =>
        if v &&& 0x8000 ≠ 0 then RGB5A3_rgb555 v else RGB5A3_rgba4443 v := by
    simp only [swappedLanes16, List.map_map, Function.comp_def, DecodePixel,
      DecodePixel_RGB5A3_eq]
  rw [hg]
  simp only [DecodePixels_AVX2, Bool.false_eq_true, if_false, if_true,
    DecodePixels_RGB5A3_AVX2]
  obtain ⟨m, s, c, h⟩ : ∃ m s c,
      DecodePixels_RGB5A3_AVX2_parts
        (_mm256_shuffle_epi8 x (_mm256_set_epi64x 0x090809080D0C0D0C 0x0100010005040504
          0x090809080D0C0D0C 0x0100010005040504)) = ⟨[m], [s], [c]⟩ := ⟨_, _, _, rfl⟩
  rw [h] at hm hs hc ⊢
  simp only [SelectParts.blendv256, List.zipWith3, List.getD_cons_zero, blendv_epi8_256_eq,
    List.map_cons, List.map_nil] at hm ⊢
  exact select_pixels 8 256 (by decide) (fun v => v &&& 0x8000 ≠ 0) RGB5A3_rgb555
    RGB5A3_rgba4443 [signMask8 32 m] [s] [c] _ hm hs hc rfl rfl

theorem DecodePixels_AVX2_pixels (format : TlutFormat) (swap : Bool) (c : Nat)
    (hc : c < 2 ^ 256) :
    regPixels 8 [DecodePixels_AVX2 format swap c] =
      (pixelLanes16 swap).map fun j => DecodePixel format (laneOf 16 c j) := by
  cases format <;> cases swap
  · exact DecodePixels_AVX2_IA8_false c hc
  · exact DecodePixels_AVX2_IA8_true c hc
  · exact DecodePixels_AVX2_RGB565_false c hc
  · exact DecodePixels_AVX2_RGB565_true c hc
  · exact DecodePixels_AVX2_RGB5A3_false c hc
  · exact DecodePixels_AVX2_RGB5A3_true c hc

/-! ## The AVX2 decoders of C8 and C14X2 -/

theorem laneOf_zero (w v : Nat) : laneOf w v 0 = v % 2 ^ w := by
  simp [laneOf_def]

theorem tlutAt_lt (tlut : Nat → Nat) (i : Nat) : tlutAt tlut i < 65536 :=
  Nat.mod_lt _ (by decide)

theorem gather_lane16 (tlut : Nat → Nat) (v k : Nat) (hk : k < 8) :
    laneOf 16 (_mm256_i32gather_epi32 tlut v) (2 * k) = tlutAt tlut (laneOf 32 v k) := by
  have h := laneOf_laneOf 16 2 (_mm256_i32gather_epi32 tlut v) k 0 (by decide)
  rw [Nat.add_zero] at h
  rw [← h, show 16 * 2 = 32 from rfl, _mm256_i32gather_epi32, laneOf_ofLanes 32 8 _ k hk,
    laneOf_zero]
  have ht := tlutAt_lt tlut (laneOf 32 v k)
  generalize tlutAt tlut (laneOf 32 v k) = t at ht
  generalize tlutAt tlut (laneOf 32 v k + 1) = u
  rw [show (2 : Nat) ^ 32 = 2 ^ 16 * 2 ^ 16 from rfl, Nat.mod_mul_right_mod,
    or_mod_two_pow, Nat.shiftLeft_eq, Nat.mul_mod_left, Nat.or_zero]
  exact Nat.mod_eq_of_lt ht

theorem gather_lt (tlut : Nat → Nat) (v : Nat) : _mm256_i32gather_epi32 tlut v < 2 ^ 256 :=
  ofLanes_lt 32 8 _

theorem gather_decode_pixels (format : TlutFormat) (tlut : Nat → Nat) (v : Nat) :
    regPixels 8 [DecodePixels_AVX2 format false (_mm256_i32gather_epi32 tlut v)] =
      (regPixels 8 [v]).map fun i => DecodePixel format (tlutAt tlut i) := by
  rw [DecodePixels_AVX2_pixels _ _ _ (gather_lt tlut v)]
  have h : ∀ k, k < 8 → laneOf 16 (_mm256_i32gather_epi32 tlut v) (2 * k) =
      tlutAt tlut (laneOf 32 v k) := gather_lane16 tlut v
  simp [pixelLanes16, regPixels, List.range_succ, h 0, h 1, h 2, h 3, h 4, h 5, h 6, h 7]

theorem filter_store256 (p v : Nat) :
    (_mm256_store_si256 p v).filter Access.isStore = _mm256_store_si256 p v := by
  simp [_mm256_store_si256, Access.isStore, List.filter_eq_self]

theorem filter_store128 (p v : Nat) :
    (_mm_store_si128 p v).filter Access.isStore = _mm_store_si128 p v := by
  simp [_mm_store_si128, Access.isStore, List.filter_eq_self]

theorem filter_gatherLoads (v : Nat) : (gatherLoads v).filter Access.isStore = [] := by
  simp [gatherLoads, Access.isStore, List.filter_eq_nil_iff]

theorem store256_rows2 (dst w c0 c1 : Nat) :
    _mm256_store_si256 (dst + 0 * w) c0 ++ _mm256_store_si256 (dst + 1 * w) c1 =
      storeRows dst w 8 2 (regPixels 8 [c0, c1]) := by
  simp [storeRows, regPixels, _mm256_store_si256, List.range_succ, Nat.add_assoc]

theorem store128_rows2 (dst w c0 c1 : Nat) :
    _mm_store_si128 (dst + 0 * w) c0 ++ _mm_store_si128 (dst + 1 * w) c1 =
      storeRows dst w 4 2 (regPixels 4 [c0, c1]) := by
  simp [storeRows, regPixels, _mm_store_si128, List.range_succ, Nat.add_assoc]

theorem regPixels_pair (n a b : Nat) : regPixels n [a, b] = regPixels n [a] ++ regPixels n [b] := by
  simp [regPixels]

/-! ### C8 -/

theorem C8_AVX2_indices_lin :
    OrLinL (fun x => regPixels 8
      [_mm256_shuffle_epi8 (_mm256_broadcastsi128_si256 x) (_mm256_set_epi64x
          0xFFFFFF07FFFFFF06 0xFFFFFF05FFFFFF04 0xFFFFFF03FFFFFF02 0xFFFFFF01FFFFFF00),
        _mm256_shuffle_epi8 (_mm256_broadcastsi128_si256 x) (_mm256_set_epi64x
          0xFFFFFF0FFFFFFF0E 0xFFFFFF0DFFFFFF0C 0xFFFFFF0BFFFFFF0A 0xFFFFFF09FFFFFF08)]) := by
  repeat' (first | exact OrLinL.regPixels_nil 8 | apply OrLinL.regPixels_cons)
  all_goals fun_prop

theorem bytes_lin (n : Nat) : OrLinL (fun x => (List.range n).map fun k => laneOf 8 x k) :=
  OrLinL.map_range n fun _ => by fun_prop

set_option maxRecDepth 100000 in
theorem C8_AVX2_indices_basis : ∀ i, i < 128 →
    (fun x => regPixels 8
      [_mm256_shuffle_epi8 (_mm256_broadcastsi128_si256 x) (_mm256_set_epi64x
          0xFFFFFF07FFFFFF06 0xFFFFFF05FFFFFF04 0xFFFFFF03FFFFFF02 0xFFFFFF01FFFFFF00),
        _mm256_shuffle_epi8 (_mm256_broadcastsi128_si256 x) (_mm256_set_epi64x
          0xFFFFFF0FFFFFFF0E 0xFFFFFF0DFFFFFF0C 0xFFFFFF0BFFFFFF0A 0xFFFFFF09FFFFFF08)])
      (2 ^ i) = (List.range 16).map fun k => laneOf 8 (2 ^ i) k := by
  decide!

theorem C8_AVX2_indices_eq (x : Nat) (hx : x < 2 ^ 128) :
    regPixels 8
      [_mm256_shuffle_epi8 (_mm256_broadcastsi128_si256 x) (_mm256_set_epi64x
          0xFFFFFF07FFFFFF06 0xFFFFFF05FFFFFF04 0xFFFFFF03FFFFFF02 0xFFFFFF01FFFFFF00),
        _mm256_shuffle_epi8 (_mm256_broadcastsi128_si256 x) (_mm256_set_epi64x
          0xFFFFFF0FFFFFFF0E 0xFFFFFF0DFFFFFF0C 0xFFFFFF0BFFFFFF0A 0xFFFFFF09FFFFFF08)] =
      (List.range 16).map fun k => laneOf 8 x k :=
  OrLinL.eq_of_basis C8_AVX2_indices_lin (bytes_lin 16) 128 (by decide!) C8_AVX2_indices_basis x hx

theorem load_si128_bytes (src : Nat → Nat) (o : Nat) :
    ((List.range 16).map fun k => laneOf 8 (_mm_load_si128 src o) k) =
      (List.range 16).map fun k => u8at src (o + k) := by
  apply List.map_congr_left
  intro k hk
  have hk : k < 16 := List.mem_range.1 hk
  have h := u8at_memOf_load_si128 src o k hk
  rw [← h, u8at, memOf]
  exact (laneOf_mod_self 8 _ _).symm

theorem C8_Generic_stores (format : TlutFormat) (dst : Nat) (src : Nat → Nat) (o : Nat)
    (tlut : Nat → Nat) (w : Nat) :
    ((List.range 2).flatMap fun r =>
        DecodeBytes_C8_Generic format (dst + r * w) src (o + r * 8) tlut w).filter
        Access.isStore =
      storeRows dst w 8 2
        (((List.range 16).map fun k => u8at src (o + k)).map fun i =>
          DecodePixel format (tlutAt tlut i)) := by
  simp [storeRows, DecodeBytes_C8_Generic, List.range_succ, Access.isStore, Nat.add_assoc,
    List.filter_cons]

theorem DecodeBytes_C8_AVX2_stores (format : TlutFormat) (dst : Nat) (src : Nat → Nat)
    (o : Nat) (tlut : Nat → Nat) (w : Nat) :
    (DecodeBytes_C8_AVX2 format dst src o tlut w).filter Access.isStore =
      ((List.range 2).flatMap fun r =>
        DecodeBytes_C8_Generic format (dst + r * w) src (o + r * 8) tlut w).filter
        Access.isStore := by
  rw [C8_Generic_stores]
  simp only [DecodeBytes_C8_AVX2, List.filter_append, filter_gatherLoads, filter_store256,
    List.nil_append]
  rw [store256_rows2, regPixels_pair, gather_decode_pixels, gather_decode_pixels,
    ← List.map_append, ← regPixels_pair, C8_AVX2_indices_eq _ (load_si128_lt src o),
    load_si128_bytes]

/-! ### C14X2 -/

theorem C14_AVX2_indices_lin :
    OrLinL (fun x => regPixels 8 [DecodeBytes_C14_AVX2_indices x]) := by
  simp only [DecodeBytes_C14_AVX2_indices]
  repeat' (first | exact OrLinL.regPixels_nil 8 | apply OrLinL.regPixels_cons)
  all_goals fun_prop

theorem C14_words_lin :
    OrLinL (fun x => (List.range 8).map fun k =>
      swap16 (u16at (memOf x) (2 * k)) &&& 0x3FFF) := by
  apply OrLinL.map_range
  intro k
  simp only [swap16, u16at, u8at, memOf]
  fun_prop

set_option maxRecDepth 100000 in
theorem C14_AVX2_indices_basis : ∀ i, i < 128 →
    regPixels 8 [DecodeBytes_C14_AVX2_indices (2 ^ i)] =
      (List.range 8).map fun k => swap16 (u16at (memOf (2 ^ i)) (2 * k)) &&& 0x3FFF := by
  decide!

theorem C14_AVX2_indices_eq (x : Nat) (hx : x < 2 ^ 128) :
    regPixels 8 [DecodeBytes_C14_AVX2_indices x] =
      (List.range 8).map fun k => swap16 (u16at (memOf x) (2 * k)) &&& 0x3FFF :=
  OrLinL.eq_of_basis C14_AVX2_indices_lin C14_words_lin 128 (by decide!) C14_AVX2_indices_basis x hx

theorem load_si128_words (src : Nat → Nat) (o : Nat) :
    ((List.range 8).map fun k =>
        swap16 (u16at (memOf (_mm_load_si128 src o)) (2 * k)) &&& 0x3FFF) =
      (List.range 8).map fun k => swap16 (u16at src (o + 2 * k)) &&& 0x3FFF := by
  apply List.map_congr_left
  intro k hk
  have hk : k < 8 := List.mem_range.1 hk
  simp only [u16at]
  rw [u8at_memOf_load_si128 src o (2 * k) (by omega),
    u8at_memOf_load_si128 src o (2 * k + 1) (by omega), Nat.add_assoc]

theorem C14X2_Generic_stores (format : TlutFormat) (dst : Nat) (src : Nat → Nat) (o : Nat)
    (tlut : Nat → Nat) (w : Nat) :
    ((List.range 2).flatMap fun r =>
        DecodeBytes_C14X2_Generic format (dst + r * w) src (o + r * 8) tlut w).filter
        Access.isStore =
      storeRows dst w 4 2
        (((List.range 8).map fun k => swap16 (u16at src (o + 2 * k)) &&& 0x3FFF).map fun i =>
          DecodePixel format (tlutAt tlut i)) := by
  simp [storeRows, DecodeBytes_C14X2_Generic, List.range_succ, Access.isStore, Nat.add_assoc,
    List.filter_cons]

theorem DecodeBytes_C14_AVX2_stores (format : TlutFormat) (dst : Nat) (src : Nat → Nat)
    (o : Nat) (tlut : Nat → Nat) (w : Nat) :
    (DecodeBytes_C14_AVX2 format dst src o tlut w).filter Access.isStore =
      ((List.range 2).flatMap fun r =>
        DecodeBytes_C14X2_Generic format (dst + r * w) src (o + r * 8) tlut w).filter
        Access.isStore := by
  rw [C14X2_Generic_stores]
  simp only [DecodeBytes_C14_AVX2, List.filter_append, filter_gatherLoads, filter_store128,
    List.nil_append]
  rw [store128_rows2, regPixels_extract, gather_decode_pixels,
    C14_AVX2_indices_eq _ (load_si128_lt src o), load_si128_words]

/-! ## The AVX2 decoder of C4 -/

theorem C4nibble_lin (i m : Nat) : OrLin (fun x => C4nibble x i m) := by
  unfold C4nibble
  by_cases h : m % 2 = 0
  · simp only [h, if_true]
    fun_prop
  · simp only [h, if_false]
    fun_prop

theorem C4indLane_lin : OrLin C4indLane := by
  unfold C4indLane
  fun_prop

theorem C4maskLane_lin : OrLin C4maskLane := by
  unfold C4maskLane
  fun_prop

theorem C4ind_lin (i : Nat) :
    OrLinL (fun x => (List.range 8).map fun m => C4indLane (C4nibble x i m)) :=
  OrLinL.map_range 8 fun m => OrLin.comp C4indLane_lin (C4nibble_lin i m)

theorem C4mask_lin (i : Nat) :
    OrLinL (fun x => (List.range 8).map fun m => C4maskLane (C4nibble x i m)) :=
  OrLinL.map_range 8 fun m => OrLin.comp C4maskLane_lin (C4nibble_lin i m)

theorem C4_AVX2_ind_0_lin :
    OrLinL (fun x => regPixels 8 [(_mm256_slli_epi64 ((DecodeBytes_C4_AVX2_indices (_mm256_broadcastsi128_si256 x)
      (_mm256_set_epi64x 0xFFFFFF0303FF0303 0xFFFFFF0202FF0202 0xFFFFFF0101FF0101
      0xFFFFFF0000FF0000)) &&& _mm256_set1_epi32 0x00000707) 1 |||
      _mm256_set1_epi32 0x00000100)]) := by
  simp only [DecodeBytes_C4_AVX2_indices]
  repeat' (first | exact OrLinL.regPixels_nil 8 | apply OrLinL.regPixels_cons)
  all_goals fun_prop

set_option maxRecDepth 100000 in
theorem C4_AVX2_ind_0_basis : ∀ i, i < 128 →
    (fun x => regPixels 8 [(_mm256_slli_epi64 ((DecodeBytes_C4_AVX2_indices (_mm256_broadcastsi128_si256 x)
      (_mm256_set_epi64x 0xFFFFFF0303FF0303 0xFFFFFF0202FF0202 0xFFFFFF0101FF0101
      0xFFFFFF0000FF0000)) &&& _mm256_set1_epi32 0x00000707) 1 |||
      _mm256_set1_epi32 0x00000100)]) (2 ^ i) =
      (List.range 8).map fun m => C4indLane (C4nibble (2 ^ i) 0 m) := by
  decide!

theorem C4_AVX2_ind_0_eq (x : Nat) (hx : x < 2 ^ 128) :
    regPixels 8 [(_mm256_slli_epi64 ((DecodeBytes_C4_AVX2_indices (_mm256_broadcastsi128_si256 x)
      (_mm256_set_epi64x 0xFFFFFF0303FF0303 0xFFFFFF0202FF0202 0xFFFFFF0101FF0101
      0xFFFFFF0000FF0000)) &&& _mm256_set1_epi32 0x00000707) 1 |||
      _mm256_set1_epi32 0x00000100)] =
      (List.range 8).map fun m => C4indLane (C4nibble x 0 m) :=
  OrLinL.eq_of_basis C4_AVX2_ind_0_lin (C4ind_lin 0) 128 (by decide!) C4_AVX2_ind_0_basis x hx

theorem C4_AVX2_mask_0_lin :
    OrLinL (fun x => regPixels 8 [(_mm256_srai_epi32 (_mm256_slli_epi32 (DecodeBytes_C4_AVX2_indices (_mm256_broadcastsi128_si256 x)
      (_mm256_set_epi64x 0xFFFFFF0303FF0303 0xFFFFFF0202FF0202 0xFFFFFF0101FF0101
      0xFFFFFF0000FF0000)) 28) 31)]) := by
  simp only [DecodeBytes_C4_AVX2_indices]
  repeat' (first | exact OrLinL.regPixels_nil 8 | apply OrLinL.regPixels_cons)
  all_goals fun_prop

set_option maxRecDepth 100000 in
theorem C4_AVX2_mask_0_basis : ∀ i, i < 128 →
    (fun x => regPixels 8 [(_mm256_srai_epi32 (_mm256_slli_epi32 (DecodeBytes_C4_AVX2_indices (_mm256_broadcastsi128_si256 x)
      (_mm256_set_epi64x 0xFFFFFF0303FF0303 0xFFFFFF0202FF0202 0xFFFFFF0101FF0101
      0xFFFFFF0000FF0000)) 28) 31)]) (2 ^ i) =
      (List.range 8).map fun m => C4maskLane (C4nibble (2 ^ i) 0 m) := by
  decide!

theorem C4_AVX2_mask_0_eq (x : Nat) (hx : x < 2 ^ 128) :
    regPixels 8 [(_mm256_srai_epi32 (_mm256_slli_epi32 (DecodeBytes_C4_AVX2_indices (_mm256_broadcastsi128_si256 x)
      (_mm256_set_epi64x 0xFFFFFF0303FF0303 0xFFFFFF0202FF0202 0xFFFFFF0101FF0101
      0xFFFFFF0000FF0000)) 28) 31)] =
      (List.range 8).map fun m => C4maskLane (C4nibble x 0 m) :=
  OrLinL.eq_of_basis C4_AVX2_mask_0_lin (C4mask_lin 0) 128 (by decide!) C4_AVX2_mask_0_basis x hx

theorem C4_AVX2_ind_1_lin :
    OrLinL (fun x => regPixels 8 [(_mm256_slli_epi64 ((DecodeBytes_C4_AVX2_indices (_mm256_broadcastsi128_si256 x)
      (_mm256_add_epi8 (_mm256_set_epi64x 0xFFFFFF0303FF0303 0xFFFFFF0202FF0202 0xFFFFFF0101FF0101
      0xFFFFFF0000FF0000) (_mm256_set1_epi8 4))) &&& _mm256_set1_epi32 0x00000707) 1 |||
      _mm256_set1_epi32 0x00000100)]) := by
  simp only [DecodeBytes_C4_AVX2_indices]
  repeat' (first | exact OrLinL.regPixels_nil 8 | apply OrLinL.regPixels_cons)
  all_goals fun_prop

set_option maxRecDepth 100000 in
theorem C4_AVX2_ind_1_basis : ∀ i, i < 128 →
    (fun x => regPixels 8 [(_mm256_slli_epi64 ((DecodeBytes_C4_AVX2_indices (_mm256_broadcastsi128_si256 x)
      (_mm256_add_epi8 (_mm256_set_epi64x 0xFFFFFF0303FF0303 0xFFFFFF0202FF0202 0xFFFFFF0101FF0101
      0xFFFFFF0000FF0000) (_mm256_set1_epi8 4))) &&& _mm256_set1_epi32 0x00000707) 1 |||
      _mm256_set1_epi32 0x00000100)]) (2 ^ i) =
      (List.range 8).map fun m => C4indLane (C4nibble (2 ^ i) 1 m) := by
  decide!

theorem C4_AVX2_ind_1_eq (x : Nat) (hx : x < 2 ^ 128) :
    regPixels 8 [(_mm256_slli_epi64 ((DecodeBytes_C4_AVX2_indices (_mm256_broadcastsi128_si256 x)
      (_mm256_add_epi8 (_mm256_set_epi64x 0xFFFFFF0303FF0303 0xFFFFFF0202FF0202 0xFFFFFF0101FF0101
      0xFFFFFF0000FF0000) (_mm256_set1_epi8 4))) &&& _mm256_set1_epi32 0x00000707) 1 |||
      _mm256_set1_epi32 0x00000100)] =
      (List.range 8).map fun m => C4indLane (C4nibble x 1 m) :=
  OrLinL.eq_of_basis C4_AVX2_ind_1_lin (C4ind_lin 1) 128 (by decide!) C4_AVX2_ind_1_basis x hx

theorem C4_AVX2_mask_1_lin :
    OrLinL (fun x => regPixels 8 [(_mm256_srai_epi32 (_mm256_slli_epi32 (DecodeBytes_C4_AVX2_indices (_mm256_broadcastsi128_si256 x)
      (_mm256_add_epi8 (_mm256_set_epi64x 0xFFFFFF0303FF0303 0xFFFFFF0202FF0202 0xFFFFFF0101FF0101
      0xFFFFFF0000FF0000) (_mm256_set1_epi8 4))) 28) 31)]) := by
  simp only [DecodeBytes_C4_AVX2_indices]
  repeat' (first | exact OrLinL.regPixels_nil 8 | apply OrLinL.regPixels_cons)
  all_goals fun_prop

set_option maxRecDepth 100000 in
theorem C4_AVX2_mask_1_basis : ∀ i, i < 128 →
    (fun x => regPixels 8 [(_mm256_srai_epi32 (_mm256_slli_epi32 (DecodeBytes_C4_AVX2_indices (_mm256_broadcastsi128_si256 x)
      (_mm256_add_epi8 (_mm256_set_epi64x 0xFFFFFF0303FF0303 0xFFFFFF0202FF0202 0xFFFFFF0101FF0101
      0xFFFFFF0000FF0000) (_mm256_set1_epi8 4))) 28) 31)]) (2 ^ i) =
      (List.range 8).map fun m => C4maskLane (C4nibble (2 ^ i) 1 m) := by
  decide!

theorem C4_AVX2_mask_1_eq (x : Nat) (hx : x < 2 ^ 128) :
    regPixels 8 [(_mm256_srai_epi32 (_mm256_slli_epi32 (DecodeBytes_C4_AVX2_indices (_mm256_broadcastsi128_si256 x)
      (_mm256_add_epi8 (_mm256_set_epi64x 0xFFFFFF0303FF0303 0xFFFFFF0202FF0202 0xFFFFFF0101FF0101
      0xFFFFFF0000FF0000) (_mm256_set1_epi8 4))) 28) 31)] =
      (List.range 8).map fun m => C4maskLane (C4nibble x 1 m) :=
  OrLinL.eq_of_basis C4_AVX2_mask_1_lin (C4mask_lin 1) 128 (by decide!) C4_AVX2_mask_1_basis x hx

theorem C4_AVX2_ind_2_lin :
    OrLinL (fun x => regPixels 8 [(_mm256_slli_epi64 ((DecodeBytes_C4_AVX2_indices (_mm256_broadcastsi128_si256 x)
      (_mm256_add_epi8 (_mm256_add_epi8 (_mm256_set_epi64x 0xFFFFFF0303FF0303 0xFFFFFF0202FF0202 0xFFFFFF0101FF0101
      0xFFFFFF0000FF0000) (_mm256_set1_epi8 4)) (_mm256_set1_epi8 4))) &&& _mm256_set1_epi32 0x00000707) 1 |||
      _mm256_set1_epi32 0x00000100)]) := by
  simp only [DecodeBytes_C4_AVX2_indices]
  repeat' (first | exact OrLinL.regPixels_nil 8 | apply OrLinL.regPixels_cons)
  all_goals fun_prop

set_option maxRecDepth 100000 in
theorem C4_AVX2_ind_2_basis : ∀ i, i < 128 →
    (fun x => regPixels 8 [(_mm256_slli_epi64 ((DecodeBytes_C4_AVX2_indices (_mm256_broadcastsi128_si256 x)
      (_mm256_add_epi8 (_mm256_add_epi8 (_mm256_set_epi64x 0xFFFFFF0303FF0303 0xFFFFFF0202FF0202 0xFFFFFF0101FF0101
      0xFFFFFF0000FF0000) (_mm256_set1_epi8 4)) (_mm256_set1_epi8 4))) &&& _mm256_set1_epi32 0x00000707) 1 |||
      _mm256_set1_epi32 0x00000100)]) (2 ^ i) =
      (List.range 8).map fun m => C4indLane (C4nibble (2 ^ i) 2 m) := by
  decide!

theorem C4_AVX2_ind_2_eq (x : Nat) (hx : x < 2 ^ 128) :
    regPixels 8 [(_mm256_slli_epi64 ((DecodeBytes_C4_AVX2_indices (_mm256_broadcastsi128_si256 x)
      (_mm256_add_epi8 (_mm256_add_epi8 (_mm256_set_epi64x 0xFFFFFF0303FF0303 0xFFFFFF0202FF0202 0xFFFFFF0101FF0101
      0xFFFFFF0000FF0000) (_mm256_set1_epi8 4)) (_mm256_set1_epi8 4))) &&& _mm256_set1_epi32 0x00000707) 1 |||
      _mm256_set1_epi32 0x00000100)] =
      (List.range 8).map fun m => C4indLane (C4nibble x 2 m) :=
  OrLinL.eq_of_basis C4_AVX2_ind_2_lin (C4ind_lin 2) 128 (by decide!) C4_AVX2_ind_2_basis x hx

theorem C4_AVX2_mask_2_lin :
    OrLinL (fun x => regPixels 8 [(_mm256_srai_epi32 (_mm256_slli_epi32 (DecodeBytes_C4_AVX2_indices (_mm256_broadcastsi128_si256 x)
      (_mm256_add_epi8 (_mm256_add_epi8 (_mm256_set_epi64x 0xFFFFFF0303FF0303 0xFFFFFF0202FF0202 0xFFFFFF0101FF0101
      0xFFFFFF0000FF0000) (_mm256_set1_epi8 4)) (_mm256_set1_epi8 4))) 28) 31)]) := by
  simp only [DecodeBytes_C4_AVX2_indices]
  repeat' (first | exact OrLinL.regPixels_nil 8 | apply OrLinL.regPixels_cons)
  all_goals fun_prop

set_option maxRecDepth 100000 in
theorem C4_AVX2_mask_2_basis : ∀ i, i < 128 →
    (fun x => regPixels 8 [(_mm256_srai_epi32 (_mm256_slli_epi32 (DecodeBytes_C4_AVX2_indices (_mm256_broadcastsi128_si256 x)
      (_mm256_add_epi8 (_mm256_add_epi8 (_mm256_set_epi64x 0xFFFFFF0303FF0303 0xFFFFFF0202FF0202 0xFFFFFF0101FF0101
      0xFFFFFF0000FF0000) (_mm256_set1_epi8 4)) (_mm256_set1_epi8 4))) 28) 31)]) (2 ^ i) =
      (List.range 8).map fun m => C4maskLane (C4nibble (2 ^ i) 2 m) := by
  decide!

theorem C4_AVX2_mask_2_eq (x : Nat) (hx : x < 2 ^ 128) :
    regPixels 8 [(_mm256_srai_epi32 (_mm256_slli_epi32 (DecodeBytes_C4_AVX2_indices (_mm256_broadcastsi128_si256 x)
      (_mm256_add_epi8 (_mm256_add_epi8 (_mm256_set_epi64x 0xFFFFFF0303FF0303 0xFFFFFF0202FF0202 0xFFFFFF0101FF0101
      0xFFFFFF0000FF0000) (_mm256_set1_epi8 4)) (_mm256_set1_epi8 4))) 28) 31)] =
      (List.range 8).map fun m => C4maskLane (C4nibble x 2 m) :=
  OrLinL.eq_of_basis C4_AVX2_mask_2_lin (C4mask_lin 2) 128 (by decide!) C4_AVX2_mask_2_basis x hx

theorem C4_AVX2_ind_3_lin :
    OrLinL (fun x => regPixels 8 [(_mm256_slli_epi64 ((DecodeBytes_C4_AVX2_indices (_mm256_broadcastsi128_si256 x)
      (_mm256_add_epi8 (_mm256_add_epi8 (_mm256_add_epi8 (_mm256_set_epi64x 0xFFFFFF0303FF0303 0xFFFFFF0202FF0202 0xFFFFFF0101FF0101
      0xFFFFFF0000FF0000) (_mm256_set1_epi8 4)) (_mm256_set1_epi8 4)) (_mm256_set1_epi8 4))) &&& _mm256_set1_epi32 0x00000707) 1 |||
      _mm256_set1_epi32 0x00000100)]) := by
  simp only [DecodeBytes_C4_AVX2_indices]
  repeat' (first | exact OrLinL.regPixels_nil 8 | apply OrLinL.regPixels_cons)
  all_goals fun_prop

set_option maxRecDepth 100000 in
theorem C4_AVX2_ind_3_basis : ∀ i, i < 128 →
    (fun x => regPixels 8 [(_mm256_slli_epi64 ((DecodeBytes_C4_AVX2_indices (_mm256_broadcastsi128_si256 x)
      (_mm256_add_epi8 (_mm256_add_epi8 (_mm256_add_epi8 (_mm256_set_epi64x 0xFFFFFF0303FF0303 0xFFFFFF0202FF0202 0xFFFFFF0101FF0101
      0xFFFFFF0000FF0000) (_mm256_set1_epi8 4)) (_mm256_set1_epi8 4)) (_mm256_set1_epi8 4))) &&& _mm256_set1_epi32 0x00000707) 1 |||
      _mm256_set1_epi32 0x00000100)]) (2 ^ i) =
      (List.range 8).map fun m => C4indLane (C4nibble (2 ^ i) 3 m) := by
  decide!

theorem C4_AVX2_ind_3_eq (x : Nat) (hx : x < 2 ^ 128) :
    regPixels 8 [(_mm256_slli_epi64 ((DecodeBytes_C4_AVX2_indices (_mm256_broadcastsi128_si256 x)
      (_mm256_add_epi8 (_mm256_add_epi8 (_mm256_add_epi8 (_mm256_set_epi64x 0xFFFFFF0303FF0303 0xFFFFFF0202FF0202 0xFFFFFF0101FF0101
      0xFFFFFF0000FF0000) (_mm256_set1_epi8 4)) (_mm256_set1_epi8 4)) (_mm256_set1_epi8 4))) &&& _mm256_set1_epi32 0x00000707) 1 |||
      _mm256_set1_epi32 0x00000100)] =
      (List.range 8).map fun m => C4indLane (C4nibble x 3 m) :=
  OrLinL.eq_of_basis C4_AVX2_ind_3_lin (C4ind_lin 3) 128 (by decide!) C4_AVX2_ind_3_basis x hx

theorem C4_AVX2_mask_3_lin :
    OrLinL (fun x => regPixels 8 [(_mm256_srai_epi32 (_mm256_slli_epi32 (DecodeBytes_C4_AVX2_indices (_mm256_broadcastsi128_si256 x)
      (_mm256_add_epi8 (_mm256_add_epi8 (_mm256_add_epi8 (_mm256_set_epi64x 0xFFFFFF0303FF0303 0xFFFFFF0202FF0202 0xFFFFFF0101FF0101
      0xFFFFFF0000FF0000) (_mm256_set1_epi8 4)) (_mm256_set1_epi8 4)) (_mm256_set1_epi8 4))) 28) 31)]) := by
  simp only [DecodeBytes_C4_AVX2_indices]
  repeat' (first | exact OrLinL.regPixels_nil 8 | apply OrLinL.regPixels_cons)
  all_goals fun_prop

set_option maxRecDepth 100000 in
theorem C4_AVX2_mask_3_basis : ∀ i, i < 128 →
    (fun x => regPixels 8 [(_mm256_srai_epi32 (_mm256_slli_epi32 (DecodeBytes_C4_AVX2_indices (_mm256_broadcastsi128_si256 x)
      (_mm256_add_epi8 (_mm256_add_epi8 (_mm256_add_epi8 (_mm256_set_epi64x 0xFFFFFF0303FF0303 0xFFFFFF0202FF0202 0xFFFFFF0101FF0101
      0xFFFFFF0000FF0000) (_mm256_set1_epi8 4)) (_mm256_set1_epi8 4)) (_mm256_set1_epi8 4))) 28) 31)]) (2 ^ i) =
      (List.range 8).map fun m => C4maskLane (C4nibble (2 ^ i) 3 m) := by
  decide!

theorem C4_AVX2_mask_3_eq (x : Nat) (hx : x < 2 ^ 128) :
    regPixels 8 [(_mm256_srai_epi32 (_mm256_slli_epi32 (DecodeBytes_C4_AVX2_indices (_mm256_broadcastsi128_si256 x)
      (_mm256_add_epi8 (_mm256_add_epi8 (_mm256_add_epi8 (_mm256_set_epi64x 0xFFFFFF0303FF0303 0xFFFFFF0202FF0202 0xFFFFFF0101FF0101
      0xFFFFFF0000FF0000) (_mm256_set1_epi8 4)) (_mm256_set1_epi8 4)) (_mm256_set1_epi8 4))) 28) 31)] =
      (List.range 8).map fun m => C4maskLane (C4nibble x 3 m) :=
  OrLinL.eq_of_basis C4_AVX2_mask_3_lin (C4mask_lin 3) 128 (by decide!) C4_AVX2_mask_3_basis x hx

/-! ### Bytes of the palette lookup -/

theorem laneOf_byte_of_lane32 (v m t : Nat) (ht : t < 4) :
    laneOf 8 v (4 * m + t) = laneOf 8 (laneOf 32 v m) t :=
  (laneOf_laneOf 8 4 v m t ht).symm

theorem laneOf16_bytes (v j : Nat) :
    laneOf 16 v j = laneOf 8 v (2 * j) ||| (laneOf 8 v (2 * j + 1) <<< 8) := by
  have h0 := laneOf_laneOf 8 2 v j 0 (by decide)
  have h1 := laneOf_laneOf 8 2 v j 1 (by decide)
  rw [show 8 * 2 = 16 from rfl] at h0 h1
  rw [Nat.add_zero] at h0
  rw [← h0, ← h1]
  have hy := laneOf_lt 16 v j
  generalize laneOf 16 v j = y at hy
  have h := ofLanes_laneOf 8 2 y
  rw [show 8 * 2 = 16 from rfl, Nat.mod_eq_of_lt hy] at h
  simp only [ofLanes_succ, ofLanes_zero, laneOf_mod_self] at h
  simpa using h.symm

theorem blendv256_byte (a b mask i : Nat) (hi : i < 32) :
    laneOf 8 (_mm256_blendv_epi8 a b mask) i =
      if laneOf 8 mask i &&& 0x80 ≠ 0 then laneOf 8 b i else laneOf 8 a i := by
  rw [_mm256_blendv_epi8, laneOf_ofLanes 8 32 _ i hi]
  split
  · exact laneOf_mod_self 8 _ _
  · exact laneOf_mod_self 8 _ _

theorem shuffle256_byte (a m i : Nat) (hi : i < 32) :
    laneOf 8 (_mm256_shuffle_epi8 a m) i =
      if laneOf 8 m i &&& 0x80 ≠ 0 then 0
      else laneOf 8 a (i / 16 * 16 + (laneOf 8 m i &&& 0x0F)) := by
  rw [_mm256_shuffle_epi8, laneOf_ofLanes 8 32 _ i hi]
  split
  · rfl
  · exact laneOf_mod_self 8 _ _

theorem laneOf_mod_two_pow (w v k N : Nat) (h : w * k + w ≤ N) :
    laneOf w (v % 2 ^ N) k = laneOf w v k := by
  simp only [laneOf_def]
  exact mod_shiftRight_mod v N (w * k) w h

theorem broadcast_byte (l h c : Nat) (hh : h < 2) (hc : c < 16) :
    laneOf 8 (_mm256_broadcastsi128_si256 l) (16 * h + c) = laneOf 8 l c := by
  have h1 := laneOf_laneOf 8 16 (_mm256_broadcastsi128_si256 l) h c hc
  rw [show 8 * 16 = 128 from rfl] at h1
  rw [← h1, _mm256_broadcastsi128_si256, laneOf_ofLanes 128 2 _ h hh,
    laneOf_mod_two_pow 8 l c 128 (by omega)]

theorem load_tlut_byte (tlut : Nat → Nat) (k q t : Nat) (hq : q < 8) (ht : t < 2) :
    laneOf 8 (_mm_load_si128_tlut tlut k) (2 * q + t) = laneOf 8 (tlutAt tlut (8 * k + q)) t := by
  have h1 := laneOf_laneOf 8 2 (_mm_load_si128_tlut tlut k) q t ht
  rw [show 8 * 2 = 16 from rfl] at h1
  rw [← h1, _mm_load_si128_tlut, laneOf_ofLanes 16 8 _ q hq,
    Nat.mod_eq_of_lt (show tlutAt tlut (8 * k + q) < 2 ^ 16 from tlutAt_lt tlut _)]

theorem palette_byte (tlut : Nat → Nat) (k i q t : Nat) (hi : i < 32) (hq : q < 8)
    (ht : t < 2) :
    laneOf 8 (_mm256_broadcastsi128_si256 (_mm_load_si128_tlut tlut k))
        (i / 16 * 16 + (2 * q + t)) = laneOf 8 (tlutAt tlut (8 * k + q)) t := by
  rw [Nat.mul_comm (i / 16) 16, broadcast_byte _ (i / 16) (2 * q + t) (by omega) (by omega),
    load_tlut_byte tlut k q t hq ht]

theorem C4indLane_byte : ∀ n, n < 16 → ∀ t, t < 2 →
    laneOf 8 (C4indLane n) t &&& 0x80 = 0 ∧
      laneOf 8 (C4indLane n) t &&& 0x0F = 2 * (n % 8) + t := by
  decide

theorem C4maskLane_byte : ∀ n, n < 16 → ∀ t, t < 2 →
    (laneOf 8 (C4maskLane n) t &&& 0x80 ≠ 0 ↔ 8 ≤ n) := by
  decide

theorem C4_lookup_byte (tlut : Nat → Nat) (I m n t : Nat) (hm : m < 8) (hn : n < 16)
    (ht : t < 2)
    (hI : laneOf 32 (_mm256_slli_epi64 (I &&& _mm256_set1_epi32 0x00000707) 1 |||
      _mm256_set1_epi32 0x00000100) m = C4indLane n)
    (hM : laneOf 32 (_mm256_srai_epi32 (_mm256_slli_epi32 I 28) 31) m = C4maskLane n) :
    laneOf 8 (DecodeBytes_C4_AVX2_lookup
        (_mm256_broadcastsi128_si256 (_mm_load_si128_tlut tlut 0))
        (_mm256_broadcastsi128_si256 (_mm_load_si128_tlut tlut 1)) I) (4 * m + t) =
      laneOf 8 (tlutAt tlut n) t := by
  have hb : 4 * m + t < 32 := by omega
  have hi := C4indLane_byte n hn t ht
  have hk := C4maskLane_byte n hn t ht
  simp only [DecodeBytes_C4_AVX2_lookup]
  rw [blendv256_byte _ _ _ _ hb, shuffle256_byte _ _ _ hb, shuffle256_byte _ _ _ hb,
    laneOf_byte_of_lane32 _ m t (by omega), laneOf_byte_of_lane32 _ m t (by omega), hI, hM]
  have hne : ¬ (laneOf 8 (C4indLane n) t &&& 0x80 ≠ 0) := by
    rw [hi.1]
    decide
  simp only [if_neg hne, hi.2]
  rw [palette_byte tlut 0 _ (n % 8) t hb (by omega) ht,
    palette_byte tlut 1 _ (n % 8) t hb (by omega) ht]
  by_cases h8 : 8 ≤ n
  · rw [if_pos (hk.2 h8)]
    congr 2
    omega
  · rw [if_neg (fun h => h8 (hk.1 h))]
    congr 2
    omega

theorem u16_of_bytes (v : Nat) (hv : v < 65536) :
    laneOf 8 v 0 ||| (laneOf 8 v 1 <<< 8) = v := by
  have h := laneOf16_bytes v 0
  rw [laneOf_zero, Nat.mod_eq_of_lt (show v < 2 ^ 16 from hv)] at h
  exact h.symm

theorem C4_lookup_lane16 (tlut : Nat → Nat) (I m n : Nat) (hm : m < 8) (hn : n < 16)
    (hI : laneOf 32 (_mm256_slli_epi64 (I &&& _mm256_set1_epi32 0x00000707) 1 |||
      _mm256_set1_epi32 0x00000100) m = C4indLane n)
    (hM : laneOf 32 (_mm256_srai_epi32 (_mm256_slli_epi32 I 28) 31) m = C4maskLane n) :
    laneOf 16 (DecodeBytes_C4_AVX2_lookup
        (_mm256_broadcastsi128_si256 (_mm_load_si128_tlut tlut 0))
        (_mm256_broadcastsi128_si256 (_mm_load_si128_tlut tlut 1)) I) (2 * m) =
      tlutAt tlut n := by
  rw [laneOf16_bytes, show 2 * (2 * m) = 4 * m + 0 by ring,
    show 4 * m + 0 + 1 = 4 * m + 1 by ring,
    C4_lookup_byte tlut I m n 0 hm hn (by decide) hI hM,
    C4_lookup_byte tlut I m n 1 hm hn (by decide) hI hM,
    u16_of_bytes _ (tlutAt_lt tlut n)]

theorem C4nibble_lt (x i m : Nat) : C4nibble x i m < 16 := by
  unfold C4nibble
  have h := laneOf_lt 8 x (4 * i + m / 2)
  split
  · exact lt_of_le_of_lt Nat.and_le_right (by decide)
  · rw [Nat.shiftRight_eq_div_pow]
    have : (2 : Nat) ^ 8 = 256 := rfl
    omega

theorem lane_of_regPixels (v : Nat) (f : Nat → Nat)
    (h : regPixels 8 [v] = (List.range 8).map f) (m : Nat) (hm : m < 8) :
    laneOf 32 v m = f m := by
  have h' : ((List.range 8).map fun k => laneOf 32 v k) = (List.range 8).map f := by
    simpa [regPixels] using h
  exact List.map_inj_left.1 h' m (List.mem_range.2 hm)

theorem lookup_lt (p0 p1 i : Nat) : DecodeBytes_C4_AVX2_lookup p0 p1 i < 2 ^ 256 := by
  simp only [DecodeBytes_C4_AVX2_lookup, _mm256_blendv_epi8]
  exact ofLanes_lt 8 32 _

/-- The pixels of a row of `DecodeBytes_C4_AVX2`, given the byte indices and the mask of
the row lane by lane. -/
theorem C4_row_pixels (format : TlutFormat) (tlut : Nat → Nat) (I : Nat) (nib : Nat → Nat)
    (hn : ∀ m, nib m < 16)
    (hI : regPixels 8 [_mm256_slli_epi64 (I &&& _mm256_set1_epi32 0x00000707) 1 |||
      _mm256_set1_epi32 0x00000100] = (List.range 8).map fun m => C4indLane (nib m))
    (hM : regPixels 8 [_mm256_srai_epi32 (_mm256_slli_epi32 I 28) 31] =
      (List.range 8).map fun m => C4maskLane (nib m)) :
    regPixels 8 [DecodePixels_AVX2 format true (DecodeBytes_C4_AVX2_lookup
        (_mm256_broadcastsi128_si256 (_mm_load_si128_tlut tlut 0))
        (_mm256_broadcastsi128_si256 (_mm_load_si128_tlut tlut 1)) I)] =
      [1, 0, 3, 2, 5, 4, 7, 6].map fun m => DecodePixel format (tlutAt tlut (nib m)) := by
  rw [DecodePixels_AVX2_pixels _ _ _ (lookup_lt _ _ _)]
  have h : ∀ m, m < 8 → laneOf 16 (DecodeBytes_C4_AVX2_lookup
        (_mm256_broadcastsi128_si256 (_mm_load_si128_tlut tlut 0))
        (_mm256_broadcastsi128_si256 (_mm_load_si128_tlut tlut 1)) I) (2 * m) =
      tlutAt tlut (nib m) := fun m hm =>
    C4_lookup_lane16 tlut I m (nib m) hm (hn m) (lane_of_regPixels _ _ hI m hm)
      (lane_of_regPixels _ _ hM m hm)
  have h0 := h 0 (by decide)
  have h1 := h 1 (by decide)
  have h2 := h 2 (by decide)
  have h3 := h 3 (by decide)
  have h4 := h 4 (by decide)
  have h5 := h 5 (by decide)
  have h6 := h 6 (by decide)
  have h7 := h 7 (by decide)
  simp only [Nat.mul_zero, Nat.mul_one, Nat.reduceMul] at h0 h1 h2 h3 h4 h5 h6 h7
  simp only [pixelLanes16, if_true, List.map_cons, List.map_nil, h0, h1, h2, h3, h4, h5, h6,
    h7]

theorem store256_rows4 (dst w c0 c1 c2 c3 : Nat) :
    _mm256_store_si256 (dst + 0 * w) c0 ++ _mm256_store_si256 (dst + 1 * w) c1 ++
        _mm256_store_si256 (dst + 2 * w) c2 ++ _mm256_store_si256 (dst + 3 * w) c3 =
      storeRows dst w 8 4 (regPixels 8 [c0, c1, c2, c3]) := by
  simp [storeRows, regPixels, _mm256_store_si256, List.range_succ, Nat.add_assoc]

theorem regPixels_four (n a b c d : Nat) :
    regPixels n [a, b, c, d] =
      regPixels n [a] ++ regPixels n [b] ++ regPixels n [c] ++ regPixels n [d] := by
  simp [regPixels]

theorem foldl_range4 (f : Nat → Nat) (g : Nat → Nat → List Access) (s0 : Nat)
    (l0 : List Access) :
    ((List.range 4).foldl (fun (st : Nat × List Access) i => (f st.1, st.2 ++ g st.1 i))
      (s0, l0)).2 = l0 ++ g s0 0 ++ g (f s0) 1 ++ g (f (f s0)) 2 ++ g (f (f (f s0))) 3 := by
  simp [List.range_succ]

theorem DecodeBytes_C4_AVX2_shell (format : TlutFormat) (dst : Nat) (src : Nat → Nat)
    (o : Nat) (tlut : Nat → Nat) (w : Nat) :
    DecodeBytes_C4_AVX2 format dst src o tlut w =
      [Access.tlutLoad 0 16, Access.tlutLoad 16 16] ++
        _mm256_store_si256 (dst + 0 * w) (DecodePixels_AVX2 format true (DecodeBytes_C4_AVX2_lookup
        (_mm256_broadcastsi128_si256 (_mm_load_si128_tlut tlut 0))
        (_mm256_broadcastsi128_si256 (_mm_load_si128_tlut tlut 1))
        (DecodeBytes_C4_AVX2_indices (_mm256_broadcastsi128_si256 (_mm_load_si128 src o))
          (_mm256_set_epi64x 0xFFFFFF0303FF0303 0xFFFFFF0202FF0202 0xFFFFFF0101FF0101
      0xFFFFFF0000FF0000)))) ++
        _mm256_store_si256 (dst + 1 * w) (DecodePixels_AVX2 format true (DecodeBytes_C4_AVX2_lookup
        (_mm256_broadcastsi128_si256 (_mm_load_si128_tlut tlut 0))
        (_mm256_broadcastsi128_si256 (_mm_load_si128_tlut tlut 1))
        (DecodeBytes_C4_AVX2_indices (_mm256_broadcastsi128_si256 (_mm_load_si128 src o))
          (_mm256_add_epi8 (_mm256_set_epi64x 0xFFFFFF0303FF0303 0xFFFFFF0202FF0202 0xFFFFFF0101FF0101
      0xFFFFFF0000FF0000) (_mm256_set1_epi8 4))))) ++
        _mm256_store_si256 (dst + 2 * w) (DecodePixels_AVX2 format true (DecodeBytes_C4_AVX2_lookup
        (_mm256_broadcastsi128_si256 (_mm_load_si128_tlut tlut 0))
        (_mm256_broadcastsi128_si256 (_mm_load_si128_tlut tlut 1))
        (DecodeBytes_C4_AVX2_indices (_mm256_broadcastsi128_si256 (_mm_load_si128 src o))
          (_mm256_add_epi8 (_mm256_add_epi8 (_mm256_set_epi64x 0xFFFFFF0303FF0303 0xFFFFFF0202FF0202 0xFFFFFF0101FF0101
      0xFFFFFF0000FF0000) (_mm256_set1_epi8 4)) (_mm256_set1_epi8 4))))) ++
        _mm256_store_si256 (dst + 3 * w) (DecodePixels_AVX2 format true (DecodeBytes_C4_AVX2_lookup
        (_mm256_broadcastsi128_si256 (_mm_load_si128_tlut tlut 0))
        (_mm256_broadcastsi128_si256 (_mm_load_si128_tlut tlut 1))
        (DecodeBytes_C4_AVX2_indices (_mm256_broadcastsi128_si256 (_mm_load_si128 src o))
          (_mm256_add_epi8 (_mm256_add_epi8 (_mm256_add_epi8 (_mm256_set_epi64x 0xFFFFFF0303FF0303 0xFFFFFF0202FF0202 0xFFFFFF0101FF0101
      0xFFFFFF0000FF0000) (_mm256_set1_epi8 4)) (_mm256_set1_epi8 4)) (_mm256_set1_epi8 4))))) :=
  foldl_range4 (fun s => _mm256_add_epi8 s (_mm256_set1_epi8 4))
    (fun s i => _mm256_store_si256 (dst + i * w) (DecodePixels_AVX2 format true
      (DecodeBytes_C4_AVX2_lookup
        (_mm256_broadcastsi128_si256 (_mm_load_si128_tlut tlut 0))
        (_mm256_broadcastsi128_si256 (_mm_load_si128_tlut tlut 1))
        (DecodeBytes_C4_AVX2_indices (_mm256_broadcastsi128_si256 (_mm_load_si128 src o))
          s)))) _ _

theorem laneOf_load_si128 (src : Nat → Nat) (o k : Nat) (hk : k < 16) :
    laneOf 8 (_mm_load_si128 src o) k = u8at src (o + k) := by
  have h := u8at_memOf_load_si128 src o k hk
  rw [← h, u8at, memOf]
  exact (laneOf_mod_self 8 _ _).symm

theorem C4_Generic_stores (format : TlutFormat) (dst : Nat) (src : Nat → Nat) (o : Nat)
    (tlut : Nat → Nat) (w : Nat) :
    ((List.range 4).flatMap fun r =>
        DecodeBytes_C4_Generic format (dst + r * w) src (o + r * 4) tlut w).filter
        Access.isStore =
      storeRows dst w 8 4 ((List.range 4).flatMap fun i =>
        [1, 0, 3, 2, 5, 4, 7, 6].map fun m =>
          DecodePixel format (tlutAt tlut (C4nibble (_mm_load_si128 src o) i m))) := by
  have hb : ∀ k, k < 16 → laneOf 8 (_mm_load_si128 src o) k = u8at src (o + k) :=
    laneOf_load_si128 src o
  simp [storeRows, DecodeBytes_C4_Generic, List.range_succ, Access.isStore, Nat.add_assoc,
    List.filter_cons, C4nibble, hb]

theorem DecodeBytes_C4_AVX2_stores (format : TlutFormat) (dst : Nat) (src : Nat → Nat)
    (o : Nat) (tlut : Nat → Nat) (w : Nat) :
    (DecodeBytes_C4_AVX2 format dst src o tlut w).filter Access.isStore =
      ((List.range 4).flatMap fun r =>
        DecodeBytes_C4_Generic format (dst + r * w) src (o + r * 4) tlut w).filter
        Access.isStore := by
  have hx := load_si128_lt src o
  rw [C4_Generic_stores, DecodeBytes_C4_AVX2_shell]
  simp only [List.filter_append, filter_store256]
  rw [show ([Access.tlutLoad 0 16, Access.tlutLoad 16 16] : List Access).filter
      Access.isStore = [] from rfl, List.nil_append, store256_rows4, regPixels_four,
    C4_row_pixels format tlut _ (fun m => C4nibble (_mm_load_si128 src o) 0 m)
      (fun m => C4nibble_lt _ _ m) (C4_AVX2_ind_0_eq _ hx) (C4_AVX2_mask_0_eq _ hx),
    C4_row_pixels format tlut _ (fun m => C4nibble (_mm_load_si128 src o) 1 m)
      (fun m => C4nibble_lt _ _ m) (C4_AVX2_ind_1_eq _ hx) (C4_AVX2_mask_1_eq _ hx),
    C4_row_pixels format tlut _ (fun m => C4nibble (_mm_load_si128 src o) 2 m)
      (fun m => C4nibble_lt _ _ m) (C4_AVX2_ind_2_eq _ hx) (C4_AVX2_mask_2_eq _ hx),
    C4_row_pixels format tlut _ (fun m => C4nibble (_mm_load_si128 src o) 3 m)
      (fun m => C4nibble_lt _ _ m) (C4_AVX2_ind_3_eq _ hx) (C4_AVX2_mask_3_eq _ hx)]
  simp [List.range_succ]

/-! ## The paletted decoders registered by `Init` -/

theorem applyAccesses_filter (l : List Access) (dst : Nat → Nat) :
    applyAccesses (l.filter Access.isStore) dst = applyAccesses l dst := by
  unfold applyAccesses
  induction l generalizing dst with
  | nil => rfl
  | cons a l ih =>
    cases a with
    | store i v => simp only [List.filter_cons, Access.isStore, if_true, List.foldl_cons, ih]
    | tlutLoad o s =>
      simp only [List.filter_cons, Access.isStore, Bool.false_eq_true, if_false,
        List.foldl_cons, ih]

theorem DecodeTexture_lines_per_call_filter (p : Access → Bool) (bw bpl : Nat)
    (dec gen : BlockLineDecoder) (L nl : Nat) (hL : 0 < L)
    (hdec : ∀ dst src o tlut w, (dec dst src o tlut w).filter p =
      ((List.range L).flatMap fun r => gen (dst + r * w) src (o + r * bpl) tlut w).filter p)
    (src tlut : Nat → Nat) (width height : Nat) :
    (DecodeTexture bw (L * nl) bpl dec L src tlut width height).filter p =
      (DecodeTexture bw (L * nl) bpl gen 1 src tlut width height).filter p := by
  rw [DecodeTexture_eq, DecodeTexture_eq, loopCount_mul L nl hL, loopCount_one]
  simp only [List.filter_flatMap]
  apply List.flatMap_congr
  intro i _
  apply List.flatMap_congr
  intro j _
  rw [Nat.mul_comm L nl, range_flatMap_chunks nl L]
  apply List.flatMap_congr
  intro k _
  rw [hdec, List.filter_flatMap]
  apply List.flatMap_congr
  intro r _
  congr 2
  · ring
  · ring

theorem DecodeTexture_C4_AVX2_stores (format : TlutFormat) (src tlut : Nat → Nat)
    (width height : Nat) :
    (DecodeTexture 8 8 4 (DecodeBytes_C4_AVX2 format) 4 src tlut width height).filter
        Access.isStore =
      (DecodeTexture 8 8 4 (DecodeBytes_C4_Generic format) 1 src tlut width height).filter
        Access.isStore :=
  DecodeTexture_lines_per_call_filter _ 8 4 _ _ 4 2 (by decide)
    (DecodeBytes_C4_AVX2_stores format) src tlut width height

theorem DecodeTexture_C8_AVX2_stores (format : TlutFormat) (src tlut : Nat → Nat)
    (width height : Nat) :
    (DecodeTexture 8 4 8 (DecodeBytes_C8_AVX2 format) 2 src tlut width height).filter
        Access.isStore =
      (DecodeTexture 8 4 8 (DecodeBytes_C8_Generic format) 1 src tlut width height).filter
        Access.isStore :=
  DecodeTexture_lines_per_call_filter _ 8 8 _ _ 2 2 (by decide)
    (DecodeBytes_C8_AVX2_stores format) src tlut width height

theorem DecodeTexture_C14_AVX2_stores (format : TlutFormat) (src tlut : Nat → Nat)
    (width height : Nat) :
    (DecodeTexture 4 4 8 (DecodeBytes_C14_AVX2 format) 2 src tlut width height).filter
        Access.isStore =
      (DecodeTexture 4 4 8 (DecodeBytes_C14X2_Generic format) 1 src tlut width height).filter
        Access.isStore :=
  DecodeTexture_lines_per_call_filter _ 4 8 _ _ 2 2 (by decide)
    (DecodeBytes_C14_AVX2_stores format) src tlut width height

theorem Init_paletted_entries (cpu_info : CPUInfo) :
    (Init cpu_info).g_decoder_funcs GX_TF_C4 = .DecodeC4 ∧
      (Init cpu_info).g_decoder_funcs GX_TF_C8 = .DecodeC8 ∧
      (Init cpu_info).g_decoder_funcs GX_TF_C14X2 = .DecodeC14 := by
  obtain ⟨b1, b2, b3, b4⟩ := cpu_info
  cases b1 <;> cases b2 <;> cases b3 <;> cases b4 <;> exact ⟨rfl, rfl, rfl⟩

theorem InitGeneric_paletted (t : DecoderTables) (format : TlutFormat) :
    (InitGeneric t).g_c4_funcs format =
        some (DecodeTexture 8 8 4 (DecodeBytes_C4_Generic format) 1) ∧
      (InitGeneric t).g_c8_funcs format =
        some (DecodeTexture 8 4 8 (DecodeBytes_C8_Generic format) 1) ∧
      (InitGeneric t).g_c14_funcs format =
        some (DecodeTexture 4 4 8 (DecodeBytes_C14X2_Generic format) 1) := by
  cases format <;> exact ⟨rfl, rfl, rfl⟩

theorem InitAVX2_paletted (t : DecoderTables) (format : TlutFormat) :
    (InitAVX2 t).g_c4_funcs format =
        some (DecodeTexture 8 8 4 (DecodeBytes_C4_AVX2 format) 4) ∧
      (InitAVX2 t).g_c8_funcs format =
        some (DecodeTexture 8 4 8 (DecodeBytes_C8_AVX2 format) 2) ∧
      (InitAVX2 t).g_c14_funcs format =
        some (DecodeTexture 4 4 8 (DecodeBytes_C14_AVX2 format) 2) := by
  cases format <;> exact ⟨rfl, rfl, rfl⟩

theorem Init_paletted_funcs (cpu_info : CPUInfo) (format : TlutFormat) :
    ((Init cpu_info).g_c4_funcs format =
        if cpu_info.bSSE2 && cpu_info.bSSSE3 && cpu_info.bSSE4_1 && cpu_info.bAVX2 then
          some (DecodeTexture 8 8 4 (DecodeBytes_C4_AVX2 format) 4)
        else some (DecodeTexture 8 8 4 (DecodeBytes_C4_Generic format) 1)) ∧
      ((Init cpu_info).g_c8_funcs format =
        if cpu_info.bSSE2 && cpu_info.bSSSE3 && cpu_info.bSSE4_1 && cpu_info.bAVX2 then
          some (DecodeTexture 8 4 8 (DecodeBytes_C8_AVX2 format) 2)
        else some (DecodeTexture 8 4 8 (DecodeBytes_C8_Generic format) 1)) ∧
      ((Init cpu_info).g_c14_funcs format =
        if cpu_info.bSSE2 && cpu_info.bSSSE3 && cpu_info.bSSE4_1 && cpu_info.bAVX2 then
          some (DecodeTexture 4 4 8 (DecodeBytes_C14_AVX2 format) 2)
        else some (DecodeTexture 4 4 8 (DecodeBytes_C14X2_Generic format) 1)) := by
  obtain ⟨b1, b2, b3, b4⟩ := cpu_info
  have hg := InitGeneric_paletted
    (((DecoderTables.empty.setEntry GX_TF_C4 .DecodeC4).setEntry GX_TF_C8 .DecodeC8).setEntry
      GX_TF_C14X2 .DecodeC14) format
  cases b1
  · exact hg
  · cases b2
    · exact hg
    · cases b3
      · exact hg
      · cases b4
        · exact hg
        · exact InitAVX2_paletted _ format

theorem Init_c4_funcs (cpu_info : CPUInfo) (format : TlutFormat) :
    (Init cpu_info).g_c4_funcs format =
      if cpu_info.bSSE2 && cpu_info.bSSSE3 && cpu_info.bSSE4_1 && cpu_info.bAVX2 then
        some (DecodeTexture 8 8 4 (DecodeBytes_C4_AVX2 format) 4)
      else some (DecodeTexture 8 8 4 (DecodeBytes_C4_Generic format) 1) :=
  (Init_paletted_funcs cpu_info format).1

theorem Init_c8_funcs (cpu_info : CPUInfo) (format : TlutFormat) :
    (Init cpu_info).g_c8_funcs format =
      if cpu_info.bSSE2 && cpu_info.bSSSE3 && cpu_info.bSSE4_1 && cpu_info.bAVX2 then
        some (DecodeTexture 8 4 8 (DecodeBytes_C8_AVX2 format) 2)
      else some (DecodeTexture 8 4 8 (DecodeBytes_C8_Generic format) 1) :=
  (Init_paletted_funcs cpu_info format).2.1

theorem Init_c14_funcs (cpu_info : CPUInfo) (format : TlutFormat) :
    (Init cpu_info).g_c14_funcs format =
      if cpu_info.bSSE2 && cpu_info.bSSSE3 && cpu_info.bSSE4_1 && cpu_info.bAVX2 then
        some (DecodeTexture 4 4 8 (DecodeBytes_C14_AVX2 format) 2)
      else some (DecodeTexture 4 4 8 (DecodeBytes_C14X2_Generic format) 1) :=
  (Init_paletted_funcs cpu_info format).2.2

theorem Decode_stores_of_call (t1 t2 : DecoderTables) (ovl : Bool)
    (DrawOverlay : Nat → Nat → Nat → List Access) (src : Nat → Nat)
    (width height texformat : Nat) (tlut : Nat → Nat) (tlutfmt : TlutFormat)
    (la lg : List Access)
    (h1 : t1.call src width height texformat tlut tlutfmt = some la)
    (h2 : t2.call src width height texformat tlut tlutfmt = some lg)
    (h : la.filter Access.isStore = lg.filter Access.isStore) :
    ∃ la lg,
      Decode t1 ovl DrawOverlay src width height texformat tlut tlutfmt = some la ∧
      Decode t2 ovl DrawOverlay src width height texformat tlut tlutfmt = some lg ∧
      la.filter Access.isStore = lg.filter Access.isStore ∧
      ∀ dst, applyAccesses la dst = applyAccesses lg dst := by
  have hh : (if ovl = true then la ++ DrawOverlay width height texformat else la).filter
      Access.isStore =
      (if ovl = true then lg ++ DrawOverlay width height texformat else lg).filter
        Access.isStore := by
    cases ovl
    · simpa using h
    · simp [List.filter_append, h]
  refine ⟨_, _, by rw [Decode, h1]; rfl, by rw [Decode, h2]; rfl, hh, ?_⟩
  intro dst
  rw [← applyAccesses_filter, hh, applyAccesses_filter]

/-- C15: for every paletted format among C4, C8 and C14X2, every TLUT format, every source
and TLUT, every width and height and every setting of the CPU feature flags (so with the
AVX2 paletted decoders registered when all four are set), `Decode` with the tables of
`Init` makes the same stores in the same order, hence leaves the same pixels, as `Decode`
with the generic tables; the extra palette bytes the AVX2 gathers read are not used. -/
theorem paletted_AVX2_decoders_write_generic_pixels (cpu_info : CPUInfo) (texformat : Nat)
    (hf : texformat ∈ [GX_TF_C4, GX_TF_C8, GX_TF_C14X2]) (tlutfmt : TlutFormat)
    (ovl : Bool) (DrawOverlay : Nat → Nat → Nat → List Access) (src tlut : Nat → Nat)
    (width height : Nat) :
    ∃ la lg,
      Decode (Init cpu_info) ovl DrawOverlay src width height texformat tlut tlutfmt =
        some la ∧
      Decode (Init ⟨false, false, false, false⟩) ovl DrawOverlay src width height texformat
        tlut tlutfmt = some lg ∧
      la.filter Access.isStore = lg.filter Access.isStore ∧
      ∀ dst, applyAccesses la dst = applyAccesses lg dst := by
  simp only [List.mem_cons, List.mem_singleton, List.not_mem_nil, or_false] at hf
  obtain ⟨e4, e8, e14⟩ := Init_paletted_entries cpu_info
  obtain ⟨g4, g8, g14⟩ := Init_paletted_entries ⟨false, false, false, false⟩
  rcases hf with rfl | rfl | rfl
  · by_cases hc : (cpu_info.bSSE2 && cpu_info.bSSSE3 && cpu_info.bSSE4_1 && cpu_info.bAVX2)
        = true
    · exact Decode_stores_of_call _ _ _ _ _ _ _ _ _ _ _ _
        (by rw [DecoderTables.call, e4, Init_c4_funcs, if_pos hc]; rfl)
        (by rw [DecoderTables.call, g4, Init_c4_funcs]; rfl)
        (DecodeTexture_C4_AVX2_stores _ _ _ _ _)
    · exact Decode_stores_of_call _ _ _ _ _ _ _ _ _ _ _ _
        (by rw [DecoderTables.call, e4, Init_c4_funcs, if_neg hc]; rfl)
        (by rw [DecoderTables.call, g4, Init_c4_funcs]; rfl) rfl
  · by_cases hc : (cpu_info.bSSE2 && cpu_info.bSSSE3 && cpu_info.bSSE4_1 && cpu_info.bAVX2)
        = true
    · exact Decode_stores_of_call _ _ _ _ _ _ _ _ _ _ _ _
        (by rw [DecoderTables.call, e8, Init_c8_funcs, if_pos hc]; rfl)
        (by rw [DecoderTables.call, g8, Init_c8_funcs]; rfl)
        (DecodeTexture_C8_AVX2_stores _ _ _ _ _)
    · exact Decode_stores_of_call _ _ _ _ _ _ _ _ _ _ _ _
        (by rw [DecoderTables.call, e8, Init_c8_funcs, if_neg hc]; rfl)
        (by rw [DecoderTables.call, g8, Init_c8_funcs]; rfl) rfl
  · by_cases hc : (cpu_info.bSSE2 && cpu_info.bSSSE3 && cpu_info.bSSE4_1 && cpu_info.bAVX2)
        = true
    · exact Decode_stores_of_call _ _ _ _ _ _ _ _ _ _ _ _
        (by rw [DecoderTables.call, e14, Init_c14_funcs, if_pos hc]; rfl)
        (by rw [DecoderTables.call, g14, Init_c14_funcs]; rfl)
        (DecodeTexture_C14_AVX2_stores _ _ _ _ _)
    · exact Decode_stores_of_call _ _ _ _ _ _ _ _ _ _ _ _
        (by rw [DecoderTables.call, e14, Init_c14_funcs, if_neg hc]; rfl)
        (by rw [DecoderTables.call, g14, Init_c14_funcs]; rfl) rfl

theorem paletted_AVX2_decoders_write_generic_pixels_witness :
    GX_TF_C8 ∈ [GX_TF_C4, GX_TF_C8, GX_TF_C14X2] ∧
    ∃ la lg,
      Decode (Init ⟨true, true, true, true⟩) false (fun _ _ _ => []) (fun a => a) 8 4 GX_TF_C8
        (fun i => i) TlutFormat.GX_TL_RGB565 = some la ∧
      Decode (Init ⟨false, false, false, false⟩) false (fun _ _ _ => []) (fun a => a) 8 4
        GX_TF_C8 (fun i => i) TlutFormat.GX_TL_RGB565 = some lg ∧
      la.filter Access.isStore = lg.filter Access.isStore ∧
      ∀ dst, applyAccesses la dst = applyAccesses lg dst :=
  ⟨by decide, paletted_AVX2_decoders_write_generic_pixels _ GX_TF_C8 (by decide) _ _ _ _ _
    8 4⟩

/-! ## Lanes of the intrinsics of the CMPR decoders -/

theorem byte_of_group (m n : Nat) (f : Nat → Nat) (b : Nat) (hm : 0 < m) (hb : b / m < n) :
    laneOf 8 (ofLanes (8 * m) n f) b = laneOf 8 (f (b / m) % 2 ^ (8 * m)) (b % m) := by
  have h := laneOf_laneOf 8 m (ofLanes (8 * m) n f) (b / m) (b % m) (Nat.mod_lt _ hm)
  rw [Nat.div_add_mod] at h
  rw [← h, laneOf_ofLanes _ _ _ _ hb]

theorem byte_of_words (n : Nat) (f : Nat → Nat) (b : Nat) (hb : b / 2 < n) :
    laneOf 8 (ofLanes 16 n f) b = laneOf 8 (f (b / 2) % 2 ^ 16) (b % 2) :=
  byte_of_group 2 n f b (by decide) hb

theorem byte_of_dwords (n : Nat) (f : Nat → Nat) (b : Nat) (hb : b / 4 < n) :
    laneOf 8 (ofLanes 32 n f) b = laneOf 8 (f (b / 4) % 2 ^ 32) (b % 4) :=
  byte_of_group 4 n f b (by decide) hb

theorem byte_of_qwords (n : Nat) (f : Nat → Nat) (b : Nat) (hb : b / 8 < n) :
    laneOf 8 (ofLanes 64 n f) b = laneOf 8 (f (b / 8) % 2 ^ 64) (b % 8) :=
  byte_of_group 8 n f b (by decide) hb

theorem laneOf_of_lt (w v k : Nat) (hv : v < 2 ^ (w * k)) : laneOf w v k = 0 := by
  rw [laneOf_def, Nat.shiftRight_eq_div_pow, Nat.div_eq_of_lt hv, Nat.zero_mod]

theorem byte_slli_si128 (a n b : Nat) (hb : b < 16) :
    laneOf 8 (_mm_slli_si128 a n) b = if n ≤ b then laneOf 8 a (b - n) else 0 := by
  unfold _mm_slli_si128
  rw [laneOf_mod_two_pow 8 _ b 128 (by omega)]
  apply Nat.eq_of_testBit_eq
  intro i
  by_cases h : n ≤ b
  · rw [if_pos h]
    simp only [laneOf_def, Nat.testBit_mod_two_pow, Nat.testBit_shiftRight,
      Nat.testBit_shiftLeft]
    by_cases hi : i < 8
    · have e1 : 8 * b + i ≥ 8 * n := by omega
      have e2 : 8 * b + i - 8 * n = 8 * (b - n) + i := by omega
      simp [hi, e1, e2]
    · simp [hi]
  · rw [if_neg h]
    simp only [laneOf_def, Nat.testBit_mod_two_pow, Nat.testBit_shiftRight,
      Nat.testBit_shiftLeft, Nat.zero_testBit]
    by_cases hi : i < 8
    · have e1 : ¬ 8 * b + i ≥ 8 * n := by omega
      simp [hi, e1]
    · simp [hi]

theorem byte_srli_si128 (a n b : Nat) :
    laneOf 8 (_mm_srli_si128 a n) b = if b + n < 16 then laneOf 8 a (b + n) else 0 := by
  unfold _mm_srli_si128
  apply Nat.eq_of_testBit_eq
  intro i
  by_cases h : b + n < 16
  · rw [if_pos h]
    simp only [laneOf_def, Nat.testBit_mod_two_pow, Nat.testBit_shiftRight]
    by_cases hi : i < 8
    · have e1 : 8 * n + (8 * b + i) < 128 := by omega
      have e2 : 8 * n + (8 * b + i) = 8 * (b + n) + i := by omega
      have e3 : 8 * (b + n) + i < 128 := by omega
      simp [hi, e2, e3]
    · simp [hi]
  · rw [if_neg h]
    simp only [laneOf_def, Nat.testBit_mod_two_pow, Nat.testBit_shiftRight,
      Nat.zero_testBit]
    by_cases hi : i < 8
    · have e1 : ¬ 8 * n + (8 * b + i) < 128 := by omega
      simp [hi, e1]
    · simp [hi]

theorem byte_shuffle_epi32 (a imm b : Nat) (hb : b < 16) :
    laneOf 8 (_mm_shuffle_epi32 a imm) b =
      laneOf 8 a (4 * ((imm >>> (2 * (b / 4))) &&& 3) + b % 4) := by
  rw [_mm_shuffle_epi32, byte_of_dwords _ _ _ (by omega), laneOf_mod_self 32]
  exact laneOf_laneOf 8 4 a _ _ (Nat.mod_lt _ (by decide))

theorem word_unpacklo_epi8 (x y j : Nat) (hj : j < 8) :
    laneOf 16 (_mm_unpacklo_epi8 x y) j = laneOf 8 x j ||| (laneOf 8 y j <<< 8) := by
  rw [laneOf16_bytes, _mm_unpacklo_epi8, laneOf_ofLanes 8 16 _ _ (by omega),
    laneOf_ofLanes 8 16 _ _ (by omega)]
  have e1 : 2 * j % 2 = 0 := by omega
  have e2 : ¬ (2 * j + 1) % 2 = 0 := by omega
  have e3 : 2 * j / 2 = j := by omega
  have e4 : (2 * j + 1) / 2 = j := by omega
  simp only [e1, e2, e3, e4, if_true, if_false, laneOf_mod_self 8]

theorem word_unpackhi_epi8 (x y j : Nat) (hj : j < 8) :
    laneOf 16 (_mm_unpackhi_epi8 x y) j =
      laneOf 8 x (8 + j) ||| (laneOf 8 y (8 + j) <<< 8) := by
  rw [laneOf16_bytes, _mm_unpackhi_epi8, laneOf_ofLanes 8 16 _ _ (by omega),
    laneOf_ofLanes 8 16 _ _ (by omega)]
  have e1 : 2 * j % 2 = 0 := by omega
  have e2 : ¬ (2 * j + 1) % 2 = 0 := by omega
  have e3 : 2 * j / 2 = j := by omega
  have e4 : (2 * j + 1) / 2 = j := by omega
  simp only [e1, e2, e3, e4, if_true, if_false, laneOf_mod_self 8]

theorem word_dup_mask (x : Nat) (hx : x < 256) : (x ||| (x <<< 8)) &&& 0x00FF = x := by
  apply Nat.eq_of_testBit_eq
  intro i
  simp only [Nat.testBit_and, Nat.testBit_or, Nat.testBit_shiftLeft]
  by_cases hi : i < 8
  · have h8 : ¬ i ≥ 8 := by omega
    have hm : Nat.testBit 255 i = true := by interval_cases i <;> rfl
    simp [h8, hm]
  · have hm : Nat.testBit 255 i = false :=
      Nat.testBit_lt_two_pow (lt_of_lt_of_le (by decide : 255 < 2 ^ 8)
        (Nat.pow_le_pow_right (by decide) (by omega)))
    have hxi : x.testBit i = false :=
      Nat.testBit_lt_two_pow (lt_of_lt_of_le (show x < 2 ^ 8 from hx)
        (Nat.pow_le_pow_right (by decide) (by omega)))
    simp [hm, hxi]

theorem word_set1_epi16 (c j : Nat) (hj : j < 8) : laneOf 16 (_mm_set1_epi16 c) j = c % 2 ^ 16 :=
  laneOf_ofLanes 16 8 _ j hj

/-- Word `j` of `_mm_unpacklo_epi8(x, x) & _mm_set1_epi16(0x00FF)` is byte `j` of `x`. -/
theorem word_unpacklo_dup (x j : Nat) (hj : j < 8) :
    laneOf 16 (_mm_unpacklo_epi8 x x &&& _mm_set1_epi16 0x00FF) j = laneOf 8 x j := by
  rw [laneOf_and, word_unpacklo_epi8 _ _ _ hj, word_set1_epi16 _ _ hj]
  exact word_dup_mask _ (laneOf_lt 8 x j)

theorem word_unpackhi_dup (x j : Nat) (hj : j < 8) :
    laneOf 16 (_mm_unpackhi_epi8 x x &&& _mm_set1_epi16 0x00FF) j = laneOf 8 x (8 + j) := by
  rw [laneOf_and, word_unpackhi_epi8 _ _ _ hj, word_set1_epi16 _ _ hj]
  exact word_dup_mask _ (laneOf_lt 8 x (8 + j))

theorem word_subs_epi16 (a b j : Nat) (hj : j < 8) :
    laneOf 16 (_mm_subs_epi16 a b) j = subsLane (laneOf 16 a j) (laneOf 16 b j) % 2 ^ 16 :=
  laneOf_ofLanes 16 8 _ j hj

theorem word_sub_epi16 (a b j : Nat) (hj : j < 8) :
    laneOf 16 (_mm_sub_epi16 a b) j = (laneOf 16 a j + 2 ^ 16 - laneOf 16 b j) % 2 ^ 16 :=
  laneOf_ofLanes 16 8 _ j hj

theorem word_srai_epi16 (a n j : Nat) (hj : j < 8) :
    laneOf 16 (_mm_srai_epi16 a n) j = sraLane 16 (laneOf 16 a j) n % 2 ^ 16 :=
  laneOf_ofLanes 16 8 _ j hj

theorem word_avg_epu16 (a b j : Nat) (hj : j < 8) :
    laneOf 16 (_mm_avg_epu16 a b) j = ((laneOf 16 a j + laneOf 16 b j + 1) >>> 1) % 2 ^ 16 :=
  laneOf_ofLanes 16 8 _ j hj

theorem byte_packus_epi16 (a b i : Nat) (hi : i < 16) :
    laneOf 8 (_mm_packus_epi16 a b) i =
      packusLane (if i < 8 then laneOf 16 a i else laneOf 16 b (i - 8)) % 2 ^ 8 :=
  laneOf_ofLanes 8 16 _ i hi

theorem byte_add_epi8 (a b i : Nat) (hi : i < 16) :
    laneOf 8 (_mm_add_epi8 a b) i = (laneOf 8 a i + laneOf 8 b i) % 2 ^ 8 :=
  laneOf_ofLanes 8 16 _ i hi

theorem byte_sub_epi8 (a b i : Nat) (hi : i < 16) :
    laneOf 8 (_mm_sub_epi8 a b) i = (laneOf 8 a i + 2 ^ 8 - laneOf 8 b i) % 2 ^ 8 :=
  laneOf_ofLanes 8 16 _ i hi

theorem byte_set_epi64x (e1 e0 b : Nat) (hb : b < 16) :
    laneOf 8 (_mm_set_epi64x e1 e0) b =
      laneOf 8 ((if b / 8 = 0 then e0 else e1) % 2 ^ 64) (b % 8) := by
  rw [_mm_set_epi64x, byte_of_qwords _ _ _ (by omega)]

theorem byte_set1_epi32 (c b : Nat) (hb : b < 16) :
    laneOf 8 (_mm_set1_epi32 c) b = laneOf 8 (c % 2 ^ 32) (b % 4) := by
  rw [_mm_set1_epi32, byte_of_dwords _ _ _ (by omega)]

theorem lane32_of_bytes (v j : Nat) :
    laneOf 32 v j = ofLanes 8 4 fun t => laneOf 8 v (4 * j + t) := by
  have h := ofLanes_laneOf 8 4 (laneOf 32 v j)
  rw [show 8 * 4 = 32 from rfl, Nat.mod_eq_of_lt (laneOf_lt 32 v j)] at h
  rw [← h]
  apply ofLanes_congr
  intro t ht
  rw [laneOf_laneOf 8 4 v j t ht]

/-! ## The palette of `DecodeDXT_SSE2` -/

theorem sse2PackedDelta_byte (hi lo i : Nat) (h : i < 16) :
    laneOf 8 (sse2PackedDelta hi lo) i =
      sse2Delta (laneOf 16 lo (i % 8)) (laneOf 16 hi (i % 8)) := by
  have h8 : i % 8 < 8 := Nat.mod_lt _ (by decide)
  have e : (if i < 8 then
      laneOf 16 (_mm_sub_epi16 (_mm_srai_epi16 (_mm_subs_epi16 hi lo) 1)
        (_mm_srai_epi16 (_mm_subs_epi16 hi lo) 3) &&& _mm_set1_epi16 0x00FF) i
      else laneOf 16 (_mm_sub_epi16 (_mm_srai_epi16 (_mm_subs_epi16 hi lo) 1)
        (_mm_srai_epi16 (_mm_subs_epi16 hi lo) 3) &&& _mm_set1_epi16 0x00FF) (i - 8)) =
      laneOf 16 (_mm_sub_epi16 (_mm_srai_epi16 (_mm_subs_epi16 hi lo) 1)
        (_mm_srai_epi16 (_mm_subs_epi16 hi lo) 3) &&& _mm_set1_epi16 0x00FF) (i % 8) := by
    by_cases h1 : i < 8
    · rw [if_pos h1, Nat.mod_eq_of_lt h1]
    · rw [if_neg h1]
      congr 1
      omega
  simp only [sse2PackedDelta]
  rw [byte_packus_epi16 _ _ _ h, e, laneOf_and, word_sub_epi16 _ _ _ h8,
    word_srai_epi16 _ _ _ h8, word_srai_epi16 _ _ _ h8, word_subs_epi16 _ _ _ h8,
    word_set1_epi16 _ _ h8]
  rfl

theorem sse2PackedAvg_byte (a b i : Nat) (h : i < 16) :
    laneOf 8 (sse2PackedAvg a b) i = sse2Avg (laneOf 16 a (i % 8)) (laneOf 16 b (i % 8)) := by
  have h8 : i % 8 < 8 := Nat.mod_lt _ (by decide)
  have e : (if i < 8 then laneOf 16 (_mm_avg_epu16 a b) i
      else laneOf 16 (_mm_avg_epu16 a b) (i - 8)) = laneOf 16 (_mm_avg_epu16 a b) (i % 8) := by
    by_cases h1 : i < 8
    · rw [if_pos h1, Nat.mod_eq_of_lt h1]
    · rw [if_neg h1]
      congr 1
      omega
  simp only [sse2PackedAvg]
  rw [byte_packus_epi16 _ _ _ h, e, word_avg_epu16 _ _ _ h8]
  rfl

theorem int_sar (d : Int) (n : Nat) : d >>> (n : Int) = d / 2 ^ n := by
  cases d with
  | ofNat m =>
    rw [Int.ofNat_eq_coe, Int.shiftRight_coe_nat, Nat.shiftRight_eq_div_pow]
    push_cast
    rfl
  | negSucc m =>
    rw [Int.shiftRight_negSucc, Nat.shiftRight_eq_div_pow, Int.negSucc_ediv _ (by positivity),
      Int.negSucc_eq]
    push_cast
    rfl

theorem dxtDelta_eq (u v : Nat) :
    dxtDelta u v = ((v : Int) - u) / 2 - ((v : Int) - u) / 8 := by
  unfold dxtDelta
  have h1 := int_sar ((v : Int) - u) 1
  have h3 := int_sar ((v : Int) - u) 3
  norm_num at h1 h3
  rw [h1, h3]

theorem sraLane16_one (x : Nat) (hx : x < 65536) :
    sraLane 16 x 1 = if x < 32768 then x / 2 else x / 2 + 32768 := by
  unfold sraLane
  have e1 : (2 : Nat) ^ (16 - 1) = 32768 := by norm_num
  have e2 : (2 ^ 16 - 1) - ((2 ^ 16 - 1) >>> 1) = 32768 := by decide
  rw [e1, e2, Nat.shiftRight_eq_div_pow]
  split
  · norm_num
  · have h := Nat.mul_add_lt_is_or (show x / 2 ^ 1 < 2 ^ 15 by omega) 1
    rw [Nat.or_comm]
    norm_num at h ⊢
    omega

theorem sraLane16_three (x : Nat) (hx : x < 65536) :
    sraLane 16 x 3 = if x < 32768 then x / 8 else x / 8 + 57344 := by
  unfold sraLane
  have e1 : (2 : Nat) ^ (16 - 1) = 32768 := by norm_num
  have e2 : (2 ^ 16 - 1) - ((2 ^ 16 - 1) >>> 3) = 57344 := by decide
  rw [e1, e2, Nat.shiftRight_eq_div_pow]
  split
  · norm_num
  · have h := Nat.mul_add_lt_is_or (show x / 2 ^ 3 < 2 ^ 13 by omega) 7
    rw [Nat.or_comm]
    norm_num at h ⊢
    omega

theorem packusLane_byte (v : Nat) (hv : v < 256) : packusLane v = v := by
  unfold packusLane toSigned
  have e : v % 2 ^ 16 = v := Nat.mod_eq_of_lt (by omega)
  have hlt : v < 2 ^ (16 - 1) := by norm_num; omega
  have h4 : ¬ ((v : Nat) : Int) < 0 := by omega
  have h5 : ¬ ((v : Nat) : Int) > 255 := by omega
  simp only [e, hlt, if_true, h4, h5, if_false]

theorem subsLane_bytes (u v : Nat) (hu : u < 256) (hv : v < 256) :
    subsLane v u % 2 ^ 16 = (v + 65536 - u) % 65536 := by
  have e1 : toSigned 16 v = (v : Int) := by
    unfold toSigned
    have : v % 2 ^ 16 = v := Nat.mod_eq_of_lt (by omega)
    rw [this, if_pos (by norm_num; omega)]
  have e2 : toSigned 16 u = (u : Int) := by
    unfold toSigned
    have : u % 2 ^ 16 = u := Nat.mod_eq_of_lt (by omega)
    rw [this, if_pos (by norm_num; omega)]
  unfold subsLane ofSigned
  rw [e1, e2]
  have h1 : min (32767 : Int) ((v : Int) - u) = (v : Int) - u := by
    apply min_eq_right; omega
  have h2 : max (-32768 : Int) ((v : Int) - u) = (v : Int) - u := by
    apply max_eq_right; omega
  rw [h1, h2]
  norm_num
  omega

/-- The delta byte `DecodeDXT_SSE2` computes from two channels is the generic delta modulo
256. -/
theorem sse2Delta_eq (u v : Nat) (hu : u < 256) (hv : v < 256) :
    ((sse2Delta u v : Nat) : Int) = (((v : Int) - u) / 2 - ((v : Int) - u) / 8) % 256 := by
  unfold sse2Delta
  rw [subsLane_bytes u v hu hv]
  have hx : (v + 65536 - u) % 65536 < 65536 := Nat.mod_lt _ (by decide)
  rw [sraLane16_one _ hx, sraLane16_three _ hx]
  have em : (0x00FF % 2 ^ 16 : Nat) = 2 ^ 8 - 1 := by decide
  rw [em, Nat.and_pow_two_sub_one_eq_mod]
  rw [packusLane_byte _ (Nat.mod_lt _ (by decide))]
  split_ifs <;> omega

theorem sse2Delta_third (u v : Nat) (hu : u < 256) (hv : v < 256) :
    (u + sse2Delta u v) % 2 ^ 8 = dxtThird u v ∧
      (v + 2 ^ 8 - sse2Delta u v) % 2 ^ 8 = dxtTwoThirds u v := by
  have h := sse2Delta_eq u v hu hv
  unfold dxtThird dxtTwoThirds
  rw [dxtDelta_eq]
  omega

theorem dxtThird_lt (u v : Nat) (hu : u < 256) (hv : v < 256) :
    dxtThird u v < 256 ∧ dxtTwoThirds u v < 256 := by
  unfold dxtThird dxtTwoThirds
  rw [dxtDelta_eq]
  omega

theorem sse2Avg_eq (u v : Nat) (hu : u < 256) (hv : v < 256) : sse2Avg u v = dxtAvg u v := by
  unfold sse2Avg dxtAvg packusLane toSigned
  rw [Nat.shiftRight_eq_div_pow]
  have h1 : (u + v + 1) / 2 ^ 1 % 2 ^ 16 = (u + v + 1) / 2 := by norm_num; omega
  rw [h1]
  have h2 : (u + v + 1) / 2 % 2 ^ 16 = (u + v + 1) / 2 := by norm_num; omega
  rw [h2]
  have h3 : (u + v + 1) / 2 < 2 ^ (16 - 1) := by norm_num; omega
  rw [if_pos h3]
  have h4 : ¬ (((u + v + 1) / 2 : Nat) : Int) < 0 := by omega
  have h5 : ¬ (((u + v + 1) / 2 : Nat) : Int) > 255 := by omega
  rw [if_neg h4, if_neg h5]
  norm_num
  omega

theorem dxtAvg_lt (u v : Nat) (hu : u < 256) (hv : v < 256) : dxtAvg u v < 256 := by
  unfold dxtAvg
  omega

/-! ## The Gecko return trampoline -/

theorem trampoline_loop {M C : Type} (f : M → Nat → Nat × Nat) (n : Nat)
    (st : PowerPCState M C) :
    (List.range n).foldl (fun (st : PowerPCState M C) i =>
      { st with ps := fun k => if k = i then f st.memory i else st.ps k }) st =
    { st with ps := fun k => if k < n then f st.memory k else st.ps k } := by
  induction n with
  | zero => simp
  | succ n ih =>
    rw [List.range_succ, List.foldl_append, ih]
    simp only [List.foldl_cons, List.foldl_nil]
    congr 1
    funext k
    by_cases h1 : k = n
    · subst h1; simp
    · by_cases h2 : k < n
      · simp [h1, h2, Nat.lt_succ_of_lt h2]
      · have h3 : ¬ k < n + 1 := by omega
        simp [h1, h2, h3]

/-- Claim C21: `GeckoReturnTrampoline` restores gpr[1], npc, LR and CR from the 32-bit
words at SP+8, SP+12, SP+16, SP+20 and ps[0..13] from the 64-bit words at SP+24+16*i and
SP+32+16*i, where SP is the value of gpr[1] on entry and every read is from the memory on
entry; all other general-purpose registers, ps[14..] and guest memory are unchanged. -/
theorem GeckoReturnTrampoline_restores_frame {M C : Type} (G : TrampolineEnv M C)
    (s : PowerPCState M C) :
    (∀ r, (GeckoReturnTrampoline G s).gpr r =
      if r = 1 then u32 (G.HostRead_U32 s.memory (u32 (u32 (s.gpr 1) + 8))) else s.gpr r) ∧
    (GeckoReturnTrampoline G s).npc = u32 (G.HostRead_U32 s.memory (u32 (u32 (s.gpr 1) + 12))) ∧
    (GeckoReturnTrampoline G s).LR = u32 (G.HostRead_U32 s.memory (u32 (u32 (s.gpr 1) + 16))) ∧
    (GeckoReturnTrampoline G s).cr =
      G.crSet s.cr (u32 (G.HostRead_U32 s.memory (u32 (u32 (s.gpr 1) + 20)))) ∧
    (∀ i, (GeckoReturnTrampoline G s).ps i =
      if i < 14 then
        (u64 (G.HostRead_U64 s.memory (u32 (u32 (s.gpr 1) + 24 + 16 * i))),
          u64 (G.HostRead_U64 s.memory (u32 (u32 (s.gpr 1) + 32 + 16 * i))))
      else s.ps i) ∧
    (GeckoReturnTrampoline G s).memory = s.memory := by
  have e1 : ∀ i, u32 (s.gpr 1) + 24 + 2 * i * 8 = u32 (s.gpr 1) + 24 + 16 * i := by
    intro i; omega
  have e2 : ∀ i, u32 (s.gpr 1) + 24 + (2 * i + 1) * 8 = u32 (s.gpr 1) + 32 + 16 * i := by
    intro i; omega
  unfold GeckoReturnTrampoline
  simp only []
  rw [trampoline_loop (fun m i =>
    (u64 (G.HostRead_U64 m (u32 (u32 (s.gpr 1) + 24 + 2 * i * 8))),
      u64 (G.HostRead_U64 m (u32 (u32 (s.gpr 1) + 24 + (2 * i + 1) * 8)))))]
  refine ⟨fun r => rfl, rfl, rfl, rfl, fun i => ?_, rfl⟩
  simp only [e1, e2]

/-- On the sample state the stack pointer is 0xFFFFFFFC, so the reads wrap around the
32-bit address space: gpr[1] is read from address 4, ps[13] from 0xE4 and 0xEC. -/
theorem GeckoReturnTrampoline_restores_frame_witness :
    (GeckoReturnTrampoline sampleTrampoline samplePPCState).gpr 1 = 0x04050607 ∧
    (GeckoReturnTrampoline sampleTrampoline samplePPCState).gpr 2 = 2 ∧
    (GeckoReturnTrampoline sampleTrampoline samplePPCState).ps 13 =
      (0xE4E5E6E7E8E9EAEB, 0xECEDEEEFF0F1F2F3) ∧
    (GeckoReturnTrampoline sampleTrampoline samplePPCState).ps 14 = (0, 0) := by
  have h := GeckoReturnTrampoline_restores_frame sampleTrampoline samplePPCState
  refine ⟨(h.1 1).trans (by decide), (h.1 2).trans (by decide),
    (h.2.2.2.2.1 13).trans (by decide), (h.2.2.2.2.1 14).trans (by decide)⟩

/-! ## The emulated heart rate monitor -/

theorem SubmitTransfer_IntrMessage_zero :
    SubmitTransfer_IntrMessage { m_state := 0 } = ({ m_state := 1 }, hrmPacket16) := by
  decide

theorem SubmitTransfer_IntrMessage_one :
    SubmitTransfer_IntrMessage { m_state := 1 } = ({ m_state := 0 }, hrmPacket15) := by
  decide

theorem submitAll_intr (n : Nat) :
    submitAll HeartRateMonitor.new (List.replicate n Message.intr) =
      ({ m_state := n % 2 },
        (List.range n).map fun i => if i % 2 = 0 then hrmPacket16 else hrmPacket15) ∧
    submitAll { m_state := 1 } (List.replicate n Message.intr) =
      ({ m_state := (n + 1) % 2 },
        (List.range n).map fun i => if i % 2 = 0 then hrmPacket15 else hrmPacket16) := by
  induction n with
  | zero => exact ⟨rfl, rfl⟩
  | succ n ih =>
    have hmap : ∀ (a b : TransferResult),
        (List.range (n + 1)).map (fun i => if i % 2 = 0 then a else b) =
          a :: (List.range n).map (fun i => if i % 2 = 0 then b else a) := by
      intro a b
      rw [List.range_succ_eq_map, List.map_cons, List.map_map]
      congr 1
      apply List.map_congr_left
      intro i _
      by_cases h : i % 2 = 0
      · have : ¬ (i + 1) % 2 = 0 := by omega
        simp [h, this]
      · have : (i + 1) % 2 = 0 := by omega
        simp [h, this]
    constructor
    · rw [List.replicate_succ, hmap]
      show ((submitAll (SubmitTransfer_IntrMessage HeartRateMonitor.new).1 _).1,
        (SubmitTransfer_IntrMessage HeartRateMonitor.new).2 ::
          (submitAll (SubmitTransfer_IntrMessage HeartRateMonitor.new).1 _).2) = _
      rw [show HeartRateMonitor.new = { m_state := 0 } from rfl, SubmitTransfer_IntrMessage_zero,
        ih.2]
    · rw [List.replicate_succ, hmap]
      show ((submitAll (SubmitTransfer_IntrMessage { m_state := 1 }).1 _).1,
        (SubmitTransfer_IntrMessage { m_state := 1 }).2 ::
          (submitAll (SubmitTransfer_IntrMessage { m_state := 1 }).1 _).2) = _
      rw [SubmitTransfer_IntrMessage_one, show ({ m_state := 0 } : HeartRateMonitor) =
        HeartRateMonitor.new from rfl, ih.1]
      have : (n + 1 + 1) % 2 = n % 2 := by omega
      rw [this]

theorem SubmitTransfer_state (d : HeartRateMonitor) (m : Message)
    (h : d.m_state = 0 ∨ d.m_state = 1) :
    ((SubmitTransfer d m).1.m_state = 0 ∨ (SubmitTransfer d m).1.m_state = 1) ∧
      (SubmitTransfer d m).2.ret = 0 := by
  cases m with
  | ctrl m =>
    refine ⟨?_, rfl⟩
    simp only [SubmitTransfer, SubmitTransfer_CtrlMessage]
    split
    · split
      · exact Or.inl rfl
      · exact h
    · exact h
  | bulk => exact ⟨h, rfl⟩
  | intr =>
    simp only [SubmitTransfer, SubmitTransfer_IntrMessage]
    split
    · exact ⟨Or.inr rfl, rfl⟩
    · exact ⟨Or.inl rfl, rfl⟩
  | iso => exact ⟨h, rfl⟩

theorem submitAll_state (ms : List Message) : ∀ d : HeartRateMonitor,
    (d.m_state = 0 ∨ d.m_state = 1) →
    ((submitAll d ms).1.m_state = 0 ∨ (submitAll d ms).1.m_state = 1) ∧
      ∀ r ∈ (submitAll d ms).2, r.ret = 0 := by
  induction ms with
  | nil => intro d h; exact ⟨h, by simp [submitAll]⟩
  | cons m ms ih =>
    intro d h
    obtain ⟨h1, h2⟩ := SubmitTransfer_state d m h
    obtain ⟨h3, h4⟩ := ih (SubmitTransfer d m).1 h1
    refine ⟨h3, ?_⟩
    intro r hr
    simp only [submitAll, List.mem_cons] at hr
    rcases hr with rfl | hr
    · exact h2
    · exact h4 r hr

/-- Claim C22: from a freshly constructed heart rate monitor, n interrupt transfers with
nothing in between are answered in turn by the 16-byte packet (all 0x80) and the 15-byte
packet (0x80 except 0x7B, 0x0C, 0x20, 0x20 at 0x0B..0x0E), the first being the 16-byte
one, and leave m_state = n mod 2; and after any sequence of transfers of any kind m_state
is 0 or 1 and every call has returned 0. -/
theorem HeartRateMonitor_alternates_packets (n : Nat) (ms : List Message) :
    (submitAll HeartRateMonitor.new (List.replicate n Message.intr)).2 =
      (List.range n).map (fun i => if i % 2 = 0 then hrmPacket16 else hrmPacket15) ∧
    (submitAll HeartRateMonitor.new (List.replicate n Message.intr)).1.m_state = n % 2 ∧
    ((submitAll HeartRateMonitor.new ms).1.m_state = 0 ∨
      (submitAll HeartRateMonitor.new ms).1.m_state = 1) ∧
    (∀ r ∈ (submitAll HeartRateMonitor.new ms).2, r.ret = 0) ∧
    hrmPacket16.buffer = List.replicate 16 0x80 ∧
    hrmPacket15.buffer = List.replicate 11 0x80 ++ [0x7B, 0x0C, 0x20, 0x20] := by
  have h := (submitAll_intr n).1
  have h2 := submitAll_state ms HeartRateMonitor.new (Or.inl rfl)
  refine ⟨by rw [h], by rw [h], h2.1, h2.2, by decide, by decide⟩

/-! ## Reading from a real Wii Remote on Linux -/

/-- Claim C23 (counterexample): when `select` fails, `IORead` logs the error and returns
-1, not zero. -/
theorem IORead_select_error_returns_negative :
    (IORead selectFailure).ret = -1 ∧ (IORead selectFailure).errors = [.unableToSelect] ∧
      (IORead selectFailure).ret ≠ 0 := by
  decide

/-- Claim C23 (amended): `IORead` returns a positive value exactly when the interrupt socket
was read and gave at least one byte (the value is the byte count); zero exactly when the
interrupt socket was read and the read failed or gave no bytes; and -1 in every other case,
that is when `select` failed, the wakeup pipe was signalled or the interrupt socket was not
ready. An error is logged with a zero return only for a failed socket read; the errors of
`select` and of the wakeup pipe come with -1. -/
theorem IORead_return_convention (c : IOReadCalls) :
    (0 < (IORead c).ret ↔
      c.select ≠ -1 ∧ c.wakeup_pipe_r_set = false ∧ c.int_sock_set = true ∧
        ∃ n, c.read = some n ∧ 0 < n ∧ (IORead c).ret = n) ∧
    ((IORead c).ret = 0 ↔
      c.select ≠ -1 ∧ c.wakeup_pipe_r_set = false ∧ c.int_sock_set = true ∧
        (c.read = none ∨ c.read = some 0)) ∧
    ((IORead c).ret < 0 ↔
      c.select = -1 ∨ c.wakeup_pipe_r_set = true ∨ c.int_sock_set = false) ∧
    ((IORead c).ret < 0 → (IORead c).ret = -1 ∧ (IORead c).socketRead = false) ∧
    (c.select = -1 → (IORead c).errors = [.unableToSelect]) ∧
    ((IORead c).errors ≠ [] ∧ (IORead c).ret = 0 ↔
      c.select ≠ -1 ∧ c.wakeup_pipe_r_set = false ∧ c.int_sock_set = true ∧ c.read = none) := by
  obtain ⟨sel, wk, wr, sk, rd, en⟩ := c
  by_cases hs : sel = -1
  · subst hs
    simp [IORead]
  · cases wk
    · cases sk
      · simp [IORead, hs]
      · cases rd with
        | none => cases en <;> simp [IORead, hs]
        | some n =>
          rcases Nat.eq_zero_or_pos n with h0 | hpos
          · subst h0; simp [IORead, hs]
          · have hne : n ≠ 0 := by omega
            simp [IORead, hs, hpos, hne]
    · by_cases hw : wr = 1 <;> simp [IORead, hs, hw]

/-! ## Every destination pixel is written exactly once -/

theorem length_flatMap_const {α β : Type} (l : List α) (f : α → List β) (c : Nat)
    (h : ∀ a ∈ l, (f a).length = c) : (l.flatMap f).length = l.length * c := by
  induction l with
  | nil => simp
  | cons a l ih =>
    rw [List.flatMap_cons, List.length_append, h a (List.mem_cons_self _ _),
      ih (fun b hb => h b (List.mem_cons_of_mem _ hb)), List.length_cons]
    ring

theorem perm_range_of_length_mem (l : List Nat) (N : Nat) (hlen : l.length = N)
    (hmem : ∀ p, p ∈ l ↔ p < N) : l.Perm (List.range N) := by
  have hfin : l.toFinset = Finset.range N := by
    ext p
    simp [hmem]
  have hcard : l.dedup.length = l.length := by
    rw [← List.card_toFinset, hfin, Finset.card_range, hlen]
  have hnd : l.Nodup :=
    List.dedup_eq_self.1 ((List.dedup_sublist l).eq_of_length hcard)
  exact (List.perm_ext_iff_of_nodup hnd (List.nodup_range N)).2
    (fun p => by rw [hmem, List.mem_range])

theorem count_of_perm_range (l : List Nat) (N : Nat) (h : l.Perm (List.range N)) (p : Nat) :
    l.count p = if p < N then 1 else 0 := by
  rw [h.count_eq, List.count_eq_of_nodup (List.nodup_range N)]
  simp only [List.mem_range]

theorem storeIndices_append (l1 l2 : List Access) :
    storeIndices (l1 ++ l2) = storeIndices l1 ++ storeIndices l2 := by
  simp [storeIndices]

theorem storeIndices_flatMap {α : Type} (l : List α) (f : α → List Access) :
    storeIndices (l.flatMap f) = l.flatMap fun a => storeIndices (f a) := by
  induction l with
  | nil => rfl
  | cons a l ih => rw [List.flatMap_cons, storeIndices_append, ih, List.flatMap_cons]

theorem digit_lt (a b n c : Nat) (ha : a < n) (hb : b < c) : a * c + b < n * c := by
  calc a * c + b < a * c + c := by omega
    _ = (a + 1) * c := by ring
    _ ≤ n * c := Nat.mul_le_mul_right _ ha

theorem tile_mem_lt (bw bh nx ny i j m c : Nat) (hi : i < ny) (hj : j < nx) (hm : m < bh)
    (hc : c < bw) : (i * bh + m) * (bw * nx) + (j * bw + c) < bw * nx * (bh * ny) := by
  have h1 : i * bh + m < ny * bh := digit_lt i m ny bh hi hm
  have h2 : j * bw + c < nx * bw := digit_lt j c nx bw hj hc
  have h3 := digit_lt (i * bh + m) (j * bw + c) (ny * bh) (nx * bw) h1 h2
  calc (i * bh + m) * (bw * nx) + (j * bw + c)
      = (i * bh + m) * (nx * bw) + (j * bw + c) := by ring
    _ < ny * bh * (nx * bw) := h3
    _ = bw * nx * (bh * ny) := by ring

theorem tile_mem_exists (bw bh nx ny p : Nat) (h : p < bw * nx * (bh * ny)) :
    ∃ i j m c, i < ny ∧ j < nx ∧ m < bh ∧ c < bw ∧
      p = (i * bh + m) * (bw * nx) + (j * bw + c) := by
  have hpos : 0 < bw * nx * (bh * ny) := by omega
  have hw : 0 < bw * nx := Nat.pos_of_mul_pos_right hpos
  have hh : 0 < bh * ny := Nat.pos_of_mul_pos_left hpos
  have hbw : 0 < bw := Nat.pos_of_mul_pos_right hw
  have hbh : 0 < bh := Nat.pos_of_mul_pos_right hh
  have hR : p / (bw * nx) < bh * ny := Nat.div_lt_of_lt_mul h
  have hC : p % (bw * nx) < bw * nx := Nat.mod_lt _ hw
  refine ⟨p / (bw * nx) / bh, p % (bw * nx) / bw, p / (bw * nx) % bh, p % (bw * nx) % bw,
    Nat.div_lt_of_lt_mul hR, Nat.div_lt_of_lt_mul hC, Nat.mod_lt _ hbh, Nat.mod_lt _ hbw, ?_⟩
  have e1 : p / (bw * nx) / bh * bh + p / (bw * nx) % bh = p / (bw * nx) :=
    Nat.div_add_mod' _ _
  have e2 : p % (bw * nx) / bw * bw + p % (bw * nx) % bw = p % (bw * nx) :=
    Nat.div_add_mod' _ _
  rw [e1, e2]
  exact (Nat.div_add_mod' p (bw * nx)).symm

/-- The store indices of `DecodeTexture` on a whole number of blocks, for a block-line
decoder that stores `L` lines of `bw` pixels at `dst + r * width + x`. -/
theorem DecodeTexture_storeIndices_perm (bw bh bpl L K : Nat) (dec : BlockLineDecoder)
    (hK : bh = L * K) (hL : 0 < L) (hbw : 0 < bw)
    (hdec : ∀ dst src o tlut w, storeIndices (dec dst src o tlut w) =
      (List.range L).flatMap fun r => (List.range bw).map fun x => dst + r * w + x)
    (src tlut : Nat → Nat) (nx ny : Nat) :
    (storeIndices (DecodeTexture bw bh bpl dec L src tlut (bw * nx) (bh * ny))).Perm
      (List.range (bw * nx * (bh * ny))) := by
  have hbh : 0 < bh ∨ bh = 0 := by omega
  rcases hbh with hbh | hbh
  swap
  · subst hbh
    have hK0 : K = 0 := by
      rcases Nat.eq_zero_or_pos K with h | h
      · exact h
      · have : 0 < L * K := Nat.mul_pos hL h
        omega
    rw [DecodeTexture_eq]
    simp [loopCount, storeIndices]
  rw [DecodeTexture_eq, loopCount_mul bw nx hbw, loopCount_mul bh ny hbh, hK,
    loopCount_mul L K hL]
  simp only [storeIndices_flatMap, hdec]
  apply perm_range_of_length_mem
  · rw [length_flatMap_const _ _ (nx * (K * (L * bw)))]
    · rw [List.length_range]; ring
    · intro i _
      rw [length_flatMap_const _ _ (K * (L * bw))]
      · rw [List.length_range]
      · intro j _
        rw [length_flatMap_const _ _ (L * bw)]
        · rw [List.length_range]
        · intro k _
          rw [length_flatMap_const _ _ bw]
          · rw [List.length_range]
          · intro r _
            rw [List.length_map, List.length_range]
  · intro p
    simp only [List.mem_flatMap, List.mem_map, List.mem_range]
    constructor
    · rintro ⟨i, hi, j, hj, k, hk, r, hr, x, hx, rfl⟩
      have hm : k * L + r < L * K := by
        have := digit_lt k r K L hk hr
        rw [Nat.mul_comm L K]
        exact this
      have h := tile_mem_lt bw (L * K) nx ny i j (k * L + r) x hi hj hm hx
      calc (i * (L * K) + k * L) * (bw * nx) + j * bw + r * (bw * nx) + x
          = (i * (L * K) + (k * L + r)) * (bw * nx) + (j * bw + x) := by ring
        _ < bw * nx * (L * K * ny) := h
    · intro hp
      obtain ⟨i, j, m, c, hi, hj, hm, hc, rfl⟩ := tile_mem_exists bw (L * K) nx ny p hp
      refine ⟨i, hi, j, hj, m / L, Nat.div_lt_of_lt_mul hm, m % L, Nat.mod_lt _ hL, c, hc, ?_⟩
      have e : m / L * L + m % L = m := Nat.div_add_mod' m L
      calc (i * (L * K) + m / L * L) * (bw * nx) + j * bw + m % L * (bw * nx) + c
          = (i * (L * K) + (m / L * L + m % L)) * (bw * nx) + (j * bw + c) := by ring
        _ = (i * (L * K) + m) * (bw * nx) + (j * bw + c) := by rw [e]

theorem storeIndices_I4_Generic (dst : Nat) (src : Nat → Nat) (o : Nat) (tlut : Nat → Nat)
    (w : Nat) : storeIndices (DecodeBytes_I4_Generic dst src o tlut w) =
      (List.range 1).flatMap fun r => (List.range 8).map fun x => dst + r * w + x := by
  simp [storeIndices, DecodeBytes_I4_Generic, List.range_succ, Access.isStore, Access.index]

theorem storeIndices_I8_Generic (dst : Nat) (src : Nat → Nat) (o : Nat) (tlut : Nat → Nat)
    (w : Nat) : storeIndices (DecodeBytes_I8_Generic dst src o tlut w) =
      (List.range 1).flatMap fun r => (List.range 8).map fun x => dst + r * w + x := by
  simp [storeIndices, DecodeBytes_I8_Generic, List.range_succ, Access.isStore, Access.index]

theorem storeIndices_IA4_Generic (dst : Nat) (src : Nat → Nat) (o : Nat) (tlut : Nat → Nat)
    (w : Nat) : storeIndices (DecodeBytes_IA4_Generic dst src o tlut w) =
      (List.range 1).flatMap fun r => (List.range 8).map fun x => dst + r * w + x := by
  simp [storeIndices, DecodeBytes_IA4_Generic, List.range_succ, Access.isStore, Access.index]

theorem storeIndices_IA8_Generic (dst : Nat) (src : Nat → Nat) (o : Nat) (tlut : Nat → Nat)
    (w : Nat) : storeIndices (DecodeBytes_IA8_Generic dst src o tlut w) =
      (List.range 1).flatMap fun r => (List.range 4).map fun x => dst + r * w + x := by
  simp [storeIndices, DecodeBytes_IA8_Generic, List.range_succ, Access.isStore, Access.index]

theorem storeIndices_RGB565_Generic (dst : Nat) (src : Nat → Nat) (o : Nat) (tlut : Nat → Nat)
    (w : Nat) : storeIndices (DecodeBytes_RGB565_Generic dst src o tlut w) =
      (List.range 1).flatMap fun r => (List.range 4).map fun x => dst + r * w + x := by
  simp [storeIndices, DecodeBytes_RGB565_Generic, List.range_succ, Access.isStore,
    Access.index]

theorem storeIndices_RGB5A3_Generic (dst : Nat) (src : Nat → Nat) (o : Nat) (tlut : Nat → Nat)
    (w : Nat) : storeIndices (DecodeBytes_RGB5A3_Generic dst src o tlut w) =
      (List.range 1).flatMap fun r => (List.range 4).map fun x => dst + r * w + x := by
  simp [storeIndices, DecodeBytes_RGB5A3_Generic, List.range_succ, Access.isStore,
    Access.index]

theorem storeIndices_RGBA8_Generic (dst : Nat) (src : Nat → Nat) (o : Nat) (tlut : Nat → Nat)
    (w : Nat) : storeIndices (DecodeBytes_RGBA8_Generic dst src o tlut w) =
      (List.range 4).flatMap fun r => (List.range 4).map fun x => dst + r * w + x := by
  simp [storeIndices, DecodeBytes_RGBA8_Generic, List.range_succ, Access.isStore,
    Access.index]

theorem storeIndices_C4_Generic (format : TlutFormat) (dst : Nat) (src : Nat → Nat) (o : Nat)
    (tlut : Nat → Nat) (w : Nat) :
    storeIndices (DecodeBytes_C4_Generic format dst src o tlut w) =
      (List.range 1).flatMap fun r => (List.range 8).map fun x => dst + r * w + x := by
  simp [storeIndices, DecodeBytes_C4_Generic, List.range_succ, Access.isStore, Access.index,
    Nat.add_assoc]

theorem storeIndices_C8_Generic (format : TlutFormat) (dst : Nat) (src : Nat → Nat) (o : Nat)
    (tlut : Nat → Nat) (w : Nat) :
    storeIndices (DecodeBytes_C8_Generic format dst src o tlut w) =
      (List.range 1).flatMap fun r => (List.range 8).map fun x => dst + r * w + x := by
  simp [storeIndices, DecodeBytes_C8_Generic, List.range_succ, Access.isStore, Access.index]

theorem storeIndices_C14X2_Generic (format : TlutFormat) (dst : Nat) (src : Nat → Nat)
    (o : Nat) (tlut : Nat → Nat) (w : Nat) :
    storeIndices (DecodeBytes_C14X2_Generic format dst src o tlut w) =
      (List.range 1).flatMap fun r => (List.range 4).map fun x => dst + r * w + x := by
  simp [storeIndices, DecodeBytes_C14X2_Generic, List.range_succ, Access.isStore,
    Access.index]

theorem storeIndices_DecodeDXTBlock (dst : Nat) (src : Nat → Nat) (o pitch : Nat) :
    storeIndices (DecodeDXTBlock dst src o pitch) =
      (List.range 4).flatMap fun y => (List.range 4).map fun x => dst + y * pitch + x := by
  simp [storeIndices, DecodeDXTBlock, List.range_succ, Access.isStore, Access.index]

theorem DecodeDXT_Generic_eq (src tlut : Nat → Nat) (width height : Nat) :
    DecodeDXT_Generic src tlut width height =
      (List.range (loopCount height 8)).flatMap fun i =>
        (List.range (loopCount width 8)).flatMap fun j =>
          DecodeDXTBlock (i * 8 * width + j * 8) src
              (i * (loopCount width 8 * 32) + j * 32) width ++
            DecodeDXTBlock (i * 8 * width + j * 8 + 4) src
              (i * (loopCount width 8 * 32) + j * 32 + 8) width ++
            DecodeDXTBlock ((i * 8 + 4) * width + j * 8) src
              (i * (loopCount width 8 * 32) + j * 32 + 16) width ++
            DecodeDXTBlock ((i * 8 + 4) * width + j * 8 + 4) src
              (i * (loopCount width 8 * 32) + j * 32 + 24) width := by
  have h1 : ∀ (i : Nat) (st : Nat × List Access),
      (List.range (loopCount width 8)).foldl (fun st j =>
        (st.1 + 32,
          st.2 ++ (DecodeDXTBlock (i * 8 * width + j * 8) src st.1 width ++
            DecodeDXTBlock (i * 8 * width + j * 8 + 4) src (st.1 + 8) width ++
            DecodeDXTBlock ((i * 8 + 4) * width + j * 8) src (st.1 + 16) width ++
            DecodeDXTBlock ((i * 8 + 4) * width + j * 8 + 4) src (st.1 + 24) width))) st =
      (st.1 + loopCount width 8 * 32, st.2 ++ (List.range (loopCount width 8)).flatMap fun j =>
        DecodeDXTBlock (i * 8 * width + j * 8) src (st.1 + j * 32) width ++
          DecodeDXTBlock (i * 8 * width + j * 8 + 4) src (st.1 + j * 32 + 8) width ++
          DecodeDXTBlock ((i * 8 + 4) * width + j * 8) src (st.1 + j * 32 + 16) width ++
          DecodeDXTBlock ((i * 8 + 4) * width + j * 8 + 4) src (st.1 + j * 32 + 24) width) :=
    fun i st => foldl_counter (loopCount width 8) 32
      (fun j o => DecodeDXTBlock (i * 8 * width + j * 8) src o width ++
          DecodeDXTBlock (i * 8 * width + j * 8 + 4) src (o + 8) width ++
          DecodeDXTBlock ((i * 8 + 4) * width + j * 8) src (o + 16) width ++
          DecodeDXTBlock ((i * 8 + 4) * width + j * 8 + 4) src (o + 24) width) st
  have h2 := foldl_counter (loopCount height 8) (loopCount width 8 * 32)
    (fun i o => (List.range (loopCount width 8)).flatMap fun j =>
      DecodeDXTBlock (i * 8 * width + j * 8) src (o + j * 32) width ++
        DecodeDXTBlock (i * 8 * width + j * 8 + 4) src (o + j * 32 + 8) width ++
        DecodeDXTBlock ((i * 8 + 4) * width + j * 8) src (o + j * 32 + 16) width ++
        DecodeDXTBlock ((i * 8 + 4) * width + j * 8 + 4) src (o + j * 32 + 24) width)
    ((0 : Nat), ([] : List Access))
  unfold DecodeDXT_Generic
  simp only [h1]
  rw [h2]
  simp

theorem length_block (f : Nat → Nat → Nat) :
    ((List.range 4).flatMap fun y => (List.range 4).map fun x => f y x).length = 16 := by
  rw [length_flatMap_const _ _ 4]
  · rfl
  · intro y _
    simp

theorem DecodeDXT_Generic_storeIndices_perm (src tlut : Nat → Nat) (nx ny : Nat) :
    (storeIndices (DecodeDXT_Generic src tlut (8 * nx) (8 * ny))).Perm
      (List.range (8 * nx * (8 * ny))) := by
  rw [DecodeDXT_Generic_eq, loopCount_mul 8 nx (by omega), loopCount_mul 8 ny (by omega)]
  simp only [storeIndices_flatMap, storeIndices_append, storeIndices_DecodeDXTBlock]
  apply perm_range_of_length_mem
  · rw [length_flatMap_const _ _ (nx * 64)]
    · rw [List.length_range]; ring
    · intro i _
      rw [length_flatMap_const _ _ 64]
      · rw [List.length_range]
      · intro j _
        simp only [List.length_append, length_block]
  · intro p
    simp only [List.mem_flatMap, List.mem_append, List.mem_map, List.mem_range]
    constructor
    · rintro ⟨i, hi, j, hj, h⟩
      rcases h with ((⟨y, hy, x, hx, rfl⟩ | ⟨y, hy, x, hx, rfl⟩) | ⟨y, hy, x, hx, rfl⟩) |
        ⟨y, hy, x, hx, rfl⟩
      · have h := tile_mem_lt 8 8 nx ny i j y x hi hj (by omega) (by omega)
        calc i * 8 * (8 * nx) + j * 8 + y * (8 * nx) + x
            = (i * 8 + y) * (8 * nx) + (j * 8 + x) := by ring
          _ < _ := h
      · have h := tile_mem_lt 8 8 nx ny i j y (4 + x) hi hj (by omega) (by omega)
        calc i * 8 * (8 * nx) + j * 8 + 4 + y * (8 * nx) + x
            = (i * 8 + y) * (8 * nx) + (j * 8 + (4 + x)) := by ring
          _ < _ := h
      · have h := tile_mem_lt 8 8 nx ny i j (4 + y) x hi hj (by omega) (by omega)
        calc (i * 8 + 4) * (8 * nx) + j * 8 + y * (8 * nx) + x
            = (i * 8 + (4 + y)) * (8 * nx) + (j * 8 + x) := by ring
          _ < _ := h
      · have h := tile_mem_lt 8 8 nx ny i j (4 + y) (4 + x) hi hj (by omega) (by omega)
        calc (i * 8 + 4) * (8 * nx) + j * 8 + 4 + y * (8 * nx) + x
            = (i * 8 + (4 + y)) * (8 * nx) + (j * 8 + (4 + x)) := by ring
          _ < _ := h
    · intro hp
      obtain ⟨i, j, m, c, hi, hj, hm, hc, rfl⟩ := tile_mem_exists 8 8 nx ny p hp
      refine ⟨i, hi, j, hj, ?_⟩
      by_cases h1 : m < 4
      · by_cases h2 : c < 4
        · exact Or.inl (Or.inl (Or.inl ⟨m, h1, c, h2, by ring⟩))
        · obtain ⟨x, rfl⟩ : ∃ x, c = 4 + x := ⟨c - 4, by omega⟩
          exact Or.inl (Or.inl (Or.inr ⟨m, h1, x, by omega, by ring⟩))
      · obtain ⟨y, rfl⟩ : ∃ y, m = 4 + y := ⟨m - 4, by omega⟩
        by_cases h2 : c < 4
        · exact Or.inl (Or.inr ⟨y, by omega, c, h2, by ring⟩)
        · obtain ⟨x, rfl⟩ : ∃ x, c = 4 + x := ⟨c - 4, by omega⟩
          exact Or.inr ⟨y, by omega, x, by omega, by ring⟩

theorem Init_generic_entries :
    (Init ⟨false, false, false, false⟩).g_decoder_funcs GX_TF_I4 =
        .func (DecodeTexture 8 8 4 DecodeBytes_I4_Generic 1) ∧
      (Init ⟨false, false, false, false⟩).g_decoder_funcs GX_TF_I8 =
        .func (DecodeTexture 8 4 8 DecodeBytes_I8_Generic 1) ∧
      (Init ⟨false, false, false, false⟩).g_decoder_funcs GX_TF_IA4 =
        .func (DecodeTexture 8 4 8 DecodeBytes_IA4_Generic 1) ∧
      (Init ⟨false, false, false, false⟩).g_decoder_funcs GX_TF_IA8 =
        .func (DecodeTexture 4 4 8 DecodeBytes_IA8_Generic 1) ∧
      (Init ⟨false, false, false, false⟩).g_decoder_funcs GX_TF_RGB565 =
        .func (DecodeTexture 4 4 8 DecodeBytes_RGB565_Generic 1) ∧
      (Init ⟨false, false, false, false⟩).g_decoder_funcs GX_TF_RGB5A3 =
        .func (DecodeTexture 4 4 8 DecodeBytes_RGB5A3_Generic 1) ∧
      (Init ⟨false, false, false, false⟩).g_decoder_funcs GX_TF_RGBA8 =
        .func (DecodeTexture 4 4 16 DecodeBytes_RGBA8_Generic 4) ∧
      (Init ⟨false, false, false, false⟩).g_decoder_funcs GX_TF_CMPR =
        .func DecodeDXT_Generic :=
  ⟨rfl, rfl, rfl, rfl, rfl, rfl, rfl, rfl⟩

/-- The accesses of the decoder the generic table holds for each format. -/
theorem Init_generic_call (texformat : Nat)
    (hf : texformat ∈ [GX_TF_I4, GX_TF_I8, GX_TF_IA4, GX_TF_IA8, GX_TF_RGB565, GX_TF_RGB5A3,
      GX_TF_RGBA8, GX_TF_C4, GX_TF_C8, GX_TF_C14X2, GX_TF_CMPR])
    (tlutfmt : TlutFormat) (src tlut : Nat → Nat) (width height : Nat) :
    (Init ⟨false, false, false, false⟩).call src width height texformat tlut tlutfmt =
      some (
        if texformat = GX_TF_I4 then
          DecodeTexture 8 8 4 DecodeBytes_I4_Generic 1 src tlut width height
        else if texformat = GX_TF_I8 then
          DecodeTexture 8 4 8 DecodeBytes_I8_Generic 1 src tlut width height
        else if texformat = GX_TF_IA4 then
          DecodeTexture 8 4 8 DecodeBytes_IA4_Generic 1 src tlut width height
        else if texformat = GX_TF_IA8 then
          DecodeTexture 4 4 8 DecodeBytes_IA8_Generic 1 src tlut width height
        else if texformat = GX_TF_RGB565 then
          DecodeTexture 4 4 8 DecodeBytes_RGB565_Generic 1 src tlut width height
        else if texformat = GX_TF_RGB5A3 then
          DecodeTexture 4 4 8 DecodeBytes_RGB5A3_Generic 1 src tlut width height
        else if texformat = GX_TF_RGBA8 then
          DecodeTexture 4 4 16 DecodeBytes_RGBA8_Generic 4 src tlut width height
        else if texformat = GX_TF_C4 then
          DecodeTexture 8 8 4 (DecodeBytes_C4_Generic tlutfmt) 1 src tlut width height
        else if texformat = GX_TF_C8 then
          DecodeTexture 8 4 8 (DecodeBytes_C8_Generic tlutfmt) 1 src tlut width height
        else if texformat = GX_TF_C14X2 then
          DecodeTexture 4 4 8 (DecodeBytes_C14X2_Generic tlutfmt) 1 src tlut width height
        else DecodeDXT_Generic src tlut width height) := by
  obtain ⟨e1, e2, e3, e4, e5, e6, e7, e8⟩ := Init_generic_entries
  obtain ⟨p1, p2, p3⟩ := Init_paletted_entries ⟨false, false, false, false⟩
  have c4 := Init_c4_funcs ⟨false, false, false, false⟩ tlutfmt
  have c8 := Init_c8_funcs ⟨false, false, false, false⟩ tlutfmt
  have c14 := Init_c14_funcs ⟨false, false, false, false⟩ tlutfmt
  simp only [Bool.and_false, Bool.false_and, Bool.false_eq_true, if_false] at c4 c8 c14
  simp only [List.mem_cons, List.mem_singleton, List.mem_nil_iff, or_false] at hf
  unfold DecoderTables.call
  rcases hf with h | h | h | h | h | h | h | h | h | h | h <;> subst h
  · rw [e1]; rfl
  · rw [e2]; rfl
  · rw [e3]; rfl
  · rw [e4]; rfl
  · rw [e5]; rfl
  · rw [e6]; rfl
  · rw [e7]; rfl
  · rw [p1]; simp only [c4]; rfl
  · rw [p2]; simp only [c8]; rfl
  · rw [p3]; simp only [c14]; rfl
  · rw [e8]; rfl

/-- Claim C25: for each of the eleven formats the generic table holds a decoder for (the
paletted ones with every TLUT format), and for every width and height that are multiples of
the block width and block height of the format, the decoder stores to each destination
index in [0, width*height) exactly once and to no other index: its store indices are a
permutation of 0 .. width*height - 1. -/
theorem generic_decoders_write_each_pixel_once (texformat : Nat)
    (hf : texformat ∈ [GX_TF_I4, GX_TF_I8, GX_TF_IA4, GX_TF_IA8, GX_TF_RGB565, GX_TF_RGB5A3,
      GX_TF_RGBA8, GX_TF_C4, GX_TF_C8, GX_TF_C14X2, GX_TF_CMPR])
    (tlutfmt : TlutFormat) (src tlut : Nat → Nat) (nx ny : Nat) :
    ∃ l, (Init ⟨false, false, false, false⟩).call src (GetBlockWidthInTexels texformat * nx)
        (GetBlockHeightInTexels texformat * ny) texformat tlut tlutfmt = some l ∧
      (storeIndices l).Perm (List.range
        (GetBlockWidthInTexels texformat * nx * (GetBlockHeightInTexels texformat * ny))) ∧
      ∀ p, (storeIndices l).count p =
        if p < GetBlockWidthInTexels texformat * nx * (GetBlockHeightInTexels texformat * ny)
        then 1 else 0 := by
  simp only [List.mem_cons, List.mem_singleton, List.mem_nil_iff, or_false] at hf
  rcases hf with h | h | h | h | h | h | h | h | h | h | h <;> subst h
  · have hperm := DecodeTexture_storeIndices_perm 8 8 4 1 8 DecodeBytes_I4_Generic rfl (by decide)
      (by decide) storeIndices_I4_Generic src tlut nx ny
    exact ⟨DecodeTexture 8 8 4 DecodeBytes_I4_Generic 1 src tlut (8 * nx) (8 * ny),
      Init_generic_call GX_TF_I4 (by decide) tlutfmt src tlut (8 * nx) (8 * ny), hperm,
      count_of_perm_range _ _ hperm⟩
  · have hperm := DecodeTexture_storeIndices_perm 8 4 8 1 4 DecodeBytes_I8_Generic rfl (by decide)
      (by decide) storeIndices_I8_Generic src tlut nx ny
    exact ⟨DecodeTexture 8 4 8 DecodeBytes_I8_Generic 1 src tlut (8 * nx) (4 * ny),
      Init_generic_call GX_TF_I8 (by decide) tlutfmt src tlut (8 * nx) (4 * ny), hperm,
      count_of_perm_range _ _ hperm⟩
  · have hperm := DecodeTexture_storeIndices_perm 8 4 8 1 4 DecodeBytes_IA4_Generic rfl (by decide)
      (by decide) storeIndices_IA4_Generic src tlut nx ny
    exact ⟨DecodeTexture 8 4 8 DecodeBytes_IA4_Generic 1 src tlut (8 * nx) (4 * ny),
      Init_generic_call GX_TF_IA4 (by decide) tlutfmt src tlut (8 * nx) (4 * ny), hperm,
      count_of_perm_range _ _ hperm⟩
  · have hperm := DecodeTexture_storeIndices_perm 4 4 8 1 4 DecodeBytes_IA8_Generic rfl (by decide)
      (by decide) storeIndices_IA8_Generic src tlut nx ny
    exact ⟨DecodeTexture 4 4 8 DecodeBytes_IA8_Generic 1 src tlut (4 * nx) (4 * ny),
      Init_generic_call GX_TF_IA8 (by decide) tlutfmt src tlut (4 * nx) (4 * ny), hperm,
      count_of_perm_range _ _ hperm⟩
  · have hperm := DecodeTexture_storeIndices_perm 4 4 8 1 4 DecodeBytes_RGB565_Generic rfl (by decide)
      (by decide) storeIndices_RGB565_Generic src tlut nx ny
    exact ⟨DecodeTexture 4 4 8 DecodeBytes_RGB565_Generic 1 src tlut (4 * nx) (4 * ny),
      Init_generic_call GX_TF_RGB565 (by decide) tlutfmt src tlut (4 * nx) (4 * ny), hperm,
      count_of_perm_range _ _ hperm⟩
  · have hperm := DecodeTexture_storeIndices_perm 4 4 8 1 4 DecodeBytes_RGB5A3_Generic rfl (by decide)
      (by decide) storeIndices_RGB5A3_Generic src tlut nx ny
    exact ⟨DecodeTexture 4 4 8 DecodeBytes_RGB5A3_Generic 1 src tlut (4 * nx) (4 * ny),
      Init_generic_call GX_TF_RGB5A3 (by decide) tlutfmt src tlut (4 * nx) (4 * ny), hperm,
      count_of_perm_range _ _ hperm⟩
  · have hperm := DecodeTexture_storeIndices_perm 4 4 16 4 1 DecodeBytes_RGBA8_Generic rfl (by decide)
      (by decide) storeIndices_RGBA8_Generic src tlut nx ny
    exact ⟨DecodeTexture 4 4 16 DecodeBytes_RGBA8_Generic 4 src tlut (4 * nx) (4 * ny),
      Init_generic_call GX_TF_RGBA8 (by decide) tlutfmt src tlut (4 * nx) (4 * ny), hperm,
      count_of_perm_range _ _ hperm⟩
  · have hperm := DecodeTexture_storeIndices_perm 8 8 4 1 8 (DecodeBytes_C4_Generic tlutfmt) rfl (by decide)
      (by decide) (storeIndices_C4_Generic tlutfmt) src tlut nx ny
    exact ⟨DecodeTexture 8 8 4 (DecodeBytes_C4_Generic tlutfmt) 1 src tlut (8 * nx) (8 * ny),
      Init_generic_call GX_TF_C4 (by decide) tlutfmt src tlut (8 * nx) (8 * ny), hperm,
      count_of_perm_range _ _ hperm⟩
  · have hperm := DecodeTexture_storeIndices_perm 8 4 8 1 4 (DecodeBytes_C8_Generic tlutfmt) rfl (by decide)
      (by decide) (storeIndices_C8_Generic tlutfmt) src tlut nx ny
    exact ⟨DecodeTexture 8 4 8 (DecodeBytes_C8_Generic tlutfmt) 1 src tlut (8 * nx) (4 * ny),
      Init_generic_call GX_TF_C8 (by decide) tlutfmt src tlut (8 * nx) (4 * ny), hperm,
      count_of_perm_range _ _ hperm⟩
  · have hperm := DecodeTexture_storeIndices_perm 4 4 8 1 4 (DecodeBytes_C14X2_Generic tlutfmt) rfl (by decide)
      (by decide) (storeIndices_C14X2_Generic tlutfmt) src tlut nx ny
    exact ⟨DecodeTexture 4 4 8 (DecodeBytes_C14X2_Generic tlutfmt) 1 src tlut (4 * nx) (4 * ny),
      Init_generic_call GX_TF_C14X2 (by decide) tlutfmt src tlut (4 * nx) (4 * ny), hperm,
      count_of_perm_range _ _ hperm⟩
  · have hperm := DecodeDXT_Generic_storeIndices_perm src tlut nx ny
    exact ⟨DecodeDXT_Generic src tlut (8 * nx) (8 * ny),
      Init_generic_call GX_TF_CMPR (by decide) tlutfmt src tlut (8 * nx) (8 * ny), hperm,
      count_of_perm_range _ _ hperm⟩

/-- A 16x8 C8 texture (two blocks by two) with the RGB565 palette: 128 stores, pixel 37
written once and index 128 never. -/
theorem generic_decoders_write_each_pixel_once_witness :
    ∃ l, (Init ⟨false, false, false, false⟩).call rampTexture 16 8 GX_TF_C8 rampTexture
        .GX_TL_RGB565 = some l ∧
      (storeIndices l).length = 128 ∧ (storeIndices l).count 37 = 1 ∧
        (storeIndices l).count 128 = 0 := by
  obtain ⟨l, h1, h2, h3⟩ := generic_decoders_write_each_pixel_once GX_TF_C8 (by decide)
    .GX_TL_RGB565 rampTexture rampTexture 2 2
  exact ⟨l, h1, by simpa using h2.length_eq, (h3 37).trans (by decide),
    (h3 128).trans (by decide)⟩

/-! ## Single-texel decoding against whole-texture decoding -/

/-- Claim C24: for the IA8 format `DecodeTexel` does not write the pixel the generic
`Decode` writes. On the 8x8 texture whose byte at offset a is a, texel (5, 6) is made from
the source bytes 0x72, 0x73: the decoder of the generic table swaps them before
`DecodePixel_IA8` and stores 0x72737373 at pixel 6*8+5, while `DecodeTexel` passes the
16-bit word unswapped and writes 0x73727272, alpha and intensity exchanged. For the same
texel of the RGB565 texture with these bytes both give the same pixel. -/
theorem DecodeTexel_IA8_differs_from_Decode :
    (∃ l, Decode (Init ⟨false, false, false, false⟩) false (fun _ _ _ => []) rampTexture 8 8
          GX_TF_IA8 rampTexture .GX_TL_IA8 = some l ∧
        applyAccesses l (fun _ => 0) (6 * 8 + 5) = 0x72737373) ∧
      DecodeTexel rampTexture 5 6 (8 - 1) GX_TF_IA8 rampTexture .GX_TL_IA8 = some 0x73727272 ∧
      (∃ l, Decode (Init ⟨false, false, false, false⟩) false (fun _ _ _ => []) rampTexture 8 8
          GX_TF_RGB565 rampTexture .GX_TL_IA8 = some l ∧
        some (applyAccesses l (fun _ => 0) (6 * 8 + 5)) =
          DecodeTexel rampTexture 5 6 (8 - 1) GX_TF_RGB565 rampTexture .GX_TL_IA8) := by
  refine ⟨⟨_, congrArg (Option.map _)
      (Init_generic_call GX_TF_IA8 (by decide) .GX_TL_IA8 rampTexture rampTexture 8 8), ?_⟩,
    ?_, ⟨_, congrArg (Option.map _)
      (Init_generic_call GX_TF_RGB565 (by decide) .GX_TL_IA8 rampTexture rampTexture 8 8), ?_⟩⟩
  · decide
  · decide
  · decide

/-! ## The palette of `DecodeDXTBlock` by bytes -/

theorem rgba_or_eq (r g b a : Nat) (hr : r < 256) (hg : g < 256) (hb : b < 256) :
    (a <<< 24) ||| (b <<< 16) ||| (g <<< 8) ||| r = a * 16777216 + b * 65536 + g * 256 + r := by
  simp only [Nat.shiftLeft_eq]
  have h1 : a * 2 ^ 24 ||| b * 2 ^ 16 = a * 16777216 + b * 65536 := by
    have := Nat.mul_add_lt_is_or (show b * 2 ^ 16 < 2 ^ 24 by omega) a
    rw [Nat.mul_comm (2 ^ 24) a] at this
    omega
  have h2 : (a * 16777216 + b * 65536) ||| g * 2 ^ 8 = a * 16777216 + b * 65536 + g * 256 := by
    have := Nat.mul_add_lt_is_or (show g * 2 ^ 8 < 2 ^ 16 by omega) (a * 256 + b)
    rw [show 2 ^ 16 * (a * 256 + b) = a * 16777216 + b * 65536 by ring] at this
    omega
  have h3 : (a * 16777216 + b * 65536 + g * 256) ||| r =
      a * 16777216 + b * 65536 + g * 256 + r := by
    have := Nat.mul_add_lt_is_or (show r < 2 ^ 8 by omega) (a * 65536 + b * 256 + g)
    rw [show 2 ^ 8 * (a * 65536 + b * 256 + g) = a * 16777216 + b * 65536 + g * 256 by ring]
      at this
    omega
  rw [h1, h2, h3]

theorem rgba_bytes (r g b a : Nat) (hr : r < 256) (hg : g < 256) (hb : b < 256)
    (ha : a < 256) :
    laneOf 8 (a * 16777216 + b * 65536 + g * 256 + r) 0 = r ∧
      laneOf 8 (a * 16777216 + b * 65536 + g * 256 + r) 1 = g ∧
      laneOf 8 (a * 16777216 + b * 65536 + g * 256 + r) 2 = b ∧
      laneOf 8 (a * 16777216 + b * 65536 + g * 256 + r) 3 = a := by
  simp only [laneOf_def, Nat.shiftRight_eq_div_pow]
  norm_num
  omega

theorem ofLanes_bytes4 (f : Nat → Nat) :
    ofLanes 8 4 f =
      f 3 % 256 * 16777216 + f 2 % 256 * 65536 + f 1 % 256 * 256 + f 0 % 256 := by
  have h3 := (ofLanes_succ_add 8 3 f).2
  have h2 := (ofLanes_succ_add 8 2 f).2
  have h1 := (ofLanes_succ_add 8 1 f).2
  have h0 := (ofLanes_succ_add 8 0 f).2
  rw [ofLanes_zero] at h0
  norm_num at h0 h1 h2 h3
  omega

theorem DecodePixel_RGB565_add (c : Nat) :
    DecodePixel_RGB565 c =
      255 * 16777216 + Convert5To8 (c &&& 0x1f) * 65536 +
        Convert6To8 ((c >>> 5) &&& 0x3f) * 256 + Convert5To8 ((c >>> 11) &&& 0x1f) := by
  unfold DecodePixel_RGB565
  exact rgba_or_eq _ _ _ _ (Convert5To8_lt _) (Convert6To8_lt _) (Convert5To8_lt _)

theorem DecodePixel_RGB565_lt (c : Nat) : DecodePixel_RGB565 c < 2 ^ 32 := by
  rw [DecodePixel_RGB565_add]
  have h1 := Convert5To8_lt (c &&& 0x1f)
  have h2 := Convert6To8_lt ((c >>> 5) &&& 0x3f)
  have h3 := Convert5To8_lt ((c >>> 11) &&& 0x1f)
  omega

theorem DXTPaletteByte_cases (gt : Bool) (a0 a1 t : Nat) (ht : t < 4) :
    DXTPaletteByte gt a0 a1 (4 * 0 + t) = laneOf 8 a0 t ∧
      DXTPaletteByte gt a0 a1 (4 * 1 + t) = laneOf 8 a1 t ∧
      DXTPaletteByte gt a0 a1 (4 * 2 + t) =
        (if gt then dxtThird (laneOf 8 a0 t) (laneOf 8 a1 t)
        else dxtAvg (laneOf 8 a0 t) (laneOf 8 a1 t)) ∧
      DXTPaletteByte gt a0 a1 (4 * 3 + t) =
        (if gt then dxtTwoThirds (laneOf 8 a0 t) (laneOf 8 a1 t)
        else if t = 3 then 0 else dxtAvg (laneOf 8 a0 t) (laneOf 8 a1 t)) := by
  have e0 : (4 * 0 + t) % 4 = t := by omega
  have e1 : (4 * 1 + t) % 4 = t := by omega
  have e2 : (4 * 2 + t) % 4 = t := by omega
  have e3 : (4 * 3 + t) % 4 = t := by omega
  unfold DXTPaletteByte
  rw [e0, e1, e2, e3]
  refine ⟨?_, ?_, ?_, ?_⟩
  · rw [if_pos (by omega)]
  · rw [if_neg (by omega), if_pos (by omega)]
  · rw [if_neg (by omega), if_neg (by omega), if_pos (by omega)]
  · rw [if_neg (by omega), if_neg (by omega), if_neg (by omega)]

theorem DXTPalette_eq (gt : Bool) (a0 a1 : Nat) (h0 : a0 < 2 ^ 32) (h1 : a1 < 2 ^ 32) :
    DXTPalette gt a0 a1 =
      [a0, a1,
        ofLanes 8 4 (fun t => if gt then dxtThird (laneOf 8 a0 t) (laneOf 8 a1 t)
          else dxtAvg (laneOf 8 a0 t) (laneOf 8 a1 t)),
        ofLanes 8 4 (fun t => if gt then dxtTwoThirds (laneOf 8 a0 t) (laneOf 8 a1 t)
          else if t = 3 then 0 else dxtAvg (laneOf 8 a0 t) (laneOf 8 a1 t))] := by
  have e0 : ofLanes 8 4 (fun t => DXTPaletteByte gt a0 a1 (4 * 0 + t)) = a0 := by
    rw [ofLanes_congr 8 4 _ (fun t => laneOf 8 a0 t)
      (fun t ht => by rw [(DXTPaletteByte_cases gt a0 a1 t ht).1]), ofLanes_laneOf]
    exact Nat.mod_eq_of_lt h0
  have e1 : ofLanes 8 4 (fun t => DXTPaletteByte gt a0 a1 (4 * 1 + t)) = a1 := by
    rw [ofLanes_congr 8 4 _ (fun t => laneOf 8 a1 t)
      (fun t ht => by rw [(DXTPaletteByte_cases gt a0 a1 t ht).2.1]), ofLanes_laneOf]
    exact Nat.mod_eq_of_lt h1
  have e2 := ofLanes_congr 8 4 (fun t => DXTPaletteByte gt a0 a1 (4 * 2 + t))
    (fun t => if gt then dxtThird (laneOf 8 a0 t) (laneOf 8 a1 t)
      else dxtAvg (laneOf 8 a0 t) (laneOf 8 a1 t))
    (fun t ht => by beta_reduce; rw [(DXTPaletteByte_cases gt a0 a1 t ht).2.2.1])
  have e3 := ofLanes_congr 8 4 (fun t => DXTPaletteByte gt a0 a1 (4 * 3 + t))
    (fun t => if gt then dxtTwoThirds (laneOf 8 a0 t) (laneOf 8 a1 t)
      else if t = 3 then 0 else dxtAvg (laneOf 8 a0 t) (laneOf 8 a1 t))
    (fun t ht => by beta_reduce; rw [(DXTPaletteByte_cases gt a0 a1 t ht).2.2.2])
  show [ofLanes 8 4 (fun t => DXTPaletteByte gt a0 a1 (4 * 0 + t)),
    ofLanes 8 4 (fun t => DXTPaletteByte gt a0 a1 (4 * 1 + t)),
    ofLanes 8 4 (fun t => DXTPaletteByte gt a0 a1 (4 * 2 + t)),
    ofLanes 8 4 (fun t => DXTPaletteByte gt a0 a1 (4 * 3 + t))] = _
  rw [e0, e1, e2, e3]

theorem dxt_channels (r1 r2 g1 g2 b1 b2 : Nat) (hr1 : r1 < 256) (hr2 : r2 < 256)
    (hg1 : g1 < 256) (hg2 : g2 < 256) (hb1 : b1 < 256) (hb2 : b2 < 256) :
    MakeRGBA r1 g1 b1 255 = 255 * 16777216 + b1 * 65536 + g1 * 256 + r1 ∧
    MakeRGBA ((r1 : Int) + ((((r2 : Int) - r1) >>> 1) - (((r2 : Int) - r1) >>> 3)))
        ((g1 : Int) + ((((g2 : Int) - g1) >>> 1) - (((g2 : Int) - g1) >>> 3)))
        ((b1 : Int) + ((((b2 : Int) - b1) >>> 1) - (((b2 : Int) - b1) >>> 3))) 255 =
      255 * 16777216 + dxtThird b1 b2 * 65536 + dxtThird g1 g2 * 256 + dxtThird r1 r2 ∧
    MakeRGBA ((r2 : Int) - ((((r2 : Int) - r1) >>> 1) - (((r2 : Int) - r1) >>> 3)))
        ((g2 : Int) - ((((g2 : Int) - g1) >>> 1) - (((g2 : Int) - g1) >>> 3)))
        ((b2 : Int) - ((((b2 : Int) - b1) >>> 1) - (((b2 : Int) - b1) >>> 3))) 255 =
      255 * 16777216 + dxtTwoThirds b1 b2 * 65536 + dxtTwoThirds g1 g2 * 256 +
        dxtTwoThirds r1 r2 ∧
    MakeRGBA (((r1 : Int) + r2 + 1) / 2) (((g1 : Int) + g2 + 1) / 2)
        (((b1 : Int) + b2 + 1) / 2) 255 =
      255 * 16777216 + dxtAvg b1 b2 * 65536 + dxtAvg g1 g2 * 256 + dxtAvg r1 r2 ∧
    MakeRGBA (((r1 : Int) + r2 + 1) / 2) (((g1 : Int) + g2 + 1) / 2)
        (((b1 : Int) + b2 + 1) / 2) 0 =
      0 * 16777216 + dxtAvg b1 b2 * 65536 + dxtAvg g1 g2 * 256 + dxtAvg r1 r2 := by
  have sh : ∀ d : Int, d >>> 1 - d >>> 3 = d / 2 - d / 8 := by
    intro d
    have h1 := int_sar d 1
    have h3 := int_sar d 3
    norm_num at h1 h3
    rw [h1, h3]
  simp only [sh]
  unfold dxtThird dxtTwoThirds dxtAvg
  simp only [dxtDelta_eq]
  refine ⟨?_, ?_, ?_, ?_, ?_⟩
  · rw [MakeRGBA_of_range _ _ _ _ (by omega) (by omega) (by omega) (by omega)]
    omega
  · rw [MakeRGBA_of_range _ _ _ _ (by omega) (by omega) (by omega) (by omega)]
    omega
  · rw [MakeRGBA_of_range _ _ _ _ (by omega) (by omega) (by omega) (by omega)]
    omega
  · rw [MakeRGBA_of_range _ _ _ _ (by omega) (by omega) (by omega) (by omega)]
    omega
  · rw [MakeRGBA_of_range _ _ _ _ (by omega) (by omega) (by omega) (by omega)]
    omega

theorem DXTBlockColors_eq (src : Nat → Nat) (o : Nat) :
    DXTBlockColors src o =
      DXTPalette (decide (swap16 (u16at src o) > swap16 (u16at src (o + 2))))
        (DecodePixel_RGB565 (swap16 (u16at src o)))
        (DecodePixel_RGB565 (swap16 (u16at src (o + 2)))) := by
  rw [DXTPalette_eq _ _ _ (DecodePixel_RGB565_lt _) (DecodePixel_RGB565_lt _)]
  simp only [DXTBlockColors]
  generalize swap16 (u16at src o) = c1
  generalize swap16 (u16at src (o + 2)) = c2
  have hr1 := Convert5To8_lt ((c1 >>> 11) &&& 0x1F)
  have hr2 := Convert5To8_lt ((c2 >>> 11) &&& 0x1F)
  have hg1 := Convert6To8_lt ((c1 >>> 5) &&& 0x3F)
  have hg2 := Convert6To8_lt ((c2 >>> 5) &&& 0x3F)
  have hb1 := Convert5To8_lt (c1 &&& 0x1F)
  have hb2 := Convert5To8_lt (c2 &&& 0x1F)
  have k := dxt_channels _ _ _ _ _ _ hr1 hr2 hg1 hg2 hb1 hb2
  have k' := dxt_channels _ _ _ _ _ _ hr2 hr1 hg2 hg1 hb2 hb1
  have y1 := rgba_bytes _ _ _ 255 hr1 hg1 hb1 (by decide)
  have y2 := rgba_bytes _ _ _ 255 hr2 hg2 hb2 (by decide)
  have t1 := dxtThird_lt _ _ hr1 hr2
  have t2 := dxtThird_lt _ _ hg1 hg2
  have t3 := dxtThird_lt _ _ hb1 hb2
  have v1 := dxtAvg_lt _ _ hr1 hr2
  have v2 := dxtAvg_lt _ _ hg1 hg2
  have v3 := dxtAvg_lt _ _ hb1 hb2
  have ea : dxtThird 255 255 = 255 ∧ dxtTwoThirds 255 255 = 255 ∧ dxtAvg 255 255 = 255 := by
    decide
  rw [DecodePixel_RGB565_add c1, DecodePixel_RGB565_add c2]
  by_cases hgt : c1 > c2
  · rw [if_pos hgt, k.1, k'.1, k.2.1, k.2.2.1]
    simp only [decide_eq_true hgt, if_true, ofLanes_bytes4, y1.1, y1.2.1, y1.2.2.1,
      y1.2.2.2, y2.1, y2.2.1, y2.2.2.1, y2.2.2.2, ea.1, ea.2.1]
    simp only [Nat.mod_eq_of_lt t1.1, Nat.mod_eq_of_lt t2.1, Nat.mod_eq_of_lt t3.1,
      Nat.mod_eq_of_lt t1.2, Nat.mod_eq_of_lt t2.2, Nat.mod_eq_of_lt t3.2]
  · rw [if_neg hgt, k.1, k'.1, k.2.2.2.1, k.2.2.2.2]
    simp only [decide_eq_false hgt, ofLanes_bytes4, y1.1, y1.2.1, y1.2.2.1,
      y1.2.2.2, y2.1, y2.2.1, y2.2.2.1, y2.2.2.2, ea.2.2]
    simp [Nat.mod_eq_of_lt v1, Nat.mod_eq_of_lt v2, Nat.mod_eq_of_lt v3]

/-! ## The palette of `DecodeDXT_SSE2` by bytes -/

theorem DecodeDXT_SSE2_rgb23_eq (a cmp0 cmp1 : Nat) :
    DecodeDXT_SSE2_rgb23 a cmp0 cmp1 =
      sse2Rgb23 (_mm_shuffle_epi32 a (_MM_SHUFFLE 2 2 0 0))
        (_mm_shuffle_epi32 a (_MM_SHUFFLE 3 3 1 1)) cmp0 cmp1 := rfl

theorem byte_slli_all (a n b : Nat) :
    laneOf 8 (_mm_slli_si128 a n) b =
      if b < 16 then (if n ≤ b then laneOf 8 a (b - n) else 0) else 0 := by
  by_cases hb : b < 16
  · rw [if_pos hb]
    exact byte_slli_si128 a n b hb
  · rw [if_neg hb]
    apply laneOf_of_lt
    unfold _mm_slli_si128
    calc (a <<< (8 * n)) % 2 ^ 128 < 2 ^ 128 := Nat.mod_lt _ (Nat.two_pow_pos _)
      _ ≤ 2 ^ (8 * b) := Nat.pow_le_pow_right (by decide) (by omega)

theorem rgb0_byte (a b : Nat) (hb : b < 16) :
    laneOf 8 (_mm_shuffle_epi32 a (_MM_SHUFFLE 2 2 0 0)) b = laneOf 8 a (8 * (b / 8) + b % 4) := by
  rw [byte_shuffle_epi32 _ _ _ hb]
  congr 1
  interval_cases b <;> rfl

theorem rgb1_byte (a b : Nat) (hb : b < 16) :
    laneOf 8 (_mm_shuffle_epi32 a (_MM_SHUFFLE 3 3 1 1)) b =
      laneOf 8 a (8 * (b / 8) + 4 + b % 4) := by
  rw [byte_shuffle_epi32 _ _ _ hb]
  congr 1
  interval_cases b <;> rfl

theorem mask_lo_byte (b : Nat) (hb : b < 16) :
    laneOf 8 (_mm_set_epi64x 0 0xFFFFFFFFFFFFFFFF) b = if b < 8 then 255 else 0 := by
  interval_cases b <;> rfl

theorem mask_hi_byte (b : Nat) (hb : b < 16) :
    laneOf 8 (_mm_set_epi64x 0xFFFFFFFFFFFFFFFF 0) b = if b < 8 then 0 else 255 := by
  interval_cases b <;> rfl

theorem mask_rgb_byte (b : Nat) (hb : b < 16) :
    laneOf 8 (_mm_set1_epi32 0x00FFFFFF) b = if b % 4 = 3 then 0 else 255 := by
  interval_cases b <;> rfl

theorem and_255 (v : Nat) (hv : v < 256) : v &&& 255 = v := by
  rw [show (255 : Nat) = 2 ^ 8 - 1 from rfl, Nat.and_pow_two_sub_one_eq_mod]
  exact Nat.mod_eq_of_lt hv

theorem delta_lo_byte (rgb0 rgb1 b : Nat) (hb : b < 16) :
    laneOf 8 (_mm_srli_si128 (_mm_slli_si128
        (sse2PackedDelta (_mm_unpacklo_epi8 rgb1 rgb1 &&& _mm_set1_epi16 0x00FF)
          (_mm_unpacklo_epi8 rgb0 rgb0 &&& _mm_set1_epi16 0x00FF)) 8) 8) b =
      if b < 8 then sse2Delta (laneOf 8 rgb0 b) (laneOf 8 rgb1 b) else 0 := by
  rw [byte_srli_si128]
  by_cases h : b < 8
  · have e1 : b + 8 - 8 = b := by omega
    have e2 : b % 8 = b := Nat.mod_eq_of_lt h
    rw [if_pos (by omega), byte_slli_si128 _ _ _ (by omega), if_pos (by omega), e1,
      sse2PackedDelta_byte _ _ _ hb, e2, word_unpacklo_dup _ _ h, word_unpacklo_dup _ _ h,
      if_pos h]
  · rw [if_neg (by omega), if_neg h]

theorem delta_hi_byte (rgb0 rgb1 b : Nat) (hb : b < 16) :
    laneOf 8 (_mm_slli_si128
        (sse2PackedDelta (_mm_unpackhi_epi8 rgb1 rgb1 &&& _mm_set1_epi16 0x00FF)
          (_mm_unpackhi_epi8 rgb0 rgb0 &&& _mm_set1_epi16 0x00FF)) 8) b =
      if b < 8 then 0 else sse2Delta (laneOf 8 rgb0 b) (laneOf 8 rgb1 b) := by
  rw [byte_slli_si128 _ _ _ hb]
  by_cases h : b < 8
  · rw [if_neg (by omega), if_pos h]
  · have e2 : (b - 8) % 8 = b - 8 := Nat.mod_eq_of_lt (by omega)
    have e3 : 8 + (b - 8) = b := by omega
    rw [if_pos (by omega), sse2PackedDelta_byte _ _ _ (by omega), e2,
      word_unpackhi_dup _ _ (by omega), word_unpackhi_dup _ _ (by omega), e3, if_neg h]

theorem avg_lo_byte (rgb0 rgb1 b : Nat) (hb : b < 16) :
    laneOf 8 (_mm_srli_si128
        (sse2PackedAvg (_mm_unpacklo_epi8 rgb0 rgb0 &&& _mm_set1_epi16 0x00FF)
          (_mm_unpacklo_epi8 rgb1 rgb1 &&& _mm_set1_epi16 0x00FF)) 8) b =
      if b < 8 then sse2Avg (laneOf 8 rgb0 b) (laneOf 8 rgb1 b) else 0 := by
  rw [byte_srli_si128]
  by_cases h : b < 8
  · have e2 : (b + 8) % 8 = b := by omega
    rw [if_pos (by omega), sse2PackedAvg_byte _ _ _ (by omega), e2, word_unpacklo_dup _ _ h,
      word_unpacklo_dup _ _ h, if_pos h]
  · rw [if_neg (by omega), if_neg h]

theorem avg_hi_byte (rgb0 rgb1 b : Nat) (hb : b < 16) :
    laneOf 8 (_mm_slli_si128
        (sse2PackedAvg (_mm_unpackhi_epi8 rgb0 rgb0 &&& _mm_set1_epi16 0x00FF)
          (_mm_unpackhi_epi8 rgb1 rgb1 &&& _mm_set1_epi16 0x00FF)) 8) b =
      if b < 8 then 0 else sse2Avg (laneOf 8 rgb0 b) (laneOf 8 rgb1 b) := by
  rw [byte_slli_si128 _ _ _ hb]
  by_cases h : b < 8
  · rw [if_neg (by omega), if_pos h]
  · have e2 : (b - 8) % 8 = b - 8 := Nat.mod_eq_of_lt (by omega)
    have e3 : 8 + (b - 8) = b := by omega
    rw [if_pos (by omega), sse2PackedAvg_byte _ _ _ (by omega), e2,
      word_unpackhi_dup _ _ (by omega), word_unpackhi_dup _ _ (by omega), e3, if_neg h]

/-- The bytes of `rgb2` and `rgb3`: in the low half the comparison of the first block
decides, in the high half that of the second. -/
theorem sse2Rgb23_bytes (rgb0 rgb1 cmp0 cmp1 b : Nat) (hb : b < 16) :
    laneOf 8 (sse2Rgb23 rgb0 rgb1 cmp0 cmp1).1 b =
        (if (if b < 8 then cmp0 else cmp1) ≠ 0 then dxtThird (laneOf 8 rgb0 b) (laneOf 8 rgb1 b)
        else dxtAvg (laneOf 8 rgb0 b) (laneOf 8 rgb1 b)) ∧
      laneOf 8 (sse2Rgb23 rgb0 rgb1 cmp0 cmp1).2 b =
        (if (if b < 8 then cmp0 else cmp1) ≠ 0 then
          dxtTwoThirds (laneOf 8 rgb0 b) (laneOf 8 rgb1 b)
        else if b % 4 = 3 then 0 else dxtAvg (laneOf 8 rgb0 b) (laneOf 8 rgb1 b)) := by
  have hx0 : laneOf 8 rgb0 b < 256 := laneOf_lt 8 rgb0 b
  have hx1 : laneOf 8 rgb1 b < 256 := laneOf_lt 8 rgb1 b
  have hd := sse2Delta_third _ _ hx0 hx1
  have hdl := dxtThird_lt _ _ hx0 hx1
  have ha := sse2Avg_eq _ _ hx0 hx1
  have hal := dxtAvg_lt _ _ hx0 hx1
  have z1 : ∀ v : Nat, v &&& 0 = 0 := fun v => Nat.and_zero v
  have z2 : ∀ v : Nat, 0 ||| v = v := fun v => Nat.zero_or v
  have z3 : ∀ v : Nat, v ||| 0 = v := fun v => Nat.or_zero v
  have z4 : (0 : Nat) &&& 255 = 0 := rfl
  have m1 := and_255 _ hdl.1
  have m2 := and_255 _ hdl.2
  have m3 := and_255 _ hal
  by_cases h0 : cmp0 = 0 <;> by_cases h1 : cmp1 = 0 <;> by_cases h8 : b < 8 <;>
    by_cases h3 : b % 4 = 3 <;>
    simp only [sse2Rgb23, h0, h1, h8, h3, if_true, if_false, ne_eq, not_true_eq_false,
      not_false_eq_true, laneOf_or, laneOf_and,
      byte_add_epi8 _ _ _ hb, byte_sub_epi8 _ _ _ hb, delta_lo_byte _ _ _ hb,
      delta_hi_byte _ _ _ hb, avg_lo_byte _ _ _ hb, avg_hi_byte _ _ _ hb, mask_lo_byte _ hb,
      mask_hi_byte _ hb, mask_rgb_byte _ hb, hd.1, hd.2, ha, z1, z2, z3, z4, m1, m2, m3,
      and_self]

theorem mmcolors_bytes (a r2 r3 b : Nat) (hb : b < 16) :
    laneOf 8 (DecodeDXT_SSE2_mmcolors a r2 r3).1 b =
        (if b < 8 then laneOf 8 a b else if b < 12 then laneOf 8 r2 (b - 4)
          else laneOf 8 r3 (b - 8)) ∧
      laneOf 8 (DecodeDXT_SSE2_mmcolors a r2 r3).2 b =
        (if b < 8 then laneOf 8 a (b + 8) else if b < 12 then laneOf 8 r2 (b + 4)
          else laneOf 8 r3 b) := by
  interval_cases b <;>
    simp [DecodeDXT_SSE2_mmcolors, laneOf_or, byte_slli_all, byte_srli_si128]

/-- The sixteen bytes of `mmcolors0` and of `mmcolors1` are those of the four-entry palette
made from the two colours of the block. -/
theorem SSE2_palette_bytes (a cmp0 cmp1 b : Nat) (hb : b < 16) :
    laneOf 8 (DecodeDXT_SSE2_mmcolors a (DecodeDXT_SSE2_rgb23 a cmp0 cmp1).1
        (DecodeDXT_SSE2_rgb23 a cmp0 cmp1).2).1 b =
      DXTPaletteByte (decide (cmp0 ≠ 0)) (laneOf 32 a 0) (laneOf 32 a 1) b ∧
    laneOf 8 (DecodeDXT_SSE2_mmcolors a (DecodeDXT_SSE2_rgb23 a cmp0 cmp1).1
        (DecodeDXT_SSE2_rgb23 a cmp0 cmp1).2).2 b =
      DXTPaletteByte (decide (cmp1 ≠ 0)) (laneOf 32 a 2) (laneOf 32 a 3) b := by
  have hm := mmcolors_bytes a (DecodeDXT_SSE2_rgb23 a cmp0 cmp1).1
    (DecodeDXT_SSE2_rgb23 a cmp0 cmp1).2 b hb
  rw [hm.1, hm.2, DecodeDXT_SSE2_rgb23_eq]
  have ht : b % 4 < 4 := Nat.mod_lt _ (by decide)
  have q0 := laneOf_laneOf 8 4 a 0 (b % 4) ht
  have q1 := laneOf_laneOf 8 4 a 1 (b % 4) ht
  have q2 := laneOf_laneOf 8 4 a 2 (b % 4) ht
  have q3 := laneOf_laneOf 8 4 a 3 (b % 4) ht
  rw [show 8 * 4 = 32 from rfl] at q0 q1 q2 q3
  unfold DXTPaletteByte
  rw [q0, q1, q2, q3]
  by_cases h4 : b < 4
  · have e1 : 4 * 0 + b % 4 = b := by omega
    have e2 : 4 * 2 + b % 4 = b + 8 := by omega
    have h8 : b < 8 := by omega
    simp only [h4, h8, if_true, e1, e2, and_self]
  · by_cases h8 : b < 8
    · have e1 : 4 * 1 + b % 4 = b := by omega
      have e2 : 4 * 3 + b % 4 = b + 8 := by omega
      simp only [h4, h8, if_true, if_false, e1, e2, and_self]
    · by_cases h12 : b < 12
      · have s1 := (sse2Rgb23_bytes (_mm_shuffle_epi32 a (_MM_SHUFFLE 2 2 0 0))
          (_mm_shuffle_epi32 a (_MM_SHUFFLE 3 3 1 1)) cmp0 cmp1 (b - 4) (by omega)).1
        have s2 := (sse2Rgb23_bytes (_mm_shuffle_epi32 a (_MM_SHUFFLE 2 2 0 0))
          (_mm_shuffle_epi32 a (_MM_SHUFFLE 3 3 1 1)) cmp0 cmp1 (b + 4) (by omega)).1
        rw [rgb0_byte _ _ (by omega), rgb1_byte _ _ (by omega)] at s1 s2
        have i1 : 8 * ((b - 4) / 8) + (b - 4) % 4 = 4 * 0 + b % 4 := by omega
        have i2 : 8 * ((b - 4) / 8) + 4 + (b - 4) % 4 = 4 * 1 + b % 4 := by omega
        have i3 : 8 * ((b + 4) / 8) + (b + 4) % 4 = 4 * 2 + b % 4 := by omega
        have i4 : 8 * ((b + 4) / 8) + 4 + (b + 4) % 4 = 4 * 3 + b % 4 := by omega
        rw [i1, i2, if_pos (show b - 4 < 8 by omega)] at s1
        rw [i3, i4, if_neg (show ¬ b + 4 < 8 by omega)] at s2
        simp only [h4, h8, h12, if_true, if_false, s1, s2]
        by_cases c0 : cmp0 = 0 <;> by_cases c1 : cmp1 = 0 <;> simp [c0, c1]
      · have s1 := (sse2Rgb23_bytes (_mm_shuffle_epi32 a (_MM_SHUFFLE 2 2 0 0))
          (_mm_shuffle_epi32 a (_MM_SHUFFLE 3 3 1 1)) cmp0 cmp1 (b - 8) (by omega)).2
        have s2 := (sse2Rgb23_bytes (_mm_shuffle_epi32 a (_MM_SHUFFLE 2 2 0 0))
          (_mm_shuffle_epi32 a (_MM_SHUFFLE 3 3 1 1)) cmp0 cmp1 b hb).2
        rw [rgb0_byte _ _ (by omega), rgb1_byte _ _ (by omega)] at s1 s2
        have i1 : 8 * ((b - 8) / 8) + (b - 8) % 4 = 4 * 0 + b % 4 := by omega
        have i2 : 8 * ((b - 8) / 8) + 4 + (b - 8) % 4 = 4 * 1 + b % 4 := by omega
        have i3 : 8 * (b / 8) + b % 4 = 4 * 2 + b % 4 := by omega
        have i4 : 8 * (b / 8) + 4 + b % 4 = 4 * 3 + b % 4 := by omega
        have i5 : (b - 8) % 4 = b % 4 := by omega
        rw [i1, i2, i5, if_pos (show b - 8 < 8 by omega)] at s1
        rw [i3, i4, if_neg (show ¬ b < 8 by omega)] at s2
        simp only [h4, h8, h12, if_true, if_false, s1, s2]
        by_cases c0 : cmp0 = 0 <;> by_cases c1 : cmp1 = 0 <;> simp [c0, c1]

/-- The four entries of `colors0` and of `colors1` in `DecodeDXT_SSE2`. -/
theorem SSE2_palette_lanes (a cmp0 cmp1 j : Nat) (hj : j < 4) :
    laneOf 32 (DecodeDXT_SSE2_mmcolors a (DecodeDXT_SSE2_rgb23 a cmp0 cmp1).1
        (DecodeDXT_SSE2_rgb23 a cmp0 cmp1).2).1 j =
      (DXTPalette (decide (cmp0 ≠ 0)) (laneOf 32 a 0) (laneOf 32 a 1)).getD j 0 ∧
    laneOf 32 (DecodeDXT_SSE2_mmcolors a (DecodeDXT_SSE2_rgb23 a cmp0 cmp1).1
        (DecodeDXT_SSE2_rgb23 a cmp0 cmp1).2).2 j =
      (DXTPalette (decide (cmp1 ≠ 0)) (laneOf 32 a 2) (laneOf 32 a 3)).getD j 0 := by
  have hget : ∀ (gt : Bool) (a0 a1 : Nat),
      (DXTPalette gt a0 a1).getD j 0 = ofLanes 8 4 fun t => DXTPaletteByte gt a0 a1 (4 * j + t) := by
    intro gt a0 a1
    unfold DXTPalette
    rw [List.getD_eq_getElem?_getD, List.getElem?_map, List.getElem?_range hj]
    rfl
  rw [hget, hget]
  constructor
  · rw [lane32_of_bytes _ j]
    apply ofLanes_congr
    intro t ht
    rw [(SSE2_palette_bytes a cmp0 cmp1 (4 * j + t) (by omega)).1]
  · rw [lane32_of_bytes _ j]
    apply ofLanes_congr
    intro t ht
    rw [(SSE2_palette_bytes a cmp0 cmp1 (4 * j + t) (by omega)).2]

/-! ## The colours and the comparison of `DecodeDXT_SSE2` -/

theorem SSE2_argb_lin : OrLinL (fun x => regPixels 4 [(DecodeDXT_SSE2_argb888x4 x).2]) := by
  simp only [DecodeDXT_SSE2_argb888x4]
  repeat' (first | exact OrLinL.regPixels_nil 4 | apply OrLinL.regPixels_cons)
  all_goals fun_prop

theorem DXT_colors_lin (l : List Nat) :
    OrLinL (fun x => l.map fun o => DecodePixel .GX_TL_RGB565 (u16at (memOf x) o)) := by
  apply OrLinL.map_list
  intro o
  simp only [DecodePixel, DecodePixel_RGB565, swap16, Convert5To8, Convert6To8, u16at, u8at,
    memOf]
  fun_prop

theorem DXT_words_lin (l : List Nat) :
    OrLinL (fun x => l.map fun o => swap16 (u16at (memOf x) o)) := by
  apply OrLinL.map_list
  intro o
  simp only [swap16, u16at, u8at, memOf]
  fun_prop

set_option maxRecDepth 100000 in
theorem SSE2_argb_basis : ∀ i, i < 128 →
    regPixels 4 [(DecodeDXT_SSE2_argb888x4 (2 ^ i)).2] =
      [0, 2, 8, 10].map fun o => DecodePixel .GX_TL_RGB565 (u16at (memOf (2 ^ i)) o) := by
  decide!

theorem SSE2_argb_lanes (x : Nat) (hx : x < 2 ^ 128) :
    regPixels 4 [(DecodeDXT_SSE2_argb888x4 x).2] =
      [0, 2, 8, 10].map fun o => DecodePixel .GX_TL_RGB565 (u16at (memOf x) o) :=
  OrLinL.eq_of_basis SSE2_argb_lin (DXT_colors_lin _) 128 (by decide!) SSE2_argb_basis x hx

theorem SSE2_c0cmp_lin : OrLinL (fun x => regPixels 4
    [_mm_srli_epi32 (_mm_slli_epi32 (_mm_srli_epi64 (DecodeDXT_SSE2_argb888x4 x).1 8) 16) 16,
      _mm_srli_epi64 (_mm_srli_epi32 (_mm_slli_epi32
        (_mm_srli_epi64 (DecodeDXT_SSE2_argb888x4 x).1 8) 16) 16) 32]) := by
  simp only [DecodeDXT_SSE2_argb888x4]
  repeat' (first | exact OrLinL.regPixels_nil 4 | apply OrLinL.regPixels_cons)
  all_goals fun_prop

set_option maxRecDepth 100000 in
theorem SSE2_c0cmp_basis : ∀ i, i < 128 →
    regPixels 4
      [_mm_srli_epi32 (_mm_slli_epi32
          (_mm_srli_epi64 (DecodeDXT_SSE2_argb888x4 (2 ^ i)).1 8) 16) 16,
        _mm_srli_epi64 (_mm_srli_epi32 (_mm_slli_epi32
          (_mm_srli_epi64 (DecodeDXT_SSE2_argb888x4 (2 ^ i)).1 8) 16) 16) 32] =
      [0, 2, 8, 10, 2, 16, 10, 16].map fun o => swap16 (u16at (memOf (2 ^ i)) o) := by
  decide!

theorem SSE2_c0cmp_lanes (x : Nat) (hx : x < 2 ^ 128) :
    regPixels 4
      [_mm_srli_epi32 (_mm_slli_epi32 (_mm_srli_epi64 (DecodeDXT_SSE2_argb888x4 x).1 8) 16) 16,
        _mm_srli_epi64 (_mm_srli_epi32 (_mm_slli_epi32
          (_mm_srli_epi64 (DecodeDXT_SSE2_argb888x4 x).1 8) 16) 16) 32] =
      [0, 2, 8, 10, 2, 16, 10, 16].map fun o => swap16 (u16at (memOf x) o) :=
  OrLinL.eq_of_basis SSE2_c0cmp_lin (DXT_words_lin _) 128 (by decide!) SSE2_c0cmp_basis x hx

theorem swap16_lt (v : Nat) : swap16 v < 65536 := by
  unfold swap16
  have h1 : (v % 256) <<< 8 < 2 ^ 16 := by
    rw [Nat.shiftLeft_eq]
    have := Nat.mod_lt v (show 0 < 256 by decide)
    omega
  have h2 : (v >>> 8) % 256 < 2 ^ 16 := by
    have := Nat.mod_lt (v >>> 8) (show 0 < 256 by decide)
    omega
  exact Nat.or_lt_two_pow h1 h2

theorem toSigned32_small (v : Nat) (hv : v < 65536) : toSigned 32 v = (v : Int) := by
  unfold toSigned
  have e : v % 2 ^ 32 = v := Nat.mod_eq_of_lt (by omega)
  rw [e, if_pos (by norm_num; omega)]

theorem word_of_dwords (g : Nat → Nat) (i : Nat) (hi : i < 4) :
    laneOf 16 (ofLanes 32 4 g) (2 * i) = g i % 2 ^ 32 % 2 ^ 16 := by
  have h := laneOf_laneOf 16 2 (ofLanes 32 4 g) i 0 (by decide)
  rw [show 16 * 2 = 32 from rfl, Nat.add_zero, laneOf_ofLanes 32 4 g i hi, laneOf_zero] at h
  exact h.symm

/-- The two comparison results `cmp0`, `cmp1` of `DecodeDXT_SSE2`. -/
theorem SSE2_cmp (x : Nat) (hx : x < 2 ^ 128) :
    (_mm_extract_epi16 (DecodeDXT_SSE2_cmprgb0rgb1 (DecodeDXT_SSE2_argb888x4 x).1) 0 ≠ 0 ↔
      swap16 (u16at (memOf x) 0) > swap16 (u16at (memOf x) 2)) ∧
    (_mm_extract_epi16 (DecodeDXT_SSE2_cmprgb0rgb1 (DecodeDXT_SSE2_argb888x4 x).1) 4 ≠ 0 ↔
      swap16 (u16at (memOf x) 8) > swap16 (u16at (memOf x) 10)) := by
  have h := SSE2_c0cmp_lanes x hx
  simp only [regPixels, List.flatMap_cons, List.flatMap_nil, List.range_succ, List.range_zero,
    List.nil_append, List.map_cons, List.map_nil, List.cons_append, List.append_nil,
    List.cons.injEq, and_true] at h
  obtain ⟨l0, l1, l2, l3, s0, s1, s2, s3⟩ := h
  have key : ∀ c d : Nat, c < 65536 → d < 65536 →
      ((if toSigned 32 c > toSigned 32 d then 0xFFFFFFFF else 0) % 2 ^ 32 % 2 ^ 16 ≠ 0 ↔
        c > d) := by
    intro c d hc hd
    rw [toSigned32_small c hc, toSigned32_small d hd]
    by_cases hcd : c > d
    · have : ((c : Int) > d) := by omega
      simp [this, hcd]
    · have : ¬ ((c : Int) > d) := by omega
      simp [this, hcd]
  unfold DecodeDXT_SSE2_cmprgb0rgb1 _mm_extract_epi16 _mm_cmpgt_epi32
  simp only []
  constructor
  · rw [show (0 : Nat) = 2 * 0 from rfl, word_of_dwords _ 0 (by decide), l0, s0]
    exact key _ _ (swap16_lt _) (swap16_lt _)
  · rw [show (4 : Nat) = 2 * 2 from rfl, word_of_dwords _ 2 (by decide), l2, s2]
    exact key _ _ (swap16_lt _) (swap16_lt _)

/-! ## The texels of a pair of blocks -/

theorem sel_of_byte (v r s : Nat) (hs : s ≤ 6) :
    (v >>> (r * 8 + s)) &&& 3 = (laneOf 8 v r >>> s) &&& 3 := by
  apply Nat.eq_of_testBit_eq
  intro i
  simp only [Nat.testBit_and, Nat.testBit_shiftRight, laneOf_def, Nat.testBit_mod_two_pow]
  by_cases hi : i < 2
  · have h1 : s + i < 8 := by omega
    have h2 : r * 8 + s + i = 8 * r + (s + i) := by ring
    simp [h1, h2]
  · have h3 : Nat.testBit 3 i = false :=
      Nat.testBit_lt_two_pow (lt_of_lt_of_le (by decide : 3 < 2 ^ 2)
        (Nat.pow_le_pow_right (by decide) (by omega)))
    simp [h3]

theorem sel_generic (B k : Nat) (hk : k < 4) :
    ((B <<< (2 * k)) >>> 6) &&& 3 = (B >>> (6 - 2 * k)) &&& 3 := by
  rw [show (3 : Nat) = 2 ^ 2 - 1 from rfl, Nat.and_pow_two_sub_one_eq_mod,
    Nat.and_pow_two_sub_one_eq_mod, Nat.shiftLeft_eq, Nat.shiftRight_eq_div_pow,
    Nat.shiftRight_eq_div_pow]
  interval_cases k <;> norm_num <;> omega

theorem sel_lt (v : Nat) : v &&& 3 < 4 := by
  rw [show (3 : Nat) = 2 ^ 2 - 1 from rfl, Nat.and_pow_two_sub_one_eq_mod]
  exact Nat.mod_lt _ (by decide)

theorem u16at_memOf_load (src : Nat → Nat) (ofs o : Nat) (ho : o + 1 < 16) :
    u16at (memOf (_mm_load_si128 src ofs)) o = u16at src (ofs + o) := by
  unfold u16at
  rw [u8at_memOf_load_si128 src ofs o (by omega), u8at_memOf_load_si128 src ofs (o + 1) ho,
    Nat.add_assoc]

theorem regPixels4_lanes (v l0 l1 l2 l3 : Nat) (h : regPixels 4 [v] = [l0, l1, l2, l3]) :
    laneOf 32 v 0 = l0 ∧ laneOf 32 v 1 = l1 ∧ laneOf 32 v 2 = l2 ∧ laneOf 32 v 3 = l3 := by
  simpa [regPixels, List.range_succ] using h

theorem flatMap_range_congr {α : Type} (n : Nat) (f g : Nat → List α)
    (h : ∀ i, i < n → f i = g i) : (List.range n).flatMap f = (List.range n).flatMap g := by
  induction n with
  | zero => rfl
  | succ n ih =>
    rw [List.range_succ, List.flatMap_append, List.flatMap_append,
      ih (fun i hi => h i (by omega))]
    simp [h n (by omega)]

/-- The stores of `DecodeDXT_SSE2` for a pair of blocks, with the palettes and selectors of
`DecodeDXTBlock`. -/
theorem DecodeDXT_SSE2_blocks_eq (dst32 : Nat) (src : Nat → Nat) (ofs width : Nat) :
    DecodeDXT_SSE2_blocks dst32 src ofs width =
      (List.range 4).flatMap fun r =>
        ((List.range 4).map fun k =>
          Access.store (dst32 + (width * r) + k)
            ((DXTBlockColors src ofs).getD
              (((u8at src (ofs + 4 + r) <<< (2 * k)) >>> 6) &&& 3) 0)) ++
        ((List.range 4).map fun k =>
          Access.store (dst32 + (width * r) + (4 + k))
            ((DXTBlockColors src (ofs + 8)).getD
              (((u8at src (ofs + 8 + 4 + r) <<< (2 * k)) >>> 6) &&& 3) 0)) := by
  have hx := load_si128_lt src ofs
  obtain ⟨a0, a1, a2, a3⟩ := regPixels4_lanes _ _ _ _ _
    (SSE2_argb_lanes (_mm_load_si128 src ofs) hx)
  have hc := SSE2_cmp (_mm_load_si128 src ofs) hx
  beta_reduce at a0 a1 a2 a3
  rw [u16at_memOf_load src ofs 0 (by decide), u16at_memOf_load src ofs 2 (by decide),
    u16at_memOf_load src ofs 8 (by decide), u16at_memOf_load src ofs 10 (by decide)] at hc
  rw [u16at_memOf_load src ofs 0 (by decide)] at a0
  rw [u16at_memOf_load src ofs 2 (by decide)] at a1
  rw [u16at_memOf_load src ofs 8 (by decide)] at a2
  rw [u16at_memOf_load src ofs 10 (by decide)] at a3
  have hg0 := DXTBlockColors_eq src ofs
  have hg1 := DXTBlockColors_eq src (ofs + 8)
  rw [Nat.add_zero] at hc a0
  rw [show ofs + 8 + 2 = ofs + 10 from by omega] at hg1
  unfold DecodeDXT_SSE2_blocks
  simp only []
  apply flatMap_range_congr
  intro r hr
  have hb0 : ∀ k, k < 4 →
      (laneOf 32 (_mm_load_si128 src ofs) 1 >>> (r * 8 + (6 - 2 * k))) &&& 3 =
        ((u8at src (ofs + 4 + r) <<< (2 * k)) >>> 6) &&& 3 := by
    intro k hk
    rw [sel_of_byte _ _ _ (by omega), laneOf_laneOf 8 4 _ 1 r hr,
      laneOf_load_si128 src ofs _ (by omega),
      sel_generic _ _ hk, Nat.add_assoc]
  have hb1 : ∀ k, k < 4 →
      (laneOf 32 (_mm_load_si128 src ofs) 3 >>> (r * 8 + (6 - 2 * k))) &&& 3 =
        ((u8at src (ofs + 8 + 4 + r) <<< (2 * k)) >>> 6) &&& 3 := by
    intro k hk
    rw [sel_of_byte _ _ _ (by omega), laneOf_laneOf 8 4 _ 3 r hr,
      laneOf_load_si128 src ofs _ (by omega),
      sel_generic _ _ hk]
    have e : ofs + (4 * 3 + r) = ofs + 8 + 4 + r := by omega
    rw [e]
  congr 1
  · apply List.map_congr_left
    intro k hk
    have hk : k < 4 := List.mem_range.1 hk
    rw [hb0 k hk, (SSE2_palette_lanes _ _ _ _ (sel_lt _)).1, a0, a1, hg0]
    congr 3
    exact decide_eq_decide.2 hc.1
  · apply List.map_congr_left
    intro k hk
    have hk : k < 4 := List.mem_range.1 hk
    rw [hb1 k hk, (SSE2_palette_lanes _ _ _ _ (sel_lt _)).2, a2, a3, hg1]
    congr 3
    exact decide_eq_decide.2 hc.2

/-! ## Whole textures: the SIMD decoders of CMPR against `DecodeDXT_Generic` -/

theorem store_mem_storeIndices (l : List Access) (p v : Nat) (h : Access.store p v ∈ l) :
    p ∈ storeIndices l := by
  unfold storeIndices
  exact List.mem_map.2 ⟨Access.store p v, List.mem_filter.2 ⟨h, rfl⟩, rfl⟩

theorem store_unique (l : List Access) (hnd : (storeIndices l).Nodup) (p v v' : Nat)
    (h1 : Access.store p v ∈ l) (h2 : Access.store p v' ∈ l) : v = v' := by
  induction l with
  | nil => cases h1
  | cons x l ih =>
    cases x with
    | store i w =>
      have hs : storeIndices (Access.store i w :: l) = i :: storeIndices l := by
        simp [storeIndices, Access.isStore, Access.index]
      rw [hs, List.nodup_cons] at hnd
      rcases List.mem_cons.1 h1 with e1 | m1 <;> rcases List.mem_cons.1 h2 with e2 | m2
      · injection e1 with _ a
        injection e2 with _ b
        rw [a, b]
      · injection e1 with a _
        exact absurd (a ▸ store_mem_storeIndices l p v' m2) hnd.1
      · injection e2 with a _
        exact absurd (a ▸ store_mem_storeIndices l p v m1) hnd.1
      · exact ih hnd.2 m1 m2
    | tlutLoad o s =>
      have hs : storeIndices (Access.tlutLoad o s :: l) = storeIndices l := by
        simp [storeIndices, Access.isStore]
      rw [hs] at hnd
      rcases List.mem_cons.1 h1 with e1 | m1
      · cases e1
      · rcases List.mem_cons.1 h2 with e2 | m2
        · cases e2
        · exact ih hnd m1 m2

theorem applyAccesses_of_not_mem (l : List Access) (d : Nat → Nat) (p : Nat)
    (h : ∀ v, Access.store p v ∉ l) : applyAccesses l d p = d p := by
  induction l using List.reverseRecOn with
  | nil => rfl
  | append_singleton l x ih =>
    rw [applyAccesses_append]
    have ih' := ih (fun v hv => h v (List.mem_append.2 (Or.inl hv)))
    cases x with
    | store i w =>
      have hne : p ≠ i := by
        intro e
        exact h w (List.mem_append.2 (Or.inr (by simp [e])))
      simp only [if_neg hne]
      exact ih'
    | tlutLoad o s => exact ih'

/-- Two access lists that are permutations of each other and store to each index at most
once leave the same image. -/
theorem applyAccesses_perm (l1 l2 : List Access) (h : l1.Perm l2)
    (hnd : (storeIndices l2).Nodup) (d : Nat → Nat) :
    applyAccesses l1 d = applyAccesses l2 d := by
  funext p
  have hnd1 : (storeIndices l1).Nodup :=
    (List.Perm.nodup_iff ((h.filter _).map _)).2 hnd
  by_cases hex : ∃ v, Access.store p v ∈ l2
  · obtain ⟨v, hv⟩ := hex
    have hv1 : Access.store p v ∈ l1 := h.mem_iff.2 hv
    rw [applyAccesses_of_mem l1 d p v (fun v' hv' => store_unique l1 hnd1 p v' v hv' hv1) hv1,
      applyAccesses_of_mem l2 d p v (fun v' hv' => store_unique l2 hnd p v' v hv' hv) hv]
  · have hn2 : ∀ v, Access.store p v ∉ l2 := fun v hv => hex ⟨v, hv⟩
    have hn1 : ∀ v, Access.store p v ∉ l1 := fun v hv => hex ⟨v, h.mem_iff.1 hv⟩
    rw [applyAccesses_of_not_mem l1 d p hn1, applyAccesses_of_not_mem l2 d p hn2]

theorem DecodeDXTBlock_rows (dst : Nat) (src : Nat → Nat) (o pitch c : Nat) :
    DecodeDXTBlock (dst + c) src o pitch =
      (List.range 4).flatMap fun r => (List.range 4).map fun k =>
        Access.store (dst + (pitch * r) + (c + k))
          ((DXTBlockColors src o).getD (((u8at src (o + 4 + r) <<< (2 * k)) >>> 6) &&& 3) 0) := by
  unfold DecodeDXTBlock
  apply flatMap_range_congr
  intro r _
  apply List.map_congr_left
  intro k _
  congr 1
  rw [Nat.mul_comm pitch r]
  omega

/-- The stores of `DecodeDXT_SSE2` for a pair of blocks are those of `DecodeDXTBlock` for
the first block and for the second, four pixels to the right, in another order. -/
theorem DecodeDXT_SSE2_blocks_perm (dst : Nat) (src : Nat → Nat) (ofs width : Nat) :
    (DecodeDXT_SSE2_blocks dst src ofs width).Perm
      (DecodeDXTBlock dst src ofs width ++ DecodeDXTBlock (dst + 4) src (ofs + 8) width) := by
  have e0 := DecodeDXTBlock_rows dst src ofs width 0
  simp only [Nat.add_zero, Nat.zero_add] at e0
  rw [DecodeDXT_SSE2_blocks_eq, e0, DecodeDXTBlock_rows dst src (ofs + 8) width 4]
  exact (List.flatMap_append_perm _ _ _).symm

theorem DecodeDXT_SSE2_loop (src tlut : Nat → Nat) (width height : Nat) :
    DecodeDXT_SSE2 src tlut width height =
      DecodeTexture 8 8 4 (fun dst src o _ w => DecodeDXT_SSE2_blocks dst src o w) 4
        src tlut width height := rfl

theorem pair_loop_perm (dec : BlockLineDecoder) (src tlut : Nat → Nat) (nx ny : Nat)
    (h : ∀ dst o w, (dec dst src o tlut w).Perm
      (DecodeDXTBlock dst src o w ++ DecodeDXTBlock (dst + 4) src (o + 8) w)) :
    (DecodeTexture 8 8 4 dec 4 src tlut (8 * nx) (8 * ny)).Perm
      (DecodeDXT_Generic src tlut (8 * nx) (8 * ny)) := by
  rw [DecodeTexture_eq, DecodeDXT_Generic_eq, loopCount_mul 8 nx (by omega),
    loopCount_mul 8 ny (by omega), show loopCount 8 4 = 2 from rfl]
  apply List.Perm.flatMap_left
  intro i _
  apply List.Perm.flatMap_left
  intro j _
  have e : ∀ f : Nat → List Access, (List.range 2).flatMap f = f 0 ++ f 1 := by
    intro f
    simp [List.range_succ]
  rw [e]
  have p0 := h ((i * 8 + 0 * 4) * (8 * nx) + j * 8)
    (i * (nx * (2 * (4 * 4))) + j * (2 * (4 * 4)) + 0 * (4 * 4)) (8 * nx)
  have p1 := h ((i * 8 + 1 * 4) * (8 * nx) + j * 8)
    (i * (nx * (2 * (4 * 4))) + j * (2 * (4 * 4)) + 1 * (4 * 4)) (8 * nx)
  have q := p0.append p1
  have d0 : (i * 8 + 0 * 4) * (8 * nx) + j * 8 = i * 8 * (8 * nx) + j * 8 := by ring
  have d1 : (i * 8 + 1 * 4) * (8 * nx) + j * 8 = (i * 8 + 4) * (8 * nx) + j * 8 := by ring
  have o0 : i * (nx * (2 * (4 * 4))) + j * (2 * (4 * 4)) + 0 * (4 * 4) =
      i * (nx * 32) + j * 32 := by ring
  have o1 : i * (nx * (2 * (4 * 4))) + j * (2 * (4 * 4)) + 1 * (4 * 4) =
      i * (nx * 32) + j * 32 + 16 := by ring
  have o2 : i * (nx * 32) + j * 32 + 16 + 8 = i * (nx * 32) + j * 32 + 24 := by ring
  rw [d0, d1, o0, o1, o2] at q
  simpa only [List.append_assoc] using q

theorem DecodeDXT_Generic_nodup (src tlut : Nat → Nat) (nx ny : Nat) :
    (storeIndices (DecodeDXT_Generic src tlut (8 * nx) (8 * ny))).Nodup :=
  (List.Perm.nodup_iff (DecodeDXT_Generic_storeIndices_perm src tlut nx ny)).2
    (List.nodup_range _)

/-! ## The palette of `DecodeDXT_AVX2` by bytes -/

theorem DecodeDXT_AVX2_palette_eq (a : Nat) :
    DecodeDXT_AVX2_palette a =
      avx2Palette (_mm256_cvtepu8_epi16 a)
        (_mm256_shuffle_epi32 (_mm256_cvtepu8_epi16 a) (_MM_SHUFFLE 1 0 1 0))
        (_mm256_shuffle_epi32 (_mm256_cvtepu8_epi16 a) (_MM_SHUFFLE 3 2 3 2))
        (_mm256_shuffle_epi8
          (_mm256_shuffle_epi32 (_mm256_cvtepu8_epi16 a) (_MM_SHUFFLE 1 0 1 0))
          (_mm256_set_epi64x 0xFFFF09080B0A0D0C 0xFFFF010003020504
            0xFFFF09080B0A0D0C 0xFFFF010003020504))
        (_mm256_shuffle_epi8
          (_mm256_shuffle_epi32 (_mm256_cvtepu8_epi16 a) (_MM_SHUFFLE 3 2 3 2))
          (_mm256_set_epi64x 0xFFFF09080B0A0D0C 0xFFFF010003020504
            0xFFFF09080B0A0D0C 0xFFFF010003020504)) := rfl

theorem word_sub_epi16_256 (a b w : Nat) (hw : w < 16) :
    laneOf 16 (_mm256_sub_epi16 a b) w = (laneOf 16 a w + 2 ^ 16 - laneOf 16 b w) % 2 ^ 16 :=
  laneOf_ofLanes 16 16 _ w hw

theorem word_add_epi16_256 (a b w : Nat) (hw : w < 16) :
    laneOf 16 (_mm256_add_epi16 a b) w = (laneOf 16 a w + laneOf 16 b w) % 2 ^ 16 :=
  laneOf_ofLanes 16 16 _ w hw

theorem word_avg_epu16_256 (a b w : Nat) (hw : w < 16) :
    laneOf 16 (_mm256_avg_epu16 a b) w =
      ((laneOf 16 a w + laneOf 16 b w + 1) >>> 1) % 2 ^ 16 :=
  laneOf_ofLanes 16 16 _ w hw

theorem word_srai_epi16_256 (a n w : Nat) (hw : w < 16) :
    laneOf 16 (_mm256_srai_epi16 a n) w = sraLane 16 (laneOf 16 a w) n % 2 ^ 16 :=
  laneOf_ofLanes 16 16 _ w hw

theorem word_blend_epi16 (a b imm w : Nat) (hw : w < 16) :
    laneOf 16 (_mm256_blend_epi16 a b imm) w =
      if (imm >>> (w % 8)) &&& 1 ≠ 0 then laneOf 16 b w else laneOf 16 a w := by
  rw [_mm256_blend_epi16, laneOf_ofLanes 16 16 _ w hw]
  split
  · exact laneOf_mod_self 16 _ _
  · exact laneOf_mod_self 16 _ _

theorem word_mask_rgb64 (w : Nat) (hw : w < 16) :
    laneOf 16 (_mm256_set1_epi64x 0x0000FFFFFFFFFFFF) w = if w % 4 = 3 then 0 else 0xFFFF := by
  interval_cases w <;> rfl

theorem byte_cmpgt_epi64 (p q B : Nat) (hB : B < 32) :
    laneOf 8 (_mm256_cmpgt_epi64 p q) B =
      if toSigned 64 (laneOf 64 p (B / 8)) > toSigned 64 (laneOf 64 q (B / 8)) then 255
      else 0 := by
  rw [_mm256_cmpgt_epi64, byte_of_qwords _ _ _ (by omega)]
  have h8 : B % 8 < 8 := Nat.mod_lt _ (by decide)
  split
  · generalize B % 8 = k at h8
    interval_cases k <;> rfl
  · generalize B % 8 = k at h8
    interval_cases k <;> rfl

theorem word_blendv_cmpgt (x y p q w : Nat) (hw : w < 16) :
    laneOf 16 (_mm256_blendv_epi8 x y (_mm256_cmpgt_epi64 p q)) w =
      if toSigned 64 (laneOf 64 p (w / 4)) > toSigned 64 (laneOf 64 q (w / 4)) then
        laneOf 16 y w
      else laneOf 16 x w := by
  have e1 : 2 * w / 8 = w / 4 := by omega
  have e2 : (2 * w + 1) / 8 = w / 4 := by omega
  rw [laneOf16_bytes, blendv256_byte _ _ _ _ (by omega), blendv256_byte _ _ _ _ (by omega),
    byte_cmpgt_epi64 _ _ _ (by omega), byte_cmpgt_epi64 _ _ _ (by omega), e1, e2]
  have t : (255 : Nat) &&& 0x80 ≠ 0 := by decide
  have f : ¬ ((0 : Nat) &&& 0x80 ≠ 0) := by decide
  by_cases h : toSigned 64 (laneOf 64 p (w / 4)) > toSigned 64 (laneOf 64 q (w / 4))
  · simp only [h, if_true]
    rw [if_pos t, if_pos t]
    exact (laneOf16_bytes _ _).symm
  · simp only [h, if_false]
    rw [if_neg f, if_neg f]
    exact (laneOf16_bytes _ _).symm

theorem byte_packus_epi16_256 (a b B : Nat) (hB : B < 32) :
    laneOf 8 (_mm256_packus_epi16 a b) B =
      packusLane (if B % 16 < 8 then laneOf 16 a (B / 16 * 8 + B % 16)
        else laneOf 16 b (B / 16 * 8 + (B % 16 - 8))) % 2 ^ 8 :=
  laneOf_ofLanes 8 32 _ B hB

theorem avx2Delta_int (u v : Nat) (hu : u < 256) (hv : v < 256) :
    ((avx2Delta u v : Nat) : Int) = (((v : Int) - u) / 2 - ((v : Int) - u) / 8) % 65536 := by
  unfold avx2Delta
  have hx : (v + 2 ^ 16 - u) % 2 ^ 16 < 65536 := Nat.mod_lt _ (by decide)
  rw [sraLane16_one _ hx, sraLane16_three _ hx]
  simp only [show (2 : Nat) ^ 16 = 65536 from rfl]
  by_cases h : u ≤ v
  · obtain ⟨k, rfl⟩ := Nat.exists_eq_add_of_le h
    have e : (u + k + 65536 - u) % 65536 = k := by omega
    rw [e]
    have h1 : k < 32768 := by omega
    simp only [h1, if_true]
    have a1 : k / 2 % 65536 = k / 2 := by omega
    have a2 : k / 8 % 65536 = k / 8 := by omega
    rw [a1, a2]
    have a3 : (k / 2 + 65536 - k / 8) % 65536 = k / 2 - k / 8 := by omega
    rw [a3]
    have a4 : ((u + k : Nat) : Int) - u = (k : Int) := by omega
    rw [a4]
    omega
  · obtain ⟨k, rfl⟩ := Nat.exists_eq_add_of_le (Nat.le_of_not_le h)
    have e : (v + 65536 - (v + k)) % 65536 = 65536 - k := by omega
    rw [e]
    have h1 : ¬ 65536 - k < 32768 := by omega
    simp only [h1, if_false]
    have a1 : ((65536 - k) / 2 + 32768) % 65536 = 65536 - (k + 1) / 2 := by omega
    have a2 : ((65536 - k) / 8 + 57344) % 65536 = 65536 - (k + 7) / 8 := by omega
    rw [a1, a2]
    have a4 : (v : Int) - ((v + k : Nat) : Int) = - (k : Int) := by omega
    rw [a4]
    omega

theorem avx2Delta_third (u v : Nat) (hu : u < 256) (hv : v < 256) :
    (u + avx2Delta u v) % 2 ^ 16 = dxtThird u v ∧
      (v + 2 ^ 16 - avx2Delta u v) % 2 ^ 16 = dxtTwoThirds u v := by
  have h := avx2Delta_int u v hu hv
  have hl : avx2Delta u v < 65536 := by
    unfold avx2Delta
    exact Nat.mod_lt _ (by decide)
  generalize avx2Delta u v = D at h hl
  unfold dxtThird dxtTwoThirds
  rw [dxtDelta_eq]
  simp only [show (2 : Nat) ^ 16 = 65536 from rfl]
  omega

theorem avx2Avg_eq (u v : Nat) (hu : u < 256) (hv : v < 256) :
    ((v + u + 1) >>> 1) % 2 ^ 16 = dxtAvg u v := by
  unfold dxtAvg
  rw [Nat.shiftRight_eq_div_pow]
  norm_num
  omega

/-- The bytes of `palette` in terms of the words of the registers it is made from. -/
theorem avx2Palette_byte (colors16 c0 c1 c0s c1s B : Nat) (hB : B < 32)
    (h0 : laneOf 16 c0 (B / 16 * 8 + (B % 16 - 8)) < 256)
    (h1 : laneOf 16 c1 (B / 16 * 8 + (B % 16 - 8)) < 256)
    (hc : ∀ w, w < 16 → laneOf 16 colors16 w < 256)
    (hlo : 8 ≤ B % 16 ∧ B % 16 < 12 → laneOf 16 colors16 (B / 16 * 8 + (B % 16 - 8)) =
      laneOf 16 c0 (B / 16 * 8 + (B % 16 - 8)))
    (hhi : 12 ≤ B % 16 → laneOf 16 colors16 (B / 16 * 8 + (B % 16 - 8)) =
      laneOf 16 c1 (B / 16 * 8 + (B % 16 - 8))) :
    laneOf 8 (avx2Palette colors16 c0 c1 c0s c1s) B =
      if B % 16 < 8 then laneOf 16 colors16 (B / 16 * 8 + B % 16)
      else if toSigned 64 (laneOf 64 c0s ((B / 16 * 8 + (B % 16 - 8)) / 4)) >
          toSigned 64 (laneOf 64 c1s ((B / 16 * 8 + (B % 16 - 8)) / 4))
      then
        (if B % 16 < 12 then
          dxtThird (laneOf 16 c0 (B / 16 * 8 + (B % 16 - 8)))
            (laneOf 16 c1 (B / 16 * 8 + (B % 16 - 8)))
        else dxtTwoThirds (laneOf 16 c0 (B / 16 * 8 + (B % 16 - 8)))
            (laneOf 16 c1 (B / 16 * 8 + (B % 16 - 8))))
      else
        (if B % 16 < 12 then
          dxtAvg (laneOf 16 c0 (B / 16 * 8 + (B % 16 - 8)))
            (laneOf 16 c1 (B / 16 * 8 + (B % 16 - 8)))
        else if B % 4 = 3 then 0
        else dxtAvg (laneOf 16 c0 (B / 16 * 8 + (B % 16 - 8)))
            (laneOf 16 c1 (B / 16 * 8 + (B % 16 - 8)))) := by
  unfold avx2Palette
  simp only []
  rw [byte_packus_epi16_256 _ _ _ hB]
  by_cases hb : B % 16 < 8
  · rw [if_pos hb, if_pos hb, packusLane_byte _ (hc _ (by omega))]
    exact Nat.mod_eq_of_lt (hc _ (by omega))
  · rw [if_neg hb, if_neg hb]
    have hW : B / 16 * 8 + (B % 16 - 8) < 16 := by omega
    have em8 : (B / 16 * 8 + (B % 16 - 8)) % 8 = B % 16 - 8 := by omega
    have em4 : (B / 16 * 8 + (B % 16 - 8)) % 4 = B % 4 := by omega
    generalize hWd : B / 16 * 8 + (B % 16 - 8) = W at *
    have d3 := avx2Delta_third _ _ h0 h1
    have dl := dxtThird_lt _ _ h0 h1
    have av := avx2Avg_eq _ _ h0 h1
    have al := dxtAvg_lt _ _ h0 h1
    rw [word_blendv_cmpgt _ _ _ _ _ hW, word_blend_epi16 _ _ _ _ hW,
      word_blend_epi16 _ _ _ _ hW, em8, word_add_epi16_256 _ _ _ hW,
      word_sub_epi16_256 colors16 _ _ hW, word_sub_epi16_256 _ _ _ hW,
      word_srai_epi16_256 _ _ _ hW, word_srai_epi16_256 _ _ _ hW,
      word_sub_epi16_256 c1 c0 _ hW, word_avg_epu16_256 _ _ _ hW, laneOf_and,
      word_avg_epu16_256 _ _ _ hW, word_mask_rgb64 _ hW, em4, av]
    have fd : (sraLane 16 ((laneOf 16 c1 W + 2 ^ 16 - laneOf 16 c0 W) % 2 ^ 16) 1 % 2 ^ 16 +
        2 ^ 16 - sraLane 16 ((laneOf 16 c1 W + 2 ^ 16 - laneOf 16 c0 W) % 2 ^ 16) 3 % 2 ^ 16) %
        2 ^ 16 = avx2Delta (laneOf 16 c0 W) (laneOf 16 c1 W) := rfl
    rw [fd]
    by_cases h12 : B % 16 < 12
    · have hq : 8 ≤ B % 16 ∧ B % 16 < 12 := by omega
      have hbit : (0b00001111 >>> (B % 16 - 8)) &&& 1 ≠ 0 := by
        have : B % 16 - 8 < 4 := by omega
        generalize B % 16 - 8 = k at this
        interval_cases k <;> decide
      rw [if_pos hbit, if_pos hbit, hlo hq, d3.1]
      simp only [h12, if_true]
      split
      · rw [packusLane_byte _ dl.1]
        exact Nat.mod_eq_of_lt dl.1
      · rw [packusLane_byte _ al]
        exact Nat.mod_eq_of_lt al
    · have hq : 12 ≤ B % 16 := by omega
      have hbit : ¬ (0b00001111 >>> (B % 16 - 8)) &&& 1 ≠ 0 := by
        have h1 : B % 16 - 8 < 8 := by omega
        have h2 : 4 ≤ B % 16 - 8 := by omega
        generalize B % 16 - 8 = k at h1 h2
        interval_cases k <;> decide
      rw [if_neg hbit, if_neg hbit, hhi hq, d3.2]
      simp only [h12, if_false]
      split
      · rw [packusLane_byte _ dl.2]
        exact Nat.mod_eq_of_lt dl.2
      · by_cases h3 : B % 4 = 3
        · simp only [h3, if_true, Nat.and_zero]
          rfl
        · have e : dxtAvg (laneOf 16 c0 W) (laneOf 16 c1 W) &&& 0xFFFF =
              dxtAvg (laneOf 16 c0 W) (laneOf 16 c1 W) := by
            rw [show (0xFFFF : Nat) = 2 ^ 16 - 1 from rfl, Nat.and_pow_two_sub_one_eq_mod]
            exact Nat.mod_eq_of_lt (by omega)
          simp only [h3, if_false, e]
          rw [packusLane_byte _ al]
          exact Nat.mod_eq_of_lt al
/-! ## The colours of `DecodeDXT_AVX2` -/

@[fun_prop]
theorem OrLin.cvtepu8_epi16_256 {f : Nat → Nat} (hf : OrLin f) :
    OrLin (fun v => _mm256_cvtepu8_epi16 (f v)) :=
  OrLin.ofLanes _ _ fun i => by fun_prop

@[fun_prop]
theorem OrLin.shuffle_epi32_256 {f : Nat → Nat} (hf : OrLin f) (imm : Nat) :
    OrLin (fun v => _mm256_shuffle_epi32 (f v) imm) :=
  OrLin.ofLanes _ _ fun i => by fun_prop

theorem AVX2_colors16_lin : OrLinL (fun x => (List.range 16).map fun w =>
    laneOf 16 (_mm256_cvtepu8_epi16 (DecodeDXT_AVX2_colors8888 x)) w) := by
  apply OrLinL.map_range
  intro i
  simp only [DecodeDXT_AVX2_colors8888]
  fun_prop

theorem AVX2_c0_lin (imm : Nat) : OrLinL (fun x => (List.range 16).map fun w =>
    laneOf 16 (_mm256_shuffle_epi32 (_mm256_cvtepu8_epi16 (DecodeDXT_AVX2_colors8888 x))
      imm) w) := by
  apply OrLinL.map_range
  intro i
  simp only [DecodeDXT_AVX2_colors8888]
  fun_prop

theorem AVX2_key_lin (imm m : Nat) : OrLinL (fun x => (List.range 4).map fun q =>
    laneOf 64 (_mm256_shuffle_epi8 (_mm256_shuffle_epi32
      (_mm256_cvtepu8_epi16 (DecodeDXT_AVX2_colors8888 x)) imm) m) q) := by
  apply OrLinL.map_range
  intro i
  simp only [DecodeDXT_AVX2_colors8888]
  fun_prop

theorem DXT_channel_lin (O : Nat → Nat) : OrLinL (fun x => (List.range 16).map fun w =>
    laneOf 8 (DecodePixel .GX_TL_RGB565 (u16at (memOf x) (O w))) (w % 4)) := by
  apply OrLinL.map_range
  intro i
  simp only [DecodePixel, DecodePixel_RGB565, swap16, Convert5To8, Convert6To8, u16at, u8at,
    memOf]
  fun_prop

theorem DXT_key_lin (O : Nat → Nat) : OrLinL (fun x => (List.range 4).map fun q =>
    rgbKey (DecodePixel .GX_TL_RGB565 (u16at (memOf x) (O q)))) := by
  apply OrLinL.map_range
  intro i
  simp only [rgbKey, DecodePixel, DecodePixel_RGB565, swap16, Convert5To8, Convert6To8, u16at,
    u8at, memOf]
  fun_prop

set_option maxRecDepth 100000 in
theorem AVX2_colors16_basis : ∀ i, i < 128 →
    ((List.range 16).map fun w =>
      laneOf 16 (_mm256_cvtepu8_epi16 (DecodeDXT_AVX2_colors8888 (2 ^ i))) w) =
      (List.range 16).map fun w =>
        laneOf 8 (DecodePixel .GX_TL_RGB565
          (u16at (memOf (2 ^ i)) (8 * (w / 8) + 2 * (w / 4 % 2)))) (w % 4) := by
  decide!

theorem AVX2_colors16_words (x : Nat) (hx : x < 2 ^ 128) (w : Nat) (hw : w < 16) :
    laneOf 16 (_mm256_cvtepu8_epi16 (DecodeDXT_AVX2_colors8888 x)) w =
      laneOf 8 (DecodePixel .GX_TL_RGB565
        (u16at (memOf x) (8 * (w / 8) + 2 * (w / 4 % 2)))) (w % 4) :=
  List.map_inj_left.1 (OrLinL.eq_of_basis AVX2_colors16_lin (DXT_channel_lin _) 128
    (by decide!) AVX2_colors16_basis x hx) w (List.mem_range.2 hw)

set_option maxRecDepth 100000 in
theorem AVX2_c0_basis : ∀ i, i < 128 →
    ((List.range 16).map fun w =>
      laneOf 16 (_mm256_shuffle_epi32 (_mm256_cvtepu8_epi16
        (DecodeDXT_AVX2_colors8888 (2 ^ i))) (_MM_SHUFFLE 1 0 1 0)) w) =
      (List.range 16).map fun w =>
        laneOf 8 (DecodePixel .GX_TL_RGB565 (u16at (memOf (2 ^ i)) (8 * (w / 8)))) (w % 4) := by
  decide!

theorem AVX2_c0_words (x : Nat) (hx : x < 2 ^ 128) (w : Nat) (hw : w < 16) :
    laneOf 16 (_mm256_shuffle_epi32 (_mm256_cvtepu8_epi16 (DecodeDXT_AVX2_colors8888 x))
        (_MM_SHUFFLE 1 0 1 0)) w =
      laneOf 8 (DecodePixel .GX_TL_RGB565 (u16at (memOf x) (8 * (w / 8)))) (w % 4) :=
  List.map_inj_left.1 (OrLinL.eq_of_basis (AVX2_c0_lin _) (DXT_channel_lin _) 128
    (by decide!) AVX2_c0_basis x hx) w (List.mem_range.2 hw)

set_option maxRecDepth 100000 in
theorem AVX2_c1_basis : ∀ i, i < 128 →
    ((List.range 16).map fun w =>
      laneOf 16 (_mm256_shuffle_epi32 (_mm256_cvtepu8_epi16
        (DecodeDXT_AVX2_colors8888 (2 ^ i))) (_MM_SHUFFLE 3 2 3 2)) w) =
      (List.range 16).map fun w =>
        laneOf 8 (DecodePixel .GX_TL_RGB565
          (u16at (memOf (2 ^ i)) (8 * (w / 8) + 2))) (w % 4) := by
  decide!

theorem AVX2_c1_words (x : Nat) (hx : x < 2 ^ 128) (w : Nat) (hw : w < 16) :
    laneOf 16 (_mm256_shuffle_epi32 (_mm256_cvtepu8_epi16 (DecodeDXT_AVX2_colors8888 x))
        (_MM_SHUFFLE 3 2 3 2)) w =
      laneOf 8 (DecodePixel .GX_TL_RGB565 (u16at (memOf x) (8 * (w / 8) + 2))) (w % 4) :=
  List.map_inj_left.1 (OrLinL.eq_of_basis (AVX2_c0_lin _) (DXT_channel_lin _) 128
    (by decide!) AVX2_c1_basis x hx) w (List.mem_range.2 hw)

set_option maxRecDepth 100000 in
theorem AVX2_key0_basis : ∀ i, i < 128 →
    ((List.range 4).map fun q =>
      laneOf 64 (_mm256_shuffle_epi8 (_mm256_shuffle_epi32 (_mm256_cvtepu8_epi16
        (DecodeDXT_AVX2_colors8888 (2 ^ i))) (_MM_SHUFFLE 1 0 1 0))
        (_mm256_set_epi64x 0xFFFF09080B0A0D0C 0xFFFF010003020504
          0xFFFF09080B0A0D0C 0xFFFF010003020504)) q) =
      (List.range 4).map fun q =>
        rgbKey (DecodePixel .GX_TL_RGB565 (u16at (memOf (2 ^ i)) (8 * (q / 2)))) := by
  decide!

theorem AVX2_key0 (x : Nat) (hx : x < 2 ^ 128) (q : Nat) (hq : q < 4) :
    laneOf 64 (_mm256_shuffle_epi8 (_mm256_shuffle_epi32 (_mm256_cvtepu8_epi16
        (DecodeDXT_AVX2_colors8888 x)) (_MM_SHUFFLE 1 0 1 0))
        (_mm256_set_epi64x 0xFFFF09080B0A0D0C 0xFFFF010003020504
          0xFFFF09080B0A0D0C 0xFFFF010003020504)) q =
      rgbKey (DecodePixel .GX_TL_RGB565 (u16at (memOf x) (8 * (q / 2)))) :=
  List.map_inj_left.1 (OrLinL.eq_of_basis (AVX2_key_lin _ _) (DXT_key_lin _) 128
    (by decide!) AVX2_key0_basis x hx) q (List.mem_range.2 hq)

set_option maxRecDepth 100000 in
theorem AVX2_key1_basis : ∀ i, i < 128 →
    ((List.range 4).map fun q =>
      laneOf 64 (_mm256_shuffle_epi8 (_mm256_shuffle_epi32 (_mm256_cvtepu8_epi16
        (DecodeDXT_AVX2_colors8888 (2 ^ i))) (_MM_SHUFFLE 3 2 3 2))
        (_mm256_set_epi64x 0xFFFF09080B0A0D0C 0xFFFF010003020504
          0xFFFF09080B0A0D0C 0xFFFF010003020504)) q) =
      (List.range 4).map fun q =>
        rgbKey (DecodePixel .GX_TL_RGB565 (u16at (memOf (2 ^ i)) (8 * (q / 2) + 2))) := by
  decide!

theorem AVX2_key1 (x : Nat) (hx : x < 2 ^ 128) (q : Nat) (hq : q < 4) :
    laneOf 64 (_mm256_shuffle_epi8 (_mm256_shuffle_epi32 (_mm256_cvtepu8_epi16
        (DecodeDXT_AVX2_colors8888 x)) (_MM_SHUFFLE 3 2 3 2))
        (_mm256_set_epi64x 0xFFFF09080B0A0D0C 0xFFFF010003020504
          0xFFFF09080B0A0D0C 0xFFFF010003020504)) q =
      rgbKey (DecodePixel .GX_TL_RGB565 (u16at (memOf x) (8 * (q / 2) + 2))) :=
  List.map_inj_left.1 (OrLinL.eq_of_basis (AVX2_key_lin _ _) (DXT_key_lin _) 128
    (by decide!) AVX2_key1_basis x hx) q (List.mem_range.2 hq)
/-! ## The comparison of `DecodeDXT_AVX2` -/

theorem Convert5To8_eq : ∀ v, v < 32 → Convert5To8 v = 8 * v + v / 4 := by
  decide

theorem Convert6To8_eq : ∀ v, v < 64 → Convert6To8 v = 4 * v + v / 16 := by
  decide

theorem rgbKey_eq (c : Nat) (hc : c < 65536) :
    rgbKey (DecodePixel_RGB565 c) =
      (8 * (c / 2048) + c / 2048 / 4) * 4294967296 +
        (4 * (c / 32 % 64) + c / 32 % 64 / 16) * 65536 + (8 * (c % 32) + c % 32 / 4) := by
  have m5 : ∀ v : Nat, v &&& 0x1f = v % 32 := fun v =>
    Nat.and_pow_two_sub_one_eq_mod v 5
  have m6 : ∀ v : Nat, v &&& 0x3f = v % 64 := fun v =>
    Nat.and_pow_two_sub_one_eq_mod v 6
  have hb := rgba_bytes (Convert5To8 ((c >>> 11) &&& 0x1f)) (Convert6To8 ((c >>> 5) &&& 0x3f))
    (Convert5To8 (c &&& 0x1f)) 255 (Convert5To8_lt _) (Convert6To8_lt _) (Convert5To8_lt _)
    (by decide)
  unfold rgbKey
  rw [DecodePixel_RGB565_add, hb.1, hb.2.1, hb.2.2.1, m5, m5, m6,
    Nat.shiftRight_eq_div_pow, Nat.shiftRight_eq_div_pow]
  have e1 : c / 2 ^ 11 % 32 = c / 2048 := by norm_num; omega
  have e2 : c / 2 ^ 5 % 64 = c / 32 % 64 := by norm_num
  rw [e1, e2, Convert5To8_eq (c / 2048) (by omega),
    Convert5To8_eq (c % 32) (Nat.mod_lt _ (by decide)),
    Convert6To8_eq _ (Nat.mod_lt _ (by decide))]
  generalize 8 * (c / 2048) + c / 2048 / 4 = R
  generalize hG : 4 * (c / 32 % 64) + c / 32 % 64 / 16 = G
  generalize hB : 8 * (c % 32) + c % 32 / 4 = B
  have hG2 : G < 256 := by omega
  have hB2 : B < 256 := by omega
  simp only [Nat.shiftLeft_eq]
  have h1 : B ||| G * 2 ^ 16 = G * 65536 + B := by
    have := Nat.mul_add_lt_is_or (show B < 2 ^ 16 by omega) G
    rw [Nat.or_comm, Nat.mul_comm G (2 ^ 16), ← this]
    omega
  have h2 : (G * 65536 + B) ||| R * 2 ^ 32 = R * 4294967296 + (G * 65536 + B) := by
    have := Nat.mul_add_lt_is_or (show G * 65536 + B < 2 ^ 32 by omega) R
    rw [Nat.or_comm, Nat.mul_comm R (2 ^ 32), ← this]
    omega
  rw [h1, h2]
  omega

theorem lex_order (R G B Rd Gd Bd r g b rd gd bd : Nat)
    (hg : g < 64) (hb : b < 32) (hgd : gd < 64) (hbd : bd < 32)
    (Gl : G < 256) (Gld : Gd < 256) (Bl : B < 256) (Bld : Bd < 256)
    (R1 : r < rd → R + 1 ≤ Rd) (R2 : rd < r → Rd + 1 ≤ R) (R3 : r = rd → R = Rd)
    (G1 : g < gd → G + 1 ≤ Gd) (G2 : gd < g → Gd + 1 ≤ G) (G3 : g = gd → G = Gd)
    (B1 : b < bd → B + 1 ≤ Bd) (B2 : bd < b → Bd + 1 ≤ B) (B3 : b = bd → B = Bd) :
    R * 4294967296 + G * 65536 + B > Rd * 4294967296 + Gd * 65536 + Bd ↔
      2048 * r + 32 * g + b > 2048 * rd + 32 * gd + bd := by
  rcases Nat.lt_trichotomy r rd with h | h | h
  · have := R1 h
    clear R1 R2 R3 G1 G2 G3 B1 B2 B3
    constructor <;> intro _ <;> omega
  · have hR := R3 h
    rcases Nat.lt_trichotomy g gd with hgg | hgg | hgg
    · have := G1 hgg
      clear R1 R2 R3 G1 G2 G3 B1 B2 B3
      constructor <;> intro _ <;> omega
    · have hG := G3 hgg
      rcases Nat.lt_trichotomy b bd with hbb | hbb | hbb
      · have := B1 hbb
        clear R1 R2 R3 G1 G2 G3 B1 B2 B3
        constructor <;> intro _ <;> omega
      · have := B3 hbb
        clear R1 R2 R3 G1 G2 G3 B1 B2 B3
        constructor <;> intro _ <;> omega
      · have := B2 hbb
        clear R1 R2 R3 G1 G2 G3 B1 B2 B3
        constructor <;> intro _ <;> omega
    · have := G2 hgg
      clear R1 R2 R3 G1 G2 G3 B1 B2 B3
      constructor <;> intro _ <;> omega
  · have := R2 h
    clear R1 R2 R3 G1 G2 G3 B1 B2 B3
    constructor <;> intro _ <;> omega

theorem key_order (r g b rd gd bd : Nat) (hg : g < 64) (hb : b < 32)
    (hgd : gd < 64) (hbd : bd < 32) :
    (8 * r + r / 4) * 4294967296 + (4 * g + g / 16) * 65536 + (8 * b + b / 4) >
        (8 * rd + rd / 4) * 4294967296 + (4 * gd + gd / 16) * 65536 + (8 * bd + bd / 4) ↔
      2048 * r + 32 * g + b > 2048 * rd + 32 * gd + bd :=
  lex_order _ _ _ _ _ _ r g b rd gd bd hg hb hgd hbd (by omega) (by omega) (by omega)
    (by omega) (by omega) (by omega) (by omega) (by omega) (by omega) (by omega) (by omega)
    (by omega) (by omega)

theorem rgbKey_gt_iff (c d : Nat) (hc : c < 65536) (hd : d < 65536) :
    toSigned 64 (rgbKey (DecodePixel_RGB565 c)) > toSigned 64 (rgbKey (DecodePixel_RGB565 d)) ↔
      c > d := by
  have small : ∀ e : Nat, e < 65536 →
      toSigned 64 (rgbKey (DecodePixel_RGB565 e)) =
        (((8 * (e / 2048) + e / 2048 / 4) * 4294967296 +
          (4 * (e / 32 % 64) + e / 32 % 64 / 16) * 65536 + (8 * (e % 32) + e % 32 / 4) : Nat) :
          Int) := by
    intro e he
    rw [rgbKey_eq e he]
    unfold toSigned
    have hlt : (8 * (e / 2048) + e / 2048 / 4) * 4294967296 +
        (4 * (e / 32 % 64) + e / 32 % 64 / 16) * 65536 + (8 * (e % 32) + e % 32 / 4) <
        2 ^ 63 := by
      norm_num
      omega
    rw [Nat.mod_eq_of_lt (lt_trans hlt (by norm_num)), if_pos hlt]
  rw [small c hc, small d hd]
  have k := key_order (c / 2048) (c / 32 % 64) (c % 32) (d / 2048) (d / 32 % 64) (d % 32)
    (by omega) (by omega) (by omega) (by omega)
  have ec : 2048 * (c / 2048) + 32 * (c / 32 % 64) + c % 32 = c := by omega
  have ed : 2048 * (d / 2048) + 32 * (d / 32 % 64) + d % 32 = d := by omega
  rw [ec, ed] at k
  rw [← k]
  exact Int.ofNat_lt
/-! ## The palette of `DecodeDXT_AVX2` -/

/-- The thirty-two bytes of `palette` are those of the two four-entry palettes made from the
colours of the two blocks. -/
theorem AVX2_palette_bytes (x : Nat) (hx : x < 2 ^ 128) (B : Nat) (hB : B < 32) :
    laneOf 8 (DecodeDXT_AVX2_palette (DecodeDXT_AVX2_colors8888 x)) B =
      DXTPaletteByte
        (decide (swap16 (u16at (memOf x) (8 * (B / 16))) >
          swap16 (u16at (memOf x) (8 * (B / 16) + 2))))
        (DecodePixel .GX_TL_RGB565 (u16at (memOf x) (8 * (B / 16))))
        (DecodePixel .GX_TL_RGB565 (u16at (memOf x) (8 * (B / 16) + 2))) (B % 16) := by
  have hW : B / 16 * 8 + (B % 16 - 8) < 16 := by omega
  have hm : B % 16 % 4 = B % 4 := by omega
  rw [DecodeDXT_AVX2_palette_eq, avx2Palette_byte _ _ _ _ _ B hB
    (by rw [AVX2_c0_words x hx _ hW]; exact laneOf_lt 8 _ _)
    (by rw [AVX2_c1_words x hx _ hW]; exact laneOf_lt 8 _ _)
    (fun w hw => by rw [AVX2_colors16_words x hx w hw]; exact laneOf_lt 8 _ _)
    (fun h => by
      rw [AVX2_colors16_words x hx _ hW, AVX2_c0_words x hx _ hW]
      have e : 8 * ((B / 16 * 8 + (B % 16 - 8)) / 8) +
          2 * ((B / 16 * 8 + (B % 16 - 8)) / 4 % 2) = 8 * ((B / 16 * 8 + (B % 16 - 8)) / 8) := by
        omega
      rw [e])
    (fun h => by
      rw [AVX2_colors16_words x hx _ hW, AVX2_c1_words x hx _ hW]
      have e : 8 * ((B / 16 * 8 + (B % 16 - 8)) / 8) +
          2 * ((B / 16 * 8 + (B % 16 - 8)) / 4 % 2) =
            8 * ((B / 16 * 8 + (B % 16 - 8)) / 8) + 2 := by
        omega
      rw [e])]
  unfold DXTPaletteByte
  rw [hm]
  by_cases h8 : B % 16 < 8
  · rw [if_pos h8, AVX2_colors16_words x hx _ (by omega)]
    have e4 : (B / 16 * 8 + B % 16) % 4 = B % 4 := by omega
    rw [e4]
    by_cases h4 : B % 16 < 4
    · have e : 8 * ((B / 16 * 8 + B % 16) / 8) + 2 * ((B / 16 * 8 + B % 16) / 4 % 2) =
          8 * (B / 16) := by omega
      rw [if_pos h4, e]
    · have e : 8 * ((B / 16 * 8 + B % 16) / 8) + 2 * ((B / 16 * 8 + B % 16) / 4 % 2) =
          8 * (B / 16) + 2 := by omega
      rw [if_neg h4, if_pos h8, e]
  · have h4 : ¬ B % 16 < 4 := by omega
    have e4 : (B / 16 * 8 + (B % 16 - 8)) % 4 = B % 4 := by omega
    have e8 : 8 * ((B / 16 * 8 + (B % 16 - 8)) / 8) = 8 * (B / 16) := by omega
    have eq : 8 * ((B / 16 * 8 + (B % 16 - 8)) / 4 / 2) = 8 * (B / 16) := by omega
    rw [if_neg h8, if_neg h4, if_neg h8, AVX2_c0_words x hx _ hW, AVX2_c1_words x hx _ hW,
      AVX2_key0 x hx _ (by omega), AVX2_key1 x hx _ (by omega), e4, e8, eq]
    have k := rgbKey_gt_iff (swap16 (u16at (memOf x) (8 * (B / 16))))
      (swap16 (u16at (memOf x) (8 * (B / 16) + 2))) (swap16_lt _) (swap16_lt _)
    by_cases hgt : swap16 (u16at (memOf x) (8 * (B / 16))) >
        swap16 (u16at (memOf x) (8 * (B / 16) + 2))
    · have k1 := k.2 hgt
      have k2 : toSigned 64 (rgbKey (DecodePixel .GX_TL_RGB565 (u16at (memOf x) (8 * (B / 16))))) >
          toSigned 64 (rgbKey (DecodePixel .GX_TL_RGB565
            (u16at (memOf x) (8 * (B / 16) + 2)))) := k1
      rw [if_pos k2]
      simp only [hgt, decide_True, if_true]
    · have k1 : ¬ _ := fun h => hgt (k.1 h)
      have k2 : ¬ toSigned 64 (rgbKey (DecodePixel .GX_TL_RGB565
          (u16at (memOf x) (8 * (B / 16))))) >
          toSigned 64 (rgbKey (DecodePixel .GX_TL_RGB565
            (u16at (memOf x) (8 * (B / 16) + 2)))) := k1
      rw [if_neg k2]
      simp only [hgt, decide_False, if_false, Bool.false_eq_true]

/-- The eight entries of `palette` in `DecodeDXT_AVX2`. -/
theorem AVX2_palette_lanes (x : Nat) (hx : x < 2 ^ 128) (L : Nat) (hL : L < 8) :
    laneOf 32 (DecodeDXT_AVX2_palette (DecodeDXT_AVX2_colors8888 x)) L =
      (DXTPalette
        (decide (swap16 (u16at (memOf x) (8 * (L / 4))) >
          swap16 (u16at (memOf x) (8 * (L / 4) + 2))))
        (DecodePixel .GX_TL_RGB565 (u16at (memOf x) (8 * (L / 4))))
        (DecodePixel .GX_TL_RGB565 (u16at (memOf x) (8 * (L / 4) + 2)))).getD (L % 4) 0 := by
  have hget : ∀ (gt : Bool) (a0 a1 : Nat),
      (DXTPalette gt a0 a1).getD (L % 4) 0 =
        ofLanes 8 4 fun t => DXTPaletteByte gt a0 a1 (4 * (L % 4) + t) := by
    intro gt a0 a1
    unfold DXTPalette
    rw [List.getD_eq_getElem?_getD, List.getElem?_map,
      List.getElem?_range (Nat.mod_lt _ (by decide))]
    rfl
  rw [hget, lane32_of_bytes _ L]
  apply ofLanes_congr
  intro t ht
  have e1 : (4 * L + t) / 16 = L / 4 := by omega
  have e2 : (4 * L + t) % 16 = 4 * (L % 4) + t := by omega
  rw [AVX2_palette_bytes x hx (4 * L + t) (by omega), e1, e2]
/-! ## The index bytes of `DecodeDXT_AVX2` -/

theorem pdep_fold_or (mask : Nat) (l : List Nat) (a b : Nat) : ∀ n r1 r2 : Nat,
    l.foldl (fun (st : Nat × Nat) m =>
        if mask.testBit m then (st.1 + 1, st.2 ||| ((((a ||| b) >>> st.1) &&& 1) <<< m))
        else st) (n, r1 ||| r2) =
      ((l.foldl (fun (st : Nat × Nat) m =>
        if mask.testBit m then (st.1 + 1, st.2 ||| (((a >>> st.1) &&& 1) <<< m)) else st)
        (n, r1)).1,
      (l.foldl (fun (st : Nat × Nat) m =>
        if mask.testBit m then (st.1 + 1, st.2 ||| (((a >>> st.1) &&& 1) <<< m)) else st)
        (n, r1)).2 |||
      (l.foldl (fun (st : Nat × Nat) m =>
        if mask.testBit m then (st.1 + 1, st.2 ||| (((b >>> st.1) &&& 1) <<< m)) else st)
        (n, r2)).2) := by
  induction l with
  | nil => intro n r1 r2; rfl
  | cons m l ih =>
    intro n r1 r2
    simp only [List.foldl_cons]
    by_cases h : mask.testBit m
    · simp only [h, if_true]
      have e : r1 ||| r2 ||| (((a ||| b) >>> n) &&& 1) <<< m =
          (r1 ||| ((a >>> n) &&& 1) <<< m) ||| (r2 ||| ((b >>> n) &&& 1) <<< m) := by
        rw [or_shiftRight, or_and, or_shiftLeft, or_or_or_comm]
      rw [e, ih]
    · simp only [h, if_false, Bool.false_eq_true]
      exact ih n r1 r2

@[fun_prop]
theorem OrLin.pdep_u64 {f : Nat → Nat} (hf : OrLin f) (mask : Nat) :
    OrLin (fun v => _pdep_u64 (f v) mask) := by
  intro a b
  show _pdep_u64 (f (a ||| b)) mask = _
  rw [hf a b]
  unfold _pdep_u64
  have h := pdep_fold_or mask (List.range 64) (f a) (f b) 0 0 0
  rw [Nat.or_self] at h
  rw [h]

@[fun_prop]
theorem OrLin.set_epi64x_256 {f3 f2 f1 f0 : Nat → Nat} (h3 : OrLin f3) (h2 : OrLin f2)
    (h1 : OrLin f1) (h0 : OrLin f0) :
    OrLin (fun v => _mm256_set_epi64x (f3 v) (f2 v) (f1 v) (f0 v)) :=
  OrLin.ofLanes _ _ fun i => by fun_prop

theorem pdep_lin : OrLin (fun a => _pdep_u64 a (u64 (0x0303030303030303 * 4))) := by
  fun_prop

@[fun_prop]
theorem OrLin.avx2Deposit {f : Nat → Nat} (hf : OrLin f) :
    OrLin (fun v => avx2Deposit (f v)) :=
  OrLin.ofLanes _ _ fun i => by fun_prop

theorem avx2Deposit_lin : OrLin (fun a => avx2Deposit a) := by
  fun_prop

set_option maxRecDepth 100000 in
theorem pdep_basis : ∀ i, i < 32 →
    _pdep_u64 (2 ^ i) (u64 (0x0303030303030303 * 4)) = avx2Deposit (2 ^ i) := by
  decide!

/-- The `_pdep_u64` of `DecodeDXT_AVX2` puts selector `m` of its argument, times four, into
byte `m`. -/
theorem pdep_pos (a : Nat) (ha : a < 2 ^ 32) :
    _pdep_u64 a (u64 (0x0303030303030303 * 4)) = avx2Deposit a :=
  OrLin.ext (fun x y => x ||| y) (fun a => _pdep_u64 a (u64 (0x0303030303030303 * 4)))
    (fun a => avx2Deposit a) pdep_lin avx2Deposit_lin 32
    (by decide!) pdep_basis a ha
/-! ## The rows of `DecodeDXT_AVX2` -/

theorem AVX2_current_eq (indices0 indices1 r : Nat) :
    _mm256_shuffle_epi8 (DecodeDXT_AVX2_index_bytes indices0 indices1)
        (Nat.iterate (fun s => _mm256_add_epi8 s (_mm256_set1_epi8 4)) r
          (_mm256_set_epi32 0x00000000 0x01010101 0x02020202 0x03030303
            0x00000000 0x01010101 0x02020202 0x03030303)) |||
        _mm256_set1_epi32 0x03020100 =
      avx2CurrentIndices indices0 indices1 r := by
  unfold DecodeDXT_AVX2_index_bytes avx2CurrentIndices
  simp only []
  rw [pdep_pos _ (u32_lt _), pdep_pos _ (u32_lt _), pdep_pos _ (u32_lt _),
    pdep_pos _ (u32_lt _)]

theorem AVX2_current_lin (r : Nat) : OrLinL (fun x => (List.range 8).map fun L =>
    laneOf 32 (avx2CurrentIndices (u32at (memOf x) 4) (u32at (memOf x) 12) r) L) := by
  apply OrLinL.map_range
  intro i
  simp only [avx2CurrentIndices, u32at, u16at, u8at, memOf, u32]
  generalize Nat.iterate _ r _ = m
  generalize _mm256_set1_epi32 0x03020100 = c
  fun_prop

theorem AVX2_sel_lin (r : Nat) : OrLinL (fun x => (List.range 8).map fun L =>
    ((((laneOf 8 x (8 * (L / 4) + 4 + r) >>> (6 - 2 * (L % 4))) &&& 3) <<< 2) |||
      (((laneOf 8 x (8 * (L / 4) + 4 + r) >>> (6 - 2 * (L % 4))) &&& 3) <<< 10) |||
      (((laneOf 8 x (8 * (L / 4) + 4 + r) >>> (6 - 2 * (L % 4))) &&& 3) <<< 18) |||
      (((laneOf 8 x (8 * (L / 4) + 4 + r) >>> (6 - 2 * (L % 4))) &&& 3) <<< 26) |||
      0x03020100)) := by
  apply OrLinL.map_range
  intro i
  fun_prop

set_option maxRecDepth 100000 in
theorem AVX2_current_basis : ∀ r, r < 4 → ∀ i, i < 128 →
    ((List.range 8).map fun L =>
      laneOf 32 (avx2CurrentIndices (u32at (memOf (2 ^ i)) 4) (u32at (memOf (2 ^ i)) 12) r) L) =
    (List.range 8).map fun L =>
      ((((laneOf 8 (2 ^ i) (8 * (L / 4) + 4 + r) >>> (6 - 2 * (L % 4))) &&& 3) <<< 2) |||
        (((laneOf 8 (2 ^ i) (8 * (L / 4) + 4 + r) >>> (6 - 2 * (L % 4))) &&& 3) <<< 10) |||
        (((laneOf 8 (2 ^ i) (8 * (L / 4) + 4 + r) >>> (6 - 2 * (L % 4))) &&& 3) <<< 18) |||
        (((laneOf 8 (2 ^ i) (8 * (L / 4) + 4 + r) >>> (6 - 2 * (L % 4))) &&& 3) <<< 26) |||
        0x03020100) := by
  decide!

set_option maxRecDepth 100000 in
theorem AVX2_current_zero : ∀ r, r < 4 →
    ((List.range 8).map fun L =>
      laneOf 32 (avx2CurrentIndices (u32at (memOf 0) 4) (u32at (memOf 0) 12) r) L) =
    (List.range 8).map fun L =>
      ((((laneOf 8 0 (8 * (L / 4) + 4 + r) >>> (6 - 2 * (L % 4))) &&& 3) <<< 2) |||
        (((laneOf 8 0 (8 * (L / 4) + 4 + r) >>> (6 - 2 * (L % 4))) &&& 3) <<< 10) |||
        (((laneOf 8 0 (8 * (L / 4) + 4 + r) >>> (6 - 2 * (L % 4))) &&& 3) <<< 18) |||
        (((laneOf 8 0 (8 * (L / 4) + 4 + r) >>> (6 - 2 * (L % 4))) &&& 3) <<< 26) |||
        0x03020100) := by
  decide!

theorem AVX2_current_lanes (x : Nat) (hx : x < 2 ^ 128) (r : Nat) (hr : r < 4) (L : Nat)
    (hL : L < 8) :
    laneOf 32 (avx2CurrentIndices (u32at (memOf x) 4) (u32at (memOf x) 12) r) L =
      ((((laneOf 8 x (8 * (L / 4) + 4 + r) >>> (6 - 2 * (L % 4))) &&& 3) <<< 2) |||
        (((laneOf 8 x (8 * (L / 4) + 4 + r) >>> (6 - 2 * (L % 4))) &&& 3) <<< 10) |||
        (((laneOf 8 x (8 * (L / 4) + 4 + r) >>> (6 - 2 * (L % 4))) &&& 3) <<< 18) |||
        (((laneOf 8 x (8 * (L / 4) + 4 + r) >>> (6 - 2 * (L % 4))) &&& 3) <<< 26) |||
        0x03020100) :=
  List.map_inj_left.1 (OrLinL.eq_of_basis (AVX2_current_lin r) (AVX2_sel_lin r) 128
    (AVX2_current_zero r hr) (AVX2_current_basis r hr) x hx) L (List.mem_range.2 hL)

theorem idx_word_bytes : ∀ s, s < 4 → ∀ t, t < 4 →
    laneOf 8 ((s <<< 2) ||| (s <<< 10) ||| (s <<< 18) ||| (s <<< 26) ||| 0x03020100) t =
      4 * s + t := by
  decide
/-! ## The texels of a pair of blocks in `DecodeDXT_AVX2` -/

theorem idx_byte_mask : ∀ s, s < 4 → ∀ t, t < 4 →
    ((4 * s + t) &&& 0x80 = 0) ∧ ((4 * s + t) &&& 0x0F = 4 * s + t) := by
  decide

/-- Lane `L` of `result` in row `r`: the palette entry of block `L / 4` that the selector of
texel `L % 4` in line `r` names. -/
theorem AVX2_result_lanes (x : Nat) (hx : x < 2 ^ 128) (r : Nat) (hr : r < 4) (L : Nat)
    (hL : L < 8) :
    laneOf 32 (_mm256_shuffle_epi8 (DecodeDXT_AVX2_palette (DecodeDXT_AVX2_colors8888 x))
        (avx2CurrentIndices (u32at (memOf x) 4) (u32at (memOf x) 12) r)) L =
      (DXTPalette
        (decide (swap16 (u16at (memOf x) (8 * (L / 4))) >
          swap16 (u16at (memOf x) (8 * (L / 4) + 2))))
        (DecodePixel .GX_TL_RGB565 (u16at (memOf x) (8 * (L / 4))))
        (DecodePixel .GX_TL_RGB565 (u16at (memOf x) (8 * (L / 4) + 2)))).getD
        ((laneOf 8 x (8 * (L / 4) + 4 + r) >>> (6 - 2 * (L % 4))) &&& 3) 0 := by
  have hc := AVX2_current_lanes x hx r hr L hL
  generalize hs : (laneOf 8 x (8 * (L / 4) + 4 + r) >>> (6 - 2 * (L % 4))) &&& 3 = s at hc ⊢
  have hs4 : s < 4 := by rw [← hs]; exact sel_lt _
  have hp := AVX2_palette_lanes x hx (4 * (L / 4) + s) (by omega)
  have e1 : (4 * (L / 4) + s) / 4 = L / 4 := by omega
  have e2 : (4 * (L / 4) + s) % 4 = s := by omega
  rw [e1, e2] at hp
  rw [← hp, lane32_of_bytes _ L, lane32_of_bytes _ (4 * (L / 4) + s)]
  apply ofLanes_congr
  intro t ht
  have hm : laneOf 8 (avx2CurrentIndices (u32at (memOf x) 4) (u32at (memOf x) 12) r)
      (4 * L + t) = 4 * s + t := by
    have h := laneOf_laneOf 8 4 (avx2CurrentIndices (u32at (memOf x) 4) (u32at (memOf x) 12) r)
      L t ht
    rw [show 8 * 4 = 32 from rfl, hc] at h
    rw [← h]
    exact idx_word_bytes s hs4 t ht
  have hk := idx_byte_mask s hs4 t ht
  have hn : ¬ (4 * s + t) &&& 0x80 ≠ 0 := fun h => h hk.1
  have ei : (4 * L + t) / 16 * 16 + (4 * s + t) = 4 * (4 * (L / 4) + s) + t := by omega
  rw [shuffle256_byte _ _ _ (by omega), hm, if_neg hn, hk.2, ei]

theorem u32at_memOf_load (src : Nat → Nat) (ofs o : Nat) (ho : o + 3 < 16) :
    u32at (memOf (_mm_load_si128 src ofs)) o = u32at src (ofs + o) := by
  unfold u32at
  rw [u16at_memOf_load src ofs o (by omega), u16at_memOf_load src ofs (o + 2) (by omega),
    Nat.add_assoc]

theorem range8_split {α : Type} (h : Nat → α) :
    (List.range 8).map h = (List.range 4).map h ++ (List.range 4).map fun k => h (4 + k) := by
  simp [List.range_succ]

/-- One row of `DecodeDXT_AVX2`: four texels of the first block, then four of the second. -/
theorem AVX2_row (dst32 : Nat) (src : Nat → Nat) (ofs width r : Nat) (hr : r < 4) :
    _mm256_store_si256 (dst32 + r * width)
        (_mm256_shuffle_epi8
          (DecodeDXT_AVX2_palette (DecodeDXT_AVX2_colors8888 (_mm_load_si128 src ofs)))
          (_mm256_shuffle_epi8
            (DecodeDXT_AVX2_index_bytes (u32at src (ofs + 4)) (u32at src (ofs + 12)))
            (Nat.iterate (fun s => _mm256_add_epi8 s (_mm256_set1_epi8 4)) r
              (_mm256_set_epi32 0x00000000 0x01010101 0x02020202 0x03030303
                0x00000000 0x01010101 0x02020202 0x03030303)) |||
            _mm256_set1_epi32 0x03020100)) =
      ((List.range 4).map fun k =>
        Access.store (dst32 + (width * r) + k)
          ((DXTBlockColors src ofs).getD
            (((u8at src (ofs + 4 + r) <<< (2 * k)) >>> 6) &&& 3) 0)) ++
      ((List.range 4).map fun k =>
        Access.store (dst32 + (width * r) + (4 + k))
          ((DXTBlockColors src (ofs + 8)).getD
            (((u8at src (ofs + 8 + 4 + r) <<< (2 * k)) >>> 6) &&& 3) 0)) := by
  have hx := load_si128_lt src ofs
  rw [AVX2_current_eq, ← u32at_memOf_load src ofs 4 (by decide),
    ← u32at_memOf_load src ofs 12 (by decide)]
  unfold _mm256_store_si256
  rw [range8_split, Nat.mul_comm r width]
  congr 1
  · apply List.map_congr_left
    intro k hk
    have hk : k < 4 := List.mem_range.1 hk
    have e1 : k / 4 = 0 := by omega
    have e2 : k % 4 = k := by omega
    rw [AVX2_result_lanes _ hx r hr k (by omega), e1, e2, DXTBlockColors_eq src ofs,
      sel_generic _ _ hk, laneOf_load_si128 src ofs _ (by omega),
      u16at_memOf_load src ofs _ (by decide), u16at_memOf_load src ofs _ (by decide)]
    simp only [Nat.mul_zero, Nat.add_zero, Nat.zero_add, Nat.mul_one, ← Nat.add_assoc]
    rfl
  · apply List.map_congr_left
    intro k hk
    have hk : k < 4 := List.mem_range.1 hk
    have e1 : (4 + k) / 4 = 1 := by omega
    have e2 : (4 + k) % 4 = k := by omega
    rw [AVX2_result_lanes _ hx r hr (4 + k) (by omega), e1, e2, DXTBlockColors_eq src (ofs + 8),
      sel_generic _ _ hk, laneOf_load_si128 src ofs _ (by omega),
      u16at_memOf_load src ofs _ (by decide), u16at_memOf_load src ofs _ (by decide)]
    simp only [Nat.mul_zero, Nat.add_zero, Nat.zero_add, Nat.mul_one, ← Nat.add_assoc]
    rfl

/-- The stores of `DecodeDXT_AVX2` for a pair of blocks, with the palettes and selectors of
`DecodeDXTBlock`. -/
theorem DecodeDXT_AVX2_blocks_eq (dst32 : Nat) (src : Nat → Nat) (ofs width : Nat) :
    DecodeDXT_AVX2_blocks dst32 src ofs width =
      (List.range 4).flatMap fun r =>
        ((List.range 4).map fun k =>
          Access.store (dst32 + (width * r) + k)
            ((DXTBlockColors src ofs).getD
              (((u8at src (ofs + 4 + r) <<< (2 * k)) >>> 6) &&& 3) 0)) ++
        ((List.range 4).map fun k =>
          Access.store (dst32 + (width * r) + (4 + k))
            ((DXTBlockColors src (ofs + 8)).getD
              (((u8at src (ofs + 8 + 4 + r) <<< (2 * k)) >>> 6) &&& 3) 0)) := by
  have shell : DecodeDXT_AVX2_blocks dst32 src ofs width = _ :=
    foldl_range4 (fun s => _mm256_add_epi8 s (_mm256_set1_epi8 4))
      (fun s i => _mm256_store_si256 (dst32 + i * width)
        (_mm256_shuffle_epi8
          (DecodeDXT_AVX2_palette (DecodeDXT_AVX2_colors8888 (_mm_load_si128 src ofs)))
          (_mm256_shuffle_epi8
            (DecodeDXT_AVX2_index_bytes (u32at src (ofs + 4)) (u32at src (ofs + 12))) s |||
            _mm256_set1_epi32 0x03020100)))
      (_mm256_set_epi32 0x00000000 0x01010101 0x02020202 0x03030303
        0x00000000 0x01010101 0x02020202 0x03030303) []
  have r0 := AVX2_row dst32 src ofs width 0 (by decide)
  have r1 := AVX2_row dst32 src ofs width 1 (by decide)
  have r2 := AVX2_row dst32 src ofs width 2 (by decide)
  have r3 := AVX2_row dst32 src ofs width 3 (by decide)
  simp only [Function.iterate_succ, Function.iterate_zero, Function.comp, id] at r0 r1 r2 r3
  rw [shell]
  rw [r0, r1, r2, r3]
  simp only [List.range_succ, List.range_zero, List.flatMap_append, List.flatMap_cons,
    List.flatMap_nil, List.nil_append, List.append_nil, List.append_assoc, List.map_append,
    List.map_cons, List.map_nil, List.cons_append]

/-- The stores of `DecodeDXT_AVX2` for a pair of blocks are those of `DecodeDXTBlock` for
the first block and for the second, four pixels to the right, in another order. -/
theorem DecodeDXT_AVX2_blocks_perm (dst : Nat) (src : Nat → Nat) (ofs width : Nat) :
    (DecodeDXT_AVX2_blocks dst src ofs width).Perm
      (DecodeDXTBlock dst src ofs width ++ DecodeDXTBlock (dst + 4) src (ofs + 8) width) := by
  have e0 := DecodeDXTBlock_rows dst src ofs width 0
  simp only [Nat.add_zero, Nat.zero_add] at e0
  rw [DecodeDXT_AVX2_blocks_eq, e0, DecodeDXTBlock_rows dst src (ofs + 8) width 4]
  exact (List.flatMap_append_perm _ _ _).symm

theorem DecodeDXT_AVX2_loop (src tlut : Nat → Nat) (width height : Nat) :
    DecodeDXT_AVX2 src tlut width height =
      DecodeTexture 8 8 4 (fun dst src o _ w => DecodeDXT_AVX2_blocks dst src o w) 4
        src tlut width height := rfl
/-! ## `DecodeDXT_SSE2` and `DecodeDXT_AVX2` against `DecodeDXT_Generic` -/

theorem DXTPalette_getD_list (gt : Bool) (a0 a1 : Nat) :
    ((List.range 4).map fun j => (DXTPalette gt a0 a1).getD j 0) = DXTPalette gt a0 a1 := by
  simp [DXTPalette, List.range_succ]

theorem regPixels4_pair (u v : Nat) :
    regPixels 4 [u, v] =
      ((List.range 4).map fun j => laneOf 32 u j) ++ (List.range 4).map fun j => laneOf 32 v j := by
  simp [regPixels]

theorem regPixels8_one (u : Nat) :
    regPixels 8 [u] =
      ((List.range 4).map fun j => laneOf 32 u j) ++
        (List.range 4).map fun j => laneOf 32 u (4 + j) := by
  have h := range8_split (fun j => laneOf 32 u j)
  simpa [regPixels] using h

/-- The registers `mmcolors0`, `mmcolors1` of `DecodeDXT_SSE2` hold `colors[0..3]` of
`DecodeDXTBlock` for the first and for the second block of the pair. -/
theorem SSE2_palette_list (src : Nat → Nat) (ofs : Nat) :
    regPixels 4
      [(DecodeDXT_SSE2_mmcolors (DecodeDXT_SSE2_argb888x4 (_mm_load_si128 src ofs)).2
        (DecodeDXT_SSE2_rgb23 (DecodeDXT_SSE2_argb888x4 (_mm_load_si128 src ofs)).2
          (_mm_extract_epi16 (DecodeDXT_SSE2_cmprgb0rgb1
            (DecodeDXT_SSE2_argb888x4 (_mm_load_si128 src ofs)).1) 0)
          (_mm_extract_epi16 (DecodeDXT_SSE2_cmprgb0rgb1
            (DecodeDXT_SSE2_argb888x4 (_mm_load_si128 src ofs)).1) 4)).1
        (DecodeDXT_SSE2_rgb23 (DecodeDXT_SSE2_argb888x4 (_mm_load_si128 src ofs)).2
          (_mm_extract_epi16 (DecodeDXT_SSE2_cmprgb0rgb1
            (DecodeDXT_SSE2_argb888x4 (_mm_load_si128 src ofs)).1) 0)
          (_mm_extract_epi16 (DecodeDXT_SSE2_cmprgb0rgb1
            (DecodeDXT_SSE2_argb888x4 (_mm_load_si128 src ofs)).1) 4)).2).1,
       (DecodeDXT_SSE2_mmcolors (DecodeDXT_SSE2_argb888x4 (_mm_load_si128 src ofs)).2
        (DecodeDXT_SSE2_rgb23 (DecodeDXT_SSE2_argb888x4 (_mm_load_si128 src ofs)).2
          (_mm_extract_epi16 (DecodeDXT_SSE2_cmprgb0rgb1
            (DecodeDXT_SSE2_argb888x4 (_mm_load_si128 src ofs)).1) 0)
          (_mm_extract_epi16 (DecodeDXT_SSE2_cmprgb0rgb1
            (DecodeDXT_SSE2_argb888x4 (_mm_load_si128 src ofs)).1) 4)).1
        (DecodeDXT_SSE2_rgb23 (DecodeDXT_SSE2_argb888x4 (_mm_load_si128 src ofs)).2
          (_mm_extract_epi16 (DecodeDXT_SSE2_cmprgb0rgb1
            (DecodeDXT_SSE2_argb888x4 (_mm_load_si128 src ofs)).1) 0)
          (_mm_extract_epi16 (DecodeDXT_SSE2_cmprgb0rgb1
            (DecodeDXT_SSE2_argb888x4 (_mm_load_si128 src ofs)).1) 4)).2).2] =
      DXTBlockColors src ofs ++ DXTBlockColors src (ofs + 8) := by
  have hx := load_si128_lt src ofs
  obtain ⟨a0, a1, a2, a3⟩ := regPixels4_lanes _ _ _ _ _
    (SSE2_argb_lanes (_mm_load_si128 src ofs) hx)
  have hc := SSE2_cmp (_mm_load_si128 src ofs) hx
  beta_reduce at a0 a1 a2 a3
  rw [u16at_memOf_load src ofs 0 (by decide), u16at_memOf_load src ofs 2 (by decide),
    u16at_memOf_load src ofs 8 (by decide), u16at_memOf_load src ofs 10 (by decide)] at hc
  rw [u16at_memOf_load src ofs 0 (by decide)] at a0
  rw [u16at_memOf_load src ofs 2 (by decide)] at a1
  rw [u16at_memOf_load src ofs 8 (by decide)] at a2
  rw [u16at_memOf_load src ofs 10 (by decide)] at a3
  have hg0 := DXTBlockColors_eq src ofs
  have hg1 := DXTBlockColors_eq src (ofs + 8)
  rw [Nat.add_zero] at hc a0
  rw [show ofs + 8 + 2 = ofs + 10 from by omega] at hg1
  rw [regPixels4_pair, hg0, hg1]
  congr 1
  · rw [← DXTPalette_getD_list]
    apply List.map_congr_left
    intro j hj
    rw [(SSE2_palette_lanes _ _ _ j (List.mem_range.1 hj)).1, a0, a1]
    congr 2
    exact decide_eq_decide.2 hc.1
  · rw [← DXTPalette_getD_list]
    apply List.map_congr_left
    intro j hj
    rw [(SSE2_palette_lanes _ _ _ j (List.mem_range.1 hj)).2, a2, a3]
    congr 2
    exact decide_eq_decide.2 hc.2

/-- The register `palette` of `DecodeDXT_AVX2` holds `colors[0..3]` of `DecodeDXTBlock` for
the first block of the pair, then for the second. -/
theorem AVX2_palette_list (src : Nat → Nat) (ofs : Nat) :
    regPixels 8 [DecodeDXT_AVX2_palette (DecodeDXT_AVX2_colors8888 (_mm_load_si128 src ofs))] =
      DXTBlockColors src ofs ++ DXTBlockColors src (ofs + 8) := by
  have hx := load_si128_lt src ofs
  rw [regPixels8_one, DXTBlockColors_eq src ofs, DXTBlockColors_eq src (ofs + 8)]
  congr 1
  · rw [← DXTPalette_getD_list]
    apply List.map_congr_left
    intro j hj
    have hj : j < 4 := List.mem_range.1 hj
    have e1 : j / 4 = 0 := by omega
    have e2 : j % 4 = j := by omega
    rw [AVX2_palette_lanes _ hx j (by omega), e1, e2,
      u16at_memOf_load src ofs _ (by decide), u16at_memOf_load src ofs _ (by decide)]
    simp only [Nat.mul_zero, Nat.add_zero, Nat.zero_add, Nat.mul_one, ← Nat.add_assoc]
    rfl
  · rw [← DXTPalette_getD_list]
    apply List.map_congr_left
    intro j hj
    have hj : j < 4 := List.mem_range.1 hj
    have e1 : (4 + j) / 4 = 1 := by omega
    have e2 : (4 + j) % 4 = j := by omega
    rw [AVX2_palette_lanes _ hx (4 + j) (by omega), e1, e2,
      u16at_memOf_load src ofs _ (by decide), u16at_memOf_load src ofs _ (by decide)]
    simp only [Nat.mul_zero, Nat.add_zero, Nat.zero_add, Nat.mul_one, ← Nat.add_assoc]
    rfl

theorem DecodeDXT_SSE2_perm (src tlut : Nat → Nat) (nx ny : Nat) :
    (DecodeDXT_SSE2 src tlut (8 * nx) (8 * ny)).Perm
      (DecodeDXT_Generic src tlut (8 * nx) (8 * ny)) := by
  rw [DecodeDXT_SSE2_loop]
  exact pair_loop_perm _ src tlut nx ny (fun dst o w => DecodeDXT_SSE2_blocks_perm dst src o w)

theorem DecodeDXT_AVX2_perm (src tlut : Nat → Nat) (nx ny : Nat) :
    (DecodeDXT_AVX2 src tlut (8 * nx) (8 * ny)).Perm
      (DecodeDXT_Generic src tlut (8 * nx) (8 * ny)) := by
  rw [DecodeDXT_AVX2_loop]
  exact pair_loop_perm _ src tlut nx ny (fun dst o w => DecodeDXT_AVX2_blocks_perm dst src o w)

/-- Claim C14: for every source and every width `8 * nx` and height `8 * ny`, the stores of
`DecodeDXT_SSE2` and of `DecodeDXT_AVX2` are those of `DecodeDXT_Generic` (same index, same
value) in another order, the generic decoder storing every pixel of the image exactly once,
so that the destination is the same after each of the three decoders whatever it held
before; and for every pair of blocks the palette registers of both SIMD decoders hold the
four-entry palettes `colors[0..3]` that `DecodeDXTBlock` builds for the two blocks, in
either case of the comparison of the two colours. -/
theorem DecodeDXT_SIMD_writes_generic_pixels (src tlut : Nat → Nat) (nx ny : Nat) :
    (DecodeDXT_SSE2 src tlut (8 * nx) (8 * ny)).Perm
        (DecodeDXT_Generic src tlut (8 * nx) (8 * ny)) ∧
      (DecodeDXT_AVX2 src tlut (8 * nx) (8 * ny)).Perm
        (DecodeDXT_Generic src tlut (8 * nx) (8 * ny)) ∧
      (storeIndices (DecodeDXT_Generic src tlut (8 * nx) (8 * ny))).Perm
        (List.range (8 * nx * (8 * ny))) ∧
      (∀ dst : Nat → Nat,
        applyAccesses (DecodeDXT_SSE2 src tlut (8 * nx) (8 * ny)) dst =
          applyAccesses (DecodeDXT_Generic src tlut (8 * nx) (8 * ny)) dst) ∧
      (∀ dst : Nat → Nat,
        applyAccesses (DecodeDXT_AVX2 src tlut (8 * nx) (8 * ny)) dst =
          applyAccesses (DecodeDXT_Generic src tlut (8 * nx) (8 * ny)) dst) ∧
      (∀ ofs : Nat,
        regPixels 4
          [(DecodeDXT_SSE2_mmcolors (DecodeDXT_SSE2_argb888x4 (_mm_load_si128 src ofs)).2
            (DecodeDXT_SSE2_rgb23 (DecodeDXT_SSE2_argb888x4 (_mm_load_si128 src ofs)).2
              (_mm_extract_epi16 (DecodeDXT_SSE2_cmprgb0rgb1
                (DecodeDXT_SSE2_argb888x4 (_mm_load_si128 src ofs)).1) 0)
              (_mm_extract_epi16 (DecodeDXT_SSE2_cmprgb0rgb1
                (DecodeDXT_SSE2_argb888x4 (_mm_load_si128 src ofs)).1) 4)).1
            (DecodeDXT_SSE2_rgb23 (DecodeDXT_SSE2_argb888x4 (_mm_load_si128 src ofs)).2
              (_mm_extract_epi16 (DecodeDXT_SSE2_cmprgb0rgb1
                (DecodeDXT_SSE2_argb888x4 (_mm_load_si128 src ofs)).1) 0)
              (_mm_extract_epi16 (DecodeDXT_SSE2_cmprgb0rgb1
                (DecodeDXT_SSE2_argb888x4 (_mm_load_si128 src ofs)).1) 4)).2).1,
           (DecodeDXT_SSE2_mmcolors (DecodeDXT_SSE2_argb888x4 (_mm_load_si128 src ofs)).2
            (DecodeDXT_SSE2_rgb23 (DecodeDXT_SSE2_argb888x4 (_mm_load_si128 src ofs)).2
              (_mm_extract_epi16 (DecodeDXT_SSE2_cmprgb0rgb1
                (DecodeDXT_SSE2_argb888x4 (_mm_load_si128 src ofs)).1) 0)
              (_mm_extract_epi16 (DecodeDXT_SSE2_cmprgb0rgb1
                (DecodeDXT_SSE2_argb888x4 (_mm_load_si128 src ofs)).1) 4)).1
            (DecodeDXT_SSE2_rgb23 (DecodeDXT_SSE2_argb888x4 (_mm_load_si128 src ofs)).2
              (_mm_extract_epi16 (DecodeDXT_SSE2_cmprgb0rgb1
                (DecodeDXT_SSE2_argb888x4 (_mm_load_si128 src ofs)).1) 0)
              (_mm_extract_epi16 (DecodeDXT_SSE2_cmprgb0rgb1
                (DecodeDXT_SSE2_argb888x4 (_mm_load_si128 src ofs)).1) 4)).2).2] =
          DXTBlockColors src ofs ++ DXTBlockColors src (ofs + 8)) ∧
      (∀ ofs : Nat,
        regPixels 8
          [DecodeDXT_AVX2_palette (DecodeDXT_AVX2_colors8888 (_mm_load_si128 src ofs))] =
          DXTBlockColors src ofs ++ DXTBlockColors src (ofs + 8)) :=
  ⟨DecodeDXT_SSE2_perm src tlut nx ny, DecodeDXT_AVX2_perm src tlut nx ny,
    DecodeDXT_Generic_storeIndices_perm src tlut nx ny,
    fun dst => applyAccesses_perm _ _ (DecodeDXT_SSE2_perm src tlut nx ny)
      (DecodeDXT_Generic_nodup src tlut nx ny) dst,
    fun dst => applyAccesses_perm _ _ (DecodeDXT_AVX2_perm src tlut nx ny)
      (DecodeDXT_Generic_nodup src tlut nx ny) dst,
    fun ofs => SSE2_palette_list src ofs, fun ofs => AVX2_palette_list src ofs⟩

end Dolphin
